import Mathlib

/-!
# BTstack daemon: client sessions, resource ledger and power arbiter

Shallow embedding of `platform/daemon/daemon.c`.  The daemon's globals become the
fields of one record, every handler is a function from that record to the
updated record, and every call that leaves the daemon (protocol engine, run
loop, socket layer, status callback) is appended to a trace kept in the record.
-/

set_option autoImplicit false

namespace BtstackDaemon

/-! ## Resource lists (`btstack_linked_list_uint32_t`) -/

/-- Modelled from the spec: the `btstack_linked_list` container and its iterator
are declared in `btstack_linked_list.h`, which is not among the sources.  A list
of `btstack_linked_list_uint32_t` items is the Lean list of their `value`
fields, head first; `btstack_linked_list_add` makes the new item the head; the
iterator visits the items head to tail and stays valid when the item it last
returned is unlinked. -/
abbrev uint32_list := List Nat

/-- Body of `add_uint32_to_list`: the loop returns when the value is found,
`malloc_ok` is the outcome of the `malloc`, and the new item becomes the head. -/
def add_uint32_to_list (list : uint32_list) (value : Nat) (malloc_ok : Bool) : uint32_list :=
  if list.contains value then list
  else if malloc_ok then value :: list
  else list

/-- Body of `remove_and_free_uint32_from_list`: the loop runs over the whole
list and unlinks every item whose value matches. -/
def remove_and_free_uint32_from_list (list : uint32_list) (value : Nat) : uint32_list :=
  list.filter (fun item => item != value)

/-- One call on a resource list. -/
inductive ListCall where
  | add (value : Nat)
  | remove (value : Nat)
deriving DecidableEq, Repr

/-- Effect of one call on a resource list, the allocation succeeding. -/
def ListCall.run (list : uint32_list) : ListCall → uint32_list
  | ListCall.add value => add_uint32_to_list list value true
  | ListCall.remove value => remove_and_free_uint32_from_list list value

/-- Effect of a sequence of calls, first call first. -/
def run_calls (calls : List ListCall) (list : uint32_list) : uint32_list :=
  calls.foldl ListCall.run list

/-! ## Session table and GATT helper registry -/

/-- Identity of a live `connection_t` object of the socket layer.  The socket
layer only ever hands the daemon the address of such an object, so a value of
this type is a non-NULL `connection_t *`; a pointer that may be NULL is an
`Option connection_t`. -/
abbrev connection_t := Nat

/-- Record `client_state_t`, without the list link. -/
structure client_state_t where
  connection : connection_t
  rfcomm_cids : uint32_list := []
  rfcomm_services : uint32_list := []
  l2cap_cids : uint32_list := []
  l2cap_psms : uint32_list := []
  sdp_record_handles : uint32_list := []
  gatt_con_handles : uint32_list := []
  power_mode : Nat := 0
  discoverable : Nat := 0
deriving DecidableEq, Repr

/-- Size of the long attribute buffer, `ATT_MAX_LONG_ATTRIBUTE_SIZE`. -/
def ATT_MAX_LONG_ATTRIBUTE_SIZE : Nat := 512

/-- Idle power-off delay in milliseconds, `DAEMON_NO_ACTIVE_CLIENT_TIMEOUT`. -/
def DAEMON_NO_ACTIVE_CLIENT_TIMEOUT : Nat := 10000

/-- Record `btstack_linked_list_gatt_client_helper_t`, without the list link;
`all_connections` is the list of the `connection` fields of its items. -/
structure gatt_client_helper_t where
  con_handle : Nat
  active_connection : Option connection_t := none
  all_connections : List connection_t := []
  characteristic_length : Nat := 0
  characteristic_handle : Nat := 0
  characteristic_buffer : List Nat := List.replicate (10 + ATT_MAX_LONG_ATTRIBUTE_SIZE) 0
  long_query_type : Nat := 0
deriving DecidableEq, Repr

/-- Modelled from the spec: the `HCI_POWER_MODE` enumeration (OFF/ON/SLEEP) is
declared in a header that is not among the sources; its values in declaration
order. -/
def HCI_POWER_OFF : Nat := 0

/-- Second value of `HCI_POWER_MODE`, see `HCI_POWER_OFF`. -/
def HCI_POWER_ON : Nat := 1

/-- Third value of `HCI_POWER_MODE`, see `HCI_POWER_OFF`. -/
def HCI_POWER_SLEEP : Nat := 2

/-- Packet types seen by the handlers: the case labels of the `packet_type`
switches, whose numeric values come from a header that is not among the
sources, and `other` for every remaining value. -/
inductive PacketType where
  | HCI_COMMAND_DATA_PACKET
  | HCI_EVENT_PACKET
  | L2CAP_DATA_PACKET
  | RFCOMM_DATA_PACKET
  | DAEMON_EVENT_PACKET
  | SDP_CLIENT_PACKET
  | other
deriving DecidableEq, Repr

/-- Classification of the first byte of an event packet: the case labels that
`packet[0]` (or `data[0]`) is compared with in the daemon, whose numeric values
come from headers that are not among the sources, and `other` for every
remaining value. -/
inductive EventCode where
  | HCI_EVENT_DISCONNECTION_COMPLETE
  | HCI_EVENT_NUMBER_OF_COMPLETED_PACKETS
  | BTSTACK_EVENT_STATE
  | BTSTACK_EVENT_NR_CONNECTIONS_CHANGED
  | DAEMON_EVENT_CONNECTION_OPENED
  | DAEMON_EVENT_CONNECTION_CLOSED
  | DAEMON_NR_CONNECTIONS_CHANGED
  | DAEMON_EVENT_NEW_RFCOMM_CREDITS
  | L2CAP_EVENT_CHANNEL_OPENED
  | L2CAP_EVENT_CHANNEL_CLOSED
  | RFCOMM_EVENT_OPEN_CHANNEL_COMPLETE
  | RFCOMM_EVENT_CHANNEL_CLOSED
  | RFCOMM_EVENT_CREDITS
  | RFCOMM_EVENT_SERVICE_REGISTERED
  | GATT_QUERY_COMPLETE
  | GATT_SERVICE_QUERY_RESULT
  | GATT_INCLUDED_SERVICE_QUERY_RESULT
  | GATT_CHARACTERISTIC_QUERY_RESULT
  | GATT_CHARACTERISTIC_VALUE_QUERY_RESULT
  | GATT_LONG_CHARACTERISTIC_VALUE_QUERY_RESULT
  | GATT_ALL_CHARACTERISTIC_DESCRIPTORS_QUERY_RESULT
  | GATT_CHARACTERISTIC_DESCRIPTOR_QUERY_RESULT
  | GATT_LONG_CHARACTERISTIC_DESCRIPTOR_QUERY_RESULT
  | GATT_NOTIFICATION
  | GATT_INDICATION
  | other
deriving DecidableEq, Repr

/-- Command opcodes: the case labels of the switch on `READ_CMD_OCF(packet)` in
`btstack_command_handler`, whose numeric values come from a header that is not
among the sources, and `other` for the `default` branch. -/
inductive Opcode where
  | BTSTACK_GET_STATE
  | BTSTACK_SET_POWER_MODE
  | BTSTACK_GET_VERSION
  | BTSTACK_SET_SYSTEM_BLUETOOTH_ENABLED
  | BTSTACK_GET_SYSTEM_BLUETOOTH_ENABLED
  | BTSTACK_SET_DISCOVERABLE
  | BTSTACK_SET_BLUETOOTH_ENABLED
  | L2CAP_CREATE_CHANNEL_MTU
  | L2CAP_CREATE_CHANNEL
  | L2CAP_DISCONNECT
  | L2CAP_REGISTER_SERVICE
  | L2CAP_UNREGISTER_SERVICE
  | L2CAP_ACCEPT_CONNECTION
  | L2CAP_DECLINE_CONNECTION
  | RFCOMM_CREATE_CHANNEL
  | RFCOMM_CREATE_CHANNEL_WITH_CREDITS
  | RFCOMM_DISCONNECT
  | RFCOMM_REGISTER_SERVICE
  | RFCOMM_REGISTER_SERVICE_WITH_CREDITS
  | RFCOMM_UNREGISTER_SERVICE
  | RFCOMM_ACCEPT_CONNECTION
  | RFCOMM_DECLINE_CONNECTION
  | RFCOMM_GRANT_CREDITS
  | RFCOMM_PERSISTENT_CHANNEL
  | SDP_REGISTER_SERVICE_RECORD
  | SDP_UNREGISTER_SERVICE_RECORD
  | SDP_CLIENT_QUERY_RFCOMM_SERVICES
  | SDP_CLIENT_QUERY_SERVICES
  | GAP_LE_SCAN_START
  | GAP_LE_SCAN_STOP
  | GAP_LE_SET_SCAN_PARAMETERS
  | GAP_LE_CONNECT
  | GAP_LE_CONNECT_CANCEL
  | GAP_DISCONNECT
  | GATT_DISCOVER_ALL_PRIMARY_SERVICES
  | GATT_DISCOVER_PRIMARY_SERVICES_BY_UUID16
  | GATT_DISCOVER_PRIMARY_SERVICES_BY_UUID128
  | GATT_FIND_INCLUDED_SERVICES_FOR_SERVICE
  | GATT_DISCOVER_CHARACTERISTICS_FOR_SERVICE
  | GATT_DISCOVER_CHARACTERISTICS_FOR_SERVICE_BY_UUID128
  | GATT_DISCOVER_CHARACTERISTIC_DESCRIPTORS
  | GATT_READ_VALUE_OF_CHARACTERISTIC
  | GATT_READ_LONG_VALUE_OF_CHARACTERISTIC
  | GATT_WRITE_VALUE_OF_CHARACTERISTIC_WITHOUT_RESPONSE
  | GATT_WRITE_VALUE_OF_CHARACTERISTIC
  | GATT_WRITE_LONG_VALUE_OF_CHARACTERISTIC
  | GATT_RELIABLE_WRITE_LONG_VALUE_OF_CHARACTERISTIC
  | GATT_READ_CHARACTERISTIC_DESCRIPTOR
  | GATT_READ_LONG_CHARACTERISTIC_DESCRIPTOR
  | GATT_WRITE_CHARACTERISTIC_DESCRIPTOR
  | GATT_WRITE_LONG_CHARACTERISTIC_DESCRIPTOR
  | GATT_WRITE_CLIENT_CHARACTERISTIC_CONFIGURATION
  | GATT_GET_MTU
  | other
deriving DecidableEq, Repr

/-- Modelled from the spec: the `HCI_STATE` enumeration is declared in a header
that is not among the sources; `HCI_STATE_OFF` is its first value. -/
def HCI_STATE_OFF : Nat := 0

/-- Value of `HCI_STATE_WORKING` in `HCI_STATE`, see `HCI_STATE_OFF`. -/
def HCI_STATE_WORKING : Nat := 2

/-- Values handed to the status callback (`BLUETOOTH_STATE`). -/
inductive BLUETOOTH_STATE where
  | BLUETOOTH_OFF
  | BLUETOOTH_ON
  | BLUETOOTH_ACTIVE
deriving DecidableEq, Repr

/-- Calls that leave the daemon, in the order they are made.  Logging
(`log_info`, `hci_dump_packet`) is not recorded.  `engine_request` stands for
the protocol-engine calls of a command case that no other constructor names;
their arguments are read from the command packet, and what the daemon reads
back from them is given by an `EngineReply`. -/
inductive Call where
  | hci_power_control (power_mode : Nat)
  | hci_discoverable_control (enable : Nat)
  | hci_disconnect_all
  | hci_send_cmd_packet (data : List Nat)
  | sdp_unregister_service (service_record_handle : Nat)
  | sdp_query_rfcomm_deregister_callback
  | rfcomm_unregister_service (service_channel : Nat)
  | rfcomm_disconnect (rfcomm_cid : Nat)
  | rfcomm_send (rfcomm_cid : Nat) (data : List Nat)
  | l2cap_unregister_service (psm : Nat)
  | l2cap_disconnect (local_cid : Nat) (reason : Nat)
  | l2cap_send (local_cid : Nat) (data : List Nat)
  | gap_disconnect (con_handle : Nat)
  | engine_request (opcode : Opcode) (packet : List Nat)
  | btstack_run_loop_remove_timer
  | btstack_run_loop_set_timer (timeout_in_ms : Nat)
  | btstack_run_loop_add_timer
  | socket_connection_send_packet (connection : connection_t) (packet_type : PacketType)
      (channel : Nat) (data : List Nat)
  | socket_connection_send_packet_all (packet_type : PacketType) (channel : Nat) (data : List Nat)
  | socket_connection_retry_parked
  | bluetooth_status_handler (state : BLUETOOTH_STATE)
deriving DecidableEq, Repr

/-- The daemon's globals.  `malloc_results` holds the outcomes of the coming
`malloc` calls, oldest first, and every call after them succeeds; `trace` holds
the calls made so far, oldest first. -/
structure State where
  clients : List client_state_t := []
  gatt_client_helpers : List gatt_client_helper_t := []
  timeout_active : Nat := 0
  power_management_sleep : Nat := 0
  global_enable : Nat := 0
  hci_state : Nat := HCI_STATE_OFF
  num_connections : Nat := 0
  retry_mutex : Nat := 0
  sdp_client_query_connection : Option connection_t := none
  malloc_results : List Bool := []
  trace : List Call := []
deriving DecidableEq, Repr

/-- Records one outgoing call. -/
def State.call (st : State) (c : Call) : State :=
  { st with trace := st.trace ++ [c] }

/-- Records outgoing calls, first call first. -/
def State.calls (st : State) (cs : List Call) : State :=
  { st with trace := st.trace ++ cs }

/-- One `malloc`: its outcome and the state with that outcome consumed. -/
def State.malloc (st : State) : Bool × State :=
  match st.malloc_results with
  | [] => (true, st)
  | ok :: rest => (ok, { st with malloc_results := rest })

/-- Store through a pointer to the first list entry that satisfies `p`. -/
def update_first {α : Type} (p : α → Bool) (f : α → α) : List α → List α
  | [] => []
  | x :: xs => if p x then f x :: xs else x :: update_first p f xs

/-- Unlinks the first list entry that satisfies `p`
(`btstack_linked_list_remove` of the item a search loop stopped at). -/
def remove_first {α : Type} (p : α → Bool) : List α → List α
  | [] => []
  | x :: xs => if p x then xs else x :: remove_first p xs

/-- Function `client_for_connection`: the first entry of `clients` with this
connection. -/
def client_for_connection (st : State) (connection : connection_t) : Option client_state_t :=
  st.clients.find? (fun client_state => client_state.connection == connection)

/-- Store through the pointer returned by `client_for_connection st connection`. -/
def State.update_client (st : State) (connection : connection_t)
    (f : client_state_t → client_state_t) : State :=
  { st with clients :=
      update_first (fun client_state => client_state.connection == connection) f st.clients }

/-- Call of `add_uint32_to_list` on one list of the client state found for
`connection`; `get` and `set` select the list.  The `malloc` is consumed only
when the search loop did not find the value. -/
def State.add_to_client_list (st : State) (connection : connection_t)
    (get : client_state_t → uint32_list) (set : client_state_t → uint32_list → client_state_t)
    (value : Nat) : State :=
  match client_for_connection st connection with
  | none => st
  | some client_state =>
    if (get client_state).contains value then st
    else
      let (ok, st1) := st.malloc
      st1.update_client connection
        (fun c => set c (add_uint32_to_list (get c) value ok))

/-- Call of `remove_and_free_uint32_from_list` on one list of the client state
found for `connection`. -/
def State.remove_from_client_list (st : State) (connection : connection_t)
    (get : client_state_t → uint32_list) (set : client_state_t → uint32_list → client_state_t)
    (value : Nat) : State :=
  match client_for_connection st connection with
  | none => st
  | some _ =>
    st.update_client connection
      (fun c => set c (remove_and_free_uint32_from_list (get c) value))

/-- Function `daemon_add_client_rfcomm_service`. -/
def daemon_add_client_rfcomm_service (st : State) (connection : connection_t)
    (service_channel : Nat) : State :=
  st.add_to_client_list connection (fun c => c.rfcomm_services)
    (fun c l => { c with rfcomm_services := l }) service_channel

/-- Function `daemon_remove_client_rfcomm_service`. -/
def daemon_remove_client_rfcomm_service (st : State) (connection : connection_t)
    (service_channel : Nat) : State :=
  st.remove_from_client_list connection (fun c => c.rfcomm_services)
    (fun c l => { c with rfcomm_services := l }) service_channel

/-- Function `daemon_add_client_rfcomm_channel`. -/
def daemon_add_client_rfcomm_channel (st : State) (connection : connection_t)
    (cid : Nat) : State :=
  st.add_to_client_list connection (fun c => c.rfcomm_cids)
    (fun c l => { c with rfcomm_cids := l }) cid

/-- Function `daemon_remove_client_rfcomm_channel`. -/
def daemon_remove_client_rfcomm_channel (st : State) (connection : connection_t)
    (cid : Nat) : State :=
  st.remove_from_client_list connection (fun c => c.rfcomm_cids)
    (fun c l => { c with rfcomm_cids := l }) cid

/-- Function `daemon_add_client_l2cap_service`. -/
def daemon_add_client_l2cap_service (st : State) (connection : connection_t)
    (psm : Nat) : State :=
  st.add_to_client_list connection (fun c => c.l2cap_psms)
    (fun c l => { c with l2cap_psms := l }) psm

/-- Function `daemon_remove_client_l2cap_service`. -/
def daemon_remove_client_l2cap_service (st : State) (connection : connection_t)
    (psm : Nat) : State :=
  st.remove_from_client_list connection (fun c => c.l2cap_psms)
    (fun c l => { c with l2cap_psms := l }) psm

/-- Function `daemon_add_client_l2cap_channel`. -/
def daemon_add_client_l2cap_channel (st : State) (connection : connection_t)
    (cid : Nat) : State :=
  st.add_to_client_list connection (fun c => c.l2cap_cids)
    (fun c l => { c with l2cap_cids := l }) cid

/-- Function `daemon_remove_client_l2cap_channel`. -/
def daemon_remove_client_l2cap_channel (st : State) (connection : connection_t)
    (cid : Nat) : State :=
  st.remove_from_client_list connection (fun c => c.l2cap_cids)
    (fun c l => { c with l2cap_cids := l }) cid

/-- Function `daemon_add_client_sdp_service_record_handle`. -/
def daemon_add_client_sdp_service_record_handle (st : State) (connection : connection_t)
    (handle : Nat) : State :=
  st.add_to_client_list connection (fun c => c.sdp_record_handles)
    (fun c l => { c with sdp_record_handles := l }) handle

/-- Function `daemon_remove_client_sdp_service_record_handle`. -/
def daemon_remove_client_sdp_service_record_handle (st : State) (connection : connection_t)
    (handle : Nat) : State :=
  st.remove_from_client_list connection (fun c => c.sdp_record_handles)
    (fun c l => { c with sdp_record_handles := l }) handle

/-! ## GATT helper registry -/

/-- Function `daemon_get_gatt_client_helper`: the first helper with this handle. -/
def daemon_get_gatt_client_helper (st : State) (handle : Nat) : Option gatt_client_helper_t :=
  st.gatt_client_helpers.find? (fun item => item.con_handle == handle)

/-- Store through a pointer to the first helper with this handle. -/
def State.update_helper (st : State) (handle : Nat)
    (f : gatt_client_helper_t → gatt_client_helper_t) : State :=
  { st with gatt_client_helpers :=
      update_first (fun item => item.con_handle == handle) f st.gatt_client_helpers }

/-- Last part of `daemon_add_gatt_client_handle`: the connection is looked up in
`all_connections` and, when it is not found and the `malloc` succeeds, becomes
the head of that list. -/
def add_connection_to_helper (st : State) (gatt_helper : gatt_client_helper_t)
    (connection : connection_t) : State × gatt_client_helper_t :=
  if gatt_helper.all_connections.contains connection then (st, gatt_helper)
  else
    let (ok, st1) := st.malloc
    if ok then
      (st1, { gatt_helper with all_connections := connection :: gatt_helper.all_connections })
    else (st1, gatt_helper)

/-- Function `daemon_add_gatt_client_handle`.  The `con_handle` field of a new
helper is 16 bits wide. -/
def daemon_add_gatt_client_handle (st : State) (connection : connection_t) (handle : Nat) :
    State :=
  match client_for_connection st connection with
  | none => st
  | some client_state =>
    let st1 :=
      if client_state.gatt_con_handles.contains handle then st
      else st.add_to_client_list connection (fun c => c.gatt_con_handles)
        (fun c l => { c with gatt_con_handles := l }) handle
    match st1.gatt_client_helpers.find? (fun item => item.con_handle == handle) with
    | some gatt_helper =>
      let (st2, helper) := add_connection_to_helper st1 gatt_helper connection
      st2.update_helper handle (fun _ => helper)
    | none =>
      let (ok, st2) := st1.malloc
      if ok then
        let (st3, helper) := add_connection_to_helper st2 { con_handle := handle % 65536 } connection
        { st3 with gatt_client_helpers := helper :: st3.gatt_client_helpers }
      else st2

/-- Function `daemon_remove_gatt_client_handle`: every item of the client's
`gatt_con_handles` with this value is unlinked, then the first item of the
helper's `all_connections` with this connection; `gap_disconnect` is called
when no item is left. -/
def daemon_remove_gatt_client_handle (st : State) (connection : connection_t) (handle : Nat) :
    State :=
  match client_for_connection st connection with
  | none => st
  | some _ =>
    let st1 := st.update_client connection (fun c =>
      { c with gatt_con_handles := remove_and_free_uint32_from_list c.gatt_con_handles handle })
    match st1.gatt_client_helpers.find? (fun item => item.con_handle == handle) with
    | none => st1
    | some helper =>
      let all_connections := helper.all_connections.erase connection
      let active_connection :=
        if helper.active_connection == some connection then none else helper.active_connection
      let st2 := st1.update_helper handle (fun h =>
        { h with all_connections := all_connections, active_connection := active_connection })
      if all_connections.isEmpty then st2.call (Call.gap_disconnect helper.con_handle) else st2

/-- Function `daemon_remove_gatt_client_helper`: the helper is unlinked and its
handle is unlinked from the `gatt_con_handles` of every client. -/
def daemon_remove_gatt_client_helper (st : State) (con_handle : Nat) : State :=
  match st.gatt_client_helpers.find? (fun item => item.con_handle == con_handle) with
  | none => st
  | some _ =>
    { st with
      gatt_client_helpers :=
        remove_first (fun item => item.con_handle == con_handle) st.gatt_client_helpers
      clients := st.clients.map (fun client_state =>
        { client_state with gatt_con_handles :=
            remove_and_free_uint32_from_list client_state.gatt_con_handles con_handle }) }

/-- Loop of `daemon_gatt_client_close_connection`.  Every item the iterator
returns is unlinked by `daemon_remove_gatt_client_handle`, together with every
later item of the same value, so the iterator's predecessor stays the list head
and each round takes the current head of the list; `fuel` bounds the rounds. -/
def daemon_gatt_client_close_connection_loop : Nat → State → connection_t → State
  | 0, st, _ => st
  | fuel + 1, st, connection =>
    match client_for_connection st connection with
    | none => st
    | some client =>
      match client.gatt_con_handles with
      | [] => st
      | value :: _ =>
        daemon_gatt_client_close_connection_loop fuel
          (daemon_remove_gatt_client_handle st connection value) connection

/-- Function `daemon_gatt_client_close_connection`; every round unlinks at least
one item, so the length of the list is enough fuel. -/
def daemon_gatt_client_close_connection (st : State) (connection : connection_t) : State :=
  match client_for_connection st connection with
  | none => st
  | some client =>
    daemon_gatt_client_close_connection_loop client.gatt_con_handles.length st connection

/-! ## Releasing a client's resources -/

/-- Function `daemon_rfcomm_close_connection`, the client given by its
connection: each loop visits every item in list order, makes the engine call
and unlinks the item. -/
def daemon_rfcomm_close_connection (st : State) (daemon_client : connection_t) : State :=
  match client_for_connection st daemon_client with
  | none => st
  | some client =>
    let st1 := (st.calls (client.rfcomm_services.map Call.rfcomm_unregister_service)).update_client
      daemon_client (fun c => { c with rfcomm_services := [] })
    (st1.calls (client.rfcomm_cids.map Call.rfcomm_disconnect)).update_client
      daemon_client (fun c => { c with rfcomm_cids := [] })

/-- Function `daemon_l2cap_close_connection`, the client given by its connection. -/
def daemon_l2cap_close_connection (st : State) (daemon_client : connection_t) : State :=
  match client_for_connection st daemon_client with
  | none => st
  | some client =>
    let st1 := (st.calls (client.l2cap_psms.map Call.l2cap_unregister_service)).update_client
      daemon_client (fun c => { c with l2cap_psms := [] })
    (st1.calls (client.l2cap_cids.map (fun cid => Call.l2cap_disconnect cid 0))).update_client
      daemon_client (fun c => { c with l2cap_cids := [] })

/-- Function `daemon_sdp_close_connection`, the client given by its connection. -/
def daemon_sdp_close_connection (st : State) (daemon_client : connection_t) : State :=
  match client_for_connection st daemon_client with
  | none => st
  | some client =>
    (st.calls (client.sdp_record_handles.map Call.sdp_unregister_service)).update_client
      daemon_client (fun c => { c with sdp_record_handles := [] })

/-- Function `connection_for_l2cap_cid`: the connection of the first client
whose `l2cap_cids` holds the cid. -/
def connection_for_l2cap_cid (st : State) (cid : Nat) : Option connection_t :=
  (st.clients.find? (fun client_state => client_state.l2cap_cids.contains cid)).map
    (fun client_state => client_state.connection)

/-- Function `connection_for_rfcomm_cid`: the connection of the first client
whose `rfcomm_cids` holds the cid. -/
def connection_for_rfcomm_cid (st : State) (cid : Nat) : Option connection_t :=
  (st.clients.find? (fun client_state => client_state.rfcomm_cids.contains cid)).map
    (fun client_state => client_state.connection)

/-- The four release steps of `daemon_disconnect_client`, in source order,
before the client is unlinked from `clients`. -/
def daemon_close_connections (st : State) (connection : connection_t) : State :=
  daemon_gatt_client_close_connection
    (daemon_l2cap_close_connection
      (daemon_rfcomm_close_connection
        (daemon_sdp_close_connection st connection) connection) connection) connection

/-- Function `daemon_disconnect_client`. -/
def daemon_disconnect_client (st : State) (connection : connection_t) : State :=
  match client_for_connection st connection with
  | none => st
  | some _ =>
    let st1 := daemon_close_connections st connection
    { st1 with clients :=
        remove_first (fun client_state => client_state.connection == connection) st1.clients }

/-! ## Power and discoverability arbiter -/

/-- Function `clients_require_power_on`. -/
def clients_require_power_on (st : State) : Nat :=
  if st.global_enable != 0 then 1
  else if st.clients.any (fun client_state => client_state.power_mode == HCI_POWER_ON) then 1
  else 0

/-- Function `clients_require_discoverable`. -/
def clients_require_discoverable (st : State) : Nat :=
  if st.clients.any (fun client_state => client_state.discoverable != 0) then 1 else 0

/-- Function `clients_clear_power_request`. -/
def clients_clear_power_request (st : State) : State :=
  { st with clients :=
      st.clients.map (fun client_state => { client_state with power_mode := HCI_POWER_OFF }) }

/-- Function `stop_power_off_timer` (`USE_POWER_OFF_TIMER` is defined). -/
def stop_power_off_timer (st : State) : State :=
  if st.timeout_active != 0 then
    { st.call Call.btstack_run_loop_remove_timer with timeout_active := 0 }
  else st

/-- Function `start_power_off_timer` (`USE_POWER_OFF_TIMER` is defined). -/
def start_power_off_timer (st : State) : State :=
  let st1 := stop_power_off_timer st
  let st2 := st1.call (Call.btstack_run_loop_set_timer DAEMON_NO_ACTIVE_CLIENT_TIMEOUT)
  { st2.call Call.btstack_run_loop_add_timer with timeout_active := 1 }

/-- Function `daemon_no_connections_timeout`, the timer callback. -/
def daemon_no_connections_timeout (st : State) : State :=
  if clients_require_power_on st != 0 then st
  else st.call (Call.hci_power_control HCI_POWER_OFF)

/-- Values of `POWER_NOTIFICATION_t` that the callback tells apart. -/
inductive POWER_NOTIFICATION_t where
  | POWER_WILL_SLEEP
  | POWER_WILL_WAKE_UP
  | other
deriving DecidableEq, Repr

/-- Function `power_notification_callback`. -/
def power_notification_callback (st : State) : POWER_NOTIFICATION_t → State
  | POWER_NOTIFICATION_t.POWER_WILL_SLEEP =>
    { st with power_management_sleep := 1 }.call (Call.hci_power_control HCI_POWER_SLEEP)
  | POWER_NOTIFICATION_t.POWER_WILL_WAKE_UP =>
    let st1 := { st with power_management_sleep := 0 }
    if clients_require_power_on st1 != 0 then st1.call (Call.hci_power_control HCI_POWER_ON)
    else st1
  | POWER_NOTIFICATION_t.other => st

/-! ## Packet fields and the events the daemon builds -/

/-- Byte `packet[pos]` of a `uint8_t` array: a list entry is read modulo 256, and
a read past the end of the list gives 0. -/
def byte_at (packet : List Nat) (pos : Nat) : Nat :=
  packet.getD pos 0 % 256

/-- Macro `READ_BT_16`: little-endian 16-bit field. -/
def READ_BT_16 (buffer : List Nat) (pos : Nat) : Nat :=
  byte_at buffer pos + 256 * byte_at buffer (pos + 1)

/-- Macro `READ_BT_32`: little-endian 32-bit field. -/
def READ_BT_32 (buffer : List Nat) (pos : Nat) : Nat :=
  byte_at buffer pos + 256 * byte_at buffer (pos + 1) + 65536 * byte_at buffer (pos + 2)
    + 16777216 * byte_at buffer (pos + 3)

/-- The two bytes written by `bt_store_16`, low byte first. -/
def bt_store_16 (value : Nat) : List Nat :=
  [value % 256, value / 256 % 256]

/-- The four bytes written by `bt_store_32`, low byte first. -/
def bt_store_32 (value : Nat) : List Nat :=
  [value % 256, value / 256 % 256, value / 65536 % 256, value / 16777216 % 256]

/-- The `len` bytes of `packet` from `pos` on. -/
def bytes_at (packet : List Nat) (pos len : Nat) : List Nat :=
  (List.range len).map (fun i => byte_at packet (pos + i))

/-- Function `bt_flip_addr`: the six address bytes in reverse order. -/
def bt_flip_addr (addr : List Nat) : List Nat :=
  (bytes_at addr 0 6).reverse

/-- Function `memcpy` into a buffer of fixed size: `n` bytes of `src` from
`src_pos` on are stored from `dst_pos` on; a store past the end of the buffer is
dropped. -/
def memcpy (dst : List Nat) (dst_pos : Nat) (src : List Nat) (src_pos n : Nat) : List Nat :=
  (List.range n).foldl (fun buf i => buf.set (dst_pos + i) (byte_at src (src_pos + i))) dst

/-- Event codes and status codes that the daemon writes into the events it
builds.  Their values come from headers that are not among the sources, so the
functions that build events take them as a parameter. -/
structure Constants where
  L2CAP_EVENT_CHANNEL_OPENED : Nat
  L2CAP_EVENT_SERVICE_REGISTERED : Nat
  RFCOMM_EVENT_OPEN_CHANNEL_COMPLETE : Nat
  RFCOMM_EVENT_SERVICE_REGISTERED : Nat
  RFCOMM_EVENT_PERSISTENT_CHANNEL : Nat
  SDP_SERVICE_REGISTERED : Nat
  GATT_QUERY_COMPLETE : Nat
  GATT_MTU : Nat
  GATT_CLIENT_NOT_CONNECTED : Nat
  GATT_CLIENT_BUSY : Nat
  BTSTACK_MEMORY_ALLOC_FAILED : Nat
deriving DecidableEq, Repr

/-- Function `send_l2cap_connection_open_failed`; `address` is the six bytes of
the `bd_addr_t`. -/
def send_l2cap_connection_open_failed (K : Constants) (st : State) (connection : connection_t)
    (address : List Nat) (psm status : Nat) : State :=
  st.call (Call.socket_connection_send_packet connection PacketType.HCI_EVENT_PACKET 0
    ([K.L2CAP_EVENT_CHANNEL_OPENED, 21, status] ++ bt_flip_addr address ++ [0, 0]
      ++ bt_store_16 psm ++ List.replicate 10 0))

/-- Function `l2cap_emit_service_registered`. -/
def l2cap_emit_service_registered (K : Constants) (st : State) (connection : connection_t)
    (status psm : Nat) : State :=
  st.call (Call.socket_connection_send_packet connection PacketType.HCI_EVENT_PACKET 0
    ([K.L2CAP_EVENT_SERVICE_REGISTERED, 3, status] ++ bt_store_16 psm))

/-- Function `rfcomm_emit_service_registered`. -/
def rfcomm_emit_service_registered (K : Constants) (st : State) (connection : connection_t)
    (status channel : Nat) : State :=
  st.call (Call.socket_connection_send_packet connection PacketType.HCI_EVENT_PACKET 0
    [K.RFCOMM_EVENT_SERVICE_REGISTERED, 2, status, channel])

/-- Function `send_rfcomm_create_channel_failed`. -/
def send_rfcomm_create_channel_failed (K : Constants) (st : State) (connection : connection_t)
    (addr : List Nat) (server_channel status : Nat) : State :=
  st.call (Call.socket_connection_send_packet connection PacketType.HCI_EVENT_PACKET 0
    ([K.RFCOMM_EVENT_OPEN_CHANNEL_COMPLETE, 14, status] ++ bt_flip_addr addr ++ bt_store_16 0
      ++ [server_channel] ++ bt_store_16 0 ++ bt_store_16 0))

/-- Function `sdp_emit_service_registered`. -/
def sdp_emit_service_registered (K : Constants) (st : State) (connection : connection_t)
    (handle status : Nat) : State :=
  st.call (Call.socket_connection_send_packet connection PacketType.HCI_EVENT_PACKET 0
    ([K.SDP_SERVICE_REGISTERED, 5, status] ++ bt_store_32 handle))

/-- Function `send_gatt_query_complete`. -/
def send_gatt_query_complete (K : Constants) (st : State) (connection : connection_t)
    (handle status : Nat) : State :=
  st.call (Call.socket_connection_send_packet connection PacketType.HCI_EVENT_PACKET 0
    ([K.GATT_QUERY_COMPLETE, 3] ++ bt_store_16 handle ++ [status]))

/-- Function `send_gatt_mtu_event`. -/
def send_gatt_mtu_event (K : Constants) (st : State) (connection : connection_t)
    (handle mtu : Nat) : State :=
  st.call (Call.socket_connection_send_packet connection PacketType.HCI_EVENT_PACKET 0
    ([K.GATT_MTU, 4] ++ bt_store_16 handle ++ bt_store_16 mtu))

/-! ## Command dispatcher -/

/-- What the protocol engine answers during one command: the values the daemon
reads back from the engine calls of that command. -/
structure EngineReply where
  /-- Status returned by the create-channel or register-service call. -/
  status : Nat := 0
  /-- Channel id stored through `&cid` by the create-channel call. -/
  cid : Nat := 0
  /-- Result of `sdp_create_service_record_handle`. -/
  record_handle : Nat := 0
  /-- Result of `rfcomm_service_db_channel_for_service`. -/
  rfcomm_channel : Nat := 0
  /-- Whether `hci_connection_for_handle` finds a connection in state `OPEN`. -/
  hci_con_open : Bool := false
  /-- Value stored through `&mtu` by `gatt_client_get_mtu`. -/
  mtu : Nat := 0
deriving DecidableEq, Repr

/-- Length of a serialized characteristic, `CHARACTERISTIC_LENGTH`. -/
def CHARACTERISTIC_LENGTH : Nat := 24

/-- Function `daemon_setup_gatt_client_request`; the second component says
whether a helper is returned.  The helper returned is the first helper of the
registry with the handle read from the packet. -/
def daemon_setup_gatt_client_request (K : Constants) (st : State) (connection : connection_t)
    (packet : List Nat) (track_active_connection : Bool) (reply : EngineReply) : State × Bool :=
  let handle := READ_BT_16 packet 3
  if !reply.hci_con_open then
    (send_gatt_query_complete K st connection handle K.GATT_CLIENT_NOT_CONNECTED, false)
  else
    let (st2, helper_ok) :=
      match daemon_get_gatt_client_helper st handle with
      | some _ => (st, true)
      | none =>
        let (ok, st1) := st.malloc
        if ok then
          ({ st1 with gatt_client_helpers := { con_handle := handle } :: st1.gatt_client_helpers },
            true)
        else (st1, false)
    if !helper_ok then (st2, false)
    else
      let busy :=
        match daemon_get_gatt_client_helper st2 handle with
        | some helper => helper.active_connection.isSome
        | none => false
      if track_active_connection && busy then
        (send_gatt_query_complete K st2 connection handle K.GATT_CLIENT_BUSY, false)
      else
        let st3 := daemon_add_gatt_client_handle st2 connection handle
        if track_active_connection then
          (st3.update_helper handle (fun h => { h with active_connection := some connection }), true)
        else (st3, true)

/-- Function `daemon_sdp_create_and_register_service`: the record handle, or 0
when the `malloc` or `sdp_register_service` fails. -/
def daemon_sdp_create_and_register_service (st : State) (reply : EngineReply) : State × Nat :=
  let (ok, st1) := st.malloc
  if !ok then (st1, 0)
  else if reply.status != 0 then (st1, 0)
  else (st1, reply.record_handle)

/-- The GATT command cases that call `daemon_setup_gatt_client_request` and then
the engine; `copy_value` is set for the write cases that first copy the value
from the packet into the helper's `characteristic_buffer`. -/
def gatt_client_command (K : Constants) (st : State) (connection : connection_t)
    (opcode : Opcode) (packet : List Nat) (track_active_connection copy_value : Bool)
    (reply : EngineReply) : State :=
  let (st1, gatt_helper) :=
    daemon_setup_gatt_client_request K st connection packet track_active_connection reply
  if !gatt_helper then st1
  else
    let st2 :=
      if copy_value then
        let data_length := READ_BT_16 packet (5 + CHARACTERISTIC_LENGTH)
        let value_offset := 7 + CHARACTERISTIC_LENGTH
        st1.update_helper (READ_BT_16 packet 3) (fun h =>
          { h with
            characteristic_buffer := memcpy h.characteristic_buffer 0 packet value_offset data_length })
      else st1
    st2.call (Call.engine_request opcode packet)

/-- Function `btstack_command_handler` (`USE_BLUETOOL` is not defined, `HAVE_BLE`
and `HAVE_MALLOC` are); `opcode` is the case that `READ_CMD_OCF(packet)` selects. -/
def btstack_command_handler (K : Constants) (st : State) (connection : connection_t)
    (opcode : Opcode) (packet : List Nat) (reply : EngineReply) : State :=
  match opcode with
  | Opcode.BTSTACK_SET_POWER_MODE =>
    match client_for_connection st connection with
    | none => st
    | some _ =>
      let st1 := st.update_client connection (fun c => { c with power_mode := byte_at packet 3 })
      if clients_require_power_on st1 == 0 then start_power_off_timer st1
      else if st1.power_management_sleep == 0 then
        (stop_power_off_timer st1).call (Call.hci_power_control HCI_POWER_ON)
      else st1
  | Opcode.BTSTACK_SET_DISCOVERABLE =>
    match client_for_connection st connection with
    | none => st
    | some _ =>
      let st1 := st.update_client connection (fun c => { c with discoverable := byte_at packet 3 })
      st1.call (Call.hci_discoverable_control (clients_require_discoverable st1))
  | Opcode.BTSTACK_SET_BLUETOOTH_ENABLED =>
    if byte_at packet 3 != 0 then
      { st with global_enable := 1 }.call (Call.hci_power_control HCI_POWER_ON)
    else
      (clients_clear_power_request { st with global_enable := 0 }).call
        (Call.hci_power_control HCI_POWER_OFF)
  | Opcode.L2CAP_CREATE_CHANNEL_MTU | Opcode.L2CAP_CREATE_CHANNEL =>
    let st1 := st.call (Call.engine_request opcode packet)
    if reply.status != 0 then
      send_l2cap_connection_open_failed K st1 connection (bt_flip_addr (bytes_at packet 3 6))
        (READ_BT_16 packet 9) reply.status
    else daemon_add_client_l2cap_channel st1 connection reply.cid
  | Opcode.L2CAP_DISCONNECT =>
    st.call (Call.l2cap_disconnect (READ_BT_16 packet 3) (byte_at packet 5))
  | Opcode.L2CAP_REGISTER_SERVICE =>
    let st1 := st.call (Call.engine_request opcode packet)
    let st2 := daemon_add_client_l2cap_service st1 connection (READ_BT_16 packet 3)
    l2cap_emit_service_registered K st2 connection reply.status (READ_BT_16 packet 3)
  | Opcode.L2CAP_UNREGISTER_SERVICE =>
    (daemon_remove_client_l2cap_service st connection (READ_BT_16 packet 3)).call
      (Call.l2cap_unregister_service (READ_BT_16 packet 3))
  | Opcode.RFCOMM_CREATE_CHANNEL | Opcode.RFCOMM_CREATE_CHANNEL_WITH_CREDITS =>
    let st1 := st.call (Call.engine_request opcode packet)
    if reply.status != 0 then
      send_rfcomm_create_channel_failed K st1 connection (bt_flip_addr (bytes_at packet 3 6))
        (byte_at packet 9) reply.status
    else daemon_add_client_rfcomm_channel st1 connection reply.cid
  | Opcode.RFCOMM_DISCONNECT =>
    st.call (Call.rfcomm_disconnect (READ_BT_16 packet 3))
  | Opcode.RFCOMM_REGISTER_SERVICE | Opcode.RFCOMM_REGISTER_SERVICE_WITH_CREDITS =>
    let st1 := st.call (Call.engine_request opcode packet)
    rfcomm_emit_service_registered K st1 connection reply.status (byte_at packet 3)
  | Opcode.RFCOMM_UNREGISTER_SERVICE =>
    (daemon_remove_client_rfcomm_service st connection (READ_BT_16 packet 3)).call
      (Call.rfcomm_unregister_service (READ_BT_16 packet 3))
  | Opcode.RFCOMM_PERSISTENT_CHANNEL =>
    (st.call (Call.engine_request opcode (packet.set 251 0))).call
      (Call.socket_connection_send_packet connection PacketType.HCI_EVENT_PACKET 0
        [K.RFCOMM_EVENT_PERSISTENT_CHANNEL, 2, 0, reply.rfcomm_channel % 256])
  | Opcode.SDP_REGISTER_SERVICE_RECORD =>
    let (st1, service_record_handle) :=
      daemon_sdp_create_and_register_service (st.call (Call.engine_request opcode packet)) reply
    if service_record_handle != 0 then
      sdp_emit_service_registered K
        (daemon_add_client_sdp_service_record_handle st1 connection service_record_handle)
        connection service_record_handle 0
    else sdp_emit_service_registered K st1 connection 0 K.BTSTACK_MEMORY_ALLOC_FAILED
  | Opcode.SDP_UNREGISTER_SERVICE_RECORD =>
    daemon_remove_client_sdp_service_record_handle
      (st.call (Call.sdp_unregister_service (READ_BT_32 packet 3))) connection
      (READ_BT_32 packet 3)
  | Opcode.SDP_CLIENT_QUERY_SERVICES =>
    { st with sdp_client_query_connection := some connection }.call
      (Call.engine_request opcode packet)
  | Opcode.GAP_DISCONNECT =>
    st.call (Call.gap_disconnect (READ_BT_16 packet 3))
  | Opcode.GATT_DISCOVER_ALL_PRIMARY_SERVICES
  | Opcode.GATT_DISCOVER_PRIMARY_SERVICES_BY_UUID16
  | Opcode.GATT_DISCOVER_PRIMARY_SERVICES_BY_UUID128
  | Opcode.GATT_FIND_INCLUDED_SERVICES_FOR_SERVICE
  | Opcode.GATT_DISCOVER_CHARACTERISTICS_FOR_SERVICE
  | Opcode.GATT_DISCOVER_CHARACTERISTICS_FOR_SERVICE_BY_UUID128
  | Opcode.GATT_DISCOVER_CHARACTERISTIC_DESCRIPTORS
  | Opcode.GATT_READ_VALUE_OF_CHARACTERISTIC
  | Opcode.GATT_READ_LONG_VALUE_OF_CHARACTERISTIC
  | Opcode.GATT_READ_CHARACTERISTIC_DESCRIPTOR
  | Opcode.GATT_READ_LONG_CHARACTERISTIC_DESCRIPTOR
  | Opcode.GATT_WRITE_CHARACTERISTIC_DESCRIPTOR
  | Opcode.GATT_WRITE_LONG_CHARACTERISTIC_DESCRIPTOR
  | Opcode.GATT_WRITE_CLIENT_CHARACTERISTIC_CONFIGURATION =>
    gatt_client_command K st connection opcode packet true false reply
  | Opcode.GATT_WRITE_VALUE_OF_CHARACTERISTIC_WITHOUT_RESPONSE =>
    gatt_client_command K st connection opcode packet false true reply
  | Opcode.GATT_WRITE_VALUE_OF_CHARACTERISTIC
  | Opcode.GATT_WRITE_LONG_VALUE_OF_CHARACTERISTIC
  | Opcode.GATT_RELIABLE_WRITE_LONG_VALUE_OF_CHARACTERISTIC =>
    gatt_client_command K st connection opcode packet true true reply
  | Opcode.GATT_GET_MTU =>
    send_gatt_mtu_event K (st.call (Call.engine_request opcode packet)) connection
      (READ_BT_16 packet 3) reply.mtu
  | Opcode.other => st
  | Opcode.BTSTACK_GET_STATE | Opcode.BTSTACK_GET_VERSION
  | Opcode.BTSTACK_SET_SYSTEM_BLUETOOTH_ENABLED | Opcode.BTSTACK_GET_SYSTEM_BLUETOOTH_ENABLED
  | Opcode.L2CAP_ACCEPT_CONNECTION | Opcode.L2CAP_DECLINE_CONNECTION
  | Opcode.RFCOMM_ACCEPT_CONNECTION | Opcode.RFCOMM_DECLINE_CONNECTION
  | Opcode.RFCOMM_GRANT_CREDITS | Opcode.SDP_CLIENT_QUERY_RFCOMM_SERVICES
  | Opcode.GAP_LE_SCAN_START | Opcode.GAP_LE_SCAN_STOP | Opcode.GAP_LE_SET_SCAN_PARAMETERS
  | Opcode.GAP_LE_CONNECT | Opcode.GAP_LE_CONNECT_CANCEL =>
    st.call (Call.engine_request opcode packet)


/-! ## Client handler -/

/-- Function `daemon_client_handler`.  `command` is `none` for a command packet
whose OGF is not `OGF_BTSTACK` and otherwise the opcode case of the BTstack
command; `event` is the case that `data[0]` selects in a daemon event.  The
value returned to the socket layer is not modelled. -/
def daemon_client_handler (K : Constants) (st : State) (connection : connection_t)
    (packet_type : PacketType) (channel : Nat) (data : List Nat) (command : Option Opcode)
    (event : EventCode) (reply : EngineReply) : State :=
  match packet_type with
  | PacketType.HCI_COMMAND_DATA_PACKET =>
    match command with
    | none => st.call (Call.hci_send_cmd_packet data)
    | some opcode => btstack_command_handler K st connection opcode data reply
  | PacketType.L2CAP_DATA_PACKET => st.call (Call.l2cap_send channel data)
  | PacketType.RFCOMM_DATA_PACKET => st.call (Call.rfcomm_send channel data)
  | PacketType.DAEMON_EVENT_PACKET =>
    match event with
    | EventCode.DAEMON_EVENT_CONNECTION_OPENED =>
      let (ok, st1) := st.malloc
      if ok then
        { st1 with clients :=
            { connection := connection, power_mode := HCI_POWER_OFF, discoverable := 0 }
              :: st1.clients }
      else st1
    | EventCode.DAEMON_EVENT_CONNECTION_CLOSED =>
      let st1 := (daemon_disconnect_client st connection).call
        Call.sdp_query_rfcomm_deregister_callback
      let st2 := if st1.clients.isEmpty then st1.call Call.hci_disconnect_all else st1
      let st3 := st2.call (Call.hci_discoverable_control (clients_require_discoverable st2))
      if clients_require_power_on st3 == 0 then start_power_off_timer st3 else st3
    | _ => st
  | _ => st

/-! ## Event router -/

/-- Function `update_ui_status`. -/
def update_ui_status (st : State) : State :=
  if st.hci_state != HCI_STATE_WORKING then
    st.call (Call.bluetooth_status_handler BLUETOOTH_STATE.BLUETOOTH_OFF)
  else if st.num_connections != 0 then
    st.call (Call.bluetooth_status_handler BLUETOOTH_STATE.BLUETOOTH_ACTIVE)
  else st.call (Call.bluetooth_status_handler BLUETOOTH_STATE.BLUETOOTH_ON)

/-- Function `deamon_status_event_handler`. -/
def deamon_status_event_handler (st : State) (event : EventCode) (packet : List Nat) : State :=
  match event with
  | EventCode.BTSTACK_EVENT_STATE => update_ui_status { st with hci_state := byte_at packet 2 }
  | EventCode.BTSTACK_EVENT_NR_CONNECTIONS_CHANGED =>
    update_ui_status { st with num_connections := byte_at packet 2 }
  | _ => st

/-- Function `daemon_retry_parked`; `retry_mutex` is its static flag, and the
flush call is recorded in the trace. -/
def daemon_retry_parked (st : State) : State :=
  if st.retry_mutex != 0 then st
  else
    { { st with retry_mutex := 1 }.call Call.socket_connection_retry_parked with retry_mutex := 0 }

/-- Inner switch of the `HCI_EVENT_PACKET` case of `daemon_packet_handler`, for
every event but `HCI_EVENT_NUMBER_OF_COMPLETED_PACKETS`: the new state and the
value of the local `connection` when the switch is left.  With a NULL
`connection`, `client_for_connection` finds no client, so
`daemon_add_client_rfcomm_service` returns at once. -/
def daemon_packet_handler_hci_event (st : State) (connection : Option connection_t)
    (event : EventCode) (packet : List Nat) : State × Option connection_t :=
  match event with
  | EventCode.RFCOMM_EVENT_CREDITS => (daemon_retry_parked st, connection)
  | EventCode.RFCOMM_EVENT_OPEN_CHANNEL_COMPLETE =>
    match connection_for_rfcomm_cid st (READ_BT_16 packet 13) with
    | none => (st, none)
    | some c =>
      if byte_at packet 2 != 0 then
        (daemon_remove_client_rfcomm_channel st c (READ_BT_16 packet 13), some c)
      else (daemon_add_client_rfcomm_channel st c (READ_BT_16 packet 13), some c)
  | EventCode.RFCOMM_EVENT_CHANNEL_CLOSED =>
    match connection_for_rfcomm_cid st (READ_BT_16 packet 2) with
    | none => (st, none)
    | some c => (daemon_remove_client_rfcomm_channel st c (READ_BT_16 packet 2), some c)
  | EventCode.RFCOMM_EVENT_SERVICE_REGISTERED =>
    if byte_at packet 2 != 0 then (st, connection)
    else
      match connection with
      | none => (st, none)
      | some c => (daemon_add_client_rfcomm_service st c (byte_at packet 3), some c)
  | EventCode.L2CAP_EVENT_CHANNEL_OPENED =>
    match connection_for_l2cap_cid st (READ_BT_16 packet 13) with
    | none => (st, none)
    | some c =>
      if byte_at packet 2 != 0 then
        (daemon_remove_client_l2cap_channel st c (READ_BT_16 packet 13), some c)
      else (daemon_add_client_l2cap_channel st c (READ_BT_16 packet 13), some c)
  | EventCode.L2CAP_EVENT_CHANNEL_CLOSED =>
    match connection_for_l2cap_cid st (READ_BT_16 packet 2) with
    | none => (st, none)
    | some c => (daemon_remove_client_l2cap_channel st c (READ_BT_16 packet 2), some c)
  | _ => (st, connection)

/-- End of `daemon_packet_handler`, after the switch on `packet_type`. -/
def daemon_packet_handler_send (st : State) (connection : Option connection_t)
    (packet_type : PacketType) (channel : Nat) (packet : List Nat) : State :=
  match connection with
  | some c => st.call (Call.socket_connection_send_packet c packet_type channel packet)
  | none => st.call (Call.socket_connection_send_packet_all packet_type channel packet)

/-- Case `L2CAP_DATA_PACKET` of `daemon_packet_handler` and what follows it: the
handler returns when `connection_for_l2cap_cid (channel)` finds no owner.  The
case `RFCOMM_DATA_PACKET` has the same body in the source. -/
def daemon_packet_handler_l2cap_data (st : State) (packet_type : PacketType) (channel : Nat)
    (packet : List Nat) : State :=
  match connection_for_l2cap_cid st channel with
  | none => st
  | some c => daemon_packet_handler_send st (some c) packet_type channel packet

/-- Case `DAEMON_EVENT_PACKET` of `daemon_packet_handler`; no `break` follows its
inner switch, so control goes on into the case `L2CAP_DATA_PACKET`. -/
def daemon_packet_handler_daemon_event (st : State) (packet_type : PacketType) (channel : Nat)
    (event : EventCode) (packet : List Nat) : State :=
  let st1 :=
    match event with
    | EventCode.DAEMON_EVENT_NEW_RFCOMM_CREDITS => daemon_retry_parked st
    | _ => st
  daemon_packet_handler_l2cap_data st1 packet_type channel packet

/-- Function `daemon_packet_handler`; `event` is the case that `packet[0]`
selects.  No `break` follows the inner switch of the case `HCI_EVENT_PACKET`, so
control goes on into the case `DAEMON_EVENT_PACKET`. -/
def daemon_packet_handler (st : State) (connection : Option connection_t)
    (packet_type : PacketType) (channel : Nat) (event : EventCode) (packet : List Nat) : State :=
  match packet_type with
  | PacketType.HCI_EVENT_PACKET =>
    let st1 := deamon_status_event_handler st event packet
    match event with
    | EventCode.HCI_EVENT_NUMBER_OF_COMPLETED_PACKETS => daemon_retry_parked st1
    | _ =>
      daemon_packet_handler_daemon_event
        (daemon_packet_handler_hci_event st1 connection event packet).1 packet_type channel
        event packet
  | PacketType.DAEMON_EVENT_PACKET =>
    daemon_packet_handler_daemon_event st packet_type channel event packet
  | PacketType.L2CAP_DATA_PACKET => daemon_packet_handler_l2cap_data st packet_type channel packet
  | PacketType.RFCOMM_DATA_PACKET => daemon_packet_handler_l2cap_data st packet_type channel packet
  | _ => daemon_packet_handler_send st connection packet_type channel packet

/-- Functions `l2cap_packet_handler` and `rfcomm_packet_handler`, the entry
points registered with the protocol engines: both pass a NULL connection. -/
def l2cap_packet_handler (st : State) (packet_type : PacketType) (channel : Nat)
    (event : EventCode) (packet : List Nat) : State :=
  daemon_packet_handler st none packet_type channel event packet

/-- Part of `handle_gatt_client_event` that needs an active connection. -/
def handle_gatt_client_event_active (st : State) (gatt_client_helper : gatt_client_helper_t)
    (connection : connection_t) (event : EventCode) (packet : List Nat) : State :=
  let con_handle := READ_BT_16 packet 2
  match event with
  | EventCode.GATT_SERVICE_QUERY_RESULT
  | EventCode.GATT_INCLUDED_SERVICE_QUERY_RESULT
  | EventCode.GATT_CHARACTERISTIC_QUERY_RESULT
  | EventCode.GATT_CHARACTERISTIC_VALUE_QUERY_RESULT
  | EventCode.GATT_CHARACTERISTIC_DESCRIPTOR_QUERY_RESULT
  | EventCode.GATT_ALL_CHARACTERISTIC_DESCRIPTORS_QUERY_RESULT =>
    st.call (Call.socket_connection_send_packet connection PacketType.HCI_EVENT_PACKET 0 packet)
  | EventCode.GATT_LONG_CHARACTERISTIC_VALUE_QUERY_RESULT
  | EventCode.GATT_LONG_CHARACTERISTIC_DESCRIPTOR_QUERY_RESULT =>
    let offset := READ_BT_16 packet 6
    let length := READ_BT_16 packet 8
    st.update_helper con_handle (fun h =>
      { h with
        characteristic_buffer :=
          memcpy (h.characteristic_buffer.set 0 (byte_at packet 0)) (10 + offset) packet 10 length
        characteristic_handle := READ_BT_16 packet 4
        characteristic_length := (offset + length) % 65536 })
  | EventCode.GATT_QUERY_COMPLETE =>
    let st1 := st.update_helper con_handle (fun h => { h with active_connection := none })
    let len := gatt_client_helper.characteristic_length
    let st2 :=
      if len != 0 then
        let header := [(8 + len) % 256] ++ bt_store_16 con_handle
          ++ bt_store_16 gatt_client_helper.characteristic_handle ++ bt_store_16 0
          ++ bt_store_16 len
        let buffer := memcpy gatt_client_helper.characteristic_buffer 1 header 0 9
        (st1.update_helper con_handle (fun h =>
          { h with characteristic_buffer := buffer, characteristic_length := 0 })).call
          (Call.socket_connection_send_packet connection PacketType.HCI_EVENT_PACKET 0
            (buffer.take ((10 + len) % 65536)))
      else st1
    st2.call (Call.socket_connection_send_packet connection PacketType.HCI_EVENT_PACKET 0 packet)
  | _ => st

/-- Function `handle_gatt_client_event`; `event` is the case that `packet[0]`
selects. -/
def handle_gatt_client_event (st : State) (event : EventCode) (packet : List Nat) : State :=
  match event with
  | EventCode.HCI_EVENT_DISCONNECTION_COMPLETE =>
    daemon_remove_gatt_client_helper st (READ_BT_16 packet 3)
  | EventCode.GATT_SERVICE_QUERY_RESULT
  | EventCode.GATT_INCLUDED_SERVICE_QUERY_RESULT
  | EventCode.GATT_NOTIFICATION
  | EventCode.GATT_INDICATION
  | EventCode.GATT_CHARACTERISTIC_QUERY_RESULT
  | EventCode.GATT_ALL_CHARACTERISTIC_DESCRIPTORS_QUERY_RESULT
  | EventCode.GATT_CHARACTERISTIC_DESCRIPTOR_QUERY_RESULT
  | EventCode.GATT_LONG_CHARACTERISTIC_DESCRIPTOR_QUERY_RESULT
  | EventCode.GATT_CHARACTERISTIC_VALUE_QUERY_RESULT
  | EventCode.GATT_LONG_CHARACTERISTIC_VALUE_QUERY_RESULT
  | EventCode.GATT_QUERY_COMPLETE =>
    match daemon_get_gatt_client_helper st (READ_BT_16 packet 2) with
    | none => st
    | some gatt_client_helper =>
      if event == EventCode.GATT_NOTIFICATION || event == EventCode.GATT_INDICATION then
        st.calls (st.clients.map (fun client_state =>
          Call.socket_connection_send_packet client_state.connection
            PacketType.HCI_EVENT_PACKET 0 packet))
      else
        match gatt_client_helper.active_connection with
        | none => st
        | some connection =>
          handle_gatt_client_event_active st gatt_client_helper connection event packet
  | _ => st

/-! ## Long attribute reads -/

/-- Handling of a list of GATT events of one kind, first event first. -/
def handle_gatt_client_events (st : State) (event : EventCode) (packets : List (List Nat)) :
    State :=
  packets.foldl (fun s packet => handle_gatt_client_event s event packet) st

/-- Value bytes of a long-value fragment event: `length` bytes from byte 10 on. -/
def fragment_data (packet : List Nat) : List Nat :=
  bytes_at packet 10 (READ_BT_16 packet 8)

/-- Whether `packets` are fragment events of one long read: each has the type
byte `type_byte`, the connection handle and the attribute handle given, and an
offset field equal to `offset` plus the lengths of the fragments before it. -/
def contiguous_fragments (type_byte con_handle attribute_handle : Nat) :
    Nat → List (List Nat) → Bool
  | _, [] => true
  | offset, packet :: rest =>
    byte_at packet 0 == type_byte && READ_BT_16 packet 2 == con_handle
      && READ_BT_16 packet 4 == attribute_handle && READ_BT_16 packet 6 == offset
      && contiguous_fragments type_byte con_handle attribute_handle
        (offset + READ_BT_16 packet 8) rest

/-- Concatenation of the value bytes of the fragments. -/
def fragments_value : List (List Nat) → List Nat
  | [] => []
  | packet :: rest => fragment_data packet ++ fragments_value rest

/-- Sum of the length fields of the fragments. -/
def fragments_length : List (List Nat) → Nat
  | [] => 0
  | packet :: rest => READ_BT_16 packet 8 + fragments_length rest

/-- Two fragment events of one long read on connection handle 64, attribute
handle 9, type byte 165: offset 0 with 5 value bytes, then offset 5 with 3. -/
def sample_fragments : List (List Nat) :=
  [[165, 13, 64, 0, 9, 0, 0, 0, 5, 0, 10, 11, 12, 13, 14],
   [165, 11, 64, 0, 9, 0, 5, 0, 3, 0, 20, 21, 22]]

/-! ## Runs of the daemon -/

/-- One entry into the daemon from outside: a packet or connection event from
the socket layer (`daemon_client_handler`), a packet from a protocol engine
(`l2cap_packet_handler`, `rfcomm_packet_handler`), a GATT client event
(`handle_gatt_client_event`), the expiry of the power-off timer
(`daemon_no_connections_timeout`) or a power notification
(`power_notification_callback`). -/
inductive Input where
  | client_packet (connection : connection_t) (packet_type : PacketType) (channel : Nat)
      (data : List Nat) (command : Option Opcode) (event : EventCode) (reply : EngineReply)
  | protocol_packet (packet_type : PacketType) (channel : Nat) (event : EventCode)
      (packet : List Nat)
  | gatt_event (event : EventCode) (packet : List Nat)
  | timer_expired
  | power_notification (notification : POWER_NOTIFICATION_t)

/-- The handler that an input enters, applied to the state. -/
def handle_input (K : Constants) (st : State) : Input → State
  | Input.client_packet connection packet_type channel data command event reply =>
    daemon_client_handler K st connection packet_type channel data command event reply
  | Input.protocol_packet packet_type channel event packet =>
    l2cap_packet_handler st packet_type channel event packet
  | Input.gatt_event event packet => handle_gatt_client_event st event packet
  | Input.timer_expired => daemon_no_connections_timeout st
  | Input.power_notification notification => power_notification_callback st notification

/-- States the daemon can be in: the initial values of its globals, with any
outcomes for the coming `malloc` calls, followed by any inputs. -/
inductive Reachable (K : Constants) : State → Prop where
  | init (malloc_results : List Bool) : Reachable K { malloc_results := malloc_results }
  | step (st : State) (input : Input) : Reachable K st → Reachable K (handle_input K st input)

/-- Modelled from the spec: the run loop (`btstack_run_loop.h`) is not among the
sources.  Timers are single-shot: `btstack_run_loop_add_timer` makes one more
entry pending, `btstack_run_loop_remove_timer` takes one pending entry away when
there is one, and an entry that expires is taken away before its callback runs.
This is the number of pending entries of the timer `timeout` after the calls,
`pending` being the number before them. -/
def run_loop_timers (pending : Nat) : List Call → Nat
  | [] => pending
  | Call.btstack_run_loop_add_timer :: calls => run_loop_timers (pending + 1) calls
  | Call.btstack_run_loop_remove_timer :: calls => run_loop_timers (pending - 1) calls
  | _ :: calls => run_loop_timers pending calls

/-- The daemon together with the number of entries of its timer `timeout` that
are pending in the run loop. -/
structure System where
  daemon : State
  timers_pending : Nat

/-- The calls that a handler added when it took the state `st` to `st'`. -/
def new_calls (st st' : State) : List Call :=
  st'.trace.drop st.trace.length

/-- One input to the daemon and its run loop: the timer only expires when an
entry is pending, and that entry is taken away before the callback runs. -/
def System.step (K : Constants) (sys : System) (input : Input) : System :=
  match input with
  | Input.timer_expired =>
    if sys.timers_pending = 0 then sys
    else
      { daemon := handle_input K sys.daemon input
        timers_pending :=
          run_loop_timers (sys.timers_pending - 1)
            (new_calls sys.daemon (handle_input K sys.daemon input)) }
  | _ =>
    { daemon := handle_input K sys.daemon input
      timers_pending :=
        run_loop_timers sys.timers_pending (new_calls sys.daemon (handle_input K sys.daemon input)) }

/-- Systems reached from the start of the daemon, where no timer is pending. -/
inductive System.Reachable (K : Constants) : System → Prop where
  | init (malloc_results : List Bool) :
    System.Reachable K { daemon := { malloc_results := malloc_results }, timers_pending := 0 }
  | step (sys : System) (input : Input) :
    System.Reachable K sys → System.Reachable K (sys.step K input)

/-! ## Timer calls of a handler -/

/-- Whether a call adds or removes a run loop timer. -/
def timer_call : Call → Bool
  | Call.btstack_run_loop_add_timer => true
  | Call.btstack_run_loop_remove_timer => true
  | _ => false

/-- A handler run from `st` to `st'` that leaves `timeout_active` alone and adds
calls to the trace, none of them a timer call. -/
def Quiet (st st' : State) : Prop :=
  st'.timeout_active = st.timeout_active ∧
    ∃ calls, st'.trace = st.trace ++ calls ∧ ∀ x ∈ calls, timer_call x = false

/-- What the daemon keeps true of its timer: at most one entry is pending, and
one is pending only while `timeout_active` is set. -/
def timer_invariant (pending : Nat) (st : State) : Prop :=
  pending ≤ 1 ∧ (pending = 1 → st.timeout_active ≠ 0)

/-- A handler run from `st` to `st'` that adds calls to the trace and keeps the
timer invariant through them. -/
def TimerSafe (st st' : State) : Prop :=
  ∃ calls, st'.trace = st.trace ++ calls ∧
    ∀ n, timer_invariant n st → timer_invariant (run_loop_timers n calls) st'

/-! ## Lists without duplicates -/

/-- No resource list of the session holds a value twice. -/
def client_state_t.no_duplicates (S : client_state_t) : Prop :=
  S.rfcomm_cids.Nodup ∧ S.rfcomm_services.Nodup ∧ S.l2cap_cids.Nodup ∧ S.l2cap_psms.Nodup ∧
    S.sdp_record_handles.Nodup ∧ S.gatt_con_handles.Nodup

/-- No resource list of any session holds a value twice, and no helper holds a
connection twice in `all_connections`. -/
def State.no_duplicates (st : State) : Prop :=
  (∀ S ∈ st.clients, S.no_duplicates) ∧
    ∀ H ∈ st.gatt_client_helpers, H.all_connections.Nodup

/-- The property can be evaluated on a concrete session. -/
instance client_state_t.decidable_no_duplicates (S : client_state_t) :
    Decidable S.no_duplicates := by
  unfold client_state_t.no_duplicates
  infer_instance

/-- The property can be evaluated on a concrete state. -/
instance State.decidable_no_duplicates (st : State) : Decidable st.no_duplicates := by
  unfold State.no_duplicates
  infer_instance

/-! ## Views of a session, frames of a handler, restricted runs -/

/-- The part of a session that the GATT bookkeeping reads: its connection and
`gatt_con_handles`. -/
def gatt_view (s : client_state_t) : connection_t × uint32_list :=
  (s.connection, s.gatt_con_handles)

/-- The part of a session that the classic resource ledger reads: its connection
and the five lists of the classic resources. -/
def ledger_view (s : client_state_t) :
    connection_t × uint32_list × uint32_list × uint32_list × uint32_list × uint32_list :=
  (s.connection, s.rfcomm_cids, s.rfcomm_services, s.l2cap_cids, s.l2cap_psms,
    s.sdp_record_handles)

/-- A handler run from `st` to `st'` that leaves the GATT registry as it is and,
in every session, the connection and `gatt_con_handles`. -/
def LedgerOnly (st st' : State) : Prop :=
  st'.gatt_client_helpers = st.gatt_client_helpers ∧
    st'.clients.map gatt_view = st.clients.map gatt_view

/-- A handler run from `st` to `st'` that leaves, in every session, the
connection and the five lists of the classic resources as they are. -/
def GattOnly (st st' : State) : Prop :=
  st'.clients.map ledger_view = st.clients.map ledger_view

/-- The commands that go through `daemon_setup_gatt_client_request`. -/
def Opcode.uses_gatt_helper : Opcode → Bool
  | Opcode.GATT_DISCOVER_ALL_PRIMARY_SERVICES
  | Opcode.GATT_DISCOVER_PRIMARY_SERVICES_BY_UUID16
  | Opcode.GATT_DISCOVER_PRIMARY_SERVICES_BY_UUID128
  | Opcode.GATT_FIND_INCLUDED_SERVICES_FOR_SERVICE
  | Opcode.GATT_DISCOVER_CHARACTERISTICS_FOR_SERVICE
  | Opcode.GATT_DISCOVER_CHARACTERISTICS_FOR_SERVICE_BY_UUID128
  | Opcode.GATT_DISCOVER_CHARACTERISTIC_DESCRIPTORS
  | Opcode.GATT_READ_VALUE_OF_CHARACTERISTIC
  | Opcode.GATT_READ_LONG_VALUE_OF_CHARACTERISTIC
  | Opcode.GATT_READ_CHARACTERISTIC_DESCRIPTOR
  | Opcode.GATT_READ_LONG_CHARACTERISTIC_DESCRIPTOR
  | Opcode.GATT_WRITE_CHARACTERISTIC_DESCRIPTOR
  | Opcode.GATT_WRITE_LONG_CHARACTERISTIC_DESCRIPTOR
  | Opcode.GATT_WRITE_CLIENT_CHARACTERISTIC_CONFIGURATION
  | Opcode.GATT_WRITE_VALUE_OF_CHARACTERISTIC_WITHOUT_RESPONSE
  | Opcode.GATT_WRITE_VALUE_OF_CHARACTERISTIC
  | Opcode.GATT_WRITE_LONG_VALUE_OF_CHARACTERISTIC
  | Opcode.GATT_RELIABLE_WRITE_LONG_VALUE_OF_CHARACTERISTIC => true
  | _ => false

/-- The commands that add to or remove from a list of classic resources. -/
def Opcode.changes_ledger : Opcode → Bool
  | Opcode.L2CAP_CREATE_CHANNEL_MTU
  | Opcode.L2CAP_CREATE_CHANNEL
  | Opcode.L2CAP_REGISTER_SERVICE
  | Opcode.L2CAP_UNREGISTER_SERVICE
  | Opcode.RFCOMM_CREATE_CHANNEL
  | Opcode.RFCOMM_CREATE_CHANNEL_WITH_CREDITS
  | Opcode.RFCOMM_UNREGISTER_SERVICE
  | Opcode.SDP_REGISTER_SERVICE_RECORD
  | Opcode.SDP_UNREGISTER_SERVICE_RECORD => true
  | _ => false

/-- No two helpers of the registry have the same connection handle. -/
def State.helpers_distinct (st : State) : Prop :=
  (st.gatt_client_helpers.map (fun H => H.con_handle)).Nodup

/-- The property can be evaluated on a concrete state. -/
instance State.decidable_helpers_distinct (st : State) : Decidable st.helpers_distinct := by
  unfold State.helpers_distinct
  infer_instance

/-- No two sessions of the table have the same connection. -/
def State.sessions_distinct (st : State) : Prop :=
  (st.clients.map (fun s => s.connection)).Nodup

/-- The property can be evaluated on a concrete state. -/
instance State.decidable_sessions_distinct (st : State) : Decidable st.sessions_distinct := by
  unfold State.sessions_distinct
  infer_instance

/-- States the daemon can be in when every input satisfies the condition
`allowed` in the state it arrives in. -/
inductive ReachableWith (K : Constants) (allowed : State → Input → Prop) : State → Prop where
  | init (malloc_results : List Bool) :
    ReachableWith K allowed { malloc_results := malloc_results }
  | step (st : State) (input : Input) :
    ReachableWith K allowed st → allowed st input →
      ReachableWith K allowed (handle_input K st input)

/-- Condition on an input: a `DAEMON_EVENT_CONNECTION_OPENED` event carries a
connection that has no session in the table. -/
def opens_new_connection (st : State) : Input → Prop
  | Input.client_packet connection PacketType.DAEMON_EVENT_PACKET _ _ _
      EventCode.DAEMON_EVENT_CONNECTION_OPENED _ => client_for_connection st connection = none
  | _ => True

/-! ## Links between helpers and sessions -/

/-- Whether the session found for `connection` holds `handle` in its
`gatt_con_handles`. -/
def State.gatt_link (st : State) (connection : connection_t) (handle : Nat) : Bool :=
  match client_for_connection st connection with
  | some client_state => client_state.gatt_con_handles.contains handle
  | none => false

/-- The connections a helper refers to: its active owner and the entries of
`all_connections`. -/
def gatt_client_helper_t.connections (H : gatt_client_helper_t) : List connection_t :=
  H.active_connection.toList ++ H.all_connections

/-- Every connection that a helper refers to has a session, and that session
holds the helper's handle in `gatt_con_handles`. -/
def State.gatt_linked (st : State) : Prop :=
  ∀ H ∈ st.gatt_client_helpers, ∀ c ∈ H.connections, st.gatt_link c H.con_handle = true

/-- The property can be evaluated on a concrete state. -/
instance State.decidable_gatt_linked (st : State) : Decidable st.gatt_linked := by
  unfold State.gatt_linked
  infer_instance

/-- Condition on an input, a property of the socket layer and of the allocator:
a `DAEMON_EVENT_CONNECTION_OPENED` event carries a connection that has no
session in the table; a command that goes through
`daemon_setup_gatt_client_request` comes from a connection that has a session,
and every `malloc` still to come succeeds. -/
def gatt_environment (st : State) : Input → Prop
  | Input.client_packet connection PacketType.DAEMON_EVENT_PACKET _ _ _
      EventCode.DAEMON_EVENT_CONNECTION_OPENED _ => client_for_connection st connection = none
  | Input.client_packet connection PacketType.HCI_COMMAND_DATA_PACKET _ _ (some opcode) _ _ =>
    opcode.uses_gatt_helper = true →
      (client_for_connection st connection).isSome = true ∧ ∀ b ∈ st.malloc_results, b = true
  | _ => True

/-- Whether an input is a command that goes through
`daemon_setup_gatt_client_request` with connection handle `handle`. -/
def Input.requests_gatt (handle : Nat) : Input → Bool
  | Input.client_packet _ PacketType.HCI_COMMAND_DATA_PACKET _ data (some opcode) _ _ =>
    opcode.uses_gatt_helper && READ_BT_16 data 3 == handle
  | _ => false

/-- The daemon after the inputs of a list, first input first. -/
def handle_inputs (K : Constants) (st : State) (inputs : List Input) : State :=
  inputs.foldl (handle_input K) st

/-- No helper with connection handle `handle` has an active owner. -/
def State.no_owner (st : State) (handle : Nat) : Prop :=
  ∀ H ∈ st.gatt_client_helpers, H.con_handle = handle → H.active_connection = none

/-- The property can be evaluated on a concrete state. -/
instance State.decidable_no_owner (st : State) (handle : Nat) : Decidable (st.no_owner handle) := by
  unfold State.no_owner
  infer_instance

/-- From the registry `old` to the registry `new` no helper with connection
handle `handle` got an active owner: each one has none, or the one that a
helper with this handle had in `old`. -/
def no_new_owner (handle : Nat) (old new : List gatt_client_helper_t) : Prop :=
  ∀ H' ∈ new, H'.con_handle = handle →
    H'.active_connection = none ∨
      ∃ H ∈ old, H.con_handle = handle ∧ H'.active_connection = H.active_connection

/-! ## Holders of a resource identifier -/

/-- The kinds of classic resource of which a session keeps a list. -/
inductive ResourceKind where
  | rfcomm_cid
  | rfcomm_service
  | l2cap_cid
  | l2cap_psm
  | sdp_record_handle
deriving DecidableEq, Repr

/-- The list that a session keeps for a kind of resource. -/
def ResourceKind.list : ResourceKind → client_state_t → uint32_list
  | ResourceKind.rfcomm_cid, s => s.rfcomm_cids
  | ResourceKind.rfcomm_service, s => s.rfcomm_services
  | ResourceKind.l2cap_cid, s => s.l2cap_cids
  | ResourceKind.l2cap_psm, s => s.l2cap_psms
  | ResourceKind.sdp_record_handle, s => s.sdp_record_handles

/-- Number of sessions of the table whose list of kind `kind` holds `value`. -/
def State.holders (st : State) (kind : ResourceKind) (value : Nat) : Nat :=
  st.clients.countP (fun s => (kind.list s).contains value)

/-- Every identifier of every kind but the L2CAP PSM is held by at most one
session. -/
def State.ledger_disjoint (st : State) : Prop :=
  ∀ kind, kind ≠ ResourceKind.l2cap_psm → ∀ value, st.holders kind value ≤ 1

/-- Condition on an input, a property of the socket layer and of the protocol
engines: a `DAEMON_EVENT_CONNECTION_OPENED` event carries a connection that has
no session in the table, and the channel id or record handle with which an
engine answers a create-channel or register-record command with status 0 is
held by no session. -/
def ledger_environment (st : State) : Input → Prop
  | Input.client_packet connection PacketType.DAEMON_EVENT_PACKET _ _ _
      EventCode.DAEMON_EVENT_CONNECTION_OPENED _ => client_for_connection st connection = none
  | Input.client_packet _ PacketType.HCI_COMMAND_DATA_PACKET _ _ (some opcode) _ reply =>
    reply.status = 0 →
      match opcode with
      | Opcode.L2CAP_CREATE_CHANNEL_MTU
      | Opcode.L2CAP_CREATE_CHANNEL => st.holders ResourceKind.l2cap_cid reply.cid = 0
      | Opcode.RFCOMM_CREATE_CHANNEL
      | Opcode.RFCOMM_CREATE_CHANNEL_WITH_CREDITS =>
        st.holders ResourceKind.rfcomm_cid reply.cid = 0
      | Opcode.SDP_REGISTER_SERVICE_RECORD =>
        st.holders ResourceKind.sdp_record_handle reply.record_handle = 0
      | _ => True
  | _ => True

/-! ## Registered GATT handles -/

/-- Every connection handle that a session holds in `gatt_con_handles` has a
helper in the registry, and `all_connections` of that helper holds the
connection of the session. -/
def State.gatt_registered (st : State) : Prop :=
  ∀ S ∈ st.clients, ∀ h ∈ S.gatt_con_handles,
    ∃ H ∈ st.gatt_client_helpers, H.con_handle = h ∧ S.connection ∈ H.all_connections

/-- The property can be evaluated on a concrete state. -/
instance State.decidable_gatt_registered (st : State) : Decidable st.gatt_registered := by
  unfold State.gatt_registered
  infer_instance

/-- From the registry `old` to the registry `new` every helper keeps its handle
and the entries of `all_connections`. -/
def helpers_grow (old new : List gatt_client_helper_t) : Prop :=
  ∀ H ∈ old, ∃ H' ∈ new, H'.con_handle = H.con_handle ∧
    ∀ c ∈ H.all_connections, c ∈ H'.all_connections

/-! ## Serialized GATT characteristics -/

/-- Record `le_characteristic_t` with the fields that
`daemon_gatt_deserialize_characteristic` and
`daemon_gatt_serialize_characteristic` access; the 16-bit fields are numbers
and `uuid128` is the list of its 16 bytes. -/
structure le_characteristic_t where
  start_handle : Nat := 0
  value_handle : Nat := 0
  end_handle : Nat := 0
  properties : Nat := 0
  uuid16 : Nat := 0
  uuid128 : List Nat := []
deriving DecidableEq, Repr

/-- Function `daemon_gatt_deserialize_characteristic`.  The function `swap128`,
which is not among the sources, is a parameter: it gives the 16 bytes stored
for the 16 bytes read. -/
def daemon_gatt_deserialize_characteristic (swap128 : List Nat → List Nat) (packet : List Nat)
    (offset : Nat) : le_characteristic_t :=
  { start_handle := READ_BT_16 packet offset
    value_handle := READ_BT_16 packet (offset + 2)
    end_handle := READ_BT_16 packet (offset + 4)
    properties := READ_BT_16 packet (offset + 6)
    uuid16 := READ_BT_16 packet (offset + 8)
    uuid128 := swap128 (bytes_at packet (offset + 10) 16) }

/-- Function `daemon_gatt_serialize_characteristic`: the buffer `event` after
the stores.  The function `swap128` is a parameter as in
`daemon_gatt_deserialize_characteristic`. -/
def daemon_gatt_serialize_characteristic (swap128 : List Nat → List Nat)
    (characteristic : le_characteristic_t) (event : List Nat) (offset : Nat) : List Nat :=
  let event1 := memcpy event offset (bt_store_16 characteristic.start_handle) 0 2
  let event2 := memcpy event1 (offset + 2) (bt_store_16 characteristic.value_handle) 0 2
  let event3 := memcpy event2 (offset + 4) (bt_store_16 characteristic.end_handle) 0 2
  let event4 := memcpy event3 (offset + 6) (bt_store_16 characteristic.properties) 0 2
  memcpy event4 (offset + 8) (swap128 (bytes_at characteristic.uuid128 0 16)) 0 16

/-! ## Re-entrant runs of daemon_retry_parked -/

/-- A run of `daemon_retry_parked` in which `socket_connection_retry_parked`
may call back into the daemon: the daemon, the number of invocations of
`socket_connection_retry_parked` that are in progress, and whether an
invocation was ever entered while another one was in progress. -/
structure RetryRun where
  daemon : State
  running : Nat := 0
  overlapped : Bool := false

/-- A step that may fail to finish, done `n` times in a row. -/
def repeat_callbacks (step : RetryRun → Option RetryRun) : Nat → RetryRun → Option RetryRun
  | 0, r => some r
  | n + 1, r => (step r).bind (repeat_callbacks step n)

/-- Function `daemon_retry_parked` with the behaviour of the external call
`socket_connection_retry_parked` as a parameter: an invocation entered when the
daemon is in state `st` calls back into `daemon_retry_parked` `behaviour st`
times before it returns.  The depth of the calls is bounded by `fuel`; the
result is `none` when the bound is reached. -/
def daemon_retry_parked_run (behaviour : State → Nat) : Nat → RetryRun → Option RetryRun
  | 0, _ => none
  | fuel + 1, r =>
    if r.daemon.retry_mutex != 0 then some r
    else
      let locked : State := { r.daemon with retry_mutex := 1 }
      let entered : RetryRun :=
        { daemon := locked.call Call.socket_connection_retry_parked
          running := r.running + 1
          overlapped := r.overlapped || r.running != 0 }
      match repeat_callbacks (daemon_retry_parked_run behaviour fuel) (behaviour locked)
          entered with
      | none => none
      | some returned =>
        some { daemon := { returned.daemon with retry_mutex := 0 }
               running := returned.running - 1
               overlapped := returned.overlapped }

/-- A handler run from `st` to `st'` that leaves the flag `retry_mutex` of
`daemon_retry_parked` as it is. -/
def MutexKept (st st' : State) : Prop :=
  st'.retry_mutex = st.retry_mutex

/-! ## Inputs of connected sessions -/

/-- Condition on an input that leaves connect events free: every command comes
from a connection that has a session in the table, and no allocation fails
from this input on. -/
def connected_environment (st : State) : Input → Prop
  | Input.client_packet connection PacketType.HCI_COMMAND_DATA_PACKET _ _ _ _ _ =>
    (client_for_connection st connection).isSome = true ∧ ∀ b ∈ st.malloc_results, b = true
  | _ => ∀ b ∈ st.malloc_results, b = true

/-! ## Concrete inputs used to evaluate the handlers -/

/-- A table of constants for evaluating the handlers on concrete inputs. -/
def sample_constants : Constants :=
  { L2CAP_EVENT_CHANNEL_OPENED := 112
    L2CAP_EVENT_SERVICE_REGISTERED := 117
    RFCOMM_EVENT_OPEN_CHANNEL_COMPLETE := 128
    RFCOMM_EVENT_SERVICE_REGISTERED := 133
    RFCOMM_EVENT_PERSISTENT_CHANNEL := 134
    SDP_SERVICE_REGISTERED := 144
    GATT_QUERY_COMPLETE := 160
    GATT_MTU := 171
    GATT_CLIENT_NOT_CONNECTED := 147
    GATT_CLIENT_BUSY := 148
    BTSTACK_MEMORY_ALLOC_FAILED := 86 }

/-- Two sessions, connections 1 and 2, both asking for discoverability and
neither for power. -/
def two_discoverable_clients : State :=
  { clients := [{ connection := 1, discoverable := 1 }, { connection := 2, discoverable := 1 }] }

/-- One session on connection 1 in mode OFF, the power-off timer pending. -/
def one_idle_client : State :=
  { clients := [{ connection := 1 }], timeout_active := 1 }

/-- Two sessions on connections 1 and 2; the first holds one resource of each
classic kind. -/
def client_with_resources : State :=
  { clients :=
      [{ connection := 1, rfcomm_cids := [5], rfcomm_services := [3], l2cap_cids := [64],
         l2cap_psms := [4097], sdp_record_handles := [65537], power_mode := 1 },
       { connection := 2, l2cap_cids := [65] }] }

/-- The state reached from the empty daemon when connections 1 and 2 open and
each sends `L2CAP_CREATE_CHANNEL`, the engine answering both with status 0 and
channel id 64. -/
def shared_cid_clients : State :=
  let opened (st : State) (connection : connection_t) : State :=
    daemon_client_handler sample_constants st connection PacketType.DAEMON_EVENT_PACKET 0 []
      none EventCode.DAEMON_EVENT_CONNECTION_OPENED {}
  let create (st : State) (connection : connection_t) : State :=
    daemon_client_handler sample_constants st connection PacketType.HCI_COMMAND_DATA_PACKET 0 []
      (some Opcode.L2CAP_CREATE_CHANNEL) EventCode.other { status := 0, cid := 64 }
  create (create (opened (opened {} 1) 2) 1) 2

/-- The state reached from the empty daemon when connection 1 opens, sends
`RFCOMM_REGISTER_SERVICE` for channel 3 (the engine answers with status 0), the
engine reports `RFCOMM_EVENT_SERVICE_REGISTERED` with status 0 for channel 3
through `rfcomm_packet_handler`, and connection 1 closes. -/
def register_rfcomm_service_then_disconnect : State :=
  let st1 := daemon_client_handler sample_constants {} 1 PacketType.DAEMON_EVENT_PACKET 0 []
    none EventCode.DAEMON_EVENT_CONNECTION_OPENED {}
  let st2 := daemon_client_handler sample_constants st1 1 PacketType.HCI_COMMAND_DATA_PACKET 0
    [0, 0, 3, 3, 100, 0] (some Opcode.RFCOMM_REGISTER_SERVICE) EventCode.other { status := 0 }
  let st3 := l2cap_packet_handler st2 PacketType.HCI_EVENT_PACKET 0
    EventCode.RFCOMM_EVENT_SERVICE_REGISTERED [133, 2, 0, 3]
  daemon_client_handler sample_constants st3 1 PacketType.DAEMON_EVENT_PACKET 0 []
    none EventCode.DAEMON_EVENT_CONNECTION_CLOSED {}

/-- A session on connection 1 in mode ON that asks for discoverability. -/
def session_on : client_state_t :=
  { connection := 1, power_mode := HCI_POWER_ON, discoverable := 1 }

/-- A session on connection 2 in mode OFF. -/
def session_off : client_state_t :=
  { connection := 2 }

/-- The sessions `session_on` and `session_off`, no override, no timer pending. -/
def on_and_off_clients : State :=
  { clients := [session_on, session_off] }

/-- A helper for connection handle 64 whose active owner is connection 1. -/
def busy_helper : gatt_client_helper_t :=
  { con_handle := 64, active_connection := some 1, all_connections := [1] }

/-- Sessions on connections 1 and 2 and the helper `busy_helper`. -/
def busy_helper_state : State :=
  { clients := [{ connection := 1, gatt_con_handles := [64] }, { connection := 2 }]
    gatt_client_helpers := [busy_helper] }

/-- The system after connection 1 is opened and closed again: the close finds
no session that needs power and arms the power-off timer. -/
def opened_then_closed : System :=
  (System.step sample_constants
    (System.step sample_constants { daemon := { malloc_results := [] }, timers_pending := 0 }
      (Input.client_packet 1 PacketType.DAEMON_EVENT_PACKET 0 [] none
        EventCode.DAEMON_EVENT_CONNECTION_OPENED {}))
    (Input.client_packet 1 PacketType.DAEMON_EVENT_PACKET 0 [] none
      EventCode.DAEMON_EVENT_CONNECTION_CLOSED {}))

/-- The daemon after connection 1 is opened, every allocation succeeding. -/
def one_connected_client : State :=
  handle_input sample_constants { malloc_results := [] }
    (Input.client_packet 1 PacketType.DAEMON_EVENT_PACKET 0 [] none
      EventCode.DAEMON_EVENT_CONNECTION_OPENED {})

/-- The daemon after connection 1 is opened and its `L2CAP_CREATE_CHANNEL`
command is answered by the engine with status 0 and channel id 64. -/
def one_l2cap_channel : State :=
  handle_input sample_constants one_connected_client
    (Input.client_packet 1 PacketType.HCI_COMMAND_DATA_PACKET 0 [0, 0, 8, 1, 2, 3, 4, 5, 6, 1, 16]
      (some Opcode.L2CAP_CREATE_CHANNEL) EventCode.other { status := 0, cid := 64 })

/-- The daemon after connection 1 is opened and its `RFCOMM_CREATE_CHANNEL`
command is answered by the engine with status 0 and channel id 5. -/
def one_rfcomm_channel : State :=
  handle_input sample_constants one_connected_client
    (Input.client_packet 1 PacketType.HCI_COMMAND_DATA_PACKET 0 [0, 0, 7, 1, 2, 3, 4, 5, 6, 3]
      (some Opcode.RFCOMM_CREATE_CHANNEL) EventCode.other { status := 0, cid := 5 })

/-- The session of connection 1 in `one_l2cap_channel`. -/
def session_with_l2cap_channel : client_state_t :=
  { connection := 1, l2cap_cids := [64], power_mode := HCI_POWER_OFF, discoverable := 0 }

/-- The daemon after connection 1 is opened and sends a read request for
connection handle 64, whose link is open. -/
def one_gatt_request : State :=
  handle_input sample_constants one_connected_client
    (Input.client_packet 1 PacketType.HCI_COMMAND_DATA_PACKET 0 [0, 0, 2, 64, 0]
      (some Opcode.GATT_READ_VALUE_OF_CHARACTERISTIC) EventCode.other { hci_con_open := true })

/-- The daemon after `DAEMON_EVENT_CONNECTION_OPENED` arrives twice for
connection 1. -/
def opened_twice : State :=
  handle_input sample_constants one_connected_client
    (Input.client_packet 1 PacketType.DAEMON_EVENT_PACKET 0 [] none
      EventCode.DAEMON_EVENT_CONNECTION_OPENED {})

/-- The daemon after connection 1 is opened, closed and opened again. -/
def reopened : State :=
  handle_input sample_constants
    (handle_input sample_constants one_connected_client
      (Input.client_packet 1 PacketType.DAEMON_EVENT_PACKET 0 [] none
        EventCode.DAEMON_EVENT_CONNECTION_CLOSED {}))
    (Input.client_packet 1 PacketType.DAEMON_EVENT_PACKET 0 [] none
      EventCode.DAEMON_EVENT_CONNECTION_OPENED {})

/-- The daemon after connections 1 and 2 are opened and each sends
`L2CAP_REGISTER_SERVICE` for PSM 4097; the engine answers the second command
with status 1. -/
def two_psm_sessions : State :=
  handle_input sample_constants
    (handle_input sample_constants
      (handle_input sample_constants one_connected_client
        (Input.client_packet 2 PacketType.DAEMON_EVENT_PACKET 0 [] none
          EventCode.DAEMON_EVENT_CONNECTION_OPENED {}))
      (Input.client_packet 1 PacketType.HCI_COMMAND_DATA_PACKET 0 [0, 0, 4, 1, 16, 0, 4]
        (some Opcode.L2CAP_REGISTER_SERVICE) EventCode.other {}))
    (Input.client_packet 2 PacketType.HCI_COMMAND_DATA_PACKET 0 [0, 0, 4, 1, 16, 0, 4]
      (some Opcode.L2CAP_REGISTER_SERVICE) EventCode.other { status := 1 })

/-- The daemon after connection 1 opens L2CAP channel 64, connection 2 is
opened and opens L2CAP channel 65. -/
def two_l2cap_channels : State :=
  handle_input sample_constants
    (handle_input sample_constants one_l2cap_channel
      (Input.client_packet 2 PacketType.DAEMON_EVENT_PACKET 0 [] none
        EventCode.DAEMON_EVENT_CONNECTION_OPENED {}))
    (Input.client_packet 2 PacketType.HCI_COMMAND_DATA_PACKET 0
      [0, 0, 8, 1, 2, 3, 4, 5, 6, 1, 16] (some Opcode.L2CAP_CREATE_CHANNEL) EventCode.other
      { status := 0, cid := 65 })

/-- A helper of connection handle 64 whose long read for connection 1 has
gathered 300 bytes. -/
def long_read_helper : gatt_client_helper_t :=
  { con_handle := 64, active_connection := some 1, all_connections := [1],
    characteristic_length := 300, characteristic_handle := 9 }

/-- The daemon with one session on connection 1 and the helper
`long_read_helper`. -/
def long_read_state : State :=
  { clients := [{ connection := 1, gatt_con_handles := [64] }],
    gatt_client_helpers := [long_read_helper] }

/-- A characteristic with handles 1, 2, 3, properties 4 and the UUID bytes
1 to 16. -/
def sample_characteristic : le_characteristic_t :=
  { start_handle := 1, value_handle := 2, end_handle := 3, properties := 4,
    uuid128 := [1, 2, 3, 4, 5, 6, 7, 8, 9, 10, 11, 12, 13, 14, 15, 16] }

/-- The daemon after connection 1 opened and sent one GATT read for connection
handle 64, when the allocation of the entry for `gatt_con_handles` fails: the
third allocation, after those of the session and of the helper. -/
def unrecorded_gatt_request : State :=
  handle_input sample_constants
    (handle_input sample_constants { malloc_results := [true, true, false] }
      (Input.client_packet 1 PacketType.DAEMON_EVENT_PACKET 0 [] none
        EventCode.DAEMON_EVENT_CONNECTION_OPENED {}))
    (Input.client_packet 1 PacketType.HCI_COMMAND_DATA_PACKET 0 [0, 0, 2, 64, 0]
      (some Opcode.GATT_READ_VALUE_OF_CHARACTERISTIC) EventCode.other { hci_con_open := true })

/-- The daemon after connection 1 opened, sent one GATT read for connection
handle 64, and `DAEMON_EVENT_CONNECTION_OPENED` arrived for connection 1 once
more. -/
def gatt_request_then_reopened : State :=
  handle_input sample_constants one_gatt_request
    (Input.client_packet 1 PacketType.DAEMON_EVENT_PACKET 0 [] none
      EventCode.DAEMON_EVENT_CONNECTION_OPENED {})

/-- The daemon after a GATT read for connection handle 64 arrived from
connection 1 while it had no session, and connection 1 opened afterwards. -/
def gatt_request_before_open : State :=
  handle_input sample_constants
    (handle_input sample_constants { malloc_results := [] }
      (Input.client_packet 1 PacketType.HCI_COMMAND_DATA_PACKET 0 [0, 0, 2, 64, 0]
        (some Opcode.GATT_READ_VALUE_OF_CHARACTERISTIC) EventCode.other { hci_con_open := true }))
    (Input.client_packet 1 PacketType.DAEMON_EVENT_PACKET 0 [] none
      EventCode.DAEMON_EVENT_CONNECTION_OPENED {})

/-- The daemon in state `st` after `DAEMON_EVENT_CONNECTION_CLOSED` for
connection 1. -/
def connection_1_closed (st : State) : State :=
  handle_input sample_constants st
    (Input.client_packet 1 PacketType.DAEMON_EVENT_PACKET 0 [] none
      EventCode.DAEMON_EVENT_CONNECTION_CLOSED {})

/-! ## Theorems -/

theorem mem_add_uint32_to_list (list : uint32_list) (value v : Nat) :
    v ∈ add_uint32_to_list list value true ↔ v = value ∨ v ∈ list := by
  unfold add_uint32_to_list
  by_cases h : value ∈ list
  · have hc : list.contains value = true := by simpa using h
    simp only [hc, if_true]
    constructor
    · exact Or.inr
    · rintro (rfl | hv)
      · exact h
      · exact hv
  · simp [h]

theorem mem_remove_and_free_uint32_from_list (list : uint32_list) (value v : Nat) :
    v ∈ remove_and_free_uint32_from_list list value ↔ v ∈ list ∧ v ≠ value := by
  simp [remove_and_free_uint32_from_list]

theorem mem_run_calls (v : Nat) (calls : List ListCall) (list : uint32_list) :
    v ∈ run_calls calls list ↔
      (v ∈ list ∧ ListCall.remove v ∉ calls) ∨
      ∃ before after, calls = before ++ ListCall.add v :: after ∧ ListCall.remove v ∉ after := by
  induction calls generalizing list with
  | nil => simp [run_calls]
  | cons call rest ih =>
    have step : run_calls (call :: rest) list = run_calls rest (ListCall.run list call) := rfl
    rw [step, ih]
    constructor
    · rintro (⟨hv, hrest⟩ | ⟨before, after, rfl, hafter⟩)
      · cases call with
        | add value =>
          rcases (mem_add_uint32_to_list list value v).1 hv with rfl | hl
          · exact Or.inr ⟨[], rest, rfl, hrest⟩
          · exact Or.inl ⟨hl, by simpa using hrest⟩
        | remove value =>
          obtain ⟨hl, hne⟩ := (mem_remove_and_free_uint32_from_list list value v).1 hv
          refine Or.inl ⟨hl, ?_⟩
          simp only [List.mem_cons, not_or]
          exact ⟨fun h => hne (by injection h), hrest⟩
      · exact Or.inr ⟨call :: before, after, rfl, hafter⟩
    · rintro (⟨hv, hcalls⟩ | ⟨before, after, heq, hafter⟩)
      · simp only [List.mem_cons, not_or] at hcalls
        refine Or.inl ⟨?_, hcalls.2⟩
        cases call with
        | add value => exact (mem_add_uint32_to_list list value v).2 (Or.inr hv)
        | remove value =>
          refine (mem_remove_and_free_uint32_from_list list value v).2 ⟨hv, ?_⟩
          rintro rfl
          exact hcalls.1 rfl
      · cases before with
        | nil =>
          simp only [List.nil_append, List.cons.injEq] at heq
          obtain ⟨rfl, rfl⟩ := heq
          exact Or.inl ⟨(mem_add_uint32_to_list list v v).2 (Or.inl rfl), hafter⟩
        | cons b before =>
          simp only [List.cons_append, List.cons.injEq] at heq
          obtain ⟨rfl, rfl⟩ := heq
          exact Or.inr ⟨before, after, rfl, hafter⟩

/-- C1: after any sequence of `add_uint32_to_list` / `remove_and_free_uint32_from_list`
calls on an empty list (allocation succeeding), `v` is in the list exactly when
the sequence holds an add of `v` with no remove of `v` after it; adding a value
already present and removing an absent value both leave the list as it was. -/
theorem C1_list_holds_added_not_removed (v : Nat) (calls : List ListCall) (list : uint32_list) :
    (v ∈ run_calls calls [] ↔
      ∃ before after, calls = before ++ ListCall.add v :: after ∧ ListCall.remove v ∉ after) ∧
    (v ∈ list → add_uint32_to_list list v true = list) ∧
    (v ∉ list → remove_and_free_uint32_from_list list v = list) := by
  refine ⟨?_, ?_, ?_⟩
  · rw [mem_run_calls]; simp
  · intro hv
    simp [add_uint32_to_list, hv]
  · intro hv
    simp only [remove_and_free_uint32_from_list, List.filter_eq_self]
    intro a ha
    simp only [bne_iff_ne, ne_eq]
    rintro rfl
    exact hv ha

/-! ### Owner lookup -/

theorem find_owner_isSome (clients : List client_state_t) (get : client_state_t → uint32_list)
    (cid : Nat) :
    ((clients.find? (fun s => (get s).contains cid)).map (fun s => s.connection)).isSome = true ↔
      ∃ s ∈ clients, cid ∈ get s := by
  simp

theorem find_owner_some (clients : List client_state_t) (get : client_state_t → uint32_list)
    (cid : Nat) (c : connection_t)
    (h : (clients.find? (fun s => (get s).contains cid)).map (fun s => s.connection) = some c) :
    ∃ s ∈ clients, s.connection = c ∧ cid ∈ get s := by
  rw [Option.map_eq_some'] at h
  obtain ⟨s, hs, rfl⟩ := h
  refine ⟨s, List.mem_of_find?_eq_some hs, rfl, ?_⟩
  simpa using List.find?_some hs

/-- C2: `connection_for_l2cap_cid` returns a connection exactly when some
session's `l2cap_cids` holds the cid, and the connection returned is that of a
session whose `l2cap_cids` holds it; the same for `connection_for_rfcomm_cid`
and `rfcomm_cids`. -/
theorem C2_owner_lookup_finds_a_holder (st : State) (cid : Nat) :
    ((connection_for_l2cap_cid st cid).isSome = true ↔ ∃ s ∈ st.clients, cid ∈ s.l2cap_cids) ∧
    (∀ c, connection_for_l2cap_cid st cid = some c →
      ∃ s ∈ st.clients, s.connection = c ∧ cid ∈ s.l2cap_cids) ∧
    ((connection_for_rfcomm_cid st cid).isSome = true ↔ ∃ s ∈ st.clients, cid ∈ s.rfcomm_cids) ∧
    (∀ c, connection_for_rfcomm_cid st cid = some c →
      ∃ s ∈ st.clients, s.connection = c ∧ cid ∈ s.rfcomm_cids) :=
  ⟨find_owner_isSome st.clients (fun s => s.l2cap_cids) cid,
   fun c h => find_owner_some st.clients (fun s => s.l2cap_cids) cid c h,
   find_owner_isSome st.clients (fun s => s.rfcomm_cids) cid,
   fun c h => find_owner_some st.clients (fun s => s.rfcomm_cids) cid c h⟩

/-! ### Arbiter queries -/

theorem clients_require_power_on_ne_zero (st : State) :
    clients_require_power_on st ≠ 0 ↔
      st.global_enable ≠ 0 ∨ ∃ s ∈ st.clients, s.power_mode = HCI_POWER_ON := by
  unfold clients_require_power_on
  by_cases hg : st.global_enable = 0
  · by_cases ha : st.clients.any (fun client_state => client_state.power_mode == HCI_POWER_ON) = true
    · have hex := ha
      rw [List.any_eq_true] at hex
      simp only [hg, bne_self_eq_false, Bool.false_eq_true, if_false, ha, if_true, ne_eq,
        one_ne_zero, not_false_eq_true, not_true_eq_false, false_or, true_iff]
      obtain ⟨s, hs, hp⟩ := hex
      exact ⟨s, hs, by simpa using hp⟩
    · have hex := ha
      rw [List.any_eq_true] at hex
      simp only [hg, bne_self_eq_false, Bool.false_eq_true, if_false, ha, ne_eq,
        not_true_eq_false, false_or, false_iff]
      rintro ⟨s, hs, hp⟩
      exact hex ⟨s, hs, by simpa using hp⟩
  · simp [hg]

theorem clients_require_discoverable_ne_zero (st : State) :
    clients_require_discoverable st ≠ 0 ↔ ∃ s ∈ st.clients, s.discoverable ≠ 0 := by
  unfold clients_require_discoverable
  by_cases ha : st.clients.any (fun client_state => client_state.discoverable != 0) = true
  · have hex := ha
    rw [List.any_eq_true] at hex
    simp only [ha, if_true, ne_eq, one_ne_zero, not_false_eq_true, true_iff]
    obtain ⟨s, hs, hp⟩ := hex
    exact ⟨s, hs, by simpa using hp⟩
  · have hex := ha
    rw [List.any_eq_true] at hex
    simp only [ha, Bool.false_eq_true, if_false, ne_eq, not_true_eq_false, false_iff]
    rintro ⟨s, hs, hp⟩
    exact hex ⟨s, hs, by simpa using hp⟩

/-- C6: `clients_require_power_on` is nonzero exactly when `global_enable` is set
or some session has mode `HCI_POWER_ON`; with the override clear, a table whose
sessions are all in mode OFF or SLEEP gives 0; and after one session's mode is
changed to `m` the result is that of the new table. -/
theorem C6_requires_power_on_iff (st : State) :
    (clients_require_power_on st ≠ 0 ↔
      st.global_enable ≠ 0 ∨ ∃ s ∈ st.clients, s.power_mode = HCI_POWER_ON) ∧
    (st.global_enable = 0 →
      (∀ s ∈ st.clients, s.power_mode = HCI_POWER_OFF ∨ s.power_mode = HCI_POWER_SLEEP) →
      clients_require_power_on st = 0) ∧
    (∀ (before after : List client_state_t) (S : client_state_t) (m : Nat),
      st.clients = before ++ S :: after →
      (clients_require_power_on
          { st with clients := before ++ { S with power_mode := m } :: after } ≠ 0 ↔
        st.global_enable ≠ 0 ∨ m = HCI_POWER_ON ∨
          ∃ s ∈ before ++ after, s.power_mode = HCI_POWER_ON)) := by
  refine ⟨clients_require_power_on_ne_zero st, ?_, ?_⟩
  · intro hg hall
    by_contra hne
    rcases (clients_require_power_on_ne_zero st).1 hne with h | ⟨s, hs, hp⟩
    · exact h hg
    · rcases hall s hs with h | h
      · rw [hp] at h; exact absurd h (by decide)
      · rw [hp] at h; exact absurd h (by decide)
  · intro before after S m _
    rw [clients_require_power_on_ne_zero]
    simp only [List.mem_append, List.mem_cons]
    constructor
    · rintro (h | ⟨s, hs | rfl | hs, hp⟩)
      · exact Or.inl h
      · exact Or.inr (Or.inr ⟨s, Or.inl hs, hp⟩)
      · exact Or.inr (Or.inl hp)
      · exact Or.inr (Or.inr ⟨s, Or.inr hs, hp⟩)
    · rintro (h | h | ⟨s, hs | hs, hp⟩)
      · exact Or.inl h
      · exact Or.inr ⟨_, Or.inr (Or.inl rfl), h⟩
      · exact Or.inr ⟨s, Or.inl hs, hp⟩
      · exact Or.inr ⟨s, Or.inr (Or.inr hs), hp⟩

/-- C7: `clients_require_discoverable` is nonzero exactly when some session has a
nonzero discoverable flag; the override flag and the sessions' power modes do
not enter the result. -/
theorem C7_requires_discoverable_iff (st : State) :
    (clients_require_discoverable st ≠ 0 ↔ ∃ s ∈ st.clients, s.discoverable ≠ 0) ∧
    (∀ g : Nat, clients_require_discoverable { st with global_enable := g } =
      clients_require_discoverable st) ∧
    (∀ f : client_state_t → Nat,
      clients_require_discoverable
          { st with clients := st.clients.map (fun s => { s with power_mode := f s }) } =
        clients_require_discoverable st) := by
  refine ⟨clients_require_discoverable_ne_zero st, fun g => rfl, fun f => ?_⟩
  simp [clients_require_discoverable, List.any_map, Function.comp_def]

/-! ### Stores through a client pointer -/

theorem client_for_connection_split (st : State) (c : connection_t) (S : client_state_t)
    (h : client_for_connection st c = some S) :
    S.connection = c ∧ ∃ before after, st.clients = before ++ S :: after ∧
      ∀ x ∈ before, x.connection ≠ c := by
  unfold client_for_connection at h
  rw [List.find?_eq_some] at h
  obtain ⟨hS, before, after, hsplit, hbefore⟩ := h
  refine ⟨by simpa using hS, before, after, hsplit, ?_⟩
  intro x hx
  simpa using hbefore x hx

theorem update_first_split {α : Type} (p : α → Bool) (f : α → α) (before after : List α) (x : α)
    (hbefore : ∀ y ∈ before, p y = false) (hx : p x = true) :
    update_first p f (before ++ x :: after) = before ++ f x :: after := by
  induction before with
  | nil => simp [update_first, hx]
  | cons y ys ih =>
    have hy : p y = false := hbefore y (List.mem_cons_self y ys)
    have hys : ∀ z ∈ ys, p z = false := fun z hz => hbefore z (List.mem_cons_of_mem y hz)
    simp [update_first, hy, ih hys]

theorem remove_first_split {α : Type} (p : α → Bool) (before after : List α) (x : α)
    (hbefore : ∀ y ∈ before, p y = false) (hx : p x = true) :
    remove_first p (before ++ x :: after) = before ++ after := by
  induction before with
  | nil => simp [remove_first, hx]
  | cons y ys ih =>
    have hy : p y = false := hbefore y (List.mem_cons_self y ys)
    have hys : ∀ z ∈ ys, p z = false := fun z hz => hbefore z (List.mem_cons_of_mem y hz)
    simp [remove_first, hy, ih hys]

theorem update_client_split (st : State) (c : connection_t) (f : client_state_t → client_state_t)
    (before after : List client_state_t) (S : client_state_t)
    (hsplit : st.clients = before ++ S :: after) (hS : S.connection = c)
    (hbefore : ∀ x ∈ before, x.connection ≠ c) :
    st.update_client c f = { st with clients := before ++ f S :: after } := by
  unfold State.update_client
  rw [hsplit, update_first_split]
  · intro y hy
    simpa using hbefore y hy
  · simpa using hS

/-! ### Commands of the arbiter -/

/-- C8: `BTSTACK_SET_DISCOVERABLE` with parameter byte `d` from the session `S`
of connection `c` changes the discoverable flag of `S` to `d` and nothing else
in the table, and calls `hci_discoverable_control` once, with 1 when `d` or the
flag of some other session is nonzero and with 0 otherwise; so with `d = 0` and
another session's flag set the controller is still asked to be discoverable. -/
theorem C8_set_discoverable_merges_all_sessions (K : Constants) (st : State) (c : connection_t)
    (S : client_state_t) (packet : List Nat) (reply : EngineReply) (d : Nat)
    (hS : client_for_connection st c = some S) (hd : byte_at packet 3 = d) :
    ∃ before after flag, st.clients = before ++ S :: after ∧
      (∀ x ∈ before, x.connection ≠ c) ∧
      btstack_command_handler K st c Opcode.BTSTACK_SET_DISCOVERABLE packet reply =
        { st with
          clients := before ++ { S with discoverable := d } :: after
          trace := st.trace ++ [Call.hci_discoverable_control flag] } ∧
      (flag = 0 ∨ flag = 1) ∧
      (flag = 1 ↔ d ≠ 0 ∨ ∃ x ∈ before ++ after, x.discoverable ≠ 0) ∧
      ((∃ x ∈ before ++ after, x.discoverable ≠ 0) → flag = 1) := by
  obtain ⟨hconn, before, after, hsplit, hbefore⟩ := client_for_connection_split st c S hS
  have hiff : ∀ st1 : State, st1.clients = before ++ { S with discoverable := d } :: after →
      (clients_require_discoverable st1 = 1 ↔
        d ≠ 0 ∨ ∃ x ∈ before ++ after, x.discoverable ≠ 0) := by
    intro st1 h1
    have h01 : clients_require_discoverable st1 = 0 ∨ clients_require_discoverable st1 = 1 := by
      unfold clients_require_discoverable
      split <;> simp
    have hne := clients_require_discoverable_ne_zero st1
    rw [h1] at hne
    have hmem : (∃ s ∈ before ++ { S with discoverable := d } :: after, s.discoverable ≠ 0) ↔
        d ≠ 0 ∨ ∃ x ∈ before ++ after, x.discoverable ≠ 0 := by
      simp only [List.mem_append, List.mem_cons]
      constructor
      · rintro ⟨s, hs | rfl | hs, hp⟩
        · exact Or.inr ⟨s, Or.inl hs, hp⟩
        · exact Or.inl hp
        · exact Or.inr ⟨s, Or.inr hs, hp⟩
      · rintro (h | ⟨s, hs | hs, hp⟩)
        · exact ⟨_, Or.inr (Or.inl rfl), h⟩
        · exact ⟨s, Or.inl hs, hp⟩
        · exact ⟨s, Or.inr (Or.inr hs), hp⟩
    rw [← hmem, ← hne]
    rcases h01 with h | h <;> simp [h]
  refine ⟨before, after,
    clients_require_discoverable
      { st with clients := before ++ { S with discoverable := d } :: after },
    hsplit, hbefore, ?_, ?_, hiff _ rfl, fun h => (hiff _ rfl).2 (Or.inr h)⟩
  · simp only [btstack_command_handler, hS, hd]
    rw [update_client_split st c _ before after S hsplit hconn hbefore]
    rfl
  · unfold clients_require_discoverable
    split <;> simp

/-- Witness for C8: of two discoverable sessions, the one on connection 2 asks
for `d = 0`; the controller is still asked to be discoverable. -/
theorem C8_set_discoverable_witness :
    client_for_connection two_discoverable_clients 2 = some { connection := 2, discoverable := 1 } ∧
    byte_at [0, 0, 0, 0] 3 = 0 ∧
    ∃ before after flag, two_discoverable_clients.clients
        = before ++ { connection := 2, discoverable := 1 } :: after ∧
      (∀ x ∈ before, x.connection ≠ 2) ∧
      btstack_command_handler sample_constants two_discoverable_clients 2
          Opcode.BTSTACK_SET_DISCOVERABLE [0, 0, 0, 0] {} =
        { two_discoverable_clients with
          clients := before ++ { connection := 2, discoverable := 0 } :: after
          trace := two_discoverable_clients.trace ++ [Call.hci_discoverable_control flag] } ∧
      (flag = 0 ∨ flag = 1) ∧
      (flag = 1 ↔ 0 ≠ 0 ∨ ∃ x ∈ before ++ after, x.discoverable ≠ 0) ∧
      ((∃ x ∈ before ++ after, x.discoverable ≠ 0) → flag = 1) :=
  ⟨by decide, by decide,
    C8_set_discoverable_merges_all_sessions sample_constants two_discoverable_clients 2
      { connection := 2, discoverable := 1 } [0, 0, 0, 0] {} 0 (by decide) (by decide)⟩

theorem stop_power_off_timer_eq (st : State) :
    stop_power_off_timer st =
      { st with
        timeout_active := 0
        trace := st.trace ++
          (if st.timeout_active ≠ 0 then [Call.btstack_run_loop_remove_timer] else []) } := by
  unfold stop_power_off_timer
  by_cases h : st.timeout_active = 0
  · cases st
    simp_all
  · simp [h, State.call]

theorem start_power_off_timer_eq (st : State) :
    start_power_off_timer st =
      { st with
        timeout_active := 1
        trace := st.trace ++
          (if st.timeout_active ≠ 0 then [Call.btstack_run_loop_remove_timer] else []) ++
          [Call.btstack_run_loop_set_timer 10000, Call.btstack_run_loop_add_timer] } := by
  unfold start_power_off_timer
  rw [stop_power_off_timer_eq]
  simp [State.call, DAEMON_NO_ACTIVE_CLIENT_TIMEOUT]

/-- C9: `BTSTACK_SET_POWER_MODE` with parameter byte `m` from the session `S` of
connection `c` first stores `m` as the mode of `S`.  Then, on the new table: when
`clients_require_power_on` is 0 the power-off timer is armed with 10000 ms (a
pending one is removed first); when it is nonzero and no sleep suspension is in
effect the timer is disarmed and `hci_power_control (HCI_POWER_ON)` is called;
when it is nonzero during a sleep suspension nothing more is done. -/
theorem C9_set_power_mode_reevaluates (K : Constants) (st : State) (c : connection_t)
    (S : client_state_t) (packet : List Nat) (reply : EngineReply) (m : Nat)
    (hS : client_for_connection st c = some S) (hm : byte_at packet 3 = m) :
    ∃ before after, st.clients = before ++ S :: after ∧
      (∀ x ∈ before, x.connection ≠ c) ∧
      ∀ st1 : State, st1 = { st with clients := before ++ { S with power_mode := m } :: after } →
        (clients_require_power_on st1 = 0 →
          btstack_command_handler K st c Opcode.BTSTACK_SET_POWER_MODE packet reply =
            { st1 with
              timeout_active := 1
              trace := st.trace ++
                (if st.timeout_active ≠ 0 then [Call.btstack_run_loop_remove_timer] else []) ++
                [Call.btstack_run_loop_set_timer 10000, Call.btstack_run_loop_add_timer] }) ∧
        (clients_require_power_on st1 ≠ 0 → st.power_management_sleep = 0 →
          btstack_command_handler K st c Opcode.BTSTACK_SET_POWER_MODE packet reply =
            { st1 with
              timeout_active := 0
              trace := st.trace ++
                (if st.timeout_active ≠ 0 then [Call.btstack_run_loop_remove_timer] else []) ++
                [Call.hci_power_control HCI_POWER_ON] }) ∧
        (clients_require_power_on st1 ≠ 0 → st.power_management_sleep ≠ 0 →
          btstack_command_handler K st c Opcode.BTSTACK_SET_POWER_MODE packet reply = st1) := by
  obtain ⟨hconn, before, after, hsplit, hbefore⟩ := client_for_connection_split st c S hS
  refine ⟨before, after, hsplit, hbefore, ?_⟩
  have hstep : btstack_command_handler K st c Opcode.BTSTACK_SET_POWER_MODE packet reply =
      (if (clients_require_power_on
            { st with clients := before ++ { S with power_mode := m } :: after } == 0) = true then
        start_power_off_timer { st with clients := before ++ { S with power_mode := m } :: after }
       else if (({ st with clients := before ++ { S with power_mode := m } :: after } :
            State).power_management_sleep == 0) = true then
         (stop_power_off_timer
            { st with clients := before ++ { S with power_mode := m } :: after }).call
           (Call.hci_power_control HCI_POWER_ON)
       else { st with clients := before ++ { S with power_mode := m } :: after }) := by
    simp only [btstack_command_handler, hS, hm]
    rw [update_client_split st c _ before after S hsplit hconn hbefore]
  intro st1 hst1
  rw [← hst1] at hstep
  have htrace : st1.trace = st.trace := by rw [hst1]
  have htimeout : st1.timeout_active = st.timeout_active := by rw [hst1]
  have hsleep1 : st1.power_management_sleep = st.power_management_sleep := by rw [hst1]
  refine ⟨?_, ?_, ?_⟩
  · intro h0
    rw [hstep, if_pos (by simp [h0]), start_power_off_timer_eq, htrace, htimeout]
  · intro h1 hsleep
    rw [hstep, if_neg (by simpa using h1), if_pos (by simp [hsleep1, hsleep]),
      stop_power_off_timer_eq, htrace, htimeout]
    simp [State.call]
  · intro h1 hsleep
    rw [hstep, if_neg (by simpa using h1), if_neg (by simpa [hsleep1] using hsleep)]

/-- Witness for C9: the only session, in mode OFF with the timer pending, asks
for mode ON (`m = 1`). -/
theorem C9_set_power_mode_witness :
    client_for_connection one_idle_client 1 = some { connection := 1 } ∧
    byte_at [0, 0, 0, 1] 3 = 1 ∧
    ∃ before after, one_idle_client.clients = before ++ { connection := 1 } :: after ∧
      (∀ x ∈ before, x.connection ≠ 1) ∧
      ∀ st1 : State,
        st1 = { one_idle_client with
                clients := before ++ { connection := 1, power_mode := 1 } :: after } →
        (clients_require_power_on st1 = 0 →
          btstack_command_handler sample_constants one_idle_client 1
              Opcode.BTSTACK_SET_POWER_MODE [0, 0, 0, 1] {} =
            { st1 with
              timeout_active := 1
              trace := one_idle_client.trace ++
                (if one_idle_client.timeout_active ≠ 0 then [Call.btstack_run_loop_remove_timer]
                  else []) ++
                [Call.btstack_run_loop_set_timer 10000, Call.btstack_run_loop_add_timer] }) ∧
        (clients_require_power_on st1 ≠ 0 → one_idle_client.power_management_sleep = 0 →
          btstack_command_handler sample_constants one_idle_client 1
              Opcode.BTSTACK_SET_POWER_MODE [0, 0, 0, 1] {} =
            { st1 with
              timeout_active := 0
              trace := one_idle_client.trace ++
                (if one_idle_client.timeout_active ≠ 0 then [Call.btstack_run_loop_remove_timer]
                  else []) ++
                [Call.hci_power_control HCI_POWER_ON] }) ∧
        (clients_require_power_on st1 ≠ 0 → one_idle_client.power_management_sleep ≠ 0 →
          btstack_command_handler sample_constants one_idle_client 1
              Opcode.BTSTACK_SET_POWER_MODE [0, 0, 0, 1] {} = st1) :=
  ⟨by decide, by decide,
    C9_set_power_mode_reevaluates sample_constants one_idle_client 1 { connection := 1 }
      [0, 0, 0, 1] {} 1 (by decide) (by decide)⟩

/-! ### Releasing a client's resources -/

theorem client_for_connection_of_split (st : State) (c : connection_t)
    (before after : List client_state_t) (S : client_state_t)
    (hsplit : st.clients = before ++ S :: after) (hS : S.connection = c)
    (hbefore : ∀ x ∈ before, x.connection ≠ c) :
    client_for_connection st c = some S := by
  unfold client_for_connection
  rw [List.find?_eq_some]
  refine ⟨by simpa using hS, before, after, hsplit, ?_⟩
  intro x hx
  simpa using hbefore x hx

theorem daemon_sdp_close_connection_split (st : State) (c : connection_t)
    (before after : List client_state_t) (S : client_state_t)
    (hsplit : st.clients = before ++ S :: after) (hS : S.connection = c)
    (hbefore : ∀ x ∈ before, x.connection ≠ c) :
    daemon_sdp_close_connection st c =
      { st with
        clients := before ++ { S with sdp_record_handles := [] } :: after
        trace := st.trace ++ S.sdp_record_handles.map Call.sdp_unregister_service } := by
  unfold daemon_sdp_close_connection
  rw [client_for_connection_of_split st c before after S hsplit hS hbefore]
  simp only
  rw [update_client_split _ c _ before after S (by simpa [State.calls] using hsplit) hS hbefore]
  rfl

theorem daemon_rfcomm_close_connection_split (st : State) (c : connection_t)
    (before after : List client_state_t) (S : client_state_t)
    (hsplit : st.clients = before ++ S :: after) (hS : S.connection = c)
    (hbefore : ∀ x ∈ before, x.connection ≠ c) :
    daemon_rfcomm_close_connection st c =
      { st with
        clients := before ++ { S with rfcomm_services := [], rfcomm_cids := [] } :: after
        trace := st.trace ++ (S.rfcomm_services.map Call.rfcomm_unregister_service ++
          S.rfcomm_cids.map Call.rfcomm_disconnect) } := by
  have hp : ∀ y ∈ before, (fun cs : client_state_t => cs.connection == c) y = false := by
    intro y hy
    simpa using hbefore y hy
  unfold daemon_rfcomm_close_connection
  rw [client_for_connection_of_split st c before after S hsplit hS hbefore]
  simp only [State.calls, State.update_client]
  rw [hsplit, update_first_split _ _ before after S hp (by simpa using hS),
    update_first_split _ _ before after _ hp (by simpa using hS)]
  simp

theorem daemon_l2cap_close_connection_split (st : State) (c : connection_t)
    (before after : List client_state_t) (S : client_state_t)
    (hsplit : st.clients = before ++ S :: after) (hS : S.connection = c)
    (hbefore : ∀ x ∈ before, x.connection ≠ c) :
    daemon_l2cap_close_connection st c =
      { st with
        clients := before ++ { S with l2cap_psms := [], l2cap_cids := [] } :: after
        trace := st.trace ++ (S.l2cap_psms.map Call.l2cap_unregister_service ++
          S.l2cap_cids.map (fun cid => Call.l2cap_disconnect cid 0)) } := by
  have hp : ∀ y ∈ before, (fun cs : client_state_t => cs.connection == c) y = false := by
    intro y hy
    simpa using hbefore y hy
  unfold daemon_l2cap_close_connection
  rw [client_for_connection_of_split st c before after S hsplit hS hbefore]
  simp only [State.calls, State.update_client]
  rw [hsplit, update_first_split _ _ before after S hp (by simpa using hS),
    update_first_split _ _ before after _ hp (by simpa using hS)]
  simp

theorem daemon_remove_gatt_client_handle_split (st : State) (c : connection_t) (handle : Nat)
    (before after : List client_state_t) (S : client_state_t)
    (hsplit : st.clients = before ++ S :: after) (hS : S.connection = c)
    (hbefore : ∀ x ∈ before, x.connection ≠ c) :
    ∃ helpers calls,
      daemon_remove_gatt_client_handle st c handle =
        { st with
          clients := before ++
            { S with gatt_con_handles :=
                remove_and_free_uint32_from_list S.gatt_con_handles handle } :: after
          gatt_client_helpers := helpers
          trace := st.trace ++ calls } ∧
      ∀ x ∈ calls, ∃ k, x = Call.gap_disconnect k := by
  unfold daemon_remove_gatt_client_handle
  rw [client_for_connection_of_split st c before after S hsplit hS hbefore]
  simp only
  rw [update_client_split st c _ before after S hsplit hS hbefore]
  simp only
  cases hfind : st.gatt_client_helpers.find? (fun item => item.con_handle == handle) with
  | none =>
    exact ⟨st.gatt_client_helpers, [], by simp, by simp⟩
  | some helper =>
    simp only
    by_cases hempty : (helper.all_connections.erase c).isEmpty = true
    · rw [if_pos hempty]
      exact ⟨_, [Call.gap_disconnect helper.con_handle], rfl,
        fun x hx => ⟨helper.con_handle, by simpa using hx⟩⟩
    · rw [if_neg hempty]
      refine ⟨?_, [], ?_, by simp⟩
      rotate_left
      · simp only [List.append_nil]
        exact rfl

theorem length_remove_and_free_head_le (value : Nat) (rest : uint32_list) :
    (remove_and_free_uint32_from_list (value :: rest) value).length ≤ rest.length := by
  unfold remove_and_free_uint32_from_list
  rw [List.filter_cons_of_neg (by simp)]
  exact List.length_filter_le _ rest

theorem daemon_gatt_client_close_connection_loop_split (c : connection_t) :
    ∀ (fuel : Nat) (st : State) (S : client_state_t) (before after : List client_state_t),
      st.clients = before ++ S :: after → S.connection = c →
      (∀ x ∈ before, x.connection ≠ c) → S.gatt_con_handles.length ≤ fuel →
      ∃ helpers calls,
        daemon_gatt_client_close_connection_loop fuel st c =
          { st with
            clients := before ++ { S with gatt_con_handles := [] } :: after
            gatt_client_helpers := helpers
            trace := st.trace ++ calls } ∧
        ∀ x ∈ calls, ∃ k, x = Call.gap_disconnect k := by
  have hdone : ∀ (st : State) (S : client_state_t) (before after : List client_state_t),
      st.clients = before ++ S :: after → S.gatt_con_handles = [] →
      st = { st with
             clients := before ++ { S with gatt_con_handles := [] } :: after
             gatt_client_helpers := st.gatt_client_helpers
             trace := st.trace ++ [] } := by
    intro st S before after hsplit hnil
    cases st
    cases S
    simp only [List.append_nil] at *
    subst hnil
    subst hsplit
    rfl
  intro fuel
  induction fuel with
  | zero =>
    intro st S before after hsplit _ _ hlen
    have hnil : S.gatt_con_handles = [] := List.length_eq_zero.1 (Nat.le_zero.1 hlen)
    exact ⟨st.gatt_client_helpers, [], hdone st S before after hsplit hnil, by simp⟩
  | succ fuel ih =>
    intro st S before after hsplit hS hbefore hlen
    unfold daemon_gatt_client_close_connection_loop
    rw [client_for_connection_of_split st c before after S hsplit hS hbefore]
    simp only
    cases hlist : S.gatt_con_handles with
    | nil => exact ⟨st.gatt_client_helpers, [], hdone st S before after hsplit hlist, by simp⟩
    | cons value rest =>
      simp only
      obtain ⟨helpers1, calls1, heq1, hcalls1⟩ :=
        daemon_remove_gatt_client_handle_split st c value before after S hsplit hS hbefore
      rw [heq1]
      have hlen1 : (remove_and_free_uint32_from_list S.gatt_con_handles value).length ≤ fuel := by
        rw [hlist]
        rw [hlist] at hlen
        exact Nat.le_trans (length_remove_and_free_head_le value rest)
          (Nat.le_of_succ_le_succ hlen)
      obtain ⟨helpers2, calls2, heq2, hcalls2⟩ :=
        ih { st with
             clients := before ++
               { S with gatt_con_handles :=
                   remove_and_free_uint32_from_list S.gatt_con_handles value } :: after
             gatt_client_helpers := helpers1
             trace := st.trace ++ calls1 }
          { S with gatt_con_handles :=
              remove_and_free_uint32_from_list S.gatt_con_handles value }
          before after rfl hS hbefore hlen1
      refine ⟨helpers2, calls1 ++ calls2, ?_, ?_⟩
      · rw [heq2]
        simp [List.append_assoc]
      · intro x hx
        rcases List.mem_append.1 hx with h | h
        · exact hcalls1 x h
        · exact hcalls2 x h

theorem daemon_gatt_client_close_connection_split (st : State) (c : connection_t)
    (before after : List client_state_t) (S : client_state_t)
    (hsplit : st.clients = before ++ S :: after) (hS : S.connection = c)
    (hbefore : ∀ x ∈ before, x.connection ≠ c) :
    ∃ helpers calls,
      daemon_gatt_client_close_connection st c =
        { st with
          clients := before ++ { S with gatt_con_handles := [] } :: after
          gatt_client_helpers := helpers
          trace := st.trace ++ calls } ∧
      ∀ x ∈ calls, ∃ k, x = Call.gap_disconnect k := by
  unfold daemon_gatt_client_close_connection
  rw [client_for_connection_of_split st c before after S hsplit hS hbefore]
  exact daemon_gatt_client_close_connection_loop_split c _ st S before after hsplit hS hbefore
    (Nat.le_refl _)

theorem daemon_close_connections_split (st : State) (c : connection_t) (S : client_state_t)
    (before after : List client_state_t)
    (hsplit : st.clients = before ++ S :: after) (hS : S.connection = c)
    (hbefore : ∀ x ∈ before, x.connection ≠ c) :
    ∃ helpers gatt_calls,
      (∀ x ∈ gatt_calls, ∃ k, x = Call.gap_disconnect k) ∧
      daemon_close_connections st c =
        { st with
          clients := before ++
            { connection := c, power_mode := S.power_mode, discoverable := S.discoverable } :: after
          gatt_client_helpers := helpers
          trace := st.trace ++ S.sdp_record_handles.map Call.sdp_unregister_service
            ++ S.rfcomm_services.map Call.rfcomm_unregister_service
            ++ S.rfcomm_cids.map Call.rfcomm_disconnect
            ++ S.l2cap_psms.map Call.l2cap_unregister_service
            ++ S.l2cap_cids.map (fun cid => Call.l2cap_disconnect cid 0)
            ++ gatt_calls } := by
  unfold daemon_close_connections
  rw [daemon_sdp_close_connection_split st c before after S hsplit hS hbefore]
  rw [daemon_rfcomm_close_connection_split _ c before after
    { S with sdp_record_handles := [] } rfl hS hbefore]
  rw [daemon_l2cap_close_connection_split _ c before after
    { S with sdp_record_handles := [], rfcomm_services := [], rfcomm_cids := [] } rfl hS hbefore]
  obtain ⟨helpers, calls, heq, hcalls⟩ :=
    daemon_gatt_client_close_connection_split
      { st with
        clients := before ++
          { S with sdp_record_handles := [], rfcomm_services := [], rfcomm_cids := [],
                   l2cap_psms := [], l2cap_cids := [] } :: after
        trace := st.trace ++ S.sdp_record_handles.map Call.sdp_unregister_service
          ++ (S.rfcomm_services.map Call.rfcomm_unregister_service
            ++ S.rfcomm_cids.map Call.rfcomm_disconnect)
          ++ (S.l2cap_psms.map Call.l2cap_unregister_service
            ++ S.l2cap_cids.map (fun cid => Call.l2cap_disconnect cid 0)) }
      c before after
      { S with sdp_record_handles := [], rfcomm_services := [], rfcomm_cids := [],
               l2cap_psms := [], l2cap_cids := [] } rfl hS hbefore
  refine ⟨helpers, calls, hcalls, ?_⟩
  rw [heq]
  simp [List.append_assoc, hS]

theorem daemon_disconnect_client_split (st : State) (c : connection_t) (S : client_state_t)
    (before after : List client_state_t)
    (hsplit : st.clients = before ++ S :: after) (hS : S.connection = c)
    (hbefore : ∀ x ∈ before, x.connection ≠ c) :
    daemon_disconnect_client st c =
      { daemon_close_connections st c with clients := before ++ after } := by
  obtain ⟨helpers, calls, _, heq⟩ := daemon_close_connections_split st c S before after hsplit hS
    hbefore
  unfold daemon_disconnect_client
  rw [client_for_connection_of_split st c before after S hsplit hS hbefore]
  simp only
  rw [heq]
  simp only
  rw [remove_first_split]
  · intro y hy
    simpa using hbefore y hy
  · simp

/-- C3: for the session `S` of connection `c`, the release steps of
`daemon_disconnect_client` call `sdp_unregister_service` once for each entry of
`sdp_record_handles`, then `rfcomm_unregister_service` once for each entry of
`rfcomm_services`, `rfcomm_disconnect` once for each entry of `rfcomm_cids`,
`l2cap_unregister_service` once for each entry of `l2cap_psms` and
`l2cap_disconnect` once for each entry of `l2cap_cids`, followed only by
`gap_disconnect` calls of the GATT step; the results of the calls are not read.
After these steps `S` is still in the table with every resource list empty, and
the final state is that state with `S` unlinked from the table. -/
theorem C3_disconnect_releases_every_resource (st : State) (c : connection_t)
    (S : client_state_t) (hS : client_for_connection st c = some S) :
    ∃ before after helpers gatt_calls,
      st.clients = before ++ S :: after ∧
      (∀ x ∈ before, x.connection ≠ c) ∧
      (∀ x ∈ gatt_calls, ∃ k, x = Call.gap_disconnect k) ∧
      daemon_close_connections st c =
        { st with
          clients := before ++
            { connection := c, power_mode := S.power_mode, discoverable := S.discoverable } :: after
          gatt_client_helpers := helpers
          trace := st.trace ++ S.sdp_record_handles.map Call.sdp_unregister_service
            ++ S.rfcomm_services.map Call.rfcomm_unregister_service
            ++ S.rfcomm_cids.map Call.rfcomm_disconnect
            ++ S.l2cap_psms.map Call.l2cap_unregister_service
            ++ S.l2cap_cids.map (fun cid => Call.l2cap_disconnect cid 0)
            ++ gatt_calls } ∧
      daemon_disconnect_client st c =
        { daemon_close_connections st c with clients := before ++ after } := by
  obtain ⟨hconn, before, after, hsplit, hbefore⟩ := client_for_connection_split st c S hS
  obtain ⟨helpers, calls, hcalls, heq⟩ :=
    daemon_close_connections_split st c S before after hsplit hconn hbefore
  exact ⟨before, after, helpers, calls, hsplit, hbefore, hcalls, heq,
    daemon_disconnect_client_split st c S before after hsplit hconn hbefore⟩

/-- Witness for C3: the session of connection 1 in `client_with_resources`. -/
theorem C3_disconnect_witness :
    client_for_connection client_with_resources 1 =
      some { connection := 1, rfcomm_cids := [5], rfcomm_services := [3], l2cap_cids := [64],
             l2cap_psms := [4097], sdp_record_handles := [65537], power_mode := 1 } ∧
    ∃ before after helpers gatt_calls,
      client_with_resources.clients = before ++
        { connection := 1, rfcomm_cids := [5], rfcomm_services := [3], l2cap_cids := [64],
          l2cap_psms := [4097], sdp_record_handles := [65537], power_mode := 1 } :: after ∧
      (∀ x ∈ before, x.connection ≠ 1) ∧
      (∀ x ∈ gatt_calls, ∃ k, x = Call.gap_disconnect k) ∧
      daemon_close_connections client_with_resources 1 =
        { client_with_resources with
          clients := before ++ { connection := 1, power_mode := 1, discoverable := 0 } :: after
          gatt_client_helpers := helpers
          trace := client_with_resources.trace ++ [65537].map Call.sdp_unregister_service
            ++ [3].map Call.rfcomm_unregister_service
            ++ [5].map Call.rfcomm_disconnect
            ++ [4097].map Call.l2cap_unregister_service
            ++ [64].map (fun cid => Call.l2cap_disconnect cid 0)
            ++ gatt_calls } ∧
      daemon_disconnect_client client_with_resources 1 =
        { daemon_close_connections client_with_resources 1 with clients := before ++ after } :=
  ⟨by decide, C3_disconnect_releases_every_resource client_with_resources 1
    { connection := 1, rfcomm_cids := [5], rfcomm_services := [3], l2cap_cids := [64],
      l2cap_psms := [4097], sdp_record_handles := [65537], power_mode := 1 } (by decide)⟩

/-- Counterexample to C4 as stated: in `shared_cid_clients` the sessions of
connections 1 and 2 both hold L2CAP cid 64; after connection 1 disconnects the
owner lookup for 64 still returns connection 2. -/
theorem C4_lookup_after_disconnect_counterexample :
    client_for_connection shared_cid_clients 1 = some { connection := 1, l2cap_cids := [64] } ∧
    connection_for_l2cap_cid (daemon_disconnect_client shared_cid_clients 1) 64 = some 2 := by
  decide

/-- C4, amended: after `daemon_disconnect_client` for the session `S` of
connection `c`, the table is the old table without `S`, and for every cid (so
for every cid `S` held) `connection_for_l2cap_cid` and
`connection_for_rfcomm_cid` return none exactly when no other session of the
table holds the cid; a connection they return is that of another session that
holds the cid. -/
theorem C4_lookup_after_disconnect (st : State) (c : connection_t) (S : client_state_t)
    (cid : Nat) (hS : client_for_connection st c = some S) :
    ∃ before after, st.clients = before ++ S :: after ∧
      (∀ x ∈ before, x.connection ≠ c) ∧
      (daemon_disconnect_client st c).clients = before ++ after ∧
      (connection_for_l2cap_cid (daemon_disconnect_client st c) cid = none ↔
        ∀ x ∈ before ++ after, cid ∉ x.l2cap_cids) ∧
      (∀ c', connection_for_l2cap_cid (daemon_disconnect_client st c) cid = some c' →
        ∃ x ∈ before ++ after, x.connection = c' ∧ cid ∈ x.l2cap_cids) ∧
      (connection_for_rfcomm_cid (daemon_disconnect_client st c) cid = none ↔
        ∀ x ∈ before ++ after, cid ∉ x.rfcomm_cids) ∧
      (∀ c', connection_for_rfcomm_cid (daemon_disconnect_client st c) cid = some c' →
        ∃ x ∈ before ++ after, x.connection = c' ∧ cid ∈ x.rfcomm_cids) := by
  obtain ⟨hconn, before, after, hsplit, hbefore⟩ := client_for_connection_split st c S hS
  have hclients : (daemon_disconnect_client st c).clients = before ++ after := by
    rw [daemon_disconnect_client_split st c S before after hsplit hconn hbefore]
  refine ⟨before, after, hsplit, hbefore, hclients, ?_, ?_, ?_, ?_⟩
  · unfold connection_for_l2cap_cid
    rw [hclients, Option.map_eq_none', List.find?_eq_none]
    simp
  · intro c' h
    unfold connection_for_l2cap_cid at h
    rw [hclients] at h
    exact find_owner_some (before ++ after) (fun s => s.l2cap_cids) cid c' h
  · unfold connection_for_rfcomm_cid
    rw [hclients, Option.map_eq_none', List.find?_eq_none]
    simp
  · intro c' h
    unfold connection_for_rfcomm_cid at h
    rw [hclients] at h
    exact find_owner_some (before ++ after) (fun s => s.rfcomm_cids) cid c' h

/-- Witness for C4: connection 1 of `client_with_resources` disconnects and no
other session holds its cids. -/
theorem C4_lookup_after_disconnect_witness :
    client_for_connection client_with_resources 1 =
      some { connection := 1, rfcomm_cids := [5], rfcomm_services := [3], l2cap_cids := [64],
             l2cap_psms := [4097], sdp_record_handles := [65537], power_mode := 1 } ∧
    ∃ before after,
      client_with_resources.clients = before ++
        { connection := 1, rfcomm_cids := [5], rfcomm_services := [3], l2cap_cids := [64],
          l2cap_psms := [4097], sdp_record_handles := [65537], power_mode := 1 } :: after ∧
      (∀ x ∈ before, x.connection ≠ 1) ∧
      (daemon_disconnect_client client_with_resources 1).clients = before ++ after ∧
      (connection_for_l2cap_cid (daemon_disconnect_client client_with_resources 1) 64 = none ↔
        ∀ x ∈ before ++ after, 64 ∉ x.l2cap_cids) ∧
      (∀ c', connection_for_l2cap_cid (daemon_disconnect_client client_with_resources 1) 64
          = some c' → ∃ x ∈ before ++ after, x.connection = c' ∧ 64 ∈ x.l2cap_cids) ∧
      (connection_for_rfcomm_cid (daemon_disconnect_client client_with_resources 1) 64 = none ↔
        ∀ x ∈ before ++ after, 64 ∉ x.rfcomm_cids) ∧
      (∀ c', connection_for_rfcomm_cid (daemon_disconnect_client client_with_resources 1) 64
          = some c' → ∃ x ∈ before ++ after, x.connection = c' ∧ 64 ∈ x.rfcomm_cids) :=
  ⟨by decide, C4_lookup_after_disconnect client_with_resources 1
    { connection := 1, rfcomm_cids := [5], rfcomm_services := [3], l2cap_cids := [64],
      l2cap_psms := [4097], sdp_record_handles := [65537], power_mode := 1 } 64 (by decide)⟩

/-! ### Registering an RFCOMM service -/

/-- C5, the code at the failing input: `RFCOMM_REGISTER_SERVICE` (with or
without credits) leaves every session's lists as they were, whatever the engine
answers, and an `RFCOMM_EVENT_SERVICE_REGISTERED` event that arrives through
`rfcomm_packet_handler` leaves them as they were too; in the run
`register_rfcomm_service_then_disconnect` for channel 3 the calls made are the
engine request, the event sent to the client and the calls of the close event,
with no `rfcomm_unregister_service`. -/
theorem C5_registered_rfcomm_service_is_not_recorded :
    (∀ (K : Constants) (st : State) (c : connection_t) (packet : List Nat) (reply : EngineReply),
      (btstack_command_handler K st c Opcode.RFCOMM_REGISTER_SERVICE packet reply).clients
          = st.clients ∧
      (btstack_command_handler K st c Opcode.RFCOMM_REGISTER_SERVICE_WITH_CREDITS packet
          reply).clients = st.clients) ∧
    (∀ (st : State) (channel : Nat) (packet : List Nat),
      (l2cap_packet_handler st PacketType.HCI_EVENT_PACKET channel
          EventCode.RFCOMM_EVENT_SERVICE_REGISTERED packet).clients = st.clients) ∧
    register_rfcomm_service_then_disconnect.trace =
      [Call.engine_request Opcode.RFCOMM_REGISTER_SERVICE [0, 0, 3, 3, 100, 0],
       Call.socket_connection_send_packet 1 PacketType.HCI_EVENT_PACKET 0 [133, 2, 0, 3],
       Call.sdp_query_rfcomm_deregister_callback,
       Call.hci_disconnect_all,
       Call.hci_discoverable_control 0,
       Call.btstack_run_loop_set_timer 10000,
       Call.btstack_run_loop_add_timer] ∧
    Call.rfcomm_unregister_service 3 ∉ register_rfcomm_service_then_disconnect.trace := by
  refine ⟨fun K st c packet reply => ⟨rfl, rfl⟩, ?_, by decide, by decide⟩
  intro st channel packet
  simp only [l2cap_packet_handler, daemon_packet_handler, deamon_status_event_handler,
    daemon_packet_handler_hci_event, daemon_packet_handler_daemon_event,
    daemon_packet_handler_l2cap_data, daemon_packet_handler_send]
  split <;> split <;> simp [State.call]

/-! ### Opening a connection -/

/-- Counterexample to C10 as stated: a connection opens on the empty daemon;
afterwards `clients_require_power_on` is 0, yet the timer is not armed and no
call has been made. -/
theorem C10_connection_opened_counterexample :
    clients_require_power_on
        (daemon_client_handler sample_constants {} 1 PacketType.DAEMON_EVENT_PACKET 0 []
          none EventCode.DAEMON_EVENT_CONNECTION_OPENED {}) = 0 ∧
    (daemon_client_handler sample_constants {} 1 PacketType.DAEMON_EVENT_PACKET 0 []
        none EventCode.DAEMON_EVENT_CONNECTION_OPENED {}).timeout_active = 0 ∧
    (daemon_client_handler sample_constants {} 1 PacketType.DAEMON_EVENT_PACKET 0 []
        none EventCode.DAEMON_EVENT_CONNECTION_OPENED {}).trace = [] := by
  decide

/-- C10, amended: `DAEMON_EVENT_CONNECTION_OPENED` adds a session in mode OFF
with the discoverable flag clear at the head of the table when the `malloc`
succeeds and leaves the table as it was when it fails; in both cases
`timeout_active` is unchanged, no call is made, and `clients_require_power_on`
and `clients_require_discoverable` keep their values. -/
theorem C10_connection_opened_leaves_timer (K : Constants) (st : State) (c : connection_t)
    (channel : Nat) (data : List Nat) (command : Option Opcode) (reply : EngineReply) :
    ((daemon_client_handler K st c PacketType.DAEMON_EVENT_PACKET channel data command
        EventCode.DAEMON_EVENT_CONNECTION_OPENED reply).clients =
      if st.malloc.1 then
        { connection := c, power_mode := HCI_POWER_OFF, discoverable := 0 } :: st.clients
      else st.clients) ∧
    (daemon_client_handler K st c PacketType.DAEMON_EVENT_PACKET channel data command
        EventCode.DAEMON_EVENT_CONNECTION_OPENED reply).timeout_active = st.timeout_active ∧
    (daemon_client_handler K st c PacketType.DAEMON_EVENT_PACKET channel data command
        EventCode.DAEMON_EVENT_CONNECTION_OPENED reply).trace = st.trace ∧
    clients_require_power_on
        (daemon_client_handler K st c PacketType.DAEMON_EVENT_PACKET channel data command
          EventCode.DAEMON_EVENT_CONNECTION_OPENED reply) = clients_require_power_on st ∧
    clients_require_discoverable
        (daemon_client_handler K st c PacketType.DAEMON_EVENT_PACKET channel data command
          EventCode.DAEMON_EVENT_CONNECTION_OPENED reply) = clients_require_discoverable st := by
  have hmalloc : ∀ s : State, s.malloc.2.clients = s.clients ∧
      s.malloc.2.timeout_active = s.timeout_active ∧ s.malloc.2.trace = s.trace ∧
      s.malloc.2.global_enable = s.global_enable := by
    intro s
    unfold State.malloc
    split <;> simp
  obtain ⟨h1, h2, h3, h4⟩ := hmalloc st
  simp only [daemon_client_handler]
  cases hok : st.malloc.1
  · simp [h1, h2, h3, h4, clients_require_power_on, clients_require_discoverable]
  · simp [h1, h2, h3, h4, clients_require_power_on, clients_require_discoverable,
      HCI_POWER_OFF, HCI_POWER_ON]

/-! ### Closing a connection, timer expiry, global disable -/

theorem clients_require_discoverable_zero_or_one (st : State) :
    clients_require_discoverable st = 0 ∨ clients_require_discoverable st = 1 := by
  unfold clients_require_discoverable
  split <;> simp

theorem clients_require_discoverable_eq_one (st : State) :
    clients_require_discoverable st = 1 ↔ ∃ s ∈ st.clients, s.discoverable ≠ 0 := by
  rw [← clients_require_discoverable_ne_zero]
  rcases clients_require_discoverable_zero_or_one st with h | h <;> simp [h]

theorem clients_require_power_on_eq_zero (st : State) :
    clients_require_power_on st = 0 ↔
      st.global_enable = 0 ∧ ∀ s ∈ st.clients, s.power_mode ≠ HCI_POWER_ON := by
  have h := clients_require_power_on_ne_zero st
  constructor
  · intro h0
    refine ⟨?_, ?_⟩
    · by_contra hg
      exact (h.2 (Or.inl hg)) h0
    · intro s hs hp
      exact (h.2 (Or.inr ⟨s, hs, hp⟩)) h0
  · rintro ⟨hg, hall⟩
    by_contra hne
    rcases h.1 hne with hg' | ⟨s, hs, hp⟩
    · exact hg' hg
    · exact hall s hs hp

/-- C11: with the override clear, when the session `S` of connection `c` in mode
ON closes and no other session is in mode ON, `clients_require_power_on` is
nonzero before the event and 0 after it; the handler releases the resources of
`S`, unlinks `S`, and only then calls `hci_discoverable_control` with the flag
merged over the remaining sessions and arms the power-off timer with 10000 ms. -/
theorem C11_disconnect_reevaluates_after_removal (K : Constants) (st : State) (c : connection_t)
    (S : client_state_t) (before after : List client_state_t) (channel : Nat) (data : List Nat)
    (command : Option Opcode) (reply : EngineReply)
    (hsplit : st.clients = before ++ S :: after) (hS : S.connection = c)
    (hbefore : ∀ x ∈ before, x.connection ≠ c)
    (hglobal : st.global_enable = 0) (hon : S.power_mode = HCI_POWER_ON)
    (hrest : ∀ x ∈ before ++ after, x.power_mode ≠ HCI_POWER_ON) :
    clients_require_power_on st ≠ 0 ∧
    ∃ helpers gatt_calls flag,
      (∀ x ∈ gatt_calls, ∃ k, x = Call.gap_disconnect k) ∧
      daemon_client_handler K st c PacketType.DAEMON_EVENT_PACKET channel data command
          EventCode.DAEMON_EVENT_CONNECTION_CLOSED reply =
        { st with
          clients := before ++ after
          gatt_client_helpers := helpers
          timeout_active := 1
          trace := st.trace ++ S.sdp_record_handles.map Call.sdp_unregister_service
            ++ S.rfcomm_services.map Call.rfcomm_unregister_service
            ++ S.rfcomm_cids.map Call.rfcomm_disconnect
            ++ S.l2cap_psms.map Call.l2cap_unregister_service
            ++ S.l2cap_cids.map (fun cid => Call.l2cap_disconnect cid 0)
            ++ gatt_calls
            ++ [Call.sdp_query_rfcomm_deregister_callback]
            ++ (if before ++ after = [] then [Call.hci_disconnect_all] else [])
            ++ [Call.hci_discoverable_control flag]
            ++ (if st.timeout_active ≠ 0 then [Call.btstack_run_loop_remove_timer] else [])
            ++ [Call.btstack_run_loop_set_timer 10000, Call.btstack_run_loop_add_timer] } ∧
      (flag = 1 ↔ ∃ x ∈ before ++ after, x.discoverable ≠ 0) ∧
      (flag = 0 ↔ ∀ x ∈ before ++ after, x.discoverable = 0) ∧
      clients_require_power_on
        (daemon_client_handler K st c PacketType.DAEMON_EVENT_PACKET channel data command
          EventCode.DAEMON_EVENT_CONNECTION_CLOSED reply) = 0 := by
  refine ⟨(clients_require_power_on_ne_zero st).2
    (Or.inr ⟨S, by rw [hsplit]; simp, hon⟩), ?_⟩
  obtain ⟨helpers, gatt_calls, hgatt, hclose⟩ :=
    daemon_close_connections_split st c S before after hsplit hS hbefore
  have hdisc := daemon_disconnect_client_split st c S before after hsplit hS hbefore
  rw [hclose] at hdisc
  have hpow : ∀ st2 : State, st2.clients = before ++ after → st2.global_enable = 0 →
      clients_require_power_on st2 = 0 := by
    intro st2 h1 h2
    rw [clients_require_power_on_eq_zero]
    exact ⟨h2, by rw [h1]; exact hrest⟩
  have hstep : daemon_client_handler K st c PacketType.DAEMON_EVENT_PACKET channel data command
      EventCode.DAEMON_EVENT_CONNECTION_CLOSED reply =
      (let st1 := (daemon_disconnect_client st c).call Call.sdp_query_rfcomm_deregister_callback
       let st2 := if st1.clients.isEmpty then st1.call Call.hci_disconnect_all else st1
       let st3 := st2.call (Call.hci_discoverable_control (clients_require_discoverable st2))
       if clients_require_power_on st3 == 0 then start_power_off_timer st3 else st3) := by
    simp only [daemon_client_handler]
  have hres : daemon_client_handler K st c PacketType.DAEMON_EVENT_PACKET channel data command
      EventCode.DAEMON_EVENT_CONNECTION_CLOSED reply =
        { st with
          clients := before ++ after
          gatt_client_helpers := helpers
          timeout_active := 1
          trace := st.trace ++ S.sdp_record_handles.map Call.sdp_unregister_service
            ++ S.rfcomm_services.map Call.rfcomm_unregister_service
            ++ S.rfcomm_cids.map Call.rfcomm_disconnect
            ++ S.l2cap_psms.map Call.l2cap_unregister_service
            ++ S.l2cap_cids.map (fun cid => Call.l2cap_disconnect cid 0)
            ++ gatt_calls
            ++ [Call.sdp_query_rfcomm_deregister_callback]
            ++ (if before ++ after = [] then [Call.hci_disconnect_all] else [])
            ++ [Call.hci_discoverable_control
                  (clients_require_discoverable { st with clients := before ++ after })]
            ++ (if st.timeout_active ≠ 0 then [Call.btstack_run_loop_remove_timer] else [])
            ++ [Call.btstack_run_loop_set_timer 10000, Call.btstack_run_loop_add_timer] } := by
    rw [hstep, hdisc]
    simp only [State.call]
    by_cases hemp : before ++ after = []
    · have he : (before ++ after).isEmpty = true := by simp [hemp]
      simp only [he, if_true]
      rw [if_pos (by rw [beq_iff_eq]; exact hpow _ rfl hglobal), start_power_off_timer_eq]
      simp [hemp, clients_require_discoverable]
    · have he : (before ++ after).isEmpty = false := by
        cases hba : before ++ after with
        | nil => exact absurd hba hemp
        | cons x xs => rfl
      simp only [he, Bool.false_eq_true, if_false]
      rw [if_pos (by rw [beq_iff_eq]; exact hpow _ rfl hglobal), start_power_off_timer_eq]
      simp [hemp, clients_require_discoverable]
  refine ⟨helpers, gatt_calls, clients_require_discoverable { st with clients := before ++ after },
    hgatt, hres, clients_require_discoverable_eq_one _, ?_, ?_⟩
  · have h := clients_require_discoverable_ne_zero { st with clients := before ++ after }
    constructor
    · intro h0 x hx
      by_contra hx0
      exact (h.2 ⟨x, hx, hx0⟩) h0
    · intro hall
      by_contra hne
      obtain ⟨x, hx, hx0⟩ := h.1 hne
      exact hx0 (hall x hx)
  · rw [hres]
    exact hpow _ rfl hglobal

/-- C13: when the power-off timer fires, `daemon_no_connections_timeout` appends
one `hci_power_control (HCI_POWER_OFF)` call and changes nothing else when
`clients_require_power_on` is 0, and leaves the whole state as it was when it is
nonzero, as when the override is set or a session is in mode ON. -/
theorem C13_timer_fire_powers_off_iff_not_required (st : State) :
    (clients_require_power_on st = 0 →
      daemon_no_connections_timeout st = { st with trace := st.trace ++ [Call.hci_power_control HCI_POWER_OFF] }) ∧
    (clients_require_power_on st ≠ 0 → daemon_no_connections_timeout st = st) ∧
    ((daemon_no_connections_timeout st).trace = st.trace ++ [Call.hci_power_control HCI_POWER_OFF] ↔
      clients_require_power_on st = 0) ∧
    (st.global_enable ≠ 0 ∨ (∃ s ∈ st.clients, s.power_mode = HCI_POWER_ON) →
      daemon_no_connections_timeout st = st) := by
  have h1 : clients_require_power_on st ≠ 0 → daemon_no_connections_timeout st = st := by
    intro h
    unfold daemon_no_connections_timeout
    rw [if_pos (by simpa using h)]
  refine ⟨?_, h1, ?_, fun h => h1 ((clients_require_power_on_ne_zero st).2 h)⟩
  · intro h
    unfold daemon_no_connections_timeout
    rw [if_neg (by simp [h])]
    rfl
  · constructor
    · intro h
      by_contra hne
      rw [h1 hne] at h
      simp at h
    · intro h
      unfold daemon_no_connections_timeout
      rw [if_neg (by simp [h])]
      rfl

/-- C14: `BTSTACK_SET_BLUETOOTH_ENABLED` with parameter byte 0 clears
`global_enable`, sets the mode of every session to OFF and leaves every other
field of every session as it was, calls `hci_power_control (HCI_POWER_OFF)`, and
afterwards `clients_require_power_on` is 0. -/
theorem C14_bluetooth_disabled_clears_power_requests (K : Constants) (st : State)
    (c : connection_t) (packet : List Nat) (reply : EngineReply) (h0 : byte_at packet 3 = 0) :
    btstack_command_handler K st c Opcode.BTSTACK_SET_BLUETOOTH_ENABLED packet reply =
      { st with
        global_enable := 0
        clients := st.clients.map (fun s => { s with power_mode := HCI_POWER_OFF })
        trace := st.trace ++ [Call.hci_power_control HCI_POWER_OFF] } ∧
    clients_require_power_on
      (btstack_command_handler K st c Opcode.BTSTACK_SET_BLUETOOTH_ENABLED packet reply) = 0 := by
  have heq : btstack_command_handler K st c Opcode.BTSTACK_SET_BLUETOOTH_ENABLED packet reply =
      { st with
        global_enable := 0
        clients := st.clients.map (fun s => { s with power_mode := HCI_POWER_OFF })
        trace := st.trace ++ [Call.hci_power_control HCI_POWER_OFF] } := by
    simp [btstack_command_handler, h0, clients_clear_power_request, State.call]
  refine ⟨heq, ?_⟩
  rw [heq]
  simp [clients_require_power_on, HCI_POWER_OFF, HCI_POWER_ON]

/-! ### GATT request setup -/

/-- C16: when the controller reports no connection in state OPEN for the handle
`h` of the request, `daemon_setup_gatt_client_request` returns no helper and the
only change is one packet sent to the requesting client, the
`GATT_QUERY_COMPLETE` event with handle `h` and status
`GATT_CLIENT_NOT_CONNECTED`. -/
theorem C16_setup_request_not_connected (K : Constants) (st : State) (c : connection_t)
    (packet : List Nat) (track_active_connection : Bool) (reply : EngineReply) (h : Nat)
    (hh : READ_BT_16 packet 3 = h) (hopen : reply.hci_con_open = false) :
    daemon_setup_gatt_client_request K st c packet track_active_connection reply =
      ({ st with trace := st.trace ++
          [Call.socket_connection_send_packet c PacketType.HCI_EVENT_PACKET 0
            [K.GATT_QUERY_COMPLETE, 3, h % 256, h / 256 % 256, K.GATT_CLIENT_NOT_CONNECTED]] },
        false) := by
  simp [daemon_setup_gatt_client_request, hopen, hh, send_gatt_query_complete, State.call,
    bt_store_16]

/-- C15: when the link of handle `h` is open and the helper for `h` has an active
owner, `daemon_setup_gatt_client_request` with `track_active_connection` set
returns no helper and the only change is one packet sent to the requesting
client, the `GATT_QUERY_COMPLETE` event with handle `h` and status
`GATT_CLIENT_BUSY`; helpers and sessions are as they were. -/
theorem C15_setup_request_busy (K : Constants) (st : State) (c : connection_t)
    (packet : List Nat) (reply : EngineReply) (h : Nat) (helper : gatt_client_helper_t)
    (owner : connection_t)
    (hh : READ_BT_16 packet 3 = h) (hopen : reply.hci_con_open = true)
    (hhelper : daemon_get_gatt_client_helper st h = some helper)
    (hactive : helper.active_connection = some owner) :
    daemon_setup_gatt_client_request K st c packet true reply =
      ({ st with trace := st.trace ++
          [Call.socket_connection_send_packet c PacketType.HCI_EVENT_PACKET 0
            [K.GATT_QUERY_COMPLETE, 3, h % 256, h / 256 % 256, K.GATT_CLIENT_BUSY]] },
        false) := by
  simp [daemon_setup_gatt_client_request, hopen, hh, hhelper, hactive, send_gatt_query_complete,
    State.call, bt_store_16]

/-- Witness for C15: connection 2 asks for handle 64 while connection 1 is the
active owner of its helper. -/
theorem C15_setup_request_busy_witness :
    READ_BT_16 [0, 0, 2, 64, 0] 3 = 64 ∧
    ({ hci_con_open := true } : EngineReply).hci_con_open = true ∧
    daemon_get_gatt_client_helper busy_helper_state 64 = some busy_helper ∧
    busy_helper.active_connection = some 1 ∧
    daemon_setup_gatt_client_request sample_constants busy_helper_state 2 [0, 0, 2, 64, 0] true
        { hci_con_open := true } =
      ({ busy_helper_state with trace := busy_helper_state.trace ++
          [Call.socket_connection_send_packet 2 PacketType.HCI_EVENT_PACKET 0
            [sample_constants.GATT_QUERY_COMPLETE, 3, 64 % 256, 64 / 256 % 256,
              sample_constants.GATT_CLIENT_BUSY]] },
        false) :=
  ⟨by decide, rfl, rfl, rfl,
    C15_setup_request_busy sample_constants busy_helper_state 2 [0, 0, 2, 64, 0]
      { hci_con_open := true } 64 busy_helper 1 (by decide) rfl rfl rfl⟩

/-- Witness for C16: connection 2 asks for handle 64 and the controller reports
no open link. -/
theorem C16_setup_request_not_connected_witness :
    READ_BT_16 [0, 0, 2, 64, 0] 3 = 64 ∧
    ({ hci_con_open := false } : EngineReply).hci_con_open = false ∧
    daemon_setup_gatt_client_request sample_constants busy_helper_state 2 [0, 0, 2, 64, 0] true
        { hci_con_open := false } =
      ({ busy_helper_state with trace := busy_helper_state.trace ++
          [Call.socket_connection_send_packet 2 PacketType.HCI_EVENT_PACKET 0
            [sample_constants.GATT_QUERY_COMPLETE, 3, 64 % 256, 64 / 256 % 256,
              sample_constants.GATT_CLIENT_NOT_CONNECTED]] },
        false) :=
  ⟨by decide, rfl,
    C16_setup_request_not_connected sample_constants busy_helper_state 2 [0, 0, 2, 64, 0] true
      { hci_con_open := false } 64 (by decide) rfl⟩

/-- Witness for C14: the command arrives while `session_on` is in mode ON. -/
theorem C14_bluetooth_disabled_witness :
    byte_at [0, 0, 1, 0] 3 = 0 ∧
    btstack_command_handler sample_constants on_and_off_clients 2
        Opcode.BTSTACK_SET_BLUETOOTH_ENABLED [0, 0, 1, 0] {} =
      { on_and_off_clients with
        global_enable := 0
        clients := on_and_off_clients.clients.map (fun s => { s with power_mode := HCI_POWER_OFF })
        trace := on_and_off_clients.trace ++ [Call.hci_power_control HCI_POWER_OFF] } ∧
    clients_require_power_on
      (btstack_command_handler sample_constants on_and_off_clients 2
        Opcode.BTSTACK_SET_BLUETOOTH_ENABLED [0, 0, 1, 0] {}) = 0 :=
  ⟨by decide, C14_bluetooth_disabled_clears_power_requests sample_constants on_and_off_clients 2
    [0, 0, 1, 0] {} (by decide)⟩

/-- Witness for C11: `session_on` (mode ON) closes while `session_off` (mode
OFF) stays. -/
theorem C11_disconnect_witness :
    on_and_off_clients.clients = [] ++ session_on :: [session_off] ∧
    session_on.connection = 1 ∧
    (∀ x ∈ ([] : List client_state_t), x.connection ≠ 1) ∧
    on_and_off_clients.global_enable = 0 ∧
    session_on.power_mode = HCI_POWER_ON ∧
    (∀ x ∈ [] ++ [session_off], x.power_mode ≠ HCI_POWER_ON) ∧
    clients_require_power_on on_and_off_clients ≠ 0 ∧
    ∃ helpers gatt_calls flag,
      (∀ x ∈ gatt_calls, ∃ k, x = Call.gap_disconnect k) ∧
      daemon_client_handler sample_constants on_and_off_clients 1 PacketType.DAEMON_EVENT_PACKET 0 []
          none EventCode.DAEMON_EVENT_CONNECTION_CLOSED {} =
        { on_and_off_clients with
          clients := [] ++ [session_off]
          gatt_client_helpers := helpers
          timeout_active := 1
          trace := on_and_off_clients.trace
            ++ session_on.sdp_record_handles.map Call.sdp_unregister_service
            ++ session_on.rfcomm_services.map Call.rfcomm_unregister_service
            ++ session_on.rfcomm_cids.map Call.rfcomm_disconnect
            ++ session_on.l2cap_psms.map Call.l2cap_unregister_service
            ++ session_on.l2cap_cids.map (fun cid => Call.l2cap_disconnect cid 0)
            ++ gatt_calls
            ++ [Call.sdp_query_rfcomm_deregister_callback]
            ++ (if [] ++ [session_off] = [] then [Call.hci_disconnect_all] else [])
            ++ [Call.hci_discoverable_control flag]
            ++ (if on_and_off_clients.timeout_active ≠ 0 then [Call.btstack_run_loop_remove_timer]
                else [])
            ++ [Call.btstack_run_loop_set_timer 10000, Call.btstack_run_loop_add_timer] } ∧
      (flag = 1 ↔ ∃ x ∈ [] ++ [session_off], x.discoverable ≠ 0) ∧
      (flag = 0 ↔ ∀ x ∈ [] ++ [session_off], x.discoverable = 0) ∧
      clients_require_power_on
        (daemon_client_handler sample_constants on_and_off_clients 1 PacketType.DAEMON_EVENT_PACKET
          0 [] none EventCode.DAEMON_EVENT_CONNECTION_CLOSED {}) = 0 :=
  ⟨rfl, rfl, by simp, rfl, rfl, by decide,
    C11_disconnect_reevaluates_after_removal sample_constants on_and_off_clients 1 session_on []
      [session_off] 0 [] none {} rfl rfl (by simp) rfl rfl (by decide)⟩

theorem map_update_first {α β : Type} (p : α → Bool) (f : α → α) (g : α → β) (l : List α)
    (x0 : α) (hfind : l.find? p = some x0) (hg : g (f x0) = g x0) :
    (update_first p f l).map g = l.map g := by
  induction l with
  | nil => rfl
  | cons x xs ih =>
    unfold update_first
    by_cases hp : p x = true
    · rw [List.find?_cons_of_pos _ hp] at hfind
      have hx : x = x0 := Option.some.inj hfind
      subst hx
      simp [hp, hg]
    · rw [List.find?_cons_of_neg _ hp] at hfind
      simp [hp, ih hfind]

theorem malloc_eq (st : State) :
    st.malloc = (st.malloc_results.headD true,
      { st with malloc_results := st.malloc_results.tail }) := by
  unfold State.malloc
  cases st with
  | mk clients helpers ta pms ge hs nc rm sq mr tr =>
    cases mr <;> rfl

theorem add_to_client_list_helpers (st : State) (c : connection_t)
    (get : client_state_t → uint32_list) (set : client_state_t → uint32_list → client_state_t)
    (value : Nat) :
    (st.add_to_client_list c get set value).gatt_client_helpers = st.gatt_client_helpers := by
  unfold State.add_to_client_list
  rw [malloc_eq]
  split
  · rfl
  · split <;> rfl

theorem add_to_client_list_trace (st : State) (c : connection_t)
    (get : client_state_t → uint32_list) (set : client_state_t → uint32_list → client_state_t)
    (value : Nat) :
    (st.add_to_client_list c get set value).trace = st.trace := by
  unfold State.add_to_client_list
  rw [malloc_eq]
  split
  · rfl
  · split <;> rfl

theorem add_connection_to_helper_frame (st : State) (helper : gatt_client_helper_t)
    (c : connection_t) :
    (add_connection_to_helper st helper c).1.gatt_client_helpers = st.gatt_client_helpers ∧
    (add_connection_to_helper st helper c).1.clients = st.clients ∧
    (add_connection_to_helper st helper c).1.trace = st.trace ∧
    (add_connection_to_helper st helper c).2.con_handle = helper.con_handle ∧
    (add_connection_to_helper st helper c).2.active_connection = helper.active_connection := by
  unfold add_connection_to_helper
  rw [malloc_eq]
  split
  · simp
  · simp only
    split <;> simp

theorem daemon_add_gatt_client_handle_owners (st : State) (c : connection_t) (handle : Nat)
    (helper : gatt_client_helper_t)
    (hhelper : daemon_get_gatt_client_helper st handle = some helper) :
    (daemon_add_gatt_client_handle st c handle).gatt_client_helpers.map
        (fun x => (x.con_handle, x.active_connection)) =
      st.gatt_client_helpers.map (fun x => (x.con_handle, x.active_connection)) ∧
    (daemon_add_gatt_client_handle st c handle).trace = st.trace := by
  unfold daemon_add_gatt_client_handle
  cases hc : client_for_connection st c with
  | none => exact ⟨rfl, rfl⟩
  | some client_state =>
    simp only
    have hst1 : (if client_state.gatt_con_handles.contains handle = true then st
        else st.add_to_client_list c (fun c => c.gatt_con_handles)
          (fun c l => { c with gatt_con_handles := l }) handle).gatt_client_helpers
        = st.gatt_client_helpers := by
      split
      · rfl
      · exact add_to_client_list_helpers st c _ _ handle
    have htr1 : (if client_state.gatt_con_handles.contains handle = true then st
        else st.add_to_client_list c (fun c => c.gatt_con_handles)
          (fun c l => { c with gatt_con_handles := l }) handle).trace
        = st.trace := by
      split
      · rfl
      · exact add_to_client_list_trace st c _ _ handle
    generalize (if client_state.gatt_con_handles.contains handle = true then st
        else st.add_to_client_list c (fun c => c.gatt_con_handles)
          (fun c l => { c with gatt_con_handles := l }) handle) = st1 at hst1 htr1 ⊢
    split
    · rename_i gatt_helper hfind
      rw [hst1] at hfind
      have hsame : gatt_helper = helper := by
        unfold daemon_get_gatt_client_helper at hhelper
        rw [hhelper] at hfind
        exact (Option.some.inj hfind).symm
      subst hsame
      obtain ⟨f1, _, f3, f4, f5⟩ := add_connection_to_helper_frame st1 gatt_helper c
      simp only [State.update_helper]
      refine ⟨?_, by rw [f3, htr1]⟩
      rw [f1, hst1]
      exact map_update_first _ _ _ _ gatt_helper hfind (by rw [f4, f5])
    · rename_i hfind
      rw [hst1] at hfind
      unfold daemon_get_gatt_client_helper at hhelper
      rw [hhelper] at hfind
      exact absurd hfind (by simp)

/-- C18: `daemon_setup_gatt_client_request` without `track_active_connection`
leaves the handle and the active owner of every helper as they were, the only
possible change of the registry being a new helper without owner for the handle
of the request when it had none; and with an open link it returns the helper of
the handle whoever is the active owner of that helper. -/
theorem C18_untracked_request_keeps_active_owners (K : Constants) (st : State)
    (c : connection_t) (packet : List Nat) (reply : EngineReply) :
    ((daemon_setup_gatt_client_request K st c packet false reply).1.gatt_client_helpers.map
          (fun x => (x.con_handle, x.active_connection)) =
        st.gatt_client_helpers.map (fun x => (x.con_handle, x.active_connection)) ∨
      (daemon_get_gatt_client_helper st (READ_BT_16 packet 3) = none ∧
        (daemon_setup_gatt_client_request K st c packet false reply).1.gatt_client_helpers.map
            (fun x => (x.con_handle, x.active_connection)) =
          (READ_BT_16 packet 3, none) ::
            st.gatt_client_helpers.map (fun x => (x.con_handle, x.active_connection)))) ∧
    (∀ helper : gatt_client_helper_t, reply.hci_con_open = true →
      daemon_get_gatt_client_helper st (READ_BT_16 packet 3) = some helper →
      (daemon_setup_gatt_client_request K st c packet false reply).2 = true) := by
  constructor
  · unfold daemon_setup_gatt_client_request
    by_cases hopen : reply.hci_con_open = true
    · simp only [hopen, Bool.not_true, Bool.false_eq_true, if_false, Bool.false_and]
      cases hfind : daemon_get_gatt_client_helper st (READ_BT_16 packet 3) with
      | some helper =>
        simp only [Bool.not_true, Bool.false_eq_true, if_false]
        exact Or.inl (daemon_add_gatt_client_handle_owners st c _ helper hfind).1
      | none =>
        rw [malloc_eq]
        simp only
        cases hm : st.malloc_results.headD true
        · simp
        · simp only [if_true, Bool.not_true, Bool.false_eq_true, if_false]
          refine Or.inr ⟨trivial, ?_⟩
          rw [(daemon_add_gatt_client_handle_owners _ c _ { con_handle := READ_BT_16 packet 3 }
            (by simp [daemon_get_gatt_client_helper])).1]
          rfl
    · simp [hopen, send_gatt_query_complete, State.call]
  · intro helper hopen hfind
    simp [daemon_setup_gatt_client_request, hopen, hfind]

theorem update_first_update_first {α : Type} (p : α → Bool) (f g : α → α) (l : List α)
    (hp : ∀ x, p x = true → p (f x) = true) :
    update_first p g (update_first p f l) = update_first p (fun x => g (f x)) l := by
  induction l with
  | nil => rfl
  | cons x xs ih =>
    by_cases hx : p x = true
    · simp [update_first, hx, hp x hx]
    · simp [update_first, hx, ih]

theorem handle_gatt_query_complete_eq (st : State) (packet : List Nat)
    (helper : gatt_client_helper_t) (c : connection_t)
    (hhelper : daemon_get_gatt_client_helper st (READ_BT_16 packet 2) = some helper)
    (hactive : helper.active_connection = some c) :
    handle_gatt_client_event st EventCode.GATT_QUERY_COMPLETE packet =
      if helper.characteristic_length = 0 then
        { st with
          gatt_client_helpers :=
            update_first (fun item => item.con_handle == READ_BT_16 packet 2)
              (fun x => { x with active_connection := none }) st.gatt_client_helpers
          trace := st.trace ++
            [Call.socket_connection_send_packet c PacketType.HCI_EVENT_PACKET 0 packet] }
      else
        { st with
          gatt_client_helpers :=
            update_first (fun item => item.con_handle == READ_BT_16 packet 2)
              (fun x => { x with
                active_connection := none
                characteristic_length := 0
                characteristic_buffer :=
                  memcpy helper.characteristic_buffer 1
                    ([(8 + helper.characteristic_length) % 256]
                      ++ bt_store_16 (READ_BT_16 packet 2)
                      ++ bt_store_16 helper.characteristic_handle ++ bt_store_16 0
                      ++ bt_store_16 helper.characteristic_length) 0 9 })
              st.gatt_client_helpers
          trace := st.trace ++
            [Call.socket_connection_send_packet c PacketType.HCI_EVENT_PACKET 0
               ((memcpy helper.characteristic_buffer 1
                    ([(8 + helper.characteristic_length) % 256]
                      ++ bt_store_16 (READ_BT_16 packet 2)
                      ++ bt_store_16 helper.characteristic_handle ++ bt_store_16 0
                      ++ bt_store_16 helper.characteristic_length) 0 9).take
                  ((10 + helper.characteristic_length) % 65536)),
             Call.socket_connection_send_packet c PacketType.HCI_EVENT_PACKET 0 packet] } := by
  simp only [handle_gatt_client_event, hhelper, hactive, handle_gatt_client_event_active]
  by_cases hlen : helper.characteristic_length = 0
  · simp [hlen, State.update_helper, State.call]
  · simp only [hlen, bne_iff_ne, ne_eq, not_false_eq_true, if_true, if_false,
      State.update_helper, State.call]
    rw [update_first_update_first]
    · simp
    · intro x hx
      exact hx

theorem find_update_first {α : Type} (p : α → Bool) (f : α → α) (l : List α)
    (hp : ∀ x, p x = true → p (f x) = true) :
    (update_first p f l).find? p = (l.find? p).map f := by
  induction l with
  | nil => rfl
  | cons x xs ih =>
    by_cases hx : p x = true
    · simp [update_first, hx, hp x hx]
    · simp [update_first, hx, ih]

/-- C19: when the helper of handle `h` has the active owner `c`, a
`GATT_QUERY_COMPLETE` event for `h` clears that owner and keeps the handle and
`all_connections` of every helper and every session as they were; the calls
made are packets sent to `c`, the last of them the completion event itself and
none before it when the accumulated length is 0; and a following request with
`track_active_connection` on `h` over an open link returns the helper. -/
theorem C19_query_complete_clears_active_owner (st : State) (packet : List Nat) (h : Nat)
    (helper : gatt_client_helper_t) (c : connection_t)
    (hh : READ_BT_16 packet 2 = h)
    (hhelper : daemon_get_gatt_client_helper st h = some helper)
    (hactive : helper.active_connection = some c) :
    (handle_gatt_client_event st EventCode.GATT_QUERY_COMPLETE packet).clients = st.clients ∧
    (∃ helper', daemon_get_gatt_client_helper
          (handle_gatt_client_event st EventCode.GATT_QUERY_COMPLETE packet) h = some helper' ∧
        helper'.active_connection = none ∧
        helper'.all_connections = helper.all_connections) ∧
    (handle_gatt_client_event st EventCode.GATT_QUERY_COMPLETE packet).gatt_client_helpers.map
        (fun x => (x.con_handle, x.all_connections)) =
      st.gatt_client_helpers.map (fun x => (x.con_handle, x.all_connections)) ∧
    (∃ combined,
      (handle_gatt_client_event st EventCode.GATT_QUERY_COMPLETE packet).trace =
        st.trace ++ combined ++
          [Call.socket_connection_send_packet c PacketType.HCI_EVENT_PACKET 0 packet] ∧
      (helper.characteristic_length = 0 → combined = []) ∧
      (∀ x ∈ combined, ∃ data,
        x = Call.socket_connection_send_packet c PacketType.HCI_EVENT_PACKET 0 data)) ∧
    (∀ (K : Constants) (c2 : connection_t) (packet2 : List Nat) (reply : EngineReply),
      reply.hci_con_open = true → READ_BT_16 packet2 3 = h →
      (daemon_setup_gatt_client_request K
        (handle_gatt_client_event st EventCode.GATT_QUERY_COMPLETE packet) c2 packet2 true
        reply).2 = true) := by
  subst hh
  have heq := handle_gatt_query_complete_eq st packet helper c hhelper hactive
  have hfind : st.gatt_client_helpers.find? (fun item => item.con_handle == READ_BT_16 packet 2)
      = some helper := hhelper
  have hlookup : ∃ helper', daemon_get_gatt_client_helper
        (handle_gatt_client_event st EventCode.GATT_QUERY_COMPLETE packet) (READ_BT_16 packet 2)
          = some helper' ∧
      helper'.active_connection = none ∧ helper'.all_connections = helper.all_connections := by
    rw [heq]
    unfold daemon_get_gatt_client_helper
    split
    · simp only
      rw [find_update_first, hfind]
      · exact ⟨_, rfl, rfl, rfl⟩
      · intro x hx
        exact hx
    · simp only
      rw [find_update_first, hfind]
      · exact ⟨_, rfl, rfl, rfl⟩
      · intro x hx
        exact hx
  refine ⟨?_, hlookup, ?_, ?_, ?_⟩
  · rw [heq]; split <;> rfl
  · rw [heq]
    split
    · exact map_update_first _ _ _ _ helper hfind rfl
    · exact map_update_first _ _ _ _ helper hfind rfl
  · rw [heq]
    by_cases hlen : helper.characteristic_length = 0
    · rw [if_pos hlen]
      exact ⟨[], by simp, fun _ => rfl, by simp⟩
    · rw [if_neg hlen]
      simp only
      obtain ⟨data, hdata⟩ : ∃ data, st.trace ++
          [Call.socket_connection_send_packet c PacketType.HCI_EVENT_PACKET 0
            ((memcpy helper.characteristic_buffer 1
                ([(8 + helper.characteristic_length) % 256] ++ bt_store_16 (READ_BT_16 packet 2)
                  ++ bt_store_16 helper.characteristic_handle ++ bt_store_16 0
                  ++ bt_store_16 helper.characteristic_length) 0 9).take
              ((10 + helper.characteristic_length) % 65536)),
           Call.socket_connection_send_packet c PacketType.HCI_EVENT_PACKET 0 packet] =
          st.trace ++ [Call.socket_connection_send_packet c PacketType.HCI_EVENT_PACKET 0 data]
            ++ [Call.socket_connection_send_packet c PacketType.HCI_EVENT_PACKET 0 packet] :=
        ⟨_, (List.append_assoc st.trace [_] [_]).symm⟩
      exact ⟨[Call.socket_connection_send_packet c PacketType.HCI_EVENT_PACKET 0 data], hdata,
        fun h0 => absurd h0 hlen, fun x hx => ⟨data, by simpa using hx⟩⟩
  · intro K c2 packet2 reply hopen hh2
    obtain ⟨helper', hl, hnone, _⟩ := hlookup
    simp [daemon_setup_gatt_client_request, hopen, hh2, hl, hnone]

/-- Witness for C19: the query of connection 1 on handle 64 completes. -/
theorem C19_query_complete_witness :
    READ_BT_16 [160, 3, 64, 0, 0] 2 = 64 ∧
    daemon_get_gatt_client_helper busy_helper_state 64 = some busy_helper ∧
    busy_helper.active_connection = some 1 ∧
    (handle_gatt_client_event busy_helper_state EventCode.GATT_QUERY_COMPLETE
        [160, 3, 64, 0, 0]).clients = busy_helper_state.clients ∧
    (∃ helper', daemon_get_gatt_client_helper
          (handle_gatt_client_event busy_helper_state EventCode.GATT_QUERY_COMPLETE
            [160, 3, 64, 0, 0]) 64 = some helper' ∧
        helper'.active_connection = none ∧
        helper'.all_connections = busy_helper.all_connections) ∧
    (handle_gatt_client_event busy_helper_state EventCode.GATT_QUERY_COMPLETE
        [160, 3, 64, 0, 0]).gatt_client_helpers.map (fun x => (x.con_handle, x.all_connections)) =
      busy_helper_state.gatt_client_helpers.map (fun x => (x.con_handle, x.all_connections)) ∧
    (∃ combined,
      (handle_gatt_client_event busy_helper_state EventCode.GATT_QUERY_COMPLETE
          [160, 3, 64, 0, 0]).trace =
        busy_helper_state.trace ++ combined ++
          [Call.socket_connection_send_packet 1 PacketType.HCI_EVENT_PACKET 0
            [160, 3, 64, 0, 0]] ∧
      (busy_helper.characteristic_length = 0 → combined = []) ∧
      (∀ x ∈ combined, ∃ data,
        x = Call.socket_connection_send_packet 1 PacketType.HCI_EVENT_PACKET 0 data)) ∧
    (∀ (K : Constants) (c2 : connection_t) (packet2 : List Nat) (reply : EngineReply),
      reply.hci_con_open = true → READ_BT_16 packet2 3 = 64 →
      (daemon_setup_gatt_client_request K
        (handle_gatt_client_event busy_helper_state EventCode.GATT_QUERY_COMPLETE
          [160, 3, 64, 0, 0]) c2 packet2 true reply).2 = true) :=
  ⟨by decide, rfl, rfl,
    C19_query_complete_clears_active_owner busy_helper_state [160, 3, 64, 0, 0] 64 busy_helper 1
      (by decide) rfl rfl⟩

/-! ### Reassembly of long attribute values -/

theorem memcpy_succ (dst : List Nat) (dst_pos : Nat) (src : List Nat) (src_pos n : Nat) :
    memcpy dst dst_pos src src_pos (n + 1) =
      (memcpy dst dst_pos src src_pos n).set (dst_pos + n) (byte_at src (src_pos + n)) := by
  unfold memcpy
  rw [List.range_succ, List.foldl_append]
  rfl

theorem length_memcpy (dst : List Nat) (dst_pos : Nat) (src : List Nat) (src_pos n : Nat) :
    (memcpy dst dst_pos src src_pos n).length = dst.length := by
  induction n with
  | zero => rfl
  | succ n ih => rw [memcpy_succ, List.length_set, ih]

theorem getD_set (l : List Nat) (i j v : Nat) :
    (l.set i v).getD j 0 = if i = j ∧ i < l.length then v else l.getD j 0 := by
  simp only [List.getD_eq_getElem?_getD, List.getElem?_set]
  by_cases hij : i = j
  · subst hij
    by_cases hi : i < l.length
    · simp [hi]
    · simp [hi]
      rw [List.getElem?_eq_none (by omega)]
      rfl
  · simp [hij]

theorem getD_memcpy (dst : List Nat) (dst_pos : Nat) (src : List Nat) (src_pos n i : Nat) :
    (memcpy dst dst_pos src src_pos n).getD i 0 =
      if dst_pos ≤ i ∧ i < dst_pos + n ∧ i < dst.length then byte_at src (src_pos + (i - dst_pos))
      else dst.getD i 0 := by
  induction n with
  | zero =>
    rw [if_neg (by omega)]
    rfl
  | succ n ih =>
    rw [memcpy_succ, getD_set, length_memcpy, ih]
    by_cases h1 : dst_pos + n = i
    · subst h1
      by_cases h2 : dst_pos + n < dst.length
      · simp [h2]
      · simp [h2]
    · by_cases h3 : dst_pos ≤ i ∧ i < dst_pos + n ∧ i < dst.length
      · have h4 : dst_pos ≤ i ∧ i < dst_pos + (n + 1) ∧ i < dst.length := ⟨h3.1, by omega, h3.2.2⟩
        simp [h1, h3, h4]
      · have h4 : ¬ (dst_pos ≤ i ∧ i < dst_pos + (n + 1) ∧ i < dst.length) := by
          intro h
          apply h3
          exact ⟨h.1, by omega, h.2.2⟩
        simp [h1, h3, h4]

theorem list_eq_of_getD (l1 l2 : List Nat) (hlen : l1.length = l2.length)
    (h : ∀ i, i < l1.length → l1.getD i 0 = l2.getD i 0) : l1 = l2 := by
  apply List.ext_getElem hlen
  intro i h1 h2
  have := h i h1
  simpa [List.getD_eq_getElem?_getD, List.getElem?_eq_getElem h1, List.getElem?_eq_getElem h2]
    using this

theorem length_bytes_at (packet : List Nat) (pos len : Nat) :
    (bytes_at packet pos len).length = len := by
  simp [bytes_at]

theorem getD_bytes_at (packet : List Nat) (pos len i : Nat) (hi : i < len) :
    (bytes_at packet pos len).getD i 0 = byte_at packet (pos + i) := by
  unfold bytes_at
  rw [List.getD_eq_getElem?_getD, List.getElem?_map, List.getElem?_range hi]
  rfl

theorem handle_long_fragment_eq (st : State) (event : EventCode) (packet : List Nat)
    (helper : gatt_client_helper_t) (c : connection_t)
    (hevent : event = EventCode.GATT_LONG_CHARACTERISTIC_VALUE_QUERY_RESULT ∨
      event = EventCode.GATT_LONG_CHARACTERISTIC_DESCRIPTOR_QUERY_RESULT)
    (hhelper : daemon_get_gatt_client_helper st (READ_BT_16 packet 2) = some helper)
    (hactive : helper.active_connection = some c) :
    handle_gatt_client_event st event packet =
      { st with
        gatt_client_helpers :=
          update_first (fun item => item.con_handle == READ_BT_16 packet 2)
            (fun x =>
              { x with
                characteristic_buffer :=
                  memcpy (x.characteristic_buffer.set 0 (byte_at packet 0))
                    (10 + READ_BT_16 packet 6) packet 10 (READ_BT_16 packet 8)
                characteristic_handle := READ_BT_16 packet 4
                characteristic_length := (READ_BT_16 packet 6 + READ_BT_16 packet 8) % 65536 })
            st.gatt_client_helpers } := by
  rcases hevent with rfl | rfl <;>
    simp [handle_gatt_client_event, hhelper, hactive, handle_gatt_client_event_active,
      State.update_helper]

theorem length_fragments_value (ps : List (List Nat)) :
    (fragments_value ps).length = fragments_length ps := by
  induction ps with
  | nil => rfl
  | cons p ps ih => simp [fragments_value, fragments_length, fragment_data, length_bytes_at, ih]

theorem fragments_invariant (event : EventCode)
    (hevent : event = EventCode.GATT_LONG_CHARACTERISTIC_VALUE_QUERY_RESULT ∨
      event = EventCode.GATT_LONG_CHARACTERISTIC_DESCRIPTOR_QUERY_RESULT)
    (h ah t : Nat) (c : connection_t) :
    ∀ (ps : List (List Nat)) (st : State) (helper : gatt_client_helper_t) (off : Nat),
      daemon_get_gatt_client_helper st h = some helper →
      helper.active_connection = some c →
      helper.characteristic_buffer.length = 10 + ATT_MAX_LONG_ATTRIBUTE_SIZE →
      contiguous_fragments t h ah off ps = true →
      off + fragments_length ps ≤ ATT_MAX_LONG_ATTRIBUTE_SIZE →
      ∃ helper',
        daemon_get_gatt_client_helper (handle_gatt_client_events st event ps) h = some helper' ∧
        (handle_gatt_client_events st event ps).trace = st.trace ∧
        helper'.active_connection = some c ∧
        helper'.characteristic_buffer.length = 10 + ATT_MAX_LONG_ATTRIBUTE_SIZE ∧
        (ps = [] → helper' = helper) ∧
        (ps ≠ [] → helper'.characteristic_length = off + fragments_length ps ∧
          helper'.characteristic_handle = ah ∧ helper'.characteristic_buffer.getD 0 0 = t) ∧
        (∀ i, i < fragments_length ps →
          helper'.characteristic_buffer.getD (10 + off + i) 0 = (fragments_value ps).getD i 0) ∧
        (∀ i, 10 ≤ i → i < 10 + off →
          helper'.characteristic_buffer.getD i 0 = helper.characteristic_buffer.getD i 0) := by
  intro ps
  induction ps with
  | nil =>
    intro st helper off hhelper hactive hbuf _ _
    exact ⟨helper, hhelper, rfl, hactive, hbuf, fun _ => rfl, fun hne => absurd rfl hne,
      fun i hi => absurd hi (by simp [fragments_length]), fun i _ _ => rfl⟩
  | cons p ps ih =>
    intro st helper off hhelper hactive hbuf hcont hbound
    simp only [contiguous_fragments, Bool.and_eq_true, beq_iff_eq] at hcont
    obtain ⟨⟨⟨⟨ht, hh⟩, hah⟩, hoff⟩, hrest⟩ := hcont
    simp only [fragments_length] at hbound
    have hsize : ATT_MAX_LONG_ATTRIBUTE_SIZE = 512 := rfl
    rw [hsize] at hbound hbuf
    have hstep := handle_long_fragment_eq st event p helper c hevent (by rw [hh]; exact hhelper)
      hactive
    rw [hh, hoff] at hstep
    have hfold : handle_gatt_client_events st event (p :: ps) =
        handle_gatt_client_events (handle_gatt_client_event st event p) event ps := rfl
    have hlookup1 : daemon_get_gatt_client_helper (handle_gatt_client_event st event p) h =
        some { helper with
          characteristic_buffer :=
            memcpy (helper.characteristic_buffer.set 0 (byte_at p 0)) (10 + off) p 10
              (READ_BT_16 p 8)
          characteristic_handle := READ_BT_16 p 4
          characteristic_length := (off + READ_BT_16 p 8) % 65536 } := by
      rw [hstep]
      unfold daemon_get_gatt_client_helper
      simp only
      rw [find_update_first]
      · have hfind : st.gatt_client_helpers.find? (fun item => item.con_handle == h)
            = some helper := hhelper
        rw [hfind]
        rfl
      · intro x hx
        exact hx
    obtain ⟨helper', hl', htr', hact', hbuf', hnil', hcons', hdata', hkeep'⟩ :=
      ih (handle_gatt_client_event st event p) _ (off + READ_BT_16 p 8) hlookup1 hactive
        (by simp only [length_memcpy, List.length_set]; rw [hbuf, hsize]) hrest
        (by rw [hsize]; omega)
    have hb1 : ∀ i, (memcpy (helper.characteristic_buffer.set 0 (byte_at p 0)) (10 + off) p 10
        (READ_BT_16 p 8)).getD i 0 =
        if 10 + off ≤ i ∧ i < 10 + off + READ_BT_16 p 8 then byte_at p (10 + (i - (10 + off)))
        else if i = 0 then byte_at p 0 else helper.characteristic_buffer.getD i 0 := by
      intro i
      rw [getD_memcpy, List.length_set, hbuf, getD_set, hbuf]
      by_cases h1 : 10 + off ≤ i ∧ i < 10 + off + READ_BT_16 p 8
      · have h2 : 10 + off ≤ i ∧ i < 10 + off + READ_BT_16 p 8 ∧ i < 10 + 512 :=
          ⟨h1.1, h1.2, by omega⟩
        rw [if_pos h1, if_pos h2]
      · have h2 : ¬ (10 + off ≤ i ∧ i < 10 + off + READ_BT_16 p 8 ∧ i < 10 + 512) :=
          fun h => h1 ⟨h.1, h.2.1⟩
        rw [if_neg h1, if_neg h2]
        by_cases h0 : i = 0
        · subst h0
          simp
        · have h3 : ¬ (0 = i ∧ 0 < 10 + 512) := fun h => h0 h.1.symm
          rw [if_neg h3, if_neg h0]
    refine ⟨helper', by rw [hfold]; exact hl', ?_, hact', hbuf', fun hne => absurd hne (by simp),
      fun _ => ?_, ?_, ?_⟩
    · rw [hfold, htr', hstep]
    · cases ps with
      | nil =>
        rw [hnil' rfl]
        simp only [fragments_length]
        refine ⟨?_, hah, ?_⟩
        · rw [Nat.mod_eq_of_lt (by omega)]
          omega
        · rw [hb1, if_neg (by omega), if_pos rfl, ht]
      | cons q qs =>
        obtain ⟨h1, h2, h3⟩ := hcons' (by simp)
        refine ⟨?_, h2, h3⟩
        rw [h1]
        simp only [fragments_length]
        omega
    · intro i hi
      simp only [fragments_length] at hi
      simp only [fragments_value]
      by_cases hlt : i < READ_BT_16 p 8
      · rw [List.getD_append _ _ _ _ (by rw [fragment_data, length_bytes_at]; exact hlt)]
        rw [fragment_data, getD_bytes_at _ _ _ _ hlt]
        rw [hkeep' (10 + off + i) (by omega) (by omega)]
        simp only
        rw [hb1, if_pos (by omega)]
        congr 1
        omega
      · rw [List.getD_append_right _ _ _ _ (by rw [fragment_data, length_bytes_at]; omega)]
        rw [fragment_data, length_bytes_at]
        have := hdata' (i - READ_BT_16 p 8) (by omega)
        rw [← this]
        congr 1
        omega
    · intro i h10 hi
      rw [hkeep' i h10 (by omega)]
      simp only
      rw [hb1, if_neg (by omega), if_neg (by omega)]

theorem getD_take_of_lt (l : List Nat) (n i : Nat) (hi : i < n) :
    (l.take n).getD i 0 = l.getD i 0 := by
  simp [List.getD_eq_getElem?_getD, List.getElem?_take, hi]

theorem combined_event_bytes (buffer value : List Nat) (t h ah L : Nat)
    (hbuf : buffer.length = 10 + ATT_MAX_LONG_ATTRIBUTE_SIZE)
    (hL : L ≤ ATT_MAX_LONG_ATTRIBUTE_SIZE) (ht : buffer.getD 0 0 = t)
    (hvalue : value.length = L)
    (hdata : ∀ i, i < L → buffer.getD (10 + i) 0 = value.getD i 0) :
    (memcpy buffer 1
        ([(8 + L) % 256] ++ bt_store_16 h ++ bt_store_16 ah ++ bt_store_16 0 ++ bt_store_16 L)
        0 9).take ((10 + L) % 65536) =
      [t, (8 + L) % 256] ++ bt_store_16 h ++ bt_store_16 ah ++ [0, 0] ++ bt_store_16 L ++ value := by
  have hsize : ATT_MAX_LONG_ATTRIBUTE_SIZE = 512 := rfl
  rw [hsize] at hbuf hL
  rw [Nat.mod_eq_of_lt (by omega)]
  apply list_eq_of_getD
  · simp [List.length_take, length_memcpy, hbuf, hvalue, bt_store_16]
    omega
  · intro i hi
    rw [List.length_take, length_memcpy, hbuf] at hi
    have hi' : i < 10 + L := by omega
    rw [getD_take_of_lt _ _ _ hi', getD_memcpy, hbuf]
    by_cases h10 : i < 10
    · by_cases h0 : i = 0
      · subst h0
        rw [if_neg (by omega), ht]
        rfl
      · have hr : 1 ≤ i ∧ i < 1 + 9 ∧ i < 10 + 512 := ⟨by omega, by omega, by omega⟩
        rw [if_pos hr]
        have hi1 : 1 ≤ i := hr.1
        interval_cases i <;> simp [byte_at, bt_store_16]
    · have hr : ¬ (1 ≤ i ∧ i < 1 + 9 ∧ i < 10 + 512) := by omega
      rw [if_neg hr]
      have := hdata (i - 10) (by omega)
      rw [show 10 + (i - 10) = i by omega] at this
      rw [this]
      have hlen10 : ([t, (8 + L) % 256] ++ bt_store_16 h ++ bt_store_16 ah ++ [0, 0]
          ++ bt_store_16 L).length = 10 := by simp [bt_store_16]
      rw [List.getD_append_right _ _ _ _ (by rw [hlen10]; omega), hlen10]

/-- C20: for a helper of handle `h` with active owner `c`, fragment events of one
long read (type byte `t`, attribute handle `ah`, offsets contiguous from 0,
total length `L` with `0 < L` and `L` at most 512) followed by a
`GATT_QUERY_COMPLETE` event for `h` make exactly two calls: a packet to `c` made
of `t`, the length byte, `h`, `ah`, offset 0, length `L` and the concatenation of
the fragments' value bytes, then the completion event to `c`; afterwards the
accumulated length of the helper is 0 and it has no active owner.  The
accumulated length before the first fragment does not matter. -/
theorem C20_long_value_reassembly (st : State) (event : EventCode) (h ah t L : Nat)
    (c : connection_t) (helper : gatt_client_helper_t) (fragments : List (List Nat))
    (complete : List Nat)
    (hevent : event = EventCode.GATT_LONG_CHARACTERISTIC_VALUE_QUERY_RESULT ∨
      event = EventCode.GATT_LONG_CHARACTERISTIC_DESCRIPTOR_QUERY_RESULT)
    (hhelper : daemon_get_gatt_client_helper st h = some helper)
    (hactive : helper.active_connection = some c)
    (hbuf : helper.characteristic_buffer.length = 10 + ATT_MAX_LONG_ATTRIBUTE_SIZE)
    (hcont : contiguous_fragments t h ah 0 fragments = true)
    (hL : fragments_length fragments = L) (hpos : 0 < L) (hle : L ≤ 512)
    (hcomplete : READ_BT_16 complete 2 = h) :
    (handle_gatt_client_event (handle_gatt_client_events st event fragments)
        EventCode.GATT_QUERY_COMPLETE complete).trace =
      st.trace ++
        [Call.socket_connection_send_packet c PacketType.HCI_EVENT_PACKET 0
           ([t, (8 + L) % 256] ++ bt_store_16 h ++ bt_store_16 ah ++ [0, 0] ++ bt_store_16 L
             ++ fragments_value fragments),
         Call.socket_connection_send_packet c PacketType.HCI_EVENT_PACKET 0 complete] ∧
    (fragments_value fragments).length = L ∧
    ∃ helper', daemon_get_gatt_client_helper
        (handle_gatt_client_event (handle_gatt_client_events st event fragments)
          EventCode.GATT_QUERY_COMPLETE complete) h = some helper' ∧
      helper'.characteristic_length = 0 ∧ helper'.active_connection = none := by
  subst hL
  have hne : fragments ≠ [] := by
    rintro rfl
    simp [fragments_length] at hpos
  obtain ⟨helper1, hl1, htr1, hact1, hbuf1, _, hcons1, hdata1, _⟩ :=
    fragments_invariant event hevent h ah t c fragments st helper 0 hhelper hactive hbuf hcont
      (by simpa [ATT_MAX_LONG_ATTRIBUTE_SIZE] using hle)
  obtain ⟨hlen1, hah1, ht1⟩ := hcons1 hne
  rw [Nat.zero_add] at hlen1
  have heq := handle_gatt_query_complete_eq (handle_gatt_client_events st event fragments)
    complete helper1 c (by rw [hcomplete]; exact hl1) hact1
  rw [if_neg (by rw [hlen1]; omega), hlen1, hah1, hcomplete] at heq
  have hbytes := combined_event_bytes helper1.characteristic_buffer (fragments_value fragments)
    t h ah (fragments_length fragments) hbuf1
    (by simpa [ATT_MAX_LONG_ATTRIBUTE_SIZE] using hle) ht1 (length_fragments_value fragments)
    (fun i hi => by simpa [Nat.add_assoc] using hdata1 i hi)
  rw [hbytes] at heq
  refine ⟨?_, length_fragments_value fragments, ?_⟩
  · rw [heq, htr1]
  · rw [heq]
    unfold daemon_get_gatt_client_helper
    simp only
    rw [find_update_first]
    · have hfind : (handle_gatt_client_events st event fragments).gatt_client_helpers.find?
          (fun item => item.con_handle == h) = some helper1 := hl1
      rw [hfind]
      exact ⟨_, rfl, rfl, rfl⟩
    · intro x hx
      exact hx

/-- Witness for C20: 5 bytes at offset 0 and 3 bytes at offset 5 give the 8-byte
value made of the first five bytes followed by the last three. -/
theorem C20_long_value_reassembly_witness :
    (EventCode.GATT_LONG_CHARACTERISTIC_VALUE_QUERY_RESULT =
        EventCode.GATT_LONG_CHARACTERISTIC_VALUE_QUERY_RESULT ∨
      EventCode.GATT_LONG_CHARACTERISTIC_VALUE_QUERY_RESULT =
        EventCode.GATT_LONG_CHARACTERISTIC_DESCRIPTOR_QUERY_RESULT) ∧
    daemon_get_gatt_client_helper busy_helper_state 64 = some busy_helper ∧
    busy_helper.active_connection = some 1 ∧
    busy_helper.characteristic_buffer.length = 10 + ATT_MAX_LONG_ATTRIBUTE_SIZE ∧
    contiguous_fragments 165 64 9 0 sample_fragments = true ∧
    fragments_length sample_fragments = 8 ∧ 0 < 8 ∧ 8 ≤ 512 ∧
    READ_BT_16 [160, 3, 64, 0, 0] 2 = 64 ∧
    fragments_value sample_fragments = [10, 11, 12, 13, 14, 20, 21, 22] ∧
    (handle_gatt_client_event
        (handle_gatt_client_events busy_helper_state
          EventCode.GATT_LONG_CHARACTERISTIC_VALUE_QUERY_RESULT sample_fragments)
        EventCode.GATT_QUERY_COMPLETE [160, 3, 64, 0, 0]).trace =
      busy_helper_state.trace ++
        [Call.socket_connection_send_packet 1 PacketType.HCI_EVENT_PACKET 0
           ([165, (8 + 8) % 256] ++ bt_store_16 64 ++ bt_store_16 9 ++ [0, 0] ++ bt_store_16 8
             ++ fragments_value sample_fragments),
         Call.socket_connection_send_packet 1 PacketType.HCI_EVENT_PACKET 0 [160, 3, 64, 0, 0]] ∧
    (fragments_value sample_fragments).length = 8 ∧
    ∃ helper', daemon_get_gatt_client_helper
        (handle_gatt_client_event
          (handle_gatt_client_events busy_helper_state
            EventCode.GATT_LONG_CHARACTERISTIC_VALUE_QUERY_RESULT sample_fragments)
          EventCode.GATT_QUERY_COMPLETE [160, 3, 64, 0, 0]) 64 = some helper' ∧
      helper'.characteristic_length = 0 ∧ helper'.active_connection = none :=
  ⟨Or.inl rfl, rfl, rfl, List.length_replicate _ _, by decide, by decide, by decide, by decide,
    by decide, by decide,
    C20_long_value_reassembly busy_helper_state
      EventCode.GATT_LONG_CHARACTERISTIC_VALUE_QUERY_RESULT 64 9 165 8 1 busy_helper
      sample_fragments [160, 3, 64, 0, 0] (Or.inl rfl) rfl rfl (List.length_replicate _ _)
      (by decide) (by decide) (by decide) (by decide) (by decide)⟩

/-! ### Timer calls of the handlers -/

theorem quiet_refl (st : State) : Quiet st st :=
  ⟨rfl, [], by simp, by simp⟩

theorem quiet_trans {st1 st2 st3 : State} (h12 : Quiet st1 st2) (h23 : Quiet st2 st3) :
    Quiet st1 st3 := by
  obtain ⟨ha, c1, ht1, hc1⟩ := h12
  obtain ⟨hb, c2, ht2, hc2⟩ := h23
  refine ⟨by rw [hb, ha], c1 ++ c2, by rw [ht2, ht1, List.append_assoc], ?_⟩
  intro x hx
  rcases List.mem_append.1 hx with h | h
  · exact hc1 x h
  · exact hc2 x h

theorem quiet_of_eq {st st' : State} (h1 : st'.timeout_active = st.timeout_active)
    (h2 : st'.trace = st.trace) : Quiet st st' :=
  ⟨h1, [], by simp [h2], by simp⟩

theorem quiet_call (st : State) (c : Call) (hc : timer_call c = false) : Quiet st (st.call c) :=
  ⟨rfl, [c], rfl, by simpa using hc⟩

theorem quiet_calls (st : State) (cs : List Call) (hc : ∀ x ∈ cs, timer_call x = false) :
    Quiet st (st.calls cs) :=
  ⟨rfl, cs, rfl, hc⟩

theorem quiet_update_client (st : State) (c : connection_t)
    (f : client_state_t → client_state_t) : Quiet st (st.update_client c f) :=
  quiet_of_eq rfl rfl

theorem quiet_update_helper (st : State) (h : Nat)
    (f : gatt_client_helper_t → gatt_client_helper_t) : Quiet st (st.update_helper h f) :=
  quiet_of_eq rfl rfl

theorem quiet_malloc (st : State) : Quiet st st.malloc.2 := by
  rw [malloc_eq]
  exact quiet_of_eq rfl rfl

theorem quiet_add_to_client_list (st : State) (c : connection_t)
    (get : client_state_t → uint32_list) (set : client_state_t → uint32_list → client_state_t)
    (value : Nat) : Quiet st (st.add_to_client_list c get set value) := by
  unfold State.add_to_client_list
  rw [malloc_eq]
  split
  · exact quiet_refl st
  · split
    · exact quiet_refl st
    · exact quiet_of_eq rfl rfl

theorem quiet_remove_from_client_list (st : State) (c : connection_t)
    (get : client_state_t → uint32_list) (set : client_state_t → uint32_list → client_state_t)
    (value : Nat) : Quiet st (st.remove_from_client_list c get set value) := by
  unfold State.remove_from_client_list
  split
  · exact quiet_refl st
  · exact quiet_of_eq rfl rfl

theorem quiet_add_connection_to_helper (st : State) (helper : gatt_client_helper_t)
    (c : connection_t) : Quiet st (add_connection_to_helper st helper c).1 := by
  unfold add_connection_to_helper
  rw [malloc_eq]
  split
  · exact quiet_refl st
  · simp only
    split <;> exact quiet_of_eq rfl rfl

theorem quiet_daemon_add_gatt_client_handle (st : State) (c : connection_t) (handle : Nat) :
    Quiet st (daemon_add_gatt_client_handle st c handle) := by
  unfold daemon_add_gatt_client_handle
  split
  · exact quiet_refl st
  · rename_i cs _
    simp only
    have h1 : Quiet st (if cs.gatt_con_handles.contains handle = true then st
        else st.add_to_client_list c (fun c => c.gatt_con_handles)
          (fun c l => { c with gatt_con_handles := l }) handle) := by
      split
      · exact quiet_refl st
      · exact quiet_add_to_client_list st c _ _ handle
    generalize (if cs.gatt_con_handles.contains handle = true then st
        else st.add_to_client_list c (fun c => c.gatt_con_handles)
          (fun c l => { c with gatt_con_handles := l }) handle) = st1 at h1 ⊢
    refine quiet_trans h1 ?_
    split
    · exact quiet_trans (quiet_add_connection_to_helper _ _ c) (quiet_update_helper _ _ _)
    · rw [malloc_eq]
      simp only
      split
      · have h2 := quiet_add_connection_to_helper
          { st1 with malloc_results := st1.malloc_results.tail } { con_handle := handle % 65536 } c
        have h3 : Quiet st1 { st1 with malloc_results := st1.malloc_results.tail } :=
          quiet_of_eq rfl rfl
        exact quiet_trans h3 (quiet_trans h2 (quiet_of_eq rfl rfl))
      · exact quiet_of_eq rfl rfl

theorem quiet_daemon_remove_gatt_client_handle (st : State) (c : connection_t) (handle : Nat) :
    Quiet st (daemon_remove_gatt_client_handle st c handle) := by
  unfold daemon_remove_gatt_client_handle
  split
  · exact quiet_refl st
  · simp only
    split
    · exact quiet_update_client st c _
    · split
      · exact quiet_trans (quiet_update_client st c _)
          (quiet_trans (quiet_update_helper _ _ _) (quiet_call _ _ rfl))
      · exact quiet_trans (quiet_update_client st c _) (quiet_update_helper _ _ _)

theorem quiet_daemon_remove_gatt_client_helper (st : State) (con_handle : Nat) :
    Quiet st (daemon_remove_gatt_client_helper st con_handle) := by
  unfold daemon_remove_gatt_client_helper
  split
  · exact quiet_refl st
  · exact quiet_of_eq rfl rfl

theorem quiet_daemon_gatt_client_close_connection_loop (c : connection_t) :
    ∀ (fuel : Nat) (st : State), Quiet st (daemon_gatt_client_close_connection_loop fuel st c) := by
  intro fuel
  induction fuel with
  | zero => intro st; exact quiet_refl st
  | succ fuel ih =>
    intro st
    unfold daemon_gatt_client_close_connection_loop
    split
    · exact quiet_refl st
    · split
      · exact quiet_refl st
      · exact quiet_trans (quiet_daemon_remove_gatt_client_handle st c _) (ih _)

theorem quiet_daemon_gatt_client_close_connection (st : State) (c : connection_t) :
    Quiet st (daemon_gatt_client_close_connection st c) := by
  unfold daemon_gatt_client_close_connection
  split
  · exact quiet_refl st
  · exact quiet_daemon_gatt_client_close_connection_loop c _ st

theorem quiet_calls_map {α : Type} (st : State) (f : α → Call) (l : List α)
    (hf : ∀ a, timer_call (f a) = false) : Quiet st (st.calls (l.map f)) := by
  apply quiet_calls
  intro x hx
  obtain ⟨a, _, rfl⟩ := List.mem_map.1 hx
  exact hf a

theorem quiet_daemon_rfcomm_close_connection (st : State) (c : connection_t) :
    Quiet st (daemon_rfcomm_close_connection st c) := by
  unfold daemon_rfcomm_close_connection
  split
  · exact quiet_refl st
  · exact quiet_trans (quiet_calls_map st _ _ (by intro _; rfl))
      (quiet_trans (quiet_update_client _ c _)
        (quiet_trans (quiet_calls_map _ _ _ (by intro _; rfl)) (quiet_update_client _ c _)))

theorem quiet_daemon_l2cap_close_connection (st : State) (c : connection_t) :
    Quiet st (daemon_l2cap_close_connection st c) := by
  unfold daemon_l2cap_close_connection
  split
  · exact quiet_refl st
  · exact quiet_trans (quiet_calls_map st _ _ (by intro _; rfl))
      (quiet_trans (quiet_update_client _ c _)
        (quiet_trans (quiet_calls_map _ _ _ (by intro _; rfl)) (quiet_update_client _ c _)))

theorem quiet_daemon_sdp_close_connection (st : State) (c : connection_t) :
    Quiet st (daemon_sdp_close_connection st c) := by
  unfold daemon_sdp_close_connection
  split
  · exact quiet_refl st
  · exact quiet_trans (quiet_calls_map st _ _ (by intro _; rfl)) (quiet_update_client _ c _)

theorem quiet_daemon_close_connections (st : State) (c : connection_t) :
    Quiet st (daemon_close_connections st c) := by
  unfold daemon_close_connections
  exact quiet_trans (quiet_daemon_sdp_close_connection st c)
    (quiet_trans (quiet_daemon_rfcomm_close_connection _ c)
      (quiet_trans (quiet_daemon_l2cap_close_connection _ c)
        (quiet_daemon_gatt_client_close_connection _ c)))

theorem quiet_daemon_disconnect_client (st : State) (c : connection_t) :
    Quiet st (daemon_disconnect_client st c) := by
  unfold daemon_disconnect_client
  split
  · exact quiet_refl st
  · exact quiet_trans (quiet_daemon_close_connections st c) (quiet_of_eq rfl rfl)

theorem quiet_daemon_no_connections_timeout (st : State) :
    Quiet st (daemon_no_connections_timeout st) := by
  unfold daemon_no_connections_timeout
  split
  · exact quiet_refl st
  · exact quiet_call st _ rfl

theorem quiet_power_notification_callback (st : State) (n : POWER_NOTIFICATION_t) :
    Quiet st (power_notification_callback st n) := by
  cases n
  · exact quiet_trans (quiet_of_eq rfl rfl) (quiet_call { st with power_management_sleep := 1 } _ rfl)
  · unfold power_notification_callback
    simp only
    split
    · exact quiet_trans (quiet_of_eq rfl rfl)
        (quiet_call { st with power_management_sleep := 0 } _ rfl)
    · exact quiet_of_eq rfl rfl
  · exact quiet_refl st

theorem quiet_send_gatt_query_complete (K : Constants) (st : State) (c : connection_t)
    (handle status : Nat) : Quiet st (send_gatt_query_complete K st c handle status) :=
  quiet_call st _ rfl

theorem quiet_setup_tail (K : Constants) (st2 : State) (c : connection_t) (handle : Nat)
    (track : Bool) :
    Quiet st2 (if (track && (match daemon_get_gatt_client_helper st2 handle with
          | some helper => helper.active_connection.isSome
          | none => false)) = true then
        (send_gatt_query_complete K st2 c handle K.GATT_CLIENT_BUSY, false)
      else if track = true then
        ((daemon_add_gatt_client_handle st2 c handle).update_helper handle
          (fun h => { h with active_connection := some c }), true)
      else (daemon_add_gatt_client_handle st2 c handle, true)).1 := by
  split
  · exact quiet_send_gatt_query_complete K st2 c _ _
  · split
    · exact quiet_trans (quiet_daemon_add_gatt_client_handle st2 c _) (quiet_update_helper _ _ _)
    · exact quiet_daemon_add_gatt_client_handle st2 c _

theorem quiet_daemon_setup_gatt_client_request (K : Constants) (st : State) (c : connection_t)
    (packet : List Nat) (track : Bool) (reply : EngineReply) :
    Quiet st (daemon_setup_gatt_client_request K st c packet track reply).1 := by
  unfold daemon_setup_gatt_client_request
  simp only []
  cases hopen : reply.hci_con_open
  · exact quiet_send_gatt_query_complete K st c _ _
  · cases hget : daemon_get_gatt_client_helper st (READ_BT_16 packet 3) with
    | some helper =>
      simp only [Bool.not_true, Bool.false_eq_true, if_false]
      exact quiet_setup_tail K st c _ track
    | none =>
      rw [malloc_eq]
      cases hm : st.malloc_results.headD true
      · simp only [Bool.not_true, Bool.false_eq_true, if_false, Bool.not_false, if_true]
        exact quiet_of_eq rfl rfl
      · simp only [Bool.not_true, Bool.false_eq_true, if_false, if_true]
        exact quiet_trans (quiet_of_eq rfl rfl) (quiet_setup_tail K _ c _ track)

theorem quiet_gatt_client_command (K : Constants) (st : State) (c : connection_t)
    (opcode : Opcode) (packet : List Nat) (track copy_value : Bool) (reply : EngineReply) :
    Quiet st (gatt_client_command K st c opcode packet track copy_value reply) := by
  unfold gatt_client_command
  have h1 := quiet_daemon_setup_gatt_client_request K st c packet track reply
  generalize daemon_setup_gatt_client_request K st c packet track reply = r at h1 ⊢
  obtain ⟨st1, ok⟩ := r
  simp only at h1 ⊢
  refine quiet_trans h1 ?_
  split
  · exact quiet_refl st1
  · split
    · exact quiet_trans (quiet_update_helper st1 _ _) (quiet_call _ _ rfl)
    · exact quiet_call _ _ rfl

theorem quiet_daemon_sdp_create_and_register_service (st : State) (reply : EngineReply) :
    Quiet st (daemon_sdp_create_and_register_service st reply).1 := by
  unfold daemon_sdp_create_and_register_service
  rw [malloc_eq]
  simp only
  split
  · exact quiet_of_eq rfl rfl
  · split <;> exact quiet_of_eq rfl rfl

theorem quiet_daemon_retry_parked (st : State) : Quiet st (daemon_retry_parked st) := by
  unfold daemon_retry_parked
  split
  · exact quiet_refl st
  · exact ⟨rfl, [Call.socket_connection_retry_parked], rfl, by simp [timer_call]⟩

theorem quiet_update_ui_status (st : State) : Quiet st (update_ui_status st) := by
  unfold update_ui_status
  split
  · exact quiet_call st _ rfl
  · split <;> exact quiet_call st _ rfl

theorem quiet_deamon_status_event_handler (st : State) (event : EventCode) (packet : List Nat) :
    Quiet st (deamon_status_event_handler st event packet) := by
  unfold deamon_status_event_handler
  split
  · exact quiet_trans (quiet_of_eq rfl rfl) (quiet_update_ui_status _)
  · exact quiet_trans (quiet_of_eq rfl rfl) (quiet_update_ui_status _)
  · exact quiet_refl st

theorem quiet_daemon_packet_handler_hci_event (st : State) (connection : Option connection_t)
    (event : EventCode) (packet : List Nat) :
    Quiet st (daemon_packet_handler_hci_event st connection event packet).1 := by
  unfold daemon_packet_handler_hci_event
  split
  · exact quiet_daemon_retry_parked st
  · split
    · exact quiet_refl st
    · split
      · exact quiet_remove_from_client_list st _ _ _ _
      · exact quiet_add_to_client_list st _ _ _ _
  · split
    · exact quiet_refl st
    · exact quiet_remove_from_client_list st _ _ _ _
  · split
    · exact quiet_refl st
    · split
      · exact quiet_refl st
      · exact quiet_add_to_client_list st _ _ _ _
  · split
    · exact quiet_refl st
    · split
      · exact quiet_remove_from_client_list st _ _ _ _
      · exact quiet_add_to_client_list st _ _ _ _
  · split
    · exact quiet_refl st
    · exact quiet_remove_from_client_list st _ _ _ _
  · exact quiet_refl st

theorem quiet_daemon_packet_handler_send (st : State) (connection : Option connection_t)
    (packet_type : PacketType) (channel : Nat) (packet : List Nat) :
    Quiet st (daemon_packet_handler_send st connection packet_type channel packet) := by
  unfold daemon_packet_handler_send
  split <;> exact quiet_call st _ rfl

theorem quiet_daemon_packet_handler_l2cap_data (st : State) (packet_type : PacketType)
    (channel : Nat) (packet : List Nat) :
    Quiet st (daemon_packet_handler_l2cap_data st packet_type channel packet) := by
  unfold daemon_packet_handler_l2cap_data
  split
  · exact quiet_refl st
  · exact quiet_daemon_packet_handler_send st _ _ _ _

theorem quiet_daemon_packet_handler_daemon_event (st : State) (packet_type : PacketType)
    (channel : Nat) (event : EventCode) (packet : List Nat) :
    Quiet st (daemon_packet_handler_daemon_event st packet_type channel event packet) := by
  unfold daemon_packet_handler_daemon_event
  simp only []
  split
  · exact quiet_trans (quiet_daemon_retry_parked st) (quiet_daemon_packet_handler_l2cap_data _ _ _ _)
  · exact quiet_daemon_packet_handler_l2cap_data _ _ _ _

theorem quiet_daemon_packet_handler (st : State) (connection : Option connection_t)
    (packet_type : PacketType) (channel : Nat) (event : EventCode) (packet : List Nat) :
    Quiet st (daemon_packet_handler st connection packet_type channel event packet) := by
  unfold daemon_packet_handler
  split
  · simp only []
    split
    · exact quiet_trans (quiet_deamon_status_event_handler st _ _) (quiet_daemon_retry_parked _)
    · exact quiet_trans (quiet_deamon_status_event_handler st _ _)
        (quiet_trans (quiet_daemon_packet_handler_hci_event _ connection _ _)
          (quiet_daemon_packet_handler_daemon_event _ _ _ _ _))
  · exact quiet_daemon_packet_handler_daemon_event _ _ _ _ _
  · exact quiet_daemon_packet_handler_l2cap_data _ _ _ _
  · exact quiet_daemon_packet_handler_l2cap_data _ _ _ _
  · exact quiet_daemon_packet_handler_send st _ _ _ _

theorem quiet_handle_gatt_client_event_active (st : State) (helper : gatt_client_helper_t)
    (c : connection_t) (event : EventCode) (packet : List Nat) :
    Quiet st (handle_gatt_client_event_active st helper c event packet) := by
  unfold handle_gatt_client_event_active
  simp only []
  split
  any_goals exact quiet_call st _ rfl
  any_goals exact quiet_update_helper st _ _
  · split
    · exact quiet_trans (quiet_update_helper st _ _)
        (quiet_trans (quiet_update_helper _ _ _)
          (quiet_trans (quiet_call _ _ (by rfl)) (quiet_call _ _ (by rfl))))
    · exact quiet_trans (quiet_update_helper st _ _) (quiet_call _ _ (by rfl))
  · exact quiet_refl st

theorem quiet_handle_gatt_client_event (st : State) (event : EventCode) (packet : List Nat) :
    Quiet st (handle_gatt_client_event st event packet) := by
  unfold handle_gatt_client_event
  split
  · exact quiet_daemon_remove_gatt_client_helper st _
  all_goals first
    | exact quiet_refl st
    | (split
       · exact quiet_refl st
       · split
         · exact quiet_calls_map st _ _ (by intro _; rfl)
         · split
           · exact quiet_refl st
           · exact quiet_handle_gatt_client_event_active st _ _ _ _)

theorem run_loop_timers_append (a b : List Call) :
    ∀ n, run_loop_timers n (a ++ b) = run_loop_timers (run_loop_timers n a) b := by
  induction a with
  | nil => intro n; rfl
  | cons c a ih =>
    intro n
    cases c <;> simp [run_loop_timers, ih]

theorem run_loop_timers_quiet (calls : List Call) (h : ∀ x ∈ calls, timer_call x = false) :
    ∀ n, run_loop_timers n calls = n := by
  induction calls with
  | nil => intro n; rfl
  | cons c calls ih =>
    intro n
    have hc := h c (List.mem_cons_self _ _)
    have ih2 := ih (fun x hx => h x (List.mem_cons_of_mem _ hx))
    cases c <;> simp_all [run_loop_timers, timer_call]

theorem new_calls_eq (st st' : State) (calls : List Call) (h : st'.trace = st.trace ++ calls) :
    new_calls st st' = calls := by
  simp [new_calls, h]

theorem timer_safe_of_quiet {st st' : State} (h : Quiet st st') : TimerSafe st st' := by
  obtain ⟨ha, calls, ht, hc⟩ := h
  refine ⟨calls, ht, ?_⟩
  intro n hn
  rw [run_loop_timers_quiet calls hc]
  exact ⟨hn.1, fun h1 => by rw [ha]; exact hn.2 h1⟩

theorem timer_safe_trans {st1 st2 st3 : State} (h12 : TimerSafe st1 st2)
    (h23 : TimerSafe st2 st3) : TimerSafe st1 st3 := by
  obtain ⟨c1, ht1, hc1⟩ := h12
  obtain ⟨c2, ht2, hc2⟩ := h23
  refine ⟨c1 ++ c2, by rw [ht2, ht1, List.append_assoc], ?_⟩
  intro n hn
  rw [run_loop_timers_append]
  exact hc2 _ (hc1 n hn)

theorem timer_safe_stop_power_off_timer (st : State) : TimerSafe st (stop_power_off_timer st) := by
  refine ⟨if st.timeout_active ≠ 0 then [Call.btstack_run_loop_remove_timer] else [], ?_, ?_⟩
  · rw [stop_power_off_timer_eq]
  · intro n hn
    obtain ⟨h1, h2⟩ := hn
    rw [stop_power_off_timer_eq]
    by_cases h : st.timeout_active = 0
    · have hn0 : n = 0 := by
        by_contra hne
        exact h2 (by omega) h
      subst hn0
      simp [h, run_loop_timers, timer_invariant]
    · simp only [ne_eq, h, not_false_eq_true, if_true, run_loop_timers, timer_invariant]
      constructor
      · omega
      · intro h3
        omega

theorem timer_safe_start_power_off_timer (st : State) :
    TimerSafe st (start_power_off_timer st) := by
  refine ⟨(if st.timeout_active ≠ 0 then [Call.btstack_run_loop_remove_timer] else []) ++
    [Call.btstack_run_loop_set_timer 10000, Call.btstack_run_loop_add_timer], ?_, ?_⟩
  · rw [start_power_off_timer_eq]
    simp
  · intro n hn
    obtain ⟨h1, h2⟩ := hn
    rw [start_power_off_timer_eq, run_loop_timers_append]
    by_cases h : st.timeout_active = 0
    · have hn0 : n = 0 := by
        by_contra hne
        exact h2 (by omega) h
      subst hn0
      simp [h, run_loop_timers, timer_invariant]
    · simp only [ne_eq, h, not_false_eq_true, if_true, run_loop_timers, timer_invariant]
      constructor
      · omega
      · intro _
        exact one_ne_zero

theorem run_loop_timers_start_power_off_timer (st : State) (n : Nat)
    (hn : timer_invariant n st) :
    run_loop_timers n (new_calls st (start_power_off_timer st)) = 1 := by
  obtain ⟨h1, h2⟩ := hn
  rw [new_calls_eq st _ ((if st.timeout_active ≠ 0 then [Call.btstack_run_loop_remove_timer]
      else []) ++ [Call.btstack_run_loop_set_timer 10000, Call.btstack_run_loop_add_timer])
    (by rw [start_power_off_timer_eq]; simp), run_loop_timers_append]
  by_cases h : st.timeout_active = 0
  · have hn0 : n = 0 := by
      by_contra hne
      exact h2 (by omega) h
    subst hn0
    simp [h, run_loop_timers]
  · simp only [ne_eq, h, not_false_eq_true, if_true, run_loop_timers]
    omega

theorem timer_safe_btstack_command_handler (K : Constants) (st : State) (c : connection_t)
    (opcode : Opcode) (packet : List Nat) (reply : EngineReply) :
    TimerSafe st (btstack_command_handler K st c opcode packet reply) := by
  cases opcode
  case BTSTACK_SET_POWER_MODE =>
    simp only [btstack_command_handler]
    split
    · exact timer_safe_of_quiet (quiet_refl st)
    · refine timer_safe_trans (timer_safe_of_quiet (quiet_update_client st c
        (fun c => { c with power_mode := byte_at packet 3 }))) ?_
      split
      · exact timer_safe_start_power_off_timer _
      · split
        · exact timer_safe_trans (timer_safe_stop_power_off_timer _)
            (timer_safe_of_quiet (quiet_call _ _ (by rfl)))
        · exact timer_safe_of_quiet (quiet_refl _)
  case BTSTACK_SET_DISCOVERABLE =>
    apply timer_safe_of_quiet
    simp only [btstack_command_handler]
    split
    · exact quiet_refl st
    · exact quiet_trans (quiet_update_client st c _) (quiet_call _ _ (by rfl))
  case BTSTACK_SET_BLUETOOTH_ENABLED =>
    apply timer_safe_of_quiet
    simp only [btstack_command_handler]
    split
    · exact quiet_trans (quiet_of_eq rfl rfl) (quiet_call { st with global_enable := 1 } _ (by rfl))
    · exact quiet_trans (quiet_of_eq rfl rfl)
        (quiet_call (clients_clear_power_request { st with global_enable := 0 }) _ (by rfl))
  case L2CAP_CREATE_CHANNEL_MTU =>
    apply timer_safe_of_quiet
    simp only [btstack_command_handler]
    split
    · exact quiet_trans (quiet_call st _ (by rfl)) (quiet_call _ _ (by rfl))
    · exact quiet_trans (quiet_call st _ (by rfl)) (quiet_add_to_client_list _ _ _ _ _)
  case L2CAP_CREATE_CHANNEL =>
    apply timer_safe_of_quiet
    simp only [btstack_command_handler]
    split
    · exact quiet_trans (quiet_call st _ (by rfl)) (quiet_call _ _ (by rfl))
    · exact quiet_trans (quiet_call st _ (by rfl)) (quiet_add_to_client_list _ _ _ _ _)
  case RFCOMM_CREATE_CHANNEL =>
    apply timer_safe_of_quiet
    simp only [btstack_command_handler]
    split
    · exact quiet_trans (quiet_call st _ (by rfl)) (quiet_call _ _ (by rfl))
    · exact quiet_trans (quiet_call st _ (by rfl)) (quiet_add_to_client_list _ _ _ _ _)
  case RFCOMM_CREATE_CHANNEL_WITH_CREDITS =>
    apply timer_safe_of_quiet
    simp only [btstack_command_handler]
    split
    · exact quiet_trans (quiet_call st _ (by rfl)) (quiet_call _ _ (by rfl))
    · exact quiet_trans (quiet_call st _ (by rfl)) (quiet_add_to_client_list _ _ _ _ _)
  case L2CAP_REGISTER_SERVICE =>
    apply timer_safe_of_quiet
    exact quiet_trans (quiet_call st _ (by rfl))
      (quiet_trans (quiet_add_to_client_list _ c _ _ _) (quiet_call _ _ (by rfl)))
  case L2CAP_UNREGISTER_SERVICE =>
    apply timer_safe_of_quiet
    exact quiet_trans (quiet_remove_from_client_list st c _ _ _) (quiet_call _ _ (by rfl))
  case RFCOMM_UNREGISTER_SERVICE =>
    apply timer_safe_of_quiet
    exact quiet_trans (quiet_remove_from_client_list st c _ _ _) (quiet_call _ _ (by rfl))
  case RFCOMM_REGISTER_SERVICE =>
    apply timer_safe_of_quiet
    exact quiet_trans (quiet_call st _ (by rfl)) (quiet_call _ _ (by rfl))
  case RFCOMM_REGISTER_SERVICE_WITH_CREDITS =>
    apply timer_safe_of_quiet
    exact quiet_trans (quiet_call st _ (by rfl)) (quiet_call _ _ (by rfl))
  case RFCOMM_PERSISTENT_CHANNEL =>
    apply timer_safe_of_quiet
    exact quiet_trans (quiet_call st _ (by rfl)) (quiet_call _ _ (by rfl))
  case SDP_REGISTER_SERVICE_RECORD =>
    apply timer_safe_of_quiet
    simp only [btstack_command_handler]
    have h1 := quiet_daemon_sdp_create_and_register_service
      (st.call (Call.engine_request Opcode.SDP_REGISTER_SERVICE_RECORD packet)) reply
    generalize daemon_sdp_create_and_register_service
      (st.call (Call.engine_request Opcode.SDP_REGISTER_SERVICE_RECORD packet)) reply = r at h1 ⊢
    obtain ⟨st1, handle⟩ := r
    simp only at h1 ⊢
    refine quiet_trans (quiet_call st _ (by rfl)) (quiet_trans h1 ?_)
    split
    · exact quiet_trans (quiet_add_to_client_list st1 c _ _ _) (quiet_call _ _ (by rfl))
    · exact quiet_call _ _ (by rfl)
  case SDP_UNREGISTER_SERVICE_RECORD =>
    apply timer_safe_of_quiet
    exact quiet_trans (quiet_call st _ (by rfl)) (quiet_remove_from_client_list _ c _ _ _)
  case SDP_CLIENT_QUERY_SERVICES =>
    apply timer_safe_of_quiet
    exact quiet_trans (quiet_of_eq rfl rfl)
      (quiet_call { st with sdp_client_query_connection := some c } _ (by rfl))
  case GATT_GET_MTU =>
    apply timer_safe_of_quiet
    exact quiet_trans (quiet_call st _ (by rfl)) (quiet_call _ _ (by rfl))
  case other => exact timer_safe_of_quiet (quiet_refl st)
  all_goals first
    | exact timer_safe_of_quiet (quiet_call st _ (by rfl))
    | exact timer_safe_of_quiet (quiet_gatt_client_command K st c _ packet _ _ reply)

theorem timer_safe_daemon_client_handler (K : Constants) (st : State) (c : connection_t)
    (packet_type : PacketType) (channel : Nat) (data : List Nat) (command : Option Opcode)
    (event : EventCode) (reply : EngineReply) :
    TimerSafe st (daemon_client_handler K st c packet_type channel data command event reply) := by
  unfold daemon_client_handler
  split
  · split
    · exact timer_safe_of_quiet (quiet_call st _ (by rfl))
    · exact timer_safe_btstack_command_handler K st c _ data reply
  · exact timer_safe_of_quiet (quiet_call st _ (by rfl))
  · exact timer_safe_of_quiet (quiet_call st _ (by rfl))
  · split
    · rw [malloc_eq]
      simp only []
      split <;> exact timer_safe_of_quiet (quiet_of_eq rfl rfl)
    · simp only []
      have h1 : Quiet st ((daemon_disconnect_client st c).call
          Call.sdp_query_rfcomm_deregister_callback) :=
        quiet_trans (quiet_daemon_disconnect_client st c) (quiet_call _ _ (by rfl))
      generalize (daemon_disconnect_client st c).call
          Call.sdp_query_rfcomm_deregister_callback = st1 at h1 ⊢
      have h2 : Quiet st1 (if st1.clients.isEmpty = true then st1.call Call.hci_disconnect_all
          else st1) := by
        split
        · exact quiet_call st1 _ (by rfl)
        · exact quiet_refl st1
      generalize (if st1.clients.isEmpty = true then st1.call Call.hci_disconnect_all
          else st1) = st2 at h2 ⊢
      have h3 : Quiet st2 (st2.call (Call.hci_discoverable_control
          (clients_require_discoverable st2))) := quiet_call st2 _ (by rfl)
      refine timer_safe_trans (timer_safe_of_quiet (quiet_trans h1 (quiet_trans h2 h3))) ?_
      split
      · exact timer_safe_start_power_off_timer _
      · exact timer_safe_of_quiet (quiet_refl _)
    · exact timer_safe_of_quiet (quiet_refl st)
  · exact timer_safe_of_quiet (quiet_refl st)

theorem handle_input_not_timer (K : Constants) (st : State) (input : Input) :
    TimerSafe st (handle_input K st input) := by
  cases input with
  | client_packet c packet_type channel data command event reply =>
    exact timer_safe_daemon_client_handler K st c packet_type channel data command event reply
  | protocol_packet packet_type channel event packet =>
    exact timer_safe_of_quiet (quiet_daemon_packet_handler st none packet_type channel event packet)
  | gatt_event event packet =>
    exact timer_safe_of_quiet (quiet_handle_gatt_client_event st event packet)
  | timer_expired => exact timer_safe_of_quiet (quiet_daemon_no_connections_timeout st)
  | power_notification n => exact timer_safe_of_quiet (quiet_power_notification_callback st n)

theorem timer_invariant_of_reachable (K : Constants) (sys : System)
    (h : System.Reachable K sys) : timer_invariant sys.timers_pending sys.daemon := by
  induction h with
  | init malloc_results => exact ⟨Nat.zero_le _, fun h => absurd h Nat.zero_ne_one⟩
  | step sys input _ ih =>
    obtain ⟨calls, ht, hc⟩ := handle_input_not_timer K sys.daemon input
    have hnew := new_calls_eq _ _ calls ht
    cases input with
    | timer_expired =>
      simp only [System.step]
      split
      · exact ih
      · simp only []
        rw [hnew]
        exact hc _ ⟨by have := ih.1; omega, fun h1 => by have := ih.1; omega⟩
    | client_packet c packet_type channel data command event reply =>
      simp only [System.step]
      rw [hnew]
      exact hc _ ih
    | protocol_packet packet_type channel event packet =>
      simp only [System.step]
      rw [hnew]
      exact hc _ ih
    | gatt_event event packet =>
      simp only [System.step]
      rw [hnew]
      exact hc _ ih
    | power_notification n =>
      simp only [System.step]
      rw [hnew]
      exact hc _ ih

/-- C12: in every system reached from the start of the daemon by any inputs, at
most one entry of the power-off timer is pending in the run loop, and
`start_power_off_timer` run in that state leaves exactly one pending. -/
theorem C12_at_most_one_timer_pending (K : Constants) (sys : System)
    (h : System.Reachable K sys) :
    sys.timers_pending ≤ 1 ∧
      run_loop_timers sys.timers_pending
        (new_calls sys.daemon (start_power_off_timer sys.daemon)) = 1 :=
  ⟨(timer_invariant_of_reachable K sys h).1,
    run_loop_timers_start_power_off_timer sys.daemon sys.timers_pending
      (timer_invariant_of_reachable K sys h)⟩

/-- Witness for C12: connection 1 is opened and closed, which arms the timer. -/
theorem C12_at_most_one_timer_pending_witness :
    System.Reachable sample_constants opened_then_closed ∧
    opened_then_closed.timers_pending ≤ 1 ∧
      run_loop_timers opened_then_closed.timers_pending
        (new_calls opened_then_closed.daemon
          (start_power_off_timer opened_then_closed.daemon)) = 1 :=
  ⟨System.Reachable.step _ _ (System.Reachable.step _ _ (System.Reachable.init [])),
    C12_at_most_one_timer_pending sample_constants opened_then_closed
      (System.Reachable.step _ _ (System.Reachable.step _ _ (System.Reachable.init [])))⟩

/-! ### Lists without duplicates -/

theorem mem_update_first {α : Type} (p : α → Bool) (f : α → α) (l : List α) (x : α)
    (h : x ∈ update_first p f l) : x ∈ l ∨ ∃ y ∈ l, x = f y := by
  induction l with
  | nil => simp [update_first] at h
  | cons a l ih =>
    unfold update_first at h
    split at h
    · rcases List.mem_cons.1 h with h1 | h1
      · exact Or.inr ⟨a, List.mem_cons_self _ _, h1⟩
      · exact Or.inl (List.mem_cons_of_mem _ h1)
    · rcases List.mem_cons.1 h with h1 | h1
      · exact Or.inl (h1 ▸ List.mem_cons_self _ _)
      · rcases ih h1 with h2 | ⟨y, hy, h2⟩
        · exact Or.inl (List.mem_cons_of_mem _ h2)
        · exact Or.inr ⟨y, List.mem_cons_of_mem _ hy, h2⟩

theorem mem_remove_first {α : Type} (p : α → Bool) (l : List α) (x : α)
    (h : x ∈ remove_first p l) : x ∈ l := by
  induction l with
  | nil => simp [remove_first] at h
  | cons a l ih =>
    unfold remove_first at h
    split at h
    · exact List.mem_cons_of_mem _ h
    · rcases List.mem_cons.1 h with h1 | h1
      · exact h1 ▸ List.mem_cons_self _ _
      · exact List.mem_cons_of_mem _ (ih h1)

theorem nodup_add_uint32_to_list (l : uint32_list) (v : Nat) (ok : Bool) (h : l.Nodup) :
    (add_uint32_to_list l v ok).Nodup := by
  unfold add_uint32_to_list
  by_cases hc : v ∈ l
  · simp [hc, h]
  · cases ok <;> simp [hc, h]

theorem nodup_remove_and_free_uint32_from_list (l : uint32_list) (v : Nat) (h : l.Nodup) :
    (remove_and_free_uint32_from_list l v).Nodup :=
  h.filter _

theorem no_duplicates_of_eq {st st' : State} (h1 : st'.clients = st.clients)
    (h2 : st'.gatt_client_helpers = st.gatt_client_helpers) (h : st.no_duplicates) :
    st'.no_duplicates := by
  unfold State.no_duplicates
  rw [h1, h2]
  exact h

theorem no_duplicates_update_client (st : State) (c : connection_t)
    (f : client_state_t → client_state_t) (hf : ∀ S, S.no_duplicates → (f S).no_duplicates)
    (h : st.no_duplicates) : (st.update_client c f).no_duplicates := by
  refine ⟨?_, h.2⟩
  intro S hS
  rcases mem_update_first _ _ _ _ hS with h1 | ⟨y, hy, h1⟩
  · exact h.1 S h1
  · rw [h1]
    exact hf y (h.1 y hy)

theorem no_duplicates_update_helper (st : State) (handle : Nat)
    (f : gatt_client_helper_t → gatt_client_helper_t)
    (hf : ∀ H, H.all_connections.Nodup → (f H).all_connections.Nodup)
    (h : st.no_duplicates) : (st.update_helper handle f).no_duplicates := by
  refine ⟨h.1, ?_⟩
  intro H hH
  rcases mem_update_first _ _ _ _ hH with h1 | ⟨y, hy, h1⟩
  · exact h.2 H h1
  · rw [h1]
    exact hf y (h.2 y hy)

theorem no_duplicates_add_to_client_list (st : State) (c : connection_t)
    (get : client_state_t → uint32_list) (set : client_state_t → uint32_list → client_state_t)
    (value : Nat)
    (hget : ∀ S, S.no_duplicates → (get S).Nodup)
    (hset : ∀ S l, S.no_duplicates → l.Nodup → (set S l).no_duplicates)
    (h : st.no_duplicates) : (st.add_to_client_list c get set value).no_duplicates := by
  unfold State.add_to_client_list
  rw [malloc_eq]
  split
  · exact h
  · split
    · exact h
    · simp only []
      apply no_duplicates_update_client
      · intro S hS
        exact hset S _ hS (nodup_add_uint32_to_list _ _ _ (hget S hS))
      · exact no_duplicates_of_eq rfl rfl h

theorem no_duplicates_remove_from_client_list (st : State) (c : connection_t)
    (get : client_state_t → uint32_list) (set : client_state_t → uint32_list → client_state_t)
    (value : Nat)
    (hget : ∀ S, S.no_duplicates → (get S).Nodup)
    (hset : ∀ S l, S.no_duplicates → l.Nodup → (set S l).no_duplicates)
    (h : st.no_duplicates) : (st.remove_from_client_list c get set value).no_duplicates := by
  unfold State.remove_from_client_list
  split
  · exact h
  · apply no_duplicates_update_client
    · intro S hS
      exact hset S _ hS (nodup_remove_and_free_uint32_from_list _ _ (hget S hS))
    · exact h

theorem no_duplicates_set_rfcomm_cids (S : client_state_t) (l : uint32_list)
    (hS : S.no_duplicates) (hl : l.Nodup) : ({ S with rfcomm_cids := l }).no_duplicates :=
  ⟨hl, hS.2.1, hS.2.2.1, hS.2.2.2.1, hS.2.2.2.2.1, hS.2.2.2.2.2⟩

theorem no_duplicates_set_rfcomm_services (S : client_state_t) (l : uint32_list)
    (hS : S.no_duplicates) (hl : l.Nodup) : ({ S with rfcomm_services := l }).no_duplicates :=
  ⟨hS.1, hl, hS.2.2.1, hS.2.2.2.1, hS.2.2.2.2.1, hS.2.2.2.2.2⟩

theorem no_duplicates_set_l2cap_cids (S : client_state_t) (l : uint32_list)
    (hS : S.no_duplicates) (hl : l.Nodup) : ({ S with l2cap_cids := l }).no_duplicates :=
  ⟨hS.1, hS.2.1, hl, hS.2.2.2.1, hS.2.2.2.2.1, hS.2.2.2.2.2⟩

theorem no_duplicates_set_l2cap_psms (S : client_state_t) (l : uint32_list)
    (hS : S.no_duplicates) (hl : l.Nodup) : ({ S with l2cap_psms := l }).no_duplicates :=
  ⟨hS.1, hS.2.1, hS.2.2.1, hl, hS.2.2.2.2.1, hS.2.2.2.2.2⟩

theorem no_duplicates_set_sdp_record_handles (S : client_state_t) (l : uint32_list)
    (hS : S.no_duplicates) (hl : l.Nodup) : ({ S with sdp_record_handles := l }).no_duplicates :=
  ⟨hS.1, hS.2.1, hS.2.2.1, hS.2.2.2.1, hl, hS.2.2.2.2.2⟩

theorem no_duplicates_set_gatt_con_handles (S : client_state_t) (l : uint32_list)
    (hS : S.no_duplicates) (hl : l.Nodup) : ({ S with gatt_con_handles := l }).no_duplicates :=
  ⟨hS.1, hS.2.1, hS.2.2.1, hS.2.2.2.1, hS.2.2.2.2.1, hl⟩

theorem no_duplicates_add_rfcomm_service (st : State) (c : connection_t) (v : Nat)
    (h : st.no_duplicates) : (daemon_add_client_rfcomm_service st c v).no_duplicates :=
  no_duplicates_add_to_client_list st c _ _ v (fun _ hS => hS.2.1)
    no_duplicates_set_rfcomm_services h

theorem no_duplicates_remove_rfcomm_service (st : State) (c : connection_t) (v : Nat)
    (h : st.no_duplicates) : (daemon_remove_client_rfcomm_service st c v).no_duplicates :=
  no_duplicates_remove_from_client_list st c _ _ v (fun _ hS => hS.2.1)
    no_duplicates_set_rfcomm_services h

theorem no_duplicates_add_rfcomm_channel (st : State) (c : connection_t) (v : Nat)
    (h : st.no_duplicates) : (daemon_add_client_rfcomm_channel st c v).no_duplicates :=
  no_duplicates_add_to_client_list st c _ _ v (fun _ hS => hS.1)
    no_duplicates_set_rfcomm_cids h

theorem no_duplicates_remove_rfcomm_channel (st : State) (c : connection_t) (v : Nat)
    (h : st.no_duplicates) : (daemon_remove_client_rfcomm_channel st c v).no_duplicates :=
  no_duplicates_remove_from_client_list st c _ _ v (fun _ hS => hS.1)
    no_duplicates_set_rfcomm_cids h

theorem no_duplicates_add_l2cap_service (st : State) (c : connection_t) (v : Nat)
    (h : st.no_duplicates) : (daemon_add_client_l2cap_service st c v).no_duplicates :=
  no_duplicates_add_to_client_list st c _ _ v (fun _ hS => hS.2.2.2.1)
    no_duplicates_set_l2cap_psms h

theorem no_duplicates_remove_l2cap_service (st : State) (c : connection_t) (v : Nat)
    (h : st.no_duplicates) : (daemon_remove_client_l2cap_service st c v).no_duplicates :=
  no_duplicates_remove_from_client_list st c _ _ v (fun _ hS => hS.2.2.2.1)
    no_duplicates_set_l2cap_psms h

theorem no_duplicates_add_l2cap_channel (st : State) (c : connection_t) (v : Nat)
    (h : st.no_duplicates) : (daemon_add_client_l2cap_channel st c v).no_duplicates :=
  no_duplicates_add_to_client_list st c _ _ v (fun _ hS => hS.2.2.1)
    no_duplicates_set_l2cap_cids h

theorem no_duplicates_remove_l2cap_channel (st : State) (c : connection_t) (v : Nat)
    (h : st.no_duplicates) : (daemon_remove_client_l2cap_channel st c v).no_duplicates :=
  no_duplicates_remove_from_client_list st c _ _ v (fun _ hS => hS.2.2.1)
    no_duplicates_set_l2cap_cids h

theorem no_duplicates_add_sdp_handle (st : State) (c : connection_t) (v : Nat)
    (h : st.no_duplicates) :
    (daemon_add_client_sdp_service_record_handle st c v).no_duplicates :=
  no_duplicates_add_to_client_list st c _ _ v (fun _ hS => hS.2.2.2.2.1)
    no_duplicates_set_sdp_record_handles h

theorem no_duplicates_remove_sdp_handle (st : State) (c : connection_t) (v : Nat)
    (h : st.no_duplicates) :
    (daemon_remove_client_sdp_service_record_handle st c v).no_duplicates :=
  no_duplicates_remove_from_client_list st c _ _ v (fun _ hS => hS.2.2.2.2.1)
    no_duplicates_set_sdp_record_handles h

theorem add_connection_to_helper_nodup (st : State) (helper : gatt_client_helper_t)
    (c : connection_t) (h : helper.all_connections.Nodup) :
    (add_connection_to_helper st helper c).2.all_connections.Nodup := by
  unfold add_connection_to_helper
  rw [malloc_eq]
  by_cases hc : c ∈ helper.all_connections
  · simp [hc, h]
  · cases st.malloc_results.headD true <;> simp [hc, h]

theorem no_duplicates_add_connection_to_helper (st : State) (helper : gatt_client_helper_t)
    (c : connection_t) (h : st.no_duplicates) :
    (add_connection_to_helper st helper c).1.no_duplicates :=
  no_duplicates_of_eq (add_connection_to_helper_frame st helper c).2.1
    (add_connection_to_helper_frame st helper c).1 h

theorem no_duplicates_daemon_add_gatt_client_handle (st : State) (c : connection_t)
    (handle : Nat) (h : st.no_duplicates) :
    (daemon_add_gatt_client_handle st c handle).no_duplicates := by
  unfold daemon_add_gatt_client_handle
  split
  · exact h
  · rename_i cs _
    simp only
    have h1 : (if cs.gatt_con_handles.contains handle = true then st
        else st.add_to_client_list c (fun c => c.gatt_con_handles)
          (fun c l => { c with gatt_con_handles := l }) handle).no_duplicates := by
      split
      · exact h
      · exact no_duplicates_add_to_client_list st c _ _ handle (fun _ hS => hS.2.2.2.2.2)
          no_duplicates_set_gatt_con_handles h
    generalize (if cs.gatt_con_handles.contains handle = true then st
        else st.add_to_client_list c (fun c => c.gatt_con_handles)
          (fun c l => { c with gatt_con_handles := l }) handle) = st1 at h1 ⊢
    split
    · rename_i helper hfind
      apply no_duplicates_update_helper
      · intro _ _
        exact add_connection_to_helper_nodup st1 helper c (h1.2 helper (List.mem_of_find?_eq_some hfind))
      · exact no_duplicates_add_connection_to_helper st1 helper c h1
    · rw [malloc_eq]
      simp only
      split
      · have h2 : ({ st1 with malloc_results := st1.malloc_results.tail } : State).no_duplicates :=
          no_duplicates_of_eq rfl rfl h1
        have h3 := no_duplicates_add_connection_to_helper
          { st1 with malloc_results := st1.malloc_results.tail } { con_handle := handle % 65536 } c h2
        have h4 := add_connection_to_helper_nodup
          { st1 with malloc_results := st1.malloc_results.tail } { con_handle := handle % 65536 } c
          List.nodup_nil
        refine ⟨h3.1, ?_⟩
        intro H hH
        rcases List.mem_cons.1 hH with h5 | h5
        · rw [h5]
          exact h4
        · exact h3.2 H h5
      · exact no_duplicates_of_eq rfl rfl h1

theorem no_duplicates_daemon_remove_gatt_client_handle (st : State) (c : connection_t)
    (handle : Nat) (h : st.no_duplicates) :
    (daemon_remove_gatt_client_handle st c handle).no_duplicates := by
  unfold daemon_remove_gatt_client_handle
  split
  · exact h
  · simp only
    have h1 : (st.update_client c (fun c =>
        { c with
          gatt_con_handles :=
            remove_and_free_uint32_from_list c.gatt_con_handles handle })).no_duplicates :=
      no_duplicates_update_client st c _ (fun S hS => no_duplicates_set_gatt_con_handles S _ hS
        (nodup_remove_and_free_uint32_from_list _ _ hS.2.2.2.2.2)) h
    generalize (st.update_client c (fun c =>
        { c with
          gatt_con_handles :=
            remove_and_free_uint32_from_list c.gatt_con_handles handle })) = st1 at h1 ⊢
    split
    · exact h1
    · rename_i helper hfind
      have hH := h1.2 helper (List.mem_of_find?_eq_some hfind)
      have h2 : (st1.update_helper handle (fun h =>
          { h with
            all_connections := helper.all_connections.erase c
            active_connection :=
              if helper.active_connection == some c then none
              else helper.active_connection })).no_duplicates :=
        no_duplicates_update_helper st1 handle _ (fun _ _ => hH.erase c) h1
      split
      · exact h2
      · exact h2

theorem no_duplicates_daemon_remove_gatt_client_helper (st : State) (con_handle : Nat)
    (h : st.no_duplicates) : (daemon_remove_gatt_client_helper st con_handle).no_duplicates := by
  unfold daemon_remove_gatt_client_helper
  split
  · exact h
  · constructor
    · intro S hS
      obtain ⟨y, hy, rfl⟩ := List.mem_map.1 hS
      exact no_duplicates_set_gatt_con_handles y _ (h.1 y hy)
        (nodup_remove_and_free_uint32_from_list _ _ (h.1 y hy).2.2.2.2.2)
    · intro H hH
      exact h.2 H (mem_remove_first _ _ _ hH)

theorem no_duplicates_daemon_gatt_client_close_connection_loop (c : connection_t) :
    ∀ (fuel : Nat) (st : State), st.no_duplicates →
      (daemon_gatt_client_close_connection_loop fuel st c).no_duplicates := by
  intro fuel
  induction fuel with
  | zero => intro st h; exact h
  | succ fuel ih =>
    intro st h
    unfold daemon_gatt_client_close_connection_loop
    split
    · exact h
    · split
      · exact h
      · exact ih _ (no_duplicates_daemon_remove_gatt_client_handle st c _ h)

theorem no_duplicates_daemon_gatt_client_close_connection (st : State) (c : connection_t)
    (h : st.no_duplicates) : (daemon_gatt_client_close_connection st c).no_duplicates := by
  unfold daemon_gatt_client_close_connection
  split
  · exact h
  · exact no_duplicates_daemon_gatt_client_close_connection_loop c _ st h

theorem no_duplicates_call (st : State) (c : Call) (h : st.no_duplicates) :
    (st.call c).no_duplicates := h

theorem no_duplicates_calls (st : State) (cs : List Call) (h : st.no_duplicates) :
    (st.calls cs).no_duplicates := h

theorem no_duplicates_daemon_rfcomm_close_connection (st : State) (c : connection_t)
    (h : st.no_duplicates) : (daemon_rfcomm_close_connection st c).no_duplicates := by
  unfold daemon_rfcomm_close_connection
  split
  · exact h
  · apply no_duplicates_update_client _ c _
      (fun S hS => no_duplicates_set_rfcomm_cids S [] hS List.nodup_nil)
    apply no_duplicates_calls
    apply no_duplicates_update_client _ c _
      (fun S hS => no_duplicates_set_rfcomm_services S [] hS List.nodup_nil)
    exact no_duplicates_calls _ _ h

theorem no_duplicates_daemon_l2cap_close_connection (st : State) (c : connection_t)
    (h : st.no_duplicates) : (daemon_l2cap_close_connection st c).no_duplicates := by
  unfold daemon_l2cap_close_connection
  split
  · exact h
  · apply no_duplicates_update_client _ c _
      (fun S hS => no_duplicates_set_l2cap_cids S [] hS List.nodup_nil)
    apply no_duplicates_calls
    apply no_duplicates_update_client _ c _
      (fun S hS => no_duplicates_set_l2cap_psms S [] hS List.nodup_nil)
    exact no_duplicates_calls _ _ h

theorem no_duplicates_daemon_sdp_close_connection (st : State) (c : connection_t)
    (h : st.no_duplicates) : (daemon_sdp_close_connection st c).no_duplicates := by
  unfold daemon_sdp_close_connection
  split
  · exact h
  · apply no_duplicates_update_client _ c _
      (fun S hS => no_duplicates_set_sdp_record_handles S [] hS List.nodup_nil)
    exact no_duplicates_calls _ _ h

theorem no_duplicates_daemon_close_connections (st : State) (c : connection_t)
    (h : st.no_duplicates) : (daemon_close_connections st c).no_duplicates := by
  unfold daemon_close_connections
  exact no_duplicates_daemon_gatt_client_close_connection _ c
    (no_duplicates_daemon_l2cap_close_connection _ c
      (no_duplicates_daemon_rfcomm_close_connection _ c
        (no_duplicates_daemon_sdp_close_connection st c h)))

theorem no_duplicates_daemon_disconnect_client (st : State) (c : connection_t)
    (h : st.no_duplicates) : (daemon_disconnect_client st c).no_duplicates := by
  unfold daemon_disconnect_client
  split
  · exact h
  · have h1 := no_duplicates_daemon_close_connections st c h
    exact ⟨fun S hS => h1.1 S (mem_remove_first _ _ _ hS), h1.2⟩

theorem no_duplicates_clients_clear_power_request (st : State) (h : st.no_duplicates) :
    (clients_clear_power_request st).no_duplicates := by
  refine ⟨?_, h.2⟩
  intro S hS
  obtain ⟨y, hy, rfl⟩ := List.mem_map.1 hS
  exact h.1 y hy

theorem no_duplicates_stop_power_off_timer (st : State) (h : st.no_duplicates) :
    (stop_power_off_timer st).no_duplicates := by
  rw [stop_power_off_timer_eq]
  exact no_duplicates_of_eq rfl rfl h

theorem no_duplicates_start_power_off_timer (st : State) (h : st.no_duplicates) :
    (start_power_off_timer st).no_duplicates := by
  rw [start_power_off_timer_eq]
  exact no_duplicates_of_eq rfl rfl h

theorem no_duplicates_daemon_no_connections_timeout (st : State) (h : st.no_duplicates) :
    (daemon_no_connections_timeout st).no_duplicates := by
  unfold daemon_no_connections_timeout
  split <;> exact h

theorem no_duplicates_power_notification_callback (st : State) (n : POWER_NOTIFICATION_t)
    (h : st.no_duplicates) : (power_notification_callback st n).no_duplicates := by
  cases n
  · exact h
  · unfold power_notification_callback
    simp only
    split <;> exact h
  · exact h

theorem no_duplicates_setup_tail (K : Constants) (st2 : State) (c : connection_t) (handle : Nat)
    (track : Bool) (h : st2.no_duplicates) :
    (if (track && (match daemon_get_gatt_client_helper st2 handle with
          | some helper => helper.active_connection.isSome
          | none => false)) = true then
        (send_gatt_query_complete K st2 c handle K.GATT_CLIENT_BUSY, false)
      else if track = true then
        ((daemon_add_gatt_client_handle st2 c handle).update_helper handle
          (fun h => { h with active_connection := some c }), true)
      else (daemon_add_gatt_client_handle st2 c handle, true)).1.no_duplicates := by
  split
  · exact h
  · split
    · exact no_duplicates_update_helper _ _ _ (fun _ hH => hH)
        (no_duplicates_daemon_add_gatt_client_handle st2 c _ h)
    · exact no_duplicates_daemon_add_gatt_client_handle st2 c _ h

theorem no_duplicates_daemon_setup_gatt_client_request (K : Constants) (st : State)
    (c : connection_t) (packet : List Nat) (track : Bool) (reply : EngineReply)
    (h : st.no_duplicates) :
    (daemon_setup_gatt_client_request K st c packet track reply).1.no_duplicates := by
  unfold daemon_setup_gatt_client_request
  simp only []
  cases hopen : reply.hci_con_open
  · exact h
  · cases hget : daemon_get_gatt_client_helper st (READ_BT_16 packet 3) with
    | some helper =>
      simp only [Bool.not_true, Bool.false_eq_true, if_false]
      exact no_duplicates_setup_tail K st c _ track h
    | none =>
      rw [malloc_eq]
      cases hm : st.malloc_results.headD true
      · simp only [Bool.not_true, Bool.false_eq_true, if_false, Bool.not_false, if_true]
        exact no_duplicates_of_eq rfl rfl h
      · simp only [Bool.not_true, Bool.false_eq_true, if_false, if_true]
        apply no_duplicates_setup_tail K _ c _ track
        refine ⟨h.1, ?_⟩
        intro H hH
        rcases List.mem_cons.1 hH with h5 | h5
        · rw [h5]
          exact List.nodup_nil
        · exact h.2 H h5

theorem no_duplicates_gatt_client_command (K : Constants) (st : State) (c : connection_t)
    (opcode : Opcode) (packet : List Nat) (track copy_value : Bool) (reply : EngineReply)
    (h : st.no_duplicates) :
    (gatt_client_command K st c opcode packet track copy_value reply).no_duplicates := by
  unfold gatt_client_command
  have h1 := no_duplicates_daemon_setup_gatt_client_request K st c packet track reply h
  generalize daemon_setup_gatt_client_request K st c packet track reply = r at h1 ⊢
  obtain ⟨st1, ok⟩ := r
  simp only at h1 ⊢
  split
  · exact h1
  · split
    · exact no_duplicates_update_helper st1 _ _ (fun _ hH => hH) h1
    · exact h1

theorem no_duplicates_daemon_sdp_create_and_register_service (st : State) (reply : EngineReply)
    (h : st.no_duplicates) :
    (daemon_sdp_create_and_register_service st reply).1.no_duplicates := by
  unfold daemon_sdp_create_and_register_service
  rw [malloc_eq]
  simp only
  split
  · exact no_duplicates_of_eq rfl rfl h
  · split <;> exact no_duplicates_of_eq rfl rfl h

theorem no_duplicates_set_power_mode (S : client_state_t) (v : Nat) (hS : S.no_duplicates) :
    ({ S with power_mode := v }).no_duplicates := hS

theorem no_duplicates_set_discoverable (S : client_state_t) (v : Nat) (hS : S.no_duplicates) :
    ({ S with discoverable := v }).no_duplicates := hS

theorem no_duplicates_btstack_command_handler (K : Constants) (st : State) (c : connection_t)
    (opcode : Opcode) (packet : List Nat) (reply : EngineReply) (h : st.no_duplicates) :
    (btstack_command_handler K st c opcode packet reply).no_duplicates := by
  cases opcode
  case BTSTACK_SET_POWER_MODE =>
    simp only [btstack_command_handler]
    split
    · exact h
    · have h1 := no_duplicates_update_client st c
        (fun c => { c with power_mode := byte_at packet 3 })
        (fun S hS => no_duplicates_set_power_mode S _ hS) h
      split
      · exact no_duplicates_start_power_off_timer _ h1
      · split
        · exact no_duplicates_stop_power_off_timer _ h1
        · exact h1
  case BTSTACK_SET_DISCOVERABLE =>
    simp only [btstack_command_handler]
    split
    · exact h
    · exact no_duplicates_update_client st c
        (fun c => { c with discoverable := byte_at packet 3 })
        (fun S hS => no_duplicates_set_discoverable S _ hS) h
  case BTSTACK_SET_BLUETOOTH_ENABLED =>
    simp only [btstack_command_handler]
    split
    · exact h
    · exact no_duplicates_clients_clear_power_request { st with global_enable := 0 } h
  case L2CAP_CREATE_CHANNEL_MTU =>
    simp only [btstack_command_handler]
    split
    · exact h
    · exact no_duplicates_add_l2cap_channel _ c _ h
  case L2CAP_CREATE_CHANNEL =>
    simp only [btstack_command_handler]
    split
    · exact h
    · exact no_duplicates_add_l2cap_channel _ c _ h
  case RFCOMM_CREATE_CHANNEL =>
    simp only [btstack_command_handler]
    split
    · exact h
    · exact no_duplicates_add_rfcomm_channel _ c _ h
  case RFCOMM_CREATE_CHANNEL_WITH_CREDITS =>
    simp only [btstack_command_handler]
    split
    · exact h
    · exact no_duplicates_add_rfcomm_channel _ c _ h
  case L2CAP_REGISTER_SERVICE =>
    exact no_duplicates_add_l2cap_service _ c _ h
  case L2CAP_UNREGISTER_SERVICE =>
    exact no_duplicates_remove_l2cap_service st c _ h
  case RFCOMM_UNREGISTER_SERVICE =>
    exact no_duplicates_remove_rfcomm_service st c _ h
  case SDP_REGISTER_SERVICE_RECORD =>
    simp only [btstack_command_handler]
    have h1 := no_duplicates_daemon_sdp_create_and_register_service
      (st.call (Call.engine_request Opcode.SDP_REGISTER_SERVICE_RECORD packet)) reply h
    generalize daemon_sdp_create_and_register_service
      (st.call (Call.engine_request Opcode.SDP_REGISTER_SERVICE_RECORD packet)) reply = r at h1 ⊢
    obtain ⟨st1, handle⟩ := r
    simp only at h1 ⊢
    split
    · exact no_duplicates_add_sdp_handle st1 c _ h1
    · exact h1
  case SDP_UNREGISTER_SERVICE_RECORD =>
    exact no_duplicates_remove_sdp_handle _ c _ h
  all_goals first
    | exact h
    | exact no_duplicates_gatt_client_command K st c _ packet _ _ reply h

theorem no_duplicates_daemon_client_handler (K : Constants) (st : State) (c : connection_t)
    (packet_type : PacketType) (channel : Nat) (data : List Nat) (command : Option Opcode)
    (event : EventCode) (reply : EngineReply) (h : st.no_duplicates) :
    (daemon_client_handler K st c packet_type channel data command event reply).no_duplicates := by
  unfold daemon_client_handler
  split
  · split
    · exact h
    · exact no_duplicates_btstack_command_handler K st c _ data reply h
  · exact h
  · exact h
  · split
    · rw [malloc_eq]
      simp only []
      split
      · refine ⟨?_, h.2⟩
        intro S hS
        rcases List.mem_cons.1 hS with h5 | h5
        · rw [h5]
          exact ⟨List.nodup_nil, List.nodup_nil, List.nodup_nil, List.nodup_nil, List.nodup_nil,
            List.nodup_nil⟩
        · exact h.1 S h5
      · exact no_duplicates_of_eq rfl rfl h
    · simp only []
      have h1 : ((daemon_disconnect_client st c).call
          Call.sdp_query_rfcomm_deregister_callback).no_duplicates :=
        no_duplicates_daemon_disconnect_client st c h
      generalize (daemon_disconnect_client st c).call
          Call.sdp_query_rfcomm_deregister_callback = st1 at h1 ⊢
      have h2 : (if st1.clients.isEmpty = true then st1.call Call.hci_disconnect_all
          else st1).no_duplicates := by
        split <;> exact h1
      generalize (if st1.clients.isEmpty = true then st1.call Call.hci_disconnect_all
          else st1) = st2 at h2 ⊢
      split
      · exact no_duplicates_start_power_off_timer _ h2
      · exact h2
    · exact h
  · exact h

theorem no_duplicates_daemon_retry_parked (st : State) (h : st.no_duplicates) :
    (daemon_retry_parked st).no_duplicates := by
  unfold daemon_retry_parked
  split <;> exact h

theorem no_duplicates_update_ui_status (st : State) (h : st.no_duplicates) :
    (update_ui_status st).no_duplicates := by
  unfold update_ui_status
  split
  · exact h
  · split <;> exact h

theorem no_duplicates_deamon_status_event_handler (st : State) (event : EventCode)
    (packet : List Nat) (h : st.no_duplicates) :
    (deamon_status_event_handler st event packet).no_duplicates := by
  unfold deamon_status_event_handler
  split
  · exact no_duplicates_update_ui_status { st with hci_state := byte_at packet 2 } h
  · exact no_duplicates_update_ui_status { st with num_connections := byte_at packet 2 } h
  · exact h

theorem no_duplicates_daemon_packet_handler_hci_event (st : State)
    (connection : Option connection_t) (event : EventCode) (packet : List Nat)
    (h : st.no_duplicates) :
    (daemon_packet_handler_hci_event st connection event packet).1.no_duplicates := by
  unfold daemon_packet_handler_hci_event
  split
  · exact no_duplicates_daemon_retry_parked st h
  · split
    · exact h
    · split
      · exact no_duplicates_remove_rfcomm_channel st _ _ h
      · exact no_duplicates_add_rfcomm_channel st _ _ h
  · split
    · exact h
    · exact no_duplicates_remove_rfcomm_channel st _ _ h
  · split
    · exact h
    · split
      · exact h
      · exact no_duplicates_add_rfcomm_service st _ _ h
  · split
    · exact h
    · split
      · exact no_duplicates_remove_l2cap_channel st _ _ h
      · exact no_duplicates_add_l2cap_channel st _ _ h
  · split
    · exact h
    · exact no_duplicates_remove_l2cap_channel st _ _ h
  · exact h

theorem no_duplicates_daemon_packet_handler_send (st : State) (connection : Option connection_t)
    (packet_type : PacketType) (channel : Nat) (packet : List Nat) (h : st.no_duplicates) :
    (daemon_packet_handler_send st connection packet_type channel packet).no_duplicates := by
  unfold daemon_packet_handler_send
  split <;> exact h

theorem no_duplicates_daemon_packet_handler_l2cap_data (st : State) (packet_type : PacketType)
    (channel : Nat) (packet : List Nat) (h : st.no_duplicates) :
    (daemon_packet_handler_l2cap_data st packet_type channel packet).no_duplicates := by
  unfold daemon_packet_handler_l2cap_data
  split
  · exact h
  · exact no_duplicates_daemon_packet_handler_send st _ _ _ _ h

theorem no_duplicates_daemon_packet_handler_daemon_event (st : State) (packet_type : PacketType)
    (channel : Nat) (event : EventCode) (packet : List Nat) (h : st.no_duplicates) :
    (daemon_packet_handler_daemon_event st packet_type channel event packet).no_duplicates := by
  unfold daemon_packet_handler_daemon_event
  simp only []
  split
  · exact no_duplicates_daemon_packet_handler_l2cap_data _ _ _ _
      (no_duplicates_daemon_retry_parked st h)
  · exact no_duplicates_daemon_packet_handler_l2cap_data _ _ _ _ h

theorem no_duplicates_daemon_packet_handler (st : State) (connection : Option connection_t)
    (packet_type : PacketType) (channel : Nat) (event : EventCode) (packet : List Nat)
    (h : st.no_duplicates) :
    (daemon_packet_handler st connection packet_type channel event packet).no_duplicates := by
  unfold daemon_packet_handler
  split
  · simp only []
    split
    · exact no_duplicates_daemon_retry_parked _
        (no_duplicates_deamon_status_event_handler st _ _ h)
    · exact no_duplicates_daemon_packet_handler_daemon_event _ _ _ _ _
        (no_duplicates_daemon_packet_handler_hci_event _ connection _ _
          (no_duplicates_deamon_status_event_handler st _ _ h))
  · exact no_duplicates_daemon_packet_handler_daemon_event _ _ _ _ _ h
  · exact no_duplicates_daemon_packet_handler_l2cap_data _ _ _ _ h
  · exact no_duplicates_daemon_packet_handler_l2cap_data _ _ _ _ h
  · exact no_duplicates_daemon_packet_handler_send st _ _ _ _ h

theorem no_duplicates_handle_gatt_client_event_active (st : State)
    (helper : gatt_client_helper_t) (c : connection_t) (event : EventCode) (packet : List Nat)
    (h : st.no_duplicates) :
    (handle_gatt_client_event_active st helper c event packet).no_duplicates := by
  unfold handle_gatt_client_event_active
  simp only []
  split
  any_goals exact h
  any_goals exact no_duplicates_update_helper st _ _ (fun _ hH => hH) h
  · split
    · refine no_duplicates_call _ _ (no_duplicates_call _ _ ?_)
      apply no_duplicates_update_helper
      · intro _ hH
        exact hH
      · apply no_duplicates_update_helper
        · intro _ hH
          exact hH
        · exact h
    · refine no_duplicates_call _ _ ?_
      apply no_duplicates_update_helper
      · intro _ hH
        exact hH
      · exact h

theorem no_duplicates_handle_gatt_client_event (st : State) (event : EventCode)
    (packet : List Nat) (h : st.no_duplicates) :
    (handle_gatt_client_event st event packet).no_duplicates := by
  unfold handle_gatt_client_event
  split
  · exact no_duplicates_daemon_remove_gatt_client_helper st _ h
  all_goals first
    | exact h
    | (split
       · exact h
       · split
         · exact h
         · split
           · exact h
           · exact no_duplicates_handle_gatt_client_event_active st _ _ _ _ h)

theorem no_duplicates_handle_input (K : Constants) (st : State) (input : Input)
    (h : st.no_duplicates) : (handle_input K st input).no_duplicates := by
  cases input with
  | client_packet c packet_type channel data command event reply =>
    exact no_duplicates_daemon_client_handler K st c packet_type channel data command event reply h
  | protocol_packet packet_type channel event packet =>
    exact no_duplicates_daemon_packet_handler st none packet_type channel event packet h
  | gatt_event event packet => exact no_duplicates_handle_gatt_client_event st event packet h
  | timer_expired => exact no_duplicates_daemon_no_connections_timeout st h
  | power_notification n => exact no_duplicates_power_notification_callback st n h

theorem no_duplicates_of_reachable (K : Constants) (st : State) (h : Reachable K st) :
    st.no_duplicates := by
  induction h with
  | init malloc_results =>
    exact ⟨fun S hS => absurd hS (List.not_mem_nil S), fun H hH => absurd hH (List.not_mem_nil H)⟩
  | step st input _ ih => exact no_duplicates_handle_input K st input ih

/-! ### A GATT request that is set up -/

theorem headD_of_all_true (l : List Bool) (h : ∀ b ∈ l, b = true) : l.headD true = true := by
  cases l with
  | nil => rfl
  | cons a l => exact h a (List.mem_cons_self _ _)

theorem tail_all_true (l : List Bool) (h : ∀ b ∈ l, b = true) : ∀ b ∈ l.tail, b = true :=
  fun b hb => h b (List.mem_of_mem_tail hb)

theorem count_add_uint32_to_list (l : uint32_list) (v : Nat) (h : l.Nodup) :
    (add_uint32_to_list l v true).count v = 1 := by
  unfold add_uint32_to_list
  by_cases hc : l.contains v = true
  · rw [if_pos hc]
    exact List.count_eq_one_of_mem h (by simpa using hc)
  · rw [if_neg hc, if_pos rfl, List.count_cons_self,
      List.count_eq_zero_of_not_mem (by simpa using hc)]

theorem add_connection_to_helper_count (st : State) (helper : gatt_client_helper_t)
    (c : connection_t) (hm : st.malloc_results.headD true = true)
    (h : helper.all_connections.Nodup) :
    (add_connection_to_helper st helper c).2.all_connections.count c = 1 := by
  unfold add_connection_to_helper
  rw [malloc_eq, hm]
  by_cases hc : helper.all_connections.contains c = true
  · rw [if_pos hc]
    exact List.count_eq_one_of_mem h (by simpa using hc)
  · rw [if_neg hc]
    simp only [if_true]
    rw [List.count_cons_self, List.count_eq_zero_of_not_mem (by simpa using hc)]

theorem add_connection_to_helper_malloc (st : State) (helper : gatt_client_helper_t)
    (c : connection_t) (hm : ∀ b ∈ st.malloc_results, b = true) :
    ∀ b ∈ (add_connection_to_helper st helper c).1.malloc_results, b = true := by
  unfold add_connection_to_helper
  rw [malloc_eq]
  split
  · exact hm
  · simp only
    split <;> exact tail_all_true _ hm

/-- The state after the ledger step of `daemon_add_gatt_client_handle`, the
allocation succeeding. -/
theorem add_gatt_con_handle_step (st : State) (c : connection_t) (handle : Nat)
    (S : client_state_t) (hS : client_for_connection st c = some S)
    (hm : ∀ b ∈ st.malloc_results, b = true) :
    ∃ st1 : State,
      (if S.gatt_con_handles.contains handle = true then st
        else st.add_to_client_list c (fun c => c.gatt_con_handles)
          (fun c l => { c with gatt_con_handles := l }) handle) = st1 ∧
      st1.gatt_client_helpers = st.gatt_client_helpers ∧
      client_for_connection st1 c =
        some { S with gatt_con_handles := add_uint32_to_list S.gatt_con_handles handle true } ∧
      ∀ b ∈ st1.malloc_results, b = true := by
  obtain ⟨hc, before, after, hsplit, hbefore⟩ := client_for_connection_split st c S hS
  by_cases hcont : S.gatt_con_handles.contains handle = true
  · refine ⟨st, if_pos hcont, rfl, ?_, hm⟩
    rw [hS]
    unfold add_uint32_to_list
    rw [if_pos hcont]
  · refine ⟨_, rfl, ?_, ?_, ?_⟩
    · rw [if_neg hcont]
      exact add_to_client_list_helpers st c _ _ handle
    · rw [if_neg hcont]
      unfold State.add_to_client_list
      rw [hS, malloc_eq, headD_of_all_true _ hm]
      simp only [hcont, if_false, Bool.false_eq_true]
      rw [update_client_split { st with malloc_results := st.malloc_results.tail } c _ before after
        S hsplit hc hbefore]
      exact client_for_connection_of_split _ c before after _ rfl hc hbefore
    · rw [if_neg hcont]
      unfold State.add_to_client_list
      rw [hS, malloc_eq]
      simp only [hcont, if_false, Bool.false_eq_true]
      exact tail_all_true _ hm

theorem daemon_add_gatt_client_handle_success (st : State) (c : connection_t) (handle : Nat)
    (S : client_state_t) (H : gatt_client_helper_t)
    (hS : client_for_connection st c = some S)
    (hH : daemon_get_gatt_client_helper st handle = some H)
    (hm : ∀ b ∈ st.malloc_results, b = true)
    (hdH : H.all_connections.Nodup) :
    client_for_connection (daemon_add_gatt_client_handle st c handle) c =
        some { S with gatt_con_handles := add_uint32_to_list S.gatt_con_handles handle true } ∧
      ∃ H', daemon_get_gatt_client_helper (daemon_add_gatt_client_handle st c handle) handle
          = some H' ∧
        H'.all_connections.count c = 1 ∧ H'.active_connection = H.active_connection := by
  unfold daemon_add_gatt_client_handle
  rw [hS]
  simp only
  obtain ⟨st1, hst1, hhelpers, hclient, hm1⟩ := add_gatt_con_handle_step st c handle S hS hm
  rw [hst1]
  have hfind : st1.gatt_client_helpers.find? (fun item => item.con_handle == handle) = some H := by
    rw [hhelpers]
    exact hH
  rw [hfind]
  simp only
  have hframe := add_connection_to_helper_frame st1 H c
  have hcount := add_connection_to_helper_count st1 H c (headD_of_all_true _ hm1) hdH
  have hp : (H.con_handle == handle) = true := by
    have := List.find?_some hfind
    simpa using this
  constructor
  · unfold client_for_connection State.update_helper
    simp only
    rw [hframe.2.1]
    exact hclient
  · refine ⟨(add_connection_to_helper st1 H c).2, ?_, hcount, hframe.2.2.2.2⟩
    unfold daemon_get_gatt_client_helper State.update_helper
    simp only
    rw [find_update_first, hframe.1, hfind]
    · rfl
    · intro _ _
      rw [hframe.2.2.2.1]
      exact hp

theorem setup_tail_success (K : Constants) (st : State) (c : connection_t) (handle : Nat)
    (track : Bool) (S : client_state_t) (H : gatt_client_helper_t)
    (hS : client_for_connection st c = some S)
    (hH : daemon_get_gatt_client_helper st handle = some H)
    (hm : ∀ b ∈ st.malloc_results, b = true)
    (hdH : H.all_connections.Nodup)
    (hfree : track = false ∨ H.active_connection = none) :
    ∃ r : State × Bool,
      (if (track && (match daemon_get_gatt_client_helper st handle with
          | some helper => helper.active_connection.isSome
          | none => false)) = true then
        (send_gatt_query_complete K st c handle K.GATT_CLIENT_BUSY, false)
      else if track = true then
        ((daemon_add_gatt_client_handle st c handle).update_helper handle
          (fun h => { h with active_connection := some c }), true)
      else (daemon_add_gatt_client_handle st c handle, true)) = r ∧
      r.2 = true ∧
      client_for_connection r.1 c =
        some { S with gatt_con_handles := add_uint32_to_list S.gatt_con_handles handle true } ∧
      ∃ H', daemon_get_gatt_client_helper r.1 handle = some H' ∧
        H'.all_connections.count c = 1 ∧ (track = true → H'.active_connection = some c) := by
  obtain ⟨hclient, H', hget, hcount, hactive⟩ :=
    daemon_add_gatt_client_handle_success st c handle S H hS hH hm hdH
  have hp : (H'.con_handle == handle) = true := by
    have := List.find?_some hget
    simpa using this
  rw [hH]
  cases track with
  | false =>
    refine ⟨(daemon_add_gatt_client_handle st c handle, true), ?_, rfl, hclient, H', hget, hcount,
      fun h => absurd h (by decide)⟩
    simp
  | true =>
    have hnone : H.active_connection = none := by
      rcases hfree with h | h
      · exact absurd h (by decide)
      · exact h
    refine ⟨((daemon_add_gatt_client_handle st c handle).update_helper handle
        (fun h => { h with active_connection := some c }), true), ?_, rfl, hclient,
      { H' with active_connection := some c }, ?_, hcount, fun _ => rfl⟩
    · simp [hnone]
    · unfold daemon_get_gatt_client_helper State.update_helper
      simp only
      unfold daemon_get_gatt_client_helper at hget
      rw [find_update_first, hget]
      · rfl
      · intro x hx
        exact hx

/-- C17: in a state the daemon can reach, for the session `S` of connection `c`
and a request for handle `h` whose link is open, with every allocation
succeeding and either `track_active_connection` clear or no active owner on the
helper of `h`, `daemon_setup_gatt_client_request` returns a helper; afterwards
the registry holds a helper for `h` whose `all_connections` holds `c` exactly
once, the session of `c` is `S` with `h` added to `gatt_con_handles`, which
holds `h` exactly once, and with `track_active_connection` set the active owner
of the helper is `c`. -/
theorem C17_setup_request_success (K : Constants) (st : State) (c : connection_t)
    (packet : List Nat) (track_active_connection : Bool) (reply : EngineReply)
    (S : client_state_t) (h : Nat)
    (hreach : Reachable K st)
    (hS : client_for_connection st c = some S)
    (hh : READ_BT_16 packet 3 = h)
    (hopen : reply.hci_con_open = true)
    (hmalloc : ∀ b ∈ st.malloc_results, b = true)
    (hfree : track_active_connection = false ∨
      ∀ helper, daemon_get_gatt_client_helper st h = some helper →
        helper.active_connection = none) :
    (daemon_setup_gatt_client_request K st c packet track_active_connection reply).2 = true ∧
    client_for_connection
        (daemon_setup_gatt_client_request K st c packet track_active_connection reply).1 c =
      some { S with gatt_con_handles := add_uint32_to_list S.gatt_con_handles h true } ∧
    (add_uint32_to_list S.gatt_con_handles h true).count h = 1 ∧
    ∃ helper, daemon_get_gatt_client_helper
          (daemon_setup_gatt_client_request K st c packet track_active_connection reply).1 h =
        some helper ∧
      helper.all_connections.count c = 1 ∧
      (track_active_connection = true → helper.active_connection = some c) := by
  have hnd := no_duplicates_of_reachable K st hreach
  have hSmem : S ∈ st.clients := List.mem_of_find?_eq_some hS
  have hcountS := count_add_uint32_to_list S.gatt_con_handles h (hnd.1 S hSmem).2.2.2.2.2
  subst hh
  unfold daemon_setup_gatt_client_request
  simp only []
  rw [hopen]
  simp only [Bool.not_true, Bool.false_eq_true, if_false]
  cases hget : daemon_get_gatt_client_helper st (READ_BT_16 packet 3) with
  | some H =>
    simp only [Bool.not_true, Bool.false_eq_true, if_false]
    have hHmem : H ∈ st.gatt_client_helpers := List.mem_of_find?_eq_some hget
    obtain ⟨r, hr, h2, hclient, H', hget', hcount, hactive⟩ :=
      setup_tail_success K st c (READ_BT_16 packet 3) track_active_connection S H hS hget hmalloc
        (hnd.2 H hHmem) (hfree.imp id (fun hf => hf H hget))
    subst hr
    exact ⟨h2, hclient, hcountS, H', hget', hcount, hactive⟩
  | none =>
    rw [malloc_eq, headD_of_all_true _ hmalloc]
    simp only [Bool.not_true, Bool.false_eq_true, if_false, if_true]
    obtain ⟨r, hr, h2, hclient, H', hget', hcount, hactive⟩ :=
      setup_tail_success K
        { st with
          malloc_results := st.malloc_results.tail
          gatt_client_helpers := { con_handle := READ_BT_16 packet 3 } :: st.gatt_client_helpers }
        c (READ_BT_16 packet 3) track_active_connection S { con_handle := READ_BT_16 packet 3 }
        hS (by simp [daemon_get_gatt_client_helper]) (tail_all_true _ hmalloc) List.nodup_nil
        (Or.inr rfl)
    subst hr
    exact ⟨h2, hclient, hcountS, H', hget', hcount, hactive⟩

/-- Witness for C17: the only session, connection 1, asks for handle 64 with
tracking while the registry is empty. -/
theorem C17_setup_request_success_witness :
    Reachable sample_constants one_connected_client ∧
    client_for_connection one_connected_client 1 =
      some { connection := 1, power_mode := HCI_POWER_OFF, discoverable := 0 } ∧
    READ_BT_16 [0, 0, 2, 64, 0] 3 = 64 ∧
    ({ hci_con_open := true } : EngineReply).hci_con_open = true ∧
    (∀ b ∈ one_connected_client.malloc_results, b = true) ∧
    (daemon_setup_gatt_client_request sample_constants one_connected_client 1 [0, 0, 2, 64, 0]
        true { hci_con_open := true }).2 = true ∧
    client_for_connection
        (daemon_setup_gatt_client_request sample_constants one_connected_client 1
          [0, 0, 2, 64, 0] true { hci_con_open := true }).1 1 =
      some { ({ connection := 1, power_mode := HCI_POWER_OFF, discoverable := 0 } :
          client_state_t) with
        gatt_con_handles := add_uint32_to_list [] 64 true } ∧
    (add_uint32_to_list [] 64 true).count 64 = 1 ∧
    ∃ helper, daemon_get_gatt_client_helper
          (daemon_setup_gatt_client_request sample_constants one_connected_client 1
            [0, 0, 2, 64, 0] true { hci_con_open := true }).1 64 =
        some helper ∧
      helper.all_connections.count 1 = 1 ∧
      (true = true → helper.active_connection = some 1) :=
  ⟨Reachable.step _ _ (Reachable.init []), rfl, by decide, rfl, by decide,
    C17_setup_request_success sample_constants one_connected_client 1 [0, 0, 2, 64, 0] true
      { hci_con_open := true } { connection := 1, power_mode := HCI_POWER_OFF, discoverable := 0 }
      64 (Reachable.step _ _ (Reachable.init [])) rfl (by decide) rfl (by decide)
      (Or.inr (by simp [daemon_get_gatt_client_helper, one_connected_client, handle_input,
        daemon_client_handler, State.malloc]))⟩

/-! ### GATT events -/

/-- C24: for every event code other than a notification, an indication and the
disconnection event, `handle_gatt_client_event` changes nothing when the
registry has no helper for the handle of the event or that helper has no active
owner, and otherwise every call it makes is a packet sent to the active owner of
that helper. -/
theorem C24_gatt_events_go_to_active_owner (st : State) (event : EventCode)
    (packet : List Nat)
    (hnotification : event ≠ EventCode.GATT_NOTIFICATION)
    (hindication : event ≠ EventCode.GATT_INDICATION)
    (hdisconnection : event ≠ EventCode.HCI_EVENT_DISCONNECTION_COMPLETE) :
    (daemon_get_gatt_client_helper st (READ_BT_16 packet 2) = none →
      handle_gatt_client_event st event packet = st) ∧
    (∀ helper, daemon_get_gatt_client_helper st (READ_BT_16 packet 2) = some helper →
      helper.active_connection = none → handle_gatt_client_event st event packet = st) ∧
    (∀ helper owner, daemon_get_gatt_client_helper st (READ_BT_16 packet 2) = some helper →
      helper.active_connection = some owner →
      (handle_gatt_client_event st event packet).clients = st.clients ∧
      ∃ packets : List (List Nat), (handle_gatt_client_event st event packet).trace =
        st.trace ++ packets.map (fun p =>
          Call.socket_connection_send_packet owner PacketType.HCI_EVENT_PACKET 0 p)) := by
  refine ⟨?_, ?_, ?_⟩
  · intro hget
    cases event <;> simp_all [handle_gatt_client_event]
  · intro helper hget hactive
    cases event <;> simp_all [handle_gatt_client_event]
  · intro helper owner hget hactive
    refine ⟨?_, ?_⟩
    · cases event <;>
        simp_all [handle_gatt_client_event, handle_gatt_client_event_active, State.call,
          State.update_helper]
      split <;> rfl
    · cases event
      case GATT_QUERY_COMPLETE =>
        by_cases hlen : helper.characteristic_length = 0
        · refine ⟨[packet], ?_⟩
          simp [handle_gatt_client_event, handle_gatt_client_event_active, State.call,
            State.update_helper, hget, hactive, hlen]
        · refine ⟨[(memcpy helper.characteristic_buffer 1
              ([(8 + helper.characteristic_length) % 256] ++ bt_store_16 (READ_BT_16 packet 2)
                ++ bt_store_16 helper.characteristic_handle ++ bt_store_16 0
                ++ bt_store_16 helper.characteristic_length) 0 9).take
              ((10 + helper.characteristic_length) % 65536), packet], ?_⟩
          simp [handle_gatt_client_event, handle_gatt_client_event_active, State.call,
            State.update_helper, hget, hactive, hlen]
      case GATT_LONG_CHARACTERISTIC_VALUE_QUERY_RESULT =>
        refine ⟨[], ?_⟩
        simp [handle_gatt_client_event, handle_gatt_client_event_active, State.update_helper,
          hget, hactive]
      case GATT_LONG_CHARACTERISTIC_DESCRIPTOR_QUERY_RESULT =>
        refine ⟨[], ?_⟩
        simp [handle_gatt_client_event, handle_gatt_client_event_active, State.update_helper,
          hget, hactive]
      case GATT_SERVICE_QUERY_RESULT =>
        exact ⟨[packet], by
          simp [handle_gatt_client_event, handle_gatt_client_event_active, State.call, hget,
            hactive]⟩
      case GATT_INCLUDED_SERVICE_QUERY_RESULT =>
        exact ⟨[packet], by
          simp [handle_gatt_client_event, handle_gatt_client_event_active, State.call, hget,
            hactive]⟩
      case GATT_CHARACTERISTIC_QUERY_RESULT =>
        exact ⟨[packet], by
          simp [handle_gatt_client_event, handle_gatt_client_event_active, State.call, hget,
            hactive]⟩
      case GATT_CHARACTERISTIC_VALUE_QUERY_RESULT =>
        exact ⟨[packet], by
          simp [handle_gatt_client_event, handle_gatt_client_event_active, State.call, hget,
            hactive]⟩
      case GATT_ALL_CHARACTERISTIC_DESCRIPTORS_QUERY_RESULT =>
        exact ⟨[packet], by
          simp [handle_gatt_client_event, handle_gatt_client_event_active, State.call, hget,
            hactive]⟩
      case GATT_CHARACTERISTIC_DESCRIPTOR_QUERY_RESULT =>
        exact ⟨[packet], by
          simp [handle_gatt_client_event, handle_gatt_client_event_active, State.call, hget,
            hactive]⟩
      case GATT_NOTIFICATION => exact (hnotification rfl).elim
      case GATT_INDICATION => exact (hindication rfl).elim
      case HCI_EVENT_DISCONNECTION_COMPLETE => exact (hdisconnection rfl).elim
      all_goals exact ⟨[], by simp [handle_gatt_client_event]⟩

/-- C25 does not hold when the registry has no helper for the handle of the
event: connection 1 has a session, and the notification for handle 64 is sent to
no one. -/
theorem C25_notification_counterexample :
    one_connected_client.clients.map (fun s => s.connection) = [1] ∧
    daemon_get_gatt_client_helper one_connected_client (READ_BT_16 [0, 0, 64, 0, 9, 0, 1] 2)
      = none ∧
    handle_gatt_client_event one_connected_client EventCode.GATT_NOTIFICATION
      [0, 0, 64, 0, 9, 0, 1] = one_connected_client := by
  decide

/-- C25, amended: a `GATT_NOTIFICATION` or `GATT_INDICATION` event whose handle
has a helper in the registry makes `handle_gatt_client_event` send the unchanged
packet once to the connection of every session, in table order, whatever the
active owner of the helper is, and change nothing else; when the registry has no
helper for the handle, nothing is sent. -/
theorem C25_notification_sent_to_every_session (st : State) (event : EventCode)
    (packet : List Nat)
    (hevent : event = EventCode.GATT_NOTIFICATION ∨ event = EventCode.GATT_INDICATION) :
    (∀ helper, daemon_get_gatt_client_helper st (READ_BT_16 packet 2) = some helper →
      handle_gatt_client_event st event packet =
        { st with trace := st.trace ++ st.clients.map (fun client_state =>
            Call.socket_connection_send_packet client_state.connection
              PacketType.HCI_EVENT_PACKET 0 packet) }) ∧
    (daemon_get_gatt_client_helper st (READ_BT_16 packet 2) = none →
      handle_gatt_client_event st event packet = st) := by
  rcases hevent with h | h <;> subst h <;>
    refine ⟨fun helper hget => ?_, fun hget => ?_⟩ <;>
    simp [handle_gatt_client_event, hget, State.calls]

/-! ### Events from the protocol engines and create-channel commands -/

theorem daemon_retry_parked_eq (st : State) :
    daemon_retry_parked st =
      { st with trace := st.trace ++
          (if st.retry_mutex != 0 then [] else [Call.socket_connection_retry_parked]) } := by
  unfold daemon_retry_parked
  by_cases h : st.retry_mutex = 0
  · simp [h, State.call]
  · cases st
    simp_all

theorem update_ui_status_eq (st : State) :
    ∃ state, update_ui_status st =
      { st with trace := st.trace ++ [Call.bluetooth_status_handler state] } ∧
      (state = BLUETOOTH_STATE.BLUETOOTH_OFF ↔ st.hci_state ≠ HCI_STATE_WORKING) ∧
      (state = BLUETOOTH_STATE.BLUETOOTH_ACTIVE ↔
        st.hci_state = HCI_STATE_WORKING ∧ st.num_connections ≠ 0) := by
  unfold update_ui_status
  by_cases h1 : st.hci_state = HCI_STATE_WORKING
  · by_cases h2 : st.num_connections = 0
    · exact ⟨BLUETOOTH_STATE.BLUETOOTH_ON, by simp [h1, h2, State.call], by simp [h1],
        by simp [h2]⟩
    · exact ⟨BLUETOOTH_STATE.BLUETOOTH_ACTIVE, by simp [h1, h2, State.call], by simp [h1],
        by simp [h1, h2]⟩
  · exact ⟨BLUETOOTH_STATE.BLUETOOTH_OFF, by simp [h1, State.call], by simp [h1], by simp [h1]⟩

theorem daemon_packet_handler_l2cap_data_eq (st : State) (packet_type : PacketType)
    (channel : Nat) (packet : List Nat) :
    daemon_packet_handler_l2cap_data st packet_type channel packet =
      { st with trace := st.trace ++
          (connection_for_l2cap_cid st channel).toList.map (fun c =>
            Call.socket_connection_send_packet c packet_type channel packet) } := by
  unfold daemon_packet_handler_l2cap_data daemon_packet_handler_send
  cases connection_for_l2cap_cid st channel with
  | none => simp
  | some c => simp [State.call]

theorem connection_for_l2cap_cid_congr (st st' : State) (h : st'.clients = st.clients)
    (cid : Nat) : connection_for_l2cap_cid st' cid = connection_for_l2cap_cid st cid := by
  unfold connection_for_l2cap_cid
  rw [h]

theorem daemon_packet_handler_daemon_event_eq (st : State) (packet_type : PacketType)
    (channel : Nat) (event : EventCode) (packet : List Nat) :
    daemon_packet_handler_daemon_event st packet_type channel event packet =
      { st with trace := st.trace ++
          (if event = EventCode.DAEMON_EVENT_NEW_RFCOMM_CREDITS ∧ st.retry_mutex = 0
            then [Call.socket_connection_retry_parked] else []) ++
          (connection_for_l2cap_cid st channel).toList.map (fun c =>
            Call.socket_connection_send_packet c packet_type channel packet) } := by
  by_cases h : st.retry_mutex = 0 <;> cases event <;>
    simp [daemon_packet_handler_daemon_event, daemon_packet_handler_l2cap_data_eq,
      daemon_retry_parked_eq, connection_for_l2cap_cid, h]

theorem daemon_packet_handler_status_event (st : State) (connection : Option connection_t)
    (channel : Nat) (event : EventCode) (packet : List Nat)
    (hevent : event = EventCode.BTSTACK_EVENT_STATE ∨
      event = EventCode.BTSTACK_EVENT_NR_CONNECTIONS_CHANGED) :
    daemon_packet_handler st connection PacketType.HCI_EVENT_PACKET channel event packet =
      { deamon_status_event_handler st event packet with
        trace := (deamon_status_event_handler st event packet).trace ++
          (connection_for_l2cap_cid st channel).toList.map (fun c =>
            Call.socket_connection_send_packet c PacketType.HCI_EVENT_PACKET channel packet) }
    := by
  have hclients : (deamon_status_event_handler st event packet).clients = st.clients := by
    rcases hevent with h | h <;> subst h <;>
      simp only [deamon_status_event_handler] <;>
      [obtain ⟨s, hs, _⟩ := update_ui_status_eq { st with hci_state := byte_at packet 2 };
       obtain ⟨s, hs, _⟩ := update_ui_status_eq { st with num_connections := byte_at packet 2 }] <;>
      rw [hs]
  rcases hevent with h | h
  · subst h
    simp only [daemon_packet_handler, daemon_packet_handler_hci_event]
    rw [daemon_packet_handler_daemon_event_eq, connection_for_l2cap_cid_congr st _ hclients]
    simp
  · subst h
    simp only [daemon_packet_handler, daemon_packet_handler_hci_event]
    rw [daemon_packet_handler_daemon_event_eq, connection_for_l2cap_cid_congr st _ hclients]
    simp

/-- C26 does not hold when a session holds the L2CAP channel id that the handler
is called with: connection 1 owns channel 64, and the state event that arrives
with channel 64 is forwarded to it. -/
theorem C26_status_event_counterexample :
    (l2cap_packet_handler one_l2cap_channel PacketType.HCI_EVENT_PACKET 64
        EventCode.BTSTACK_EVENT_STATE [96, 1, 2]).trace =
      one_l2cap_channel.trace ++
        [Call.bluetooth_status_handler BLUETOOTH_STATE.BLUETOOTH_ON,
         Call.socket_connection_send_packet 1 PacketType.HCI_EVENT_PACKET 64 [96, 1, 2]] := by
  decide

theorem add_to_client_list_split (st : State) (c : connection_t)
    (get : client_state_t → uint32_list) (set : client_state_t → uint32_list → client_state_t)
    (value : Nat) (before after : List client_state_t) (S : client_state_t)
    (hsplit : st.clients = before ++ S :: after) (hS : S.connection = c)
    (hbefore : ∀ x ∈ before, x.connection ≠ c) :
    st.add_to_client_list c get set value =
      if (get S).contains value then st
      else
        { st with
          malloc_results := st.malloc_results.tail
          clients := before ++
            set S (add_uint32_to_list (get S) value (st.malloc_results.headD true)) :: after } := by
  unfold State.add_to_client_list
  rw [client_for_connection_of_split st c before after S hsplit hS hbefore, malloc_eq]
  simp only
  split
  · rfl
  · rw [update_client_split { st with malloc_results := st.malloc_results.tail } c _ before after
      S hsplit hS hbefore]

theorem remove_from_client_list_split (st : State) (c : connection_t)
    (get : client_state_t → uint32_list) (set : client_state_t → uint32_list → client_state_t)
    (value : Nat) (before after : List client_state_t) (S : client_state_t)
    (hsplit : st.clients = before ++ S :: after) (hS : S.connection = c)
    (hbefore : ∀ x ∈ before, x.connection ≠ c) :
    st.remove_from_client_list c get set value =
      { st with
        clients := before ++ set S (remove_and_free_uint32_from_list (get S) value) :: after } := by
  unfold State.remove_from_client_list
  rw [client_for_connection_of_split st c before after S hsplit hS hbefore]
  simp only
  rw [update_client_split st c _ before after S hsplit hS hbefore]

theorem daemon_packet_handler_hci_clients (st : State) (connection : Option connection_t)
    (channel : Nat) (event : EventCode) (packet : List Nat)
    (h1 : event ≠ EventCode.HCI_EVENT_NUMBER_OF_COMPLETED_PACKETS)
    (h2 : event ≠ EventCode.BTSTACK_EVENT_STATE)
    (h3 : event ≠ EventCode.BTSTACK_EVENT_NR_CONNECTIONS_CHANGED) :
    daemon_packet_handler st connection PacketType.HCI_EVENT_PACKET channel event packet =
      daemon_packet_handler_daemon_event
        (daemon_packet_handler_hci_event st connection event packet).1
        PacketType.HCI_EVENT_PACKET channel event packet := by
  cases event <;> simp_all [daemon_packet_handler, deamon_status_event_handler]

theorem mem_remove_and_free_self (list : uint32_list) (value : Nat) :
    value ∉ remove_and_free_uint32_from_list list value := by
  simp [remove_and_free_uint32_from_list]



theorem owner_lookup_l2cap (st : State) (cid : Nat) (S : client_state_t)
    (h : st.clients.find? (fun s => s.l2cap_cids.contains cid) = some S) :
    connection_for_l2cap_cid st cid = some S.connection ∧ S.l2cap_cids.contains cid = true := by
  have hc : S.l2cap_cids.contains cid = true := (List.find?_eq_some.1 h).1
  unfold connection_for_l2cap_cid
  rw [h]
  exact ⟨rfl, hc⟩

theorem owner_lookup_rfcomm (st : State) (cid : Nat) (S : client_state_t)
    (h : st.clients.find? (fun s => s.rfcomm_cids.contains cid) = some S) :
    connection_for_rfcomm_cid st cid = some S.connection ∧ S.rfcomm_cids.contains cid = true := by
  have hc : S.rfcomm_cids.contains cid = true := (List.find?_eq_some.1 h).1
  unfold connection_for_rfcomm_cid
  rw [h]
  exact ⟨rfl, hc⟩

theorem channel_event_ledger_l2cap (st : State) (connection : Option connection_t)
    (packet : List Nat) (cid : Nat) (S : client_state_t) (before after : List client_state_t)
    (hsplit : st.clients = before ++ S :: after)
    (hbefore : ∀ x ∈ before, x.connection ≠ S.connection)
    (howner : st.clients.find? (fun s => s.l2cap_cids.contains cid) = some S) :
    (READ_BT_16 packet 13 = cid → byte_at packet 2 = 0 →
      (daemon_packet_handler_hci_event st connection EventCode.L2CAP_EVENT_CHANNEL_OPENED
        packet).1 = st) ∧
    (READ_BT_16 packet 13 = cid → byte_at packet 2 ≠ 0 →
      (daemon_packet_handler_hci_event st connection EventCode.L2CAP_EVENT_CHANNEL_OPENED
        packet).1 =
        { st with clients := before ++
            { S with l2cap_cids := remove_and_free_uint32_from_list S.l2cap_cids cid } ::
            after }) ∧
    (READ_BT_16 packet 2 = cid →
      (daemon_packet_handler_hci_event st connection EventCode.L2CAP_EVENT_CHANNEL_CLOSED
        packet).1 =
        { st with clients := before ++
            { S with l2cap_cids := remove_and_free_uint32_from_list S.l2cap_cids cid } ::
            after }) := by
  obtain ⟨hlookup, hcontains⟩ := owner_lookup_l2cap st cid S howner
  refine ⟨?_, ?_, ?_⟩
  · intro hcid hstatus
    simp only [daemon_packet_handler_hci_event, hcid, hlookup, hstatus,
      daemon_add_client_l2cap_channel]
    rw [add_to_client_list_split st _ _ _ cid before after S hsplit rfl hbefore]
    simp only [bne_self_eq_false, Bool.false_eq_true, if_false]
    rw [if_pos hcontains]
  · intro hcid hstatus
    simp only [daemon_packet_handler_hci_event, hcid, hlookup, daemon_remove_client_l2cap_channel]
    rw [remove_from_client_list_split st _ _ _ cid before after S hsplit rfl hbefore]
    simp [hstatus]
  · intro hcid
    simp only [daemon_packet_handler_hci_event, hcid, hlookup, daemon_remove_client_l2cap_channel]
    rw [remove_from_client_list_split st _ _ _ cid before after S hsplit rfl hbefore]

theorem channel_event_ledger_rfcomm (st : State) (connection : Option connection_t)
    (packet : List Nat) (cid : Nat) (S : client_state_t) (before after : List client_state_t)
    (hsplit : st.clients = before ++ S :: after)
    (hbefore : ∀ x ∈ before, x.connection ≠ S.connection)
    (howner : st.clients.find? (fun s => s.rfcomm_cids.contains cid) = some S) :
    (READ_BT_16 packet 13 = cid → byte_at packet 2 = 0 →
      (daemon_packet_handler_hci_event st connection EventCode.RFCOMM_EVENT_OPEN_CHANNEL_COMPLETE
        packet).1 = st) ∧
    (READ_BT_16 packet 13 = cid → byte_at packet 2 ≠ 0 →
      (daemon_packet_handler_hci_event st connection EventCode.RFCOMM_EVENT_OPEN_CHANNEL_COMPLETE
        packet).1 =
        { st with clients := before ++
            { S with rfcomm_cids := remove_and_free_uint32_from_list S.rfcomm_cids cid } ::
            after }) ∧
    (READ_BT_16 packet 2 = cid →
      (daemon_packet_handler_hci_event st connection EventCode.RFCOMM_EVENT_CHANNEL_CLOSED
        packet).1 =
        { st with clients := before ++
            { S with rfcomm_cids := remove_and_free_uint32_from_list S.rfcomm_cids cid } ::
            after }) := by
  obtain ⟨hlookup, hcontains⟩ := owner_lookup_rfcomm st cid S howner
  refine ⟨?_, ?_, ?_⟩
  · intro hcid hstatus
    simp only [daemon_packet_handler_hci_event, hcid, hlookup, hstatus,
      daemon_add_client_rfcomm_channel]
    rw [add_to_client_list_split st _ _ _ cid before after S hsplit rfl hbefore]
    simp only [bne_self_eq_false, Bool.false_eq_true, if_false]
    rw [if_pos hcontains]
  · intro hcid hstatus
    simp only [daemon_packet_handler_hci_event, hcid, hlookup, daemon_remove_client_rfcomm_channel]
    rw [remove_from_client_list_split st _ _ _ cid before after S hsplit rfl hbefore]
    simp [hstatus]
  · intro hcid
    simp only [daemon_packet_handler_hci_event, hcid, hlookup, daemon_remove_client_rfcomm_channel]
    rw [remove_from_client_list_split st _ _ _ cid before after S hsplit rfl hbefore]

theorem daemon_packet_handler_daemon_event_clients (st : State) (packet_type : PacketType)
    (channel : Nat) (event : EventCode) (packet : List Nat) :
    (daemon_packet_handler_daemon_event st packet_type channel event packet).clients =
      st.clients := by
  rw [daemon_packet_handler_daemon_event_eq]



theorem daemon_packet_handler_channel_event_clients (st : State)
    (connection : Option connection_t) (channel : Nat) (event : EventCode) (packet : List Nat)
    (h1 : event ≠ EventCode.HCI_EVENT_NUMBER_OF_COMPLETED_PACKETS)
    (h2 : event ≠ EventCode.BTSTACK_EVENT_STATE)
    (h3 : event ≠ EventCode.BTSTACK_EVENT_NR_CONNECTIONS_CHANGED) :
    (daemon_packet_handler st connection PacketType.HCI_EVENT_PACKET channel event packet).clients
      = (daemon_packet_handler_hci_event st connection event packet).1.clients := by
  rw [daemon_packet_handler_hci_clients st connection channel event packet h1 h2 h3,
    daemon_packet_handler_daemon_event_clients]

/-- C22: in a state the daemon can reach, let `S` be the session that the owner
lookup finds for the channel id `cid` and also the session found for its own
connection.  Then `cid` is in the list of `S` exactly once, and
`daemon_packet_handler` leaves the session table as it is on a channel-opened
event for `cid` with status 0, and on a channel-opened event with another status
or a channel-closed event replaces `S` by `S` without `cid` in that list, every
other session staying as it is; this holds for `l2cap_cids` with the L2CAP
events and for `rfcomm_cids` with the RFCOMM events.  When the owner lookup
finds no session, the events leave the session table as it is. -/
theorem C22_channel_events_update_ledger (K : Constants) (st : State)
    (connection : Option connection_t) (channel : Nat) (packet : List Nat)
    (hreach : Reachable K st) :
    (∀ S cid, client_for_connection st S.connection = some S →
      st.clients.find? (fun s => s.l2cap_cids.contains cid) = some S →
      ∃ before after, st.clients = before ++ S :: after ∧
        (∀ x ∈ before, x.connection ≠ S.connection) ∧
        S.l2cap_cids.count cid = 1 ∧
        cid ∉ remove_and_free_uint32_from_list S.l2cap_cids cid ∧
        (READ_BT_16 packet 13 = cid → byte_at packet 2 = 0 →
          (daemon_packet_handler st connection PacketType.HCI_EVENT_PACKET channel
            EventCode.L2CAP_EVENT_CHANNEL_OPENED packet).clients = st.clients) ∧
        (READ_BT_16 packet 13 = cid → byte_at packet 2 ≠ 0 →
          (daemon_packet_handler st connection PacketType.HCI_EVENT_PACKET channel
            EventCode.L2CAP_EVENT_CHANNEL_OPENED packet).clients =
            before ++
              { S with l2cap_cids := remove_and_free_uint32_from_list S.l2cap_cids cid } ::
              after) ∧
        (READ_BT_16 packet 2 = cid →
          (daemon_packet_handler st connection PacketType.HCI_EVENT_PACKET channel
            EventCode.L2CAP_EVENT_CHANNEL_CLOSED packet).clients =
            before ++
              { S with l2cap_cids := remove_and_free_uint32_from_list S.l2cap_cids cid } ::
              after)) ∧
    (∀ S cid, client_for_connection st S.connection = some S →
      st.clients.find? (fun s => s.rfcomm_cids.contains cid) = some S →
      ∃ before after, st.clients = before ++ S :: after ∧
        (∀ x ∈ before, x.connection ≠ S.connection) ∧
        S.rfcomm_cids.count cid = 1 ∧
        cid ∉ remove_and_free_uint32_from_list S.rfcomm_cids cid ∧
        (READ_BT_16 packet 13 = cid → byte_at packet 2 = 0 →
          (daemon_packet_handler st connection PacketType.HCI_EVENT_PACKET channel
            EventCode.RFCOMM_EVENT_OPEN_CHANNEL_COMPLETE packet).clients = st.clients) ∧
        (READ_BT_16 packet 13 = cid → byte_at packet 2 ≠ 0 →
          (daemon_packet_handler st connection PacketType.HCI_EVENT_PACKET channel
            EventCode.RFCOMM_EVENT_OPEN_CHANNEL_COMPLETE packet).clients =
            before ++
              { S with rfcomm_cids := remove_and_free_uint32_from_list S.rfcomm_cids cid } ::
              after) ∧
        (READ_BT_16 packet 2 = cid →
          (daemon_packet_handler st connection PacketType.HCI_EVENT_PACKET channel
            EventCode.RFCOMM_EVENT_CHANNEL_CLOSED packet).clients =
            before ++
              { S with rfcomm_cids := remove_and_free_uint32_from_list S.rfcomm_cids cid } ::
              after)) ∧
    (connection_for_l2cap_cid st (READ_BT_16 packet 13) = none →
      (daemon_packet_handler st connection PacketType.HCI_EVENT_PACKET channel
        EventCode.L2CAP_EVENT_CHANNEL_OPENED packet).clients = st.clients) ∧
    (connection_for_l2cap_cid st (READ_BT_16 packet 2) = none →
      (daemon_packet_handler st connection PacketType.HCI_EVENT_PACKET channel
        EventCode.L2CAP_EVENT_CHANNEL_CLOSED packet).clients = st.clients) ∧
    (connection_for_rfcomm_cid st (READ_BT_16 packet 13) = none →
      (daemon_packet_handler st connection PacketType.HCI_EVENT_PACKET channel
        EventCode.RFCOMM_EVENT_OPEN_CHANNEL_COMPLETE packet).clients = st.clients) ∧
    (connection_for_rfcomm_cid st (READ_BT_16 packet 2) = none →
      (daemon_packet_handler st connection PacketType.HCI_EVENT_PACKET channel
        EventCode.RFCOMM_EVENT_CHANNEL_CLOSED packet).clients = st.clients) := by
  have hnd := no_duplicates_of_reachable K st hreach
  refine ⟨?_, ?_, ?_, ?_, ?_, ?_⟩
  · intro S cid hS howner
    obtain ⟨_, before, after, hsplit, hbefore⟩ := client_for_connection_split st S.connection S hS
    obtain ⟨h0, h1, h2⟩ :=
      channel_event_ledger_l2cap st connection packet cid S before after hsplit hbefore howner
    have hmem : cid ∈ S.l2cap_cids := by
      simpa using (owner_lookup_l2cap st cid S howner).2
    have hSnd := (hnd.1 S (List.mem_of_find?_eq_some hS)).2.2.1
    refine ⟨before, after, hsplit, hbefore, List.count_eq_one_of_mem hSnd hmem,
      mem_remove_and_free_self _ _, ?_, ?_, ?_⟩
    · intro hcid hstatus
      rw [daemon_packet_handler_channel_event_clients _ _ _ _ _ (by decide) (by decide)
        (by decide), h0 hcid hstatus]
    · intro hcid hstatus
      rw [daemon_packet_handler_channel_event_clients _ _ _ _ _ (by decide) (by decide)
        (by decide), h1 hcid hstatus]
    · intro hcid
      rw [daemon_packet_handler_channel_event_clients _ _ _ _ _ (by decide) (by decide)
        (by decide), h2 hcid]
  · intro S cid hS howner
    obtain ⟨_, before, after, hsplit, hbefore⟩ := client_for_connection_split st S.connection S hS
    obtain ⟨h0, h1, h2⟩ :=
      channel_event_ledger_rfcomm st connection packet cid S before after hsplit hbefore howner
    have hmem : cid ∈ S.rfcomm_cids := by
      simpa using (owner_lookup_rfcomm st cid S howner).2
    have hSnd := (hnd.1 S (List.mem_of_find?_eq_some hS)).1
    refine ⟨before, after, hsplit, hbefore, List.count_eq_one_of_mem hSnd hmem,
      mem_remove_and_free_self _ _, ?_, ?_, ?_⟩
    · intro hcid hstatus
      rw [daemon_packet_handler_channel_event_clients _ _ _ _ _ (by decide) (by decide)
        (by decide), h0 hcid hstatus]
    · intro hcid hstatus
      rw [daemon_packet_handler_channel_event_clients _ _ _ _ _ (by decide) (by decide)
        (by decide), h1 hcid hstatus]
    · intro hcid
      rw [daemon_packet_handler_channel_event_clients _ _ _ _ _ (by decide) (by decide)
        (by decide), h2 hcid]
  · intro hnone
    rw [daemon_packet_handler_channel_event_clients _ _ _ _ _ (by decide) (by decide)
      (by decide)]
    simp [daemon_packet_handler_hci_event, hnone]
  · intro hnone
    rw [daemon_packet_handler_channel_event_clients _ _ _ _ _ (by decide) (by decide)
      (by decide)]
    simp [daemon_packet_handler_hci_event, hnone]
  · intro hnone
    rw [daemon_packet_handler_channel_event_clients _ _ _ _ _ (by decide) (by decide)
      (by decide)]
    simp [daemon_packet_handler_hci_event, hnone]
  · intro hnone
    rw [daemon_packet_handler_channel_event_clients _ _ _ _ _ (by decide) (by decide)
      (by decide)]
    simp [daemon_packet_handler_hci_event, hnone]

/-- Witness for C22: connection 1 holds L2CAP channel 64 and the channel-closed
event for channel 64 arrives. -/
theorem C22_channel_events_witness :
    Reachable sample_constants one_l2cap_channel ∧
    client_for_connection one_l2cap_channel session_with_l2cap_channel.connection =
      some session_with_l2cap_channel ∧
    one_l2cap_channel.clients.find? (fun s => s.l2cap_cids.contains 64) =
      some session_with_l2cap_channel ∧
    ∃ before after, one_l2cap_channel.clients = before ++ session_with_l2cap_channel :: after ∧
      (∀ x ∈ before, x.connection ≠ session_with_l2cap_channel.connection) ∧
      session_with_l2cap_channel.l2cap_cids.count 64 = 1 ∧
      64 ∉ remove_and_free_uint32_from_list session_with_l2cap_channel.l2cap_cids 64 ∧
      (READ_BT_16 [113, 2, 64, 0] 13 = 64 → byte_at [113, 2, 64, 0] 2 = 0 →
        (daemon_packet_handler one_l2cap_channel none PacketType.HCI_EVENT_PACKET 64
          EventCode.L2CAP_EVENT_CHANNEL_OPENED [113, 2, 64, 0]).clients =
          one_l2cap_channel.clients) ∧
      (READ_BT_16 [113, 2, 64, 0] 13 = 64 → byte_at [113, 2, 64, 0] 2 ≠ 0 →
        (daemon_packet_handler one_l2cap_channel none PacketType.HCI_EVENT_PACKET 64
          EventCode.L2CAP_EVENT_CHANNEL_OPENED [113, 2, 64, 0]).clients =
          before ++
            { session_with_l2cap_channel with
              l2cap_cids :=
                remove_and_free_uint32_from_list session_with_l2cap_channel.l2cap_cids 64 } ::
            after) ∧
      (READ_BT_16 [113, 2, 64, 0] 2 = 64 →
        (daemon_packet_handler one_l2cap_channel none PacketType.HCI_EVENT_PACKET 64
          EventCode.L2CAP_EVENT_CHANNEL_CLOSED [113, 2, 64, 0]).clients =
          before ++
            { session_with_l2cap_channel with
              l2cap_cids :=
                remove_and_free_uint32_from_list session_with_l2cap_channel.l2cap_cids 64 } ::
            after) :=
  ⟨Reachable.step _ _ (Reachable.step _ _ (Reachable.init [])), by decide, by decide,
    (C22_channel_events_update_ledger sample_constants one_l2cap_channel none 64
      [113, 2, 64, 0]
      (Reachable.step _ _ (Reachable.step _ _ (Reachable.init [])))).1
      session_with_l2cap_channel 64 (by decide) (by decide)⟩



theorem remove_from_client_list_trace (st : State) (c : connection_t)
    (get : client_state_t → uint32_list) (set : client_state_t → uint32_list → client_state_t)
    (value : Nat) : (st.remove_from_client_list c get set value).trace = st.trace := by
  unfold State.remove_from_client_list
  split <;> rfl

theorem daemon_packet_handler_hci_event_trace (st : State) (connection : Option connection_t)
    (event : EventCode) (packet : List Nat) (hevent : event ≠ EventCode.RFCOMM_EVENT_CREDITS) :
    (daemon_packet_handler_hci_event st connection event packet).1.trace = st.trace := by
  unfold daemon_packet_handler_hci_event
  split
  · exact (hevent rfl).elim
  · split
    · rfl
    · split
      · exact remove_from_client_list_trace st _ _ _ _
      · exact add_to_client_list_trace st _ _ _ _
  · split
    · rfl
    · exact remove_from_client_list_trace st _ _ _ _
  · split
    · rfl
    · split
      · rfl
      · exact add_to_client_list_trace st _ _ _ _
  · split
    · rfl
    · split
      · exact remove_from_client_list_trace st _ _ _ _
      · exact add_to_client_list_trace st _ _ _ _
  · split
    · rfl
    · exact remove_from_client_list_trace st _ _ _ _
  · rfl

/-- C23: a channel-opened or channel-closed event is not routed by the owner
that the inner switch of `daemon_packet_handler` looks up.  Control runs on into
the case `L2CAP_DATA_PACKET`, so the event is sent to the first session that
holds the handler's `channel` argument in `l2cap_cids` after the ledger update,
and to no client when there is none.  Connection 1 owns RFCOMM channel 5 and is
not sent the channel-closed event for it; connection 1 owns L2CAP channel 64 and
is not sent the channel-closed event that arrives with `channel` 64. -/
theorem C23_channel_event_follows_channel_argument (st : State)
    (connection : Option connection_t) (channel : Nat) (packet : List Nat) :
    (∀ event, event = EventCode.RFCOMM_EVENT_OPEN_CHANNEL_COMPLETE ∨
        event = EventCode.RFCOMM_EVENT_CHANNEL_CLOSED ∨
        event = EventCode.L2CAP_EVENT_CHANNEL_OPENED ∨
        event = EventCode.L2CAP_EVENT_CHANNEL_CLOSED →
      (daemon_packet_handler st connection PacketType.HCI_EVENT_PACKET channel event
        packet).trace =
        st.trace ++
          (connection_for_l2cap_cid (daemon_packet_handler_hci_event st connection event packet).1
            channel).toList.map (fun c =>
              Call.socket_connection_send_packet c PacketType.HCI_EVENT_PACKET channel packet)) ∧
    (connection_for_rfcomm_cid one_rfcomm_channel (READ_BT_16 [129, 2, 5, 0] 2) = some 1 ∧
      (l2cap_packet_handler one_rfcomm_channel PacketType.HCI_EVENT_PACKET 0
        EventCode.RFCOMM_EVENT_CHANNEL_CLOSED [129, 2, 5, 0]).trace = one_rfcomm_channel.trace) ∧
    (connection_for_l2cap_cid one_l2cap_channel (READ_BT_16 [113, 2, 64, 0] 2) = some 1 ∧
      (l2cap_packet_handler one_l2cap_channel PacketType.HCI_EVENT_PACKET 64
        EventCode.L2CAP_EVENT_CHANNEL_CLOSED [113, 2, 64, 0]).trace = one_l2cap_channel.trace) := by
  refine ⟨?_, by decide, by decide⟩
  intro event hevent
  have h1 : event ≠ EventCode.HCI_EVENT_NUMBER_OF_COMPLETED_PACKETS := by
    rcases hevent with h | h | h | h <;> subst h <;> decide
  have h2 : event ≠ EventCode.BTSTACK_EVENT_STATE := by
    rcases hevent with h | h | h | h <;> subst h <;> decide
  have h3 : event ≠ EventCode.BTSTACK_EVENT_NR_CONNECTIONS_CHANGED := by
    rcases hevent with h | h | h | h <;> subst h <;> decide
  have h4 : event ≠ EventCode.RFCOMM_EVENT_CREDITS := by
    rcases hevent with h | h | h | h <;> subst h <;> decide
  have h5 : event ≠ EventCode.DAEMON_EVENT_NEW_RFCOMM_CREDITS := by
    rcases hevent with h | h | h | h <;> subst h <;> decide
  rw [daemon_packet_handler_hci_clients st connection channel event packet h1 h2 h3,
    daemon_packet_handler_daemon_event_eq]
  simp only [h5, false_and, if_false, List.append_nil]
  rw [daemon_packet_handler_hci_event_trace st connection event packet h4]

/-- Witness for C24: the completion event for handle 64 while connection 1 is
the active owner of its helper. -/
theorem C24_gatt_events_witness :
    EventCode.GATT_QUERY_COMPLETE ≠ EventCode.GATT_NOTIFICATION ∧
    EventCode.GATT_QUERY_COMPLETE ≠ EventCode.GATT_INDICATION ∧
    EventCode.GATT_QUERY_COMPLETE ≠ EventCode.HCI_EVENT_DISCONNECTION_COMPLETE ∧
    (daemon_get_gatt_client_helper busy_helper_state (READ_BT_16 [160, 3, 64, 0, 0] 2) = none →
      handle_gatt_client_event busy_helper_state EventCode.GATT_QUERY_COMPLETE
        [160, 3, 64, 0, 0] = busy_helper_state) ∧
    (∀ helper,
      daemon_get_gatt_client_helper busy_helper_state (READ_BT_16 [160, 3, 64, 0, 0] 2) =
        some helper →
      helper.active_connection = none →
      handle_gatt_client_event busy_helper_state EventCode.GATT_QUERY_COMPLETE
        [160, 3, 64, 0, 0] = busy_helper_state) ∧
    (∀ helper owner,
      daemon_get_gatt_client_helper busy_helper_state (READ_BT_16 [160, 3, 64, 0, 0] 2) =
        some helper →
      helper.active_connection = some owner →
      (handle_gatt_client_event busy_helper_state EventCode.GATT_QUERY_COMPLETE
        [160, 3, 64, 0, 0]).clients = busy_helper_state.clients ∧
      ∃ packets : List (List Nat),
        (handle_gatt_client_event busy_helper_state EventCode.GATT_QUERY_COMPLETE
          [160, 3, 64, 0, 0]).trace =
          busy_helper_state.trace ++ packets.map (fun p =>
            Call.socket_connection_send_packet owner PacketType.HCI_EVENT_PACKET 0 p)) :=
  ⟨by decide, by decide, by decide,
    C24_gatt_events_go_to_active_owner busy_helper_state EventCode.GATT_QUERY_COMPLETE
      [160, 3, 64, 0, 0] (by decide) (by decide) (by decide)⟩

/-- Witness for C25: a notification for handle 64, which has a helper, with
sessions on connections 1 and 2. -/
theorem C25_notification_witness :
    (EventCode.GATT_NOTIFICATION = EventCode.GATT_NOTIFICATION ∨
      EventCode.GATT_NOTIFICATION = EventCode.GATT_INDICATION) ∧
    (∀ helper,
      daemon_get_gatt_client_helper busy_helper_state (READ_BT_16 [167, 5, 64, 0, 9, 0, 1] 2) =
        some helper →
      handle_gatt_client_event busy_helper_state EventCode.GATT_NOTIFICATION
          [167, 5, 64, 0, 9, 0, 1] =
        { busy_helper_state with
          trace := busy_helper_state.trace ++ busy_helper_state.clients.map (fun client_state =>
            Call.socket_connection_send_packet client_state.connection
              PacketType.HCI_EVENT_PACKET 0 [167, 5, 64, 0, 9, 0, 1]) }) ∧
    (daemon_get_gatt_client_helper busy_helper_state (READ_BT_16 [167, 5, 64, 0, 9, 0, 1] 2) =
        none →
      handle_gatt_client_event busy_helper_state EventCode.GATT_NOTIFICATION
        [167, 5, 64, 0, 9, 0, 1] = busy_helper_state) :=
  ⟨Or.inl rfl,
    C25_notification_sent_to_every_session busy_helper_state EventCode.GATT_NOTIFICATION
      [167, 5, 64, 0, 9, 0, 1] (Or.inl rfl)⟩

theorem map_update_first_of_forall {α β : Type} (p : α → Bool) (f : α → α) (g : α → β)
    (l : List α) (hf : ∀ x, g (f x) = g x) : (update_first p f l).map g = l.map g := by
  induction l with
  | nil => rfl
  | cons x xs ih =>
    unfold update_first
    split
    · simp [hf]
    · simp [ih]

theorem remove_first_sublist {α : Type} (p : α → Bool) (l : List α) :
    (remove_first p l).Sublist l := by
  induction l with
  | nil => exact List.Sublist.refl _
  | cons x xs ih =>
    unfold remove_first
    split
    · exact List.sublist_cons_self x xs
    · exact ih.cons₂ x

theorem ledger_only_refl (st : State) : LedgerOnly st st := ⟨rfl, rfl⟩

theorem ledger_only_trans {st1 st2 st3 : State} (h12 : LedgerOnly st1 st2)
    (h23 : LedgerOnly st2 st3) : LedgerOnly st1 st3 :=
  ⟨h23.1.trans h12.1, h23.2.trans h12.2⟩

theorem ledger_only_of_eq {st st' : State} (h1 : st'.clients = st.clients)
    (h2 : st'.gatt_client_helpers = st.gatt_client_helpers) : LedgerOnly st st' :=
  ⟨h2, by rw [h1]⟩

theorem gatt_only_refl (st : State) : GattOnly st st := rfl

theorem gatt_only_trans {st1 st2 st3 : State} (h12 : GattOnly st1 st2)
    (h23 : GattOnly st2 st3) : GattOnly st1 st3 :=
  h23.trans h12

theorem gatt_only_of_eq {st st' : State} (h1 : st'.clients = st.clients) : GattOnly st st' := by
  unfold GattOnly
  rw [h1]

theorem ledger_only_update_client (st : State) (c : connection_t)
    (f : client_state_t → client_state_t) (hf : ∀ s, gatt_view (f s) = gatt_view s) :
    LedgerOnly st (st.update_client c f) :=
  ⟨rfl, map_update_first_of_forall _ f gatt_view st.clients hf⟩

theorem gatt_only_update_client (st : State) (c : connection_t)
    (f : client_state_t → client_state_t) (hf : ∀ s, ledger_view (f s) = ledger_view s) :
    GattOnly st (st.update_client c f) :=
  map_update_first_of_forall _ f ledger_view st.clients hf

theorem ledger_only_add_to_client_list (st : State) (c : connection_t)
    (get : client_state_t → uint32_list) (set : client_state_t → uint32_list → client_state_t)
    (value : Nat) (hset : ∀ s l, gatt_view (set s l) = gatt_view s) :
    LedgerOnly st (st.add_to_client_list c get set value) := by
  unfold State.add_to_client_list
  rw [malloc_eq]
  split
  · exact ledger_only_refl st
  · split
    · exact ledger_only_refl st
    · exact ledger_only_trans (ledger_only_of_eq rfl rfl)
        (ledger_only_update_client { st with malloc_results := st.malloc_results.tail } c _
          (fun s => hset s _))

theorem ledger_only_remove_from_client_list (st : State) (c : connection_t)
    (get : client_state_t → uint32_list) (set : client_state_t → uint32_list → client_state_t)
    (value : Nat) (hset : ∀ s l, gatt_view (set s l) = gatt_view s) :
    LedgerOnly st (st.remove_from_client_list c get set value) := by
  unfold State.remove_from_client_list
  split
  · exact ledger_only_refl st
  · exact ledger_only_update_client st c _ (fun s => hset s _)

theorem ledger_only_calls_update_client (st : State) (cs : List Call) (c : connection_t)
    (f : client_state_t → client_state_t) (hf : ∀ s, gatt_view (f s) = gatt_view s) :
    LedgerOnly st ((st.calls cs).update_client c f) :=
  ⟨rfl, map_update_first_of_forall _ f gatt_view st.clients hf⟩

theorem ledger_only_daemon_rfcomm_close_connection (st : State) (c : connection_t) :
    LedgerOnly st (daemon_rfcomm_close_connection st c) := by
  unfold daemon_rfcomm_close_connection
  cases client_for_connection st c with
  | none => exact ledger_only_refl st
  | some client =>
    simp only []
    have h1 : LedgerOnly st
        ((st.calls (client.rfcomm_services.map Call.rfcomm_unregister_service)).update_client c
          (fun c => { c with rfcomm_services := [] })) :=
      ledger_only_calls_update_client st _ c _ (fun _ => rfl)
    exact ledger_only_trans h1 (ledger_only_calls_update_client _ _ c _ (fun _ => rfl))

theorem ledger_only_daemon_l2cap_close_connection (st : State) (c : connection_t) :
    LedgerOnly st (daemon_l2cap_close_connection st c) := by
  unfold daemon_l2cap_close_connection
  cases client_for_connection st c with
  | none => exact ledger_only_refl st
  | some client =>
    simp only []
    have h1 : LedgerOnly st
        ((st.calls (client.l2cap_psms.map Call.l2cap_unregister_service)).update_client c
          (fun c => { c with l2cap_psms := [] })) :=
      ledger_only_calls_update_client st _ c _ (fun _ => rfl)
    exact ledger_only_trans h1 (ledger_only_calls_update_client _ _ c _ (fun _ => rfl))

theorem ledger_only_daemon_sdp_close_connection (st : State) (c : connection_t) :
    LedgerOnly st (daemon_sdp_close_connection st c) := by
  unfold daemon_sdp_close_connection
  cases client_for_connection st c with
  | none => exact ledger_only_refl st
  | some client => exact ledger_only_calls_update_client st _ c _ (fun _ => rfl)

theorem ledger_only_start_power_off_timer (st : State) :
    LedgerOnly st (start_power_off_timer st) := by
  rw [start_power_off_timer_eq]
  exact ledger_only_of_eq rfl rfl

theorem ledger_only_stop_power_off_timer (st : State) :
    LedgerOnly st (stop_power_off_timer st) := by
  rw [stop_power_off_timer_eq]
  exact ledger_only_of_eq rfl rfl

theorem ledger_only_clients_clear_power_request (st : State) :
    LedgerOnly st (clients_clear_power_request st) := by
  refine ⟨rfl, ?_⟩
  unfold clients_clear_power_request
  simp only [List.map_map]
  rfl

theorem ledger_only_daemon_no_connections_timeout (st : State) :
    LedgerOnly st (daemon_no_connections_timeout st) := by
  unfold daemon_no_connections_timeout
  split
  · exact ledger_only_refl st
  · exact ledger_only_of_eq rfl rfl

theorem ledger_only_power_notification_callback (st : State) (n : POWER_NOTIFICATION_t) :
    LedgerOnly st (power_notification_callback st n) := by
  cases n
  · exact ledger_only_of_eq rfl rfl
  · unfold power_notification_callback
    simp only
    split <;> exact ledger_only_of_eq rfl rfl
  · exact ledger_only_refl st

theorem ledger_only_daemon_sdp_create_and_register_service (st : State) (reply : EngineReply) :
    LedgerOnly st (daemon_sdp_create_and_register_service st reply).1 := by
  unfold daemon_sdp_create_and_register_service
  rw [malloc_eq]
  simp only
  split
  · exact ledger_only_of_eq rfl rfl
  · split <;> exact ledger_only_of_eq rfl rfl

theorem ledger_only_daemon_retry_parked (st : State) : LedgerOnly st (daemon_retry_parked st) := by
  rw [daemon_retry_parked_eq]
  exact ledger_only_of_eq rfl rfl

theorem ledger_only_deamon_status_event_handler (st : State) (event : EventCode)
    (packet : List Nat) : LedgerOnly st (deamon_status_event_handler st event packet) := by
  unfold deamon_status_event_handler
  split
  · obtain ⟨s, hs, _⟩ := update_ui_status_eq { st with hci_state := byte_at packet 2 }
    rw [hs]
    exact ledger_only_of_eq rfl rfl
  · obtain ⟨s, hs, _⟩ := update_ui_status_eq { st with num_connections := byte_at packet 2 }
    rw [hs]
    exact ledger_only_of_eq rfl rfl
  · exact ledger_only_refl st

theorem ledger_only_daemon_packet_handler_hci_event (st : State)
    (connection : Option connection_t) (event : EventCode) (packet : List Nat) :
    LedgerOnly st (daemon_packet_handler_hci_event st connection event packet).1 := by
  unfold daemon_packet_handler_hci_event
  split
  · exact ledger_only_daemon_retry_parked st
  · split
    · exact ledger_only_refl st
    · split
      · exact ledger_only_remove_from_client_list st _ _ _ _ (fun _ _ => rfl)
      · exact ledger_only_add_to_client_list st _ _ _ _ (fun _ _ => rfl)
  · split
    · exact ledger_only_refl st
    · exact ledger_only_remove_from_client_list st _ _ _ _ (fun _ _ => rfl)
  · split
    · exact ledger_only_refl st
    · split
      · exact ledger_only_refl st
      · exact ledger_only_add_to_client_list st _ _ _ _ (fun _ _ => rfl)
  · split
    · exact ledger_only_refl st
    · split
      · exact ledger_only_remove_from_client_list st _ _ _ _ (fun _ _ => rfl)
      · exact ledger_only_add_to_client_list st _ _ _ _ (fun _ _ => rfl)
  · split
    · exact ledger_only_refl st
    · exact ledger_only_remove_from_client_list st _ _ _ _ (fun _ _ => rfl)
  · exact ledger_only_refl st

theorem ledger_only_daemon_packet_handler_daemon_event (st : State) (packet_type : PacketType)
    (channel : Nat) (event : EventCode) (packet : List Nat) :
    LedgerOnly st (daemon_packet_handler_daemon_event st packet_type channel event packet) := by
  rw [daemon_packet_handler_daemon_event_eq]
  exact ledger_only_of_eq rfl rfl

theorem ledger_only_daemon_packet_handler (st : State) (connection : Option connection_t)
    (packet_type : PacketType) (channel : Nat) (event : EventCode) (packet : List Nat) :
    LedgerOnly st (daemon_packet_handler st connection packet_type channel event packet) := by
  unfold daemon_packet_handler
  split
  · simp only []
    split
    · exact ledger_only_trans (ledger_only_deamon_status_event_handler st _ _)
        (ledger_only_daemon_retry_parked _)
    · exact ledger_only_trans (ledger_only_deamon_status_event_handler st _ _)
        (ledger_only_trans (ledger_only_daemon_packet_handler_hci_event _ connection _ _)
          (ledger_only_daemon_packet_handler_daemon_event _ _ _ _ _))
  · exact ledger_only_daemon_packet_handler_daemon_event _ _ _ _ _
  · rw [daemon_packet_handler_l2cap_data_eq]
    exact ledger_only_of_eq rfl rfl
  · rw [daemon_packet_handler_l2cap_data_eq]
    exact ledger_only_of_eq rfl rfl
  · unfold daemon_packet_handler_send
    split <;> exact ledger_only_of_eq rfl rfl

theorem gatt_only_update_helper (st : State) (handle : Nat)
    (f : gatt_client_helper_t → gatt_client_helper_t) : GattOnly st (st.update_helper handle f) :=
  rfl

theorem gatt_only_add_gatt_con_handle (st : State) (c : connection_t) (handle : Nat) :
    GattOnly st (st.add_to_client_list c (fun c => c.gatt_con_handles)
      (fun c l => { c with gatt_con_handles := l }) handle) := by
  unfold State.add_to_client_list
  rw [malloc_eq]
  split
  · exact gatt_only_refl st
  · split
    · exact gatt_only_refl st
    · exact gatt_only_update_client { st with malloc_results := st.malloc_results.tail } c _
        (fun _ => rfl)

theorem gatt_only_daemon_add_gatt_client_handle (st : State) (c : connection_t) (handle : Nat) :
    GattOnly st (daemon_add_gatt_client_handle st c handle) := by
  unfold daemon_add_gatt_client_handle
  split
  · exact gatt_only_refl st
  · rename_i cs _
    simp only
    have h1 : GattOnly st (if cs.gatt_con_handles.contains handle = true then st
        else st.add_to_client_list c (fun c => c.gatt_con_handles)
          (fun c l => { c with gatt_con_handles := l }) handle) := by
      split
      · exact gatt_only_refl st
      · exact gatt_only_add_gatt_con_handle st c handle
    generalize (if cs.gatt_con_handles.contains handle = true then st
        else st.add_to_client_list c (fun c => c.gatt_con_handles)
          (fun c l => { c with gatt_con_handles := l }) handle) = st1 at h1 ⊢
    refine gatt_only_trans h1 ?_
    split
    · exact gatt_only_of_eq (add_connection_to_helper_frame st1 _ c).2.1
    · rw [malloc_eq]
      simp only
      split
      · exact gatt_only_of_eq (add_connection_to_helper_frame
          { st1 with malloc_results := st1.malloc_results.tail } _ c).2.1
      · exact gatt_only_of_eq rfl

theorem gatt_only_daemon_remove_gatt_client_handle (st : State) (c : connection_t)
    (handle : Nat) : GattOnly st (daemon_remove_gatt_client_handle st c handle) := by
  unfold daemon_remove_gatt_client_handle
  split
  · exact gatt_only_refl st
  · simp only
    have h1 : GattOnly st (st.update_client c (fun c =>
        { c with
          gatt_con_handles := remove_and_free_uint32_from_list c.gatt_con_handles handle })) :=
      gatt_only_update_client st c _ (fun _ => rfl)
    split
    · exact h1
    · split
      · exact h1
      · exact h1

theorem gatt_only_daemon_remove_gatt_client_helper (st : State) (con_handle : Nat) :
    GattOnly st (daemon_remove_gatt_client_helper st con_handle) := by
  unfold daemon_remove_gatt_client_helper
  split
  · exact gatt_only_refl st
  · unfold GattOnly
    simp only [List.map_map]
    rfl

theorem gatt_only_daemon_gatt_client_close_connection_loop (c : connection_t) :
    ∀ (fuel : Nat) (st : State), GattOnly st (daemon_gatt_client_close_connection_loop fuel st c)
    := by
  intro fuel
  induction fuel with
  | zero => intro st; exact gatt_only_refl st
  | succ fuel ih =>
    intro st
    unfold daemon_gatt_client_close_connection_loop
    split
    · exact gatt_only_refl st
    · split
      · exact gatt_only_refl st
      · exact gatt_only_trans (gatt_only_daemon_remove_gatt_client_handle st c _) (ih _)

theorem gatt_only_daemon_gatt_client_close_connection (st : State) (c : connection_t) :
    GattOnly st (daemon_gatt_client_close_connection st c) := by
  unfold daemon_gatt_client_close_connection
  split
  · exact gatt_only_refl st
  · exact gatt_only_daemon_gatt_client_close_connection_loop c _ st

theorem gatt_only_setup_tail (K : Constants) (st2 : State) (c : connection_t) (handle : Nat)
    (track : Bool) :
    GattOnly st2 (if (track && (match daemon_get_gatt_client_helper st2 handle with
          | some helper => helper.active_connection.isSome
          | none => false)) = true then
        (send_gatt_query_complete K st2 c handle K.GATT_CLIENT_BUSY, false)
      else if track = true then
        ((daemon_add_gatt_client_handle st2 c handle).update_helper handle
          (fun h => { h with active_connection := some c }), true)
      else (daemon_add_gatt_client_handle st2 c handle, true)).1 := by
  split
  · exact gatt_only_of_eq rfl
  · split
    · exact gatt_only_daemon_add_gatt_client_handle st2 c _
    · exact gatt_only_daemon_add_gatt_client_handle st2 c _

theorem gatt_only_daemon_setup_gatt_client_request (K : Constants) (st : State)
    (c : connection_t) (packet : List Nat) (track : Bool) (reply : EngineReply) :
    GattOnly st (daemon_setup_gatt_client_request K st c packet track reply).1 := by
  unfold daemon_setup_gatt_client_request
  simp only []
  cases hopen : reply.hci_con_open
  · exact gatt_only_of_eq rfl
  · cases hget : daemon_get_gatt_client_helper st (READ_BT_16 packet 3) with
    | some helper =>
      simp only [Bool.not_true, Bool.false_eq_true, if_false]
      exact gatt_only_setup_tail K st c _ track
    | none =>
      rw [malloc_eq]
      cases hm : st.malloc_results.headD true
      · simp only [Bool.not_true, Bool.false_eq_true, if_false, Bool.not_false, if_true]
        exact gatt_only_of_eq rfl
      · simp only [Bool.not_true, Bool.false_eq_true, if_false, if_true]
        exact gatt_only_trans (gatt_only_of_eq rfl) (gatt_only_setup_tail K _ c _ track)

theorem gatt_only_gatt_client_command (K : Constants) (st : State) (c : connection_t)
    (opcode : Opcode) (packet : List Nat) (track copy_value : Bool) (reply : EngineReply) :
    GattOnly st (gatt_client_command K st c opcode packet track copy_value reply) := by
  unfold gatt_client_command
  have h1 := gatt_only_daemon_setup_gatt_client_request K st c packet track reply
  generalize daemon_setup_gatt_client_request K st c packet track reply = r at h1 ⊢
  obtain ⟨st1, ok⟩ := r
  simp only at h1 ⊢
  split
  · exact h1
  · split
    · exact h1
    · exact h1

theorem handle_gatt_client_event_active_clients (st : State) (helper : gatt_client_helper_t)
    (c : connection_t) (event : EventCode) (packet : List Nat) :
    (handle_gatt_client_event_active st helper c event packet).clients = st.clients := by
  unfold handle_gatt_client_event_active
  simp only []
  split
  any_goals rfl
  split <;> rfl

theorem gatt_only_handle_gatt_client_event (st : State) (event : EventCode)
    (packet : List Nat) : GattOnly st (handle_gatt_client_event st event packet) := by
  unfold handle_gatt_client_event
  split
  · exact gatt_only_daemon_remove_gatt_client_helper st _
  all_goals first
    | exact gatt_only_refl st
    | (split
       · exact gatt_only_refl st
       · split
         · exact gatt_only_of_eq rfl
         · split
           · exact gatt_only_refl st
           · exact gatt_only_of_eq (handle_gatt_client_event_active_clients st _ _ _ _))



theorem connections_of_ledger_only {st st' : State} (h : LedgerOnly st st') :
    st'.clients.map (fun s => s.connection) = st.clients.map (fun s => s.connection) := by
  have h1 := congrArg (List.map Prod.fst) h.2
  simpa [List.map_map, Function.comp, gatt_view] using h1

theorem connections_of_gatt_only {st st' : State} (h : GattOnly st st') :
    st'.clients.map (fun s => s.connection) = st.clients.map (fun s => s.connection) := by
  have h1 := congrArg (List.map Prod.fst) h
  simpa [List.map_map, Function.comp, ledger_view] using h1

theorem ledger_only_call (st : State) (c : Call) : LedgerOnly st (st.call c) :=
  ledger_only_of_eq rfl rfl

theorem gatt_only_call (st : State) (c : Call) : GattOnly st (st.call c) :=
  gatt_only_of_eq rfl

theorem ledger_only_daemon_add_client_rfcomm_service (st : State) (c : connection_t) (value : Nat) :
    LedgerOnly st (daemon_add_client_rfcomm_service st c value) := by
  unfold daemon_add_client_rfcomm_service
  exact ledger_only_add_to_client_list st c _ _ value (fun _ _ => rfl)

theorem ledger_only_daemon_remove_client_rfcomm_service (st : State) (c : connection_t) (value : Nat) :
    LedgerOnly st (daemon_remove_client_rfcomm_service st c value) := by
  unfold daemon_remove_client_rfcomm_service
  exact ledger_only_remove_from_client_list st c _ _ value (fun _ _ => rfl)

theorem ledger_only_daemon_add_client_rfcomm_channel (st : State) (c : connection_t) (value : Nat) :
    LedgerOnly st (daemon_add_client_rfcomm_channel st c value) := by
  unfold daemon_add_client_rfcomm_channel
  exact ledger_only_add_to_client_list st c _ _ value (fun _ _ => rfl)

theorem ledger_only_daemon_remove_client_rfcomm_channel (st : State) (c : connection_t) (value : Nat) :
    LedgerOnly st (daemon_remove_client_rfcomm_channel st c value) := by
  unfold daemon_remove_client_rfcomm_channel
  exact ledger_only_remove_from_client_list st c _ _ value (fun _ _ => rfl)

theorem ledger_only_daemon_add_client_l2cap_service (st : State) (c : connection_t) (value : Nat) :
    LedgerOnly st (daemon_add_client_l2cap_service st c value) := by
  unfold daemon_add_client_l2cap_service
  exact ledger_only_add_to_client_list st c _ _ value (fun _ _ => rfl)

theorem ledger_only_daemon_remove_client_l2cap_service (st : State) (c : connection_t) (value : Nat) :
    LedgerOnly st (daemon_remove_client_l2cap_service st c value) := by
  unfold daemon_remove_client_l2cap_service
  exact ledger_only_remove_from_client_list st c _ _ value (fun _ _ => rfl)

theorem ledger_only_daemon_add_client_l2cap_channel (st : State) (c : connection_t) (value : Nat) :
    LedgerOnly st (daemon_add_client_l2cap_channel st c value) := by
  unfold daemon_add_client_l2cap_channel
  exact ledger_only_add_to_client_list st c _ _ value (fun _ _ => rfl)

theorem ledger_only_daemon_remove_client_l2cap_channel (st : State) (c : connection_t) (value : Nat) :
    LedgerOnly st (daemon_remove_client_l2cap_channel st c value) := by
  unfold daemon_remove_client_l2cap_channel
  exact ledger_only_remove_from_client_list st c _ _ value (fun _ _ => rfl)

theorem ledger_only_daemon_add_client_sdp_service_record_handle (st : State) (c : connection_t) (value : Nat) :
    LedgerOnly st (daemon_add_client_sdp_service_record_handle st c value) := by
  unfold daemon_add_client_sdp_service_record_handle
  exact ledger_only_add_to_client_list st c _ _ value (fun _ _ => rfl)

theorem ledger_only_daemon_remove_client_sdp_service_record_handle (st : State) (c : connection_t) (value : Nat) :
    LedgerOnly st (daemon_remove_client_sdp_service_record_handle st c value) := by
  unfold daemon_remove_client_sdp_service_record_handle
  exact ledger_only_remove_from_client_list st c _ _ value (fun _ _ => rfl)

theorem ledger_only_then_call {st st' : State} (h : LedgerOnly st st') (c : Call) :
    LedgerOnly st (st'.call c) :=
  ledger_only_trans h (ledger_only_of_eq rfl rfl)

theorem ledger_only_after_call (st : State) (c : Call) {st' : State}
    (h : LedgerOnly (st.call c) st') : LedgerOnly st st' :=
  ledger_only_trans (ledger_only_of_eq rfl rfl) h

theorem ledger_only_btstack_command_handler (K : Constants) (st : State) (c : connection_t)
    (opcode : Opcode) (packet : List Nat) (reply : EngineReply)
    (hop : opcode.uses_gatt_helper = false) :
    LedgerOnly st (btstack_command_handler K st c opcode packet reply) := by
  cases opcode
  case BTSTACK_SET_POWER_MODE =>
    simp only [btstack_command_handler]
    split
    · exact ledger_only_refl st
    · have h1 : LedgerOnly st (st.update_client c
          (fun c => { c with power_mode := byte_at packet 3 })) :=
        ledger_only_update_client st c _ (fun _ => rfl)
      refine ledger_only_trans h1 ?_
      split
      · exact ledger_only_start_power_off_timer _
      · split
        · exact ledger_only_trans (ledger_only_stop_power_off_timer _) (ledger_only_call _ _)
        · exact ledger_only_refl _
  case BTSTACK_SET_DISCOVERABLE =>
    simp only [btstack_command_handler]
    split
    · exact ledger_only_refl st
    · have h1 : LedgerOnly st (st.update_client c
          (fun c => { c with discoverable := byte_at packet 3 })) :=
        ledger_only_update_client st c _ (fun _ => rfl)
      exact ledger_only_trans h1 (ledger_only_call _ _)
  case BTSTACK_SET_BLUETOOTH_ENABLED =>
    simp only [btstack_command_handler]
    split
    · exact ledger_only_of_eq rfl rfl
    · exact ledger_only_trans
        (ledger_only_clients_clear_power_request { st with global_enable := 0 })
        (ledger_only_call _ _)
  case L2CAP_CREATE_CHANNEL_MTU =>
    simp only [btstack_command_handler]
    split
    · exact ledger_only_of_eq rfl rfl
    · exact ledger_only_after_call st _ (ledger_only_daemon_add_client_l2cap_channel _ c _)
  case L2CAP_CREATE_CHANNEL =>
    simp only [btstack_command_handler]
    split
    · exact ledger_only_of_eq rfl rfl
    · exact ledger_only_after_call st _ (ledger_only_daemon_add_client_l2cap_channel _ c _)
  case RFCOMM_CREATE_CHANNEL =>
    simp only [btstack_command_handler]
    split
    · exact ledger_only_of_eq rfl rfl
    · exact ledger_only_after_call st _ (ledger_only_daemon_add_client_rfcomm_channel _ c _)
  case RFCOMM_CREATE_CHANNEL_WITH_CREDITS =>
    simp only [btstack_command_handler]
    split
    · exact ledger_only_of_eq rfl rfl
    · exact ledger_only_after_call st _ (ledger_only_daemon_add_client_rfcomm_channel _ c _)
  case L2CAP_REGISTER_SERVICE =>
    simp only [btstack_command_handler, l2cap_emit_service_registered]
    exact ledger_only_then_call
      (ledger_only_after_call st _ (ledger_only_daemon_add_client_l2cap_service _ c _)) _
  case L2CAP_UNREGISTER_SERVICE =>
    simp only [btstack_command_handler]
    exact ledger_only_then_call (ledger_only_daemon_remove_client_l2cap_service st c _) _
  case RFCOMM_UNREGISTER_SERVICE =>
    simp only [btstack_command_handler]
    exact ledger_only_then_call (ledger_only_daemon_remove_client_rfcomm_service st c _) _
  case SDP_REGISTER_SERVICE_RECORD =>
    simp only [btstack_command_handler, sdp_emit_service_registered]
    have h1 := ledger_only_daemon_sdp_create_and_register_service
      (st.call (Call.engine_request Opcode.SDP_REGISTER_SERVICE_RECORD packet)) reply
    generalize daemon_sdp_create_and_register_service
      (st.call (Call.engine_request Opcode.SDP_REGISTER_SERVICE_RECORD packet)) reply = r at h1 ⊢
    obtain ⟨st1, handle⟩ := r
    simp only at h1 ⊢
    have h2 : LedgerOnly st st1 := ledger_only_after_call st _ h1
    split
    · exact ledger_only_then_call
        (ledger_only_trans h2 (ledger_only_daemon_add_client_sdp_service_record_handle st1 c _)) _
    · exact ledger_only_then_call h2 _
  case SDP_UNREGISTER_SERVICE_RECORD =>
    simp only [btstack_command_handler]
    exact ledger_only_after_call st _
      (ledger_only_daemon_remove_client_sdp_service_record_handle _ c _)
  all_goals first
    | exact absurd hop (by decide)
    | exact ledger_only_refl st

theorem gatt_only_btstack_command_handler (K : Constants) (st : State) (c : connection_t)
    (opcode : Opcode) (packet : List Nat) (reply : EngineReply)
    (hop : opcode.changes_ledger = false) :
    GattOnly st (btstack_command_handler K st c opcode packet reply) := by
  cases opcode
  case BTSTACK_SET_POWER_MODE =>
    simp only [btstack_command_handler]
    split
    · exact gatt_only_refl st
    · have h1 : GattOnly st (st.update_client c
          (fun c => { c with power_mode := byte_at packet 3 })) :=
        gatt_only_update_client st c _ (fun _ => rfl)
      refine gatt_only_trans h1 ?_
      split
      · rw [start_power_off_timer_eq]
        exact gatt_only_of_eq rfl
      · split
        · rw [stop_power_off_timer_eq]
          exact gatt_only_of_eq rfl
        · exact gatt_only_refl _
  case BTSTACK_SET_DISCOVERABLE =>
    simp only [btstack_command_handler]
    split
    · exact gatt_only_refl st
    · exact gatt_only_update_client st c
        (fun c => { c with discoverable := byte_at packet 3 }) (fun _ => rfl)
  case BTSTACK_SET_BLUETOOTH_ENABLED =>
    simp only [btstack_command_handler]
    split
    · exact gatt_only_of_eq rfl
    · unfold GattOnly clients_clear_power_request State.call
      simp only [List.map_map]
      rfl
  all_goals first
    | exact absurd hop (by decide)
    | exact gatt_only_refl st
    | exact gatt_only_of_eq rfl
    | exact gatt_only_gatt_client_command K st c _ packet _ _ reply

theorem btstack_command_handler_connections (K : Constants) (st : State) (c : connection_t)
    (opcode : Opcode) (packet : List Nat) (reply : EngineReply) :
    (btstack_command_handler K st c opcode packet reply).clients.map (fun s => s.connection) =
      st.clients.map (fun s => s.connection) := by
  cases hop : opcode.uses_gatt_helper
  · exact connections_of_ledger_only (ledger_only_btstack_command_handler K st c opcode packet
      reply hop)
  · have h2 : opcode.changes_ledger = false := by
      cases opcode <;> first | rfl | exact absurd hop (by decide)
    exact connections_of_gatt_only (gatt_only_btstack_command_handler K st c opcode packet
      reply h2)

/-! ### Distinct helpers and link disconnection -/

theorem READ_BT_16_lt (buffer : List Nat) (pos : Nat) : READ_BT_16 buffer pos < 65536 := by
  unfold READ_BT_16 byte_at
  have h1 := Nat.mod_lt (buffer.getD pos 0) (by decide : 0 < 256)
  have h2 := Nat.mod_lt (buffer.getD (pos + 1) 0) (by decide : 0 < 256)
  omega

theorem helpers_distinct_of_eq {st st' : State}
    (h : st'.gatt_client_helpers = st.gatt_client_helpers) (hd : st.helpers_distinct) :
    st'.helpers_distinct := by
  unfold State.helpers_distinct
  rw [h]
  exact hd

theorem helpers_distinct_update_helper (st : State) (handle : Nat)
    (f : gatt_client_helper_t → gatt_client_helper_t)
    (hf : ∀ H, (f H).con_handle = H.con_handle) (hd : st.helpers_distinct) :
    (st.update_helper handle f).helpers_distinct := by
  unfold State.helpers_distinct State.update_helper
  simp only
  rw [map_update_first_of_forall _ f (fun H => H.con_handle) _ hf]
  exact hd

theorem not_mem_handles_of_find_none (l : List gatt_client_helper_t) (handle : Nat)
    (h : l.find? (fun item => item.con_handle == handle) = none) :
    handle ∉ l.map (fun H => H.con_handle) := by
  intro hmem
  obtain ⟨H, hH, hc⟩ := List.mem_map.1 hmem
  have := List.find?_eq_none.1 h H hH
  simp [hc] at this

theorem helpers_distinct_daemon_add_gatt_client_handle (st : State) (c : connection_t)
    (handle : Nat) (hlt : handle < 65536) (hd : st.helpers_distinct) :
    (daemon_add_gatt_client_handle st c handle).helpers_distinct := by
  unfold daemon_add_gatt_client_handle
  split
  · exact hd
  · rename_i cs _
    simp only
    have h1 : (if cs.gatt_con_handles.contains handle = true then st
        else st.add_to_client_list c (fun c => c.gatt_con_handles)
          (fun c l => { c with gatt_con_handles := l }) handle).helpers_distinct := by
      split
      · exact hd
      · exact helpers_distinct_of_eq (add_to_client_list_helpers st c _ _ handle) hd
    generalize (if cs.gatt_con_handles.contains handle = true then st
        else st.add_to_client_list c (fun c => c.gatt_con_handles)
          (fun c l => { c with gatt_con_handles := l }) handle) = st1 at h1 ⊢
    split
    · rename_i helper hfind
      have hframe := add_connection_to_helper_frame st1 helper c
      unfold State.helpers_distinct State.update_helper
      simp only
      rw [map_update_first _ _ (fun H => H.con_handle) _ helper (by rw [hframe.1]; exact hfind)
        hframe.2.2.2.1, hframe.1]
      exact h1
    · rename_i hfind
      rw [malloc_eq]
      simp only
      split
      · have hframe := add_connection_to_helper_frame
          { st1 with malloc_results := st1.malloc_results.tail } { con_handle := handle % 65536 } c
        unfold State.helpers_distinct
        simp only [List.map_cons]
        rw [hframe.1, hframe.2.2.2.1]
        refine List.nodup_cons.2 ⟨?_, h1⟩
        rw [Nat.mod_eq_of_lt hlt]
        exact not_mem_handles_of_find_none _ _ hfind
      · exact helpers_distinct_of_eq rfl h1

theorem helpers_distinct_daemon_remove_gatt_client_handle (st : State) (c : connection_t)
    (handle : Nat) (hd : st.helpers_distinct) :
    (daemon_remove_gatt_client_handle st c handle).helpers_distinct := by
  unfold daemon_remove_gatt_client_handle
  split
  · exact hd
  · simp only
    have h1 : (st.update_client c (fun c =>
        { c with
          gatt_con_handles :=
            remove_and_free_uint32_from_list c.gatt_con_handles handle })).helpers_distinct := hd
    generalize (st.update_client c (fun c =>
        { c with
          gatt_con_handles :=
            remove_and_free_uint32_from_list c.gatt_con_handles handle })) = st1 at h1 ⊢
    split
    · exact h1
    · rename_i helper hfind
      have h2 : (st1.update_helper handle (fun h =>
          { h with
            all_connections := helper.all_connections.erase c
            active_connection :=
              if helper.active_connection == some c then none
              else helper.active_connection })).helpers_distinct :=
        helpers_distinct_update_helper st1 handle _ (fun _ => rfl) h1
      split
      · exact h2
      · exact h2

theorem helpers_distinct_daemon_remove_gatt_client_helper (st : State) (con_handle : Nat)
    (hd : st.helpers_distinct) :
    (daemon_remove_gatt_client_helper st con_handle).helpers_distinct := by
  unfold daemon_remove_gatt_client_helper
  split
  · exact hd
  · exact List.Nodup.sublist ((remove_first_sublist _ _).map _) hd

theorem helpers_distinct_daemon_gatt_client_close_connection_loop (c : connection_t) :
    ∀ (fuel : Nat) (st : State), st.helpers_distinct →
      (daemon_gatt_client_close_connection_loop fuel st c).helpers_distinct := by
  intro fuel
  induction fuel with
  | zero => intro st h; exact h
  | succ fuel ih =>
    intro st h
    unfold daemon_gatt_client_close_connection_loop
    split
    · exact h
    · split
      · exact h
      · exact ih _ (helpers_distinct_daemon_remove_gatt_client_handle st c _ h)

theorem helpers_distinct_daemon_gatt_client_close_connection (st : State) (c : connection_t)
    (hd : st.helpers_distinct) : (daemon_gatt_client_close_connection st c).helpers_distinct := by
  unfold daemon_gatt_client_close_connection
  split
  · exact hd
  · exact helpers_distinct_daemon_gatt_client_close_connection_loop c _ st hd

theorem helpers_distinct_daemon_disconnect_client (st : State) (c : connection_t)
    (hd : st.helpers_distinct) : (daemon_disconnect_client st c).helpers_distinct := by
  unfold daemon_disconnect_client
  split
  · exact hd
  · unfold daemon_close_connections
    have h1 := helpers_distinct_of_eq (ledger_only_daemon_sdp_close_connection st c).1 hd
    have h2 := helpers_distinct_of_eq (ledger_only_daemon_rfcomm_close_connection _ c).1 h1
    have h3 := helpers_distinct_of_eq (ledger_only_daemon_l2cap_close_connection _ c).1 h2
    exact helpers_distinct_daemon_gatt_client_close_connection _ c h3

theorem helpers_distinct_setup_tail (K : Constants) (st2 : State) (c : connection_t)
    (handle : Nat) (track : Bool) (hlt : handle < 65536) (hd : st2.helpers_distinct) :
    (if (track && (match daemon_get_gatt_client_helper st2 handle with
          | some helper => helper.active_connection.isSome
          | none => false)) = true then
        (send_gatt_query_complete K st2 c handle K.GATT_CLIENT_BUSY, false)
      else if track = true then
        ((daemon_add_gatt_client_handle st2 c handle).update_helper handle
          (fun h => { h with active_connection := some c }), true)
      else (daemon_add_gatt_client_handle st2 c handle, true)).1.helpers_distinct := by
  split
  · exact hd
  · split
    · exact helpers_distinct_update_helper _ handle _ (fun _ => rfl)
        (helpers_distinct_daemon_add_gatt_client_handle st2 c handle hlt hd)
    · exact helpers_distinct_daemon_add_gatt_client_handle st2 c handle hlt hd

theorem helpers_distinct_daemon_setup_gatt_client_request (K : Constants) (st : State)
    (c : connection_t) (packet : List Nat) (track : Bool) (reply : EngineReply)
    (hd : st.helpers_distinct) :
    (daemon_setup_gatt_client_request K st c packet track reply).1.helpers_distinct := by
  unfold daemon_setup_gatt_client_request
  simp only []
  cases hopen : reply.hci_con_open
  · exact hd
  · cases hget : daemon_get_gatt_client_helper st (READ_BT_16 packet 3) with
    | some helper =>
      simp only [Bool.not_true, Bool.false_eq_true, if_false]
      exact helpers_distinct_setup_tail K st c _ track (READ_BT_16_lt _ _) hd
    | none =>
      rw [malloc_eq]
      cases hm : st.malloc_results.headD true
      · simp only [Bool.not_true, Bool.false_eq_true, if_false, Bool.not_false, if_true]
        exact hd
      · simp only [Bool.not_true, Bool.false_eq_true, if_false, if_true]
        apply helpers_distinct_setup_tail K _ c _ track (READ_BT_16_lt _ _)
        exact List.nodup_cons.2 ⟨not_mem_handles_of_find_none _ _ hget, hd⟩

theorem helpers_distinct_gatt_client_command (K : Constants) (st : State) (c : connection_t)
    (opcode : Opcode) (packet : List Nat) (track copy_value : Bool) (reply : EngineReply)
    (hd : st.helpers_distinct) :
    (gatt_client_command K st c opcode packet track copy_value reply).helpers_distinct := by
  unfold gatt_client_command
  have h1 := helpers_distinct_daemon_setup_gatt_client_request K st c packet track reply hd
  generalize daemon_setup_gatt_client_request K st c packet track reply = r at h1 ⊢
  obtain ⟨st1, ok⟩ := r
  simp only at h1 ⊢
  split
  · exact h1
  · split
    · exact helpers_distinct_update_helper st1 _ _ (fun _ => rfl) h1
    · exact h1

theorem helpers_distinct_btstack_command_handler (K : Constants) (st : State)
    (c : connection_t) (opcode : Opcode) (packet : List Nat) (reply : EngineReply)
    (hd : st.helpers_distinct) :
    (btstack_command_handler K st c opcode packet reply).helpers_distinct := by
  cases hop : opcode.uses_gatt_helper
  · exact helpers_distinct_of_eq
      (ledger_only_btstack_command_handler K st c opcode packet reply hop).1 hd
  · cases opcode
    all_goals first
      | exact absurd hop (by decide)
      | exact helpers_distinct_gatt_client_command K st c _ packet _ _ reply hd

theorem helpers_distinct_daemon_client_handler (K : Constants) (st : State) (c : connection_t)
    (packet_type : PacketType) (channel : Nat) (data : List Nat) (command : Option Opcode)
    (event : EventCode) (reply : EngineReply) (hd : st.helpers_distinct) :
    (daemon_client_handler K st c packet_type channel data command event reply).helpers_distinct
    := by
  unfold daemon_client_handler
  split
  · split
    · exact hd
    · exact helpers_distinct_btstack_command_handler K st c _ data reply hd
  · exact hd
  · exact hd
  · split
    · rw [malloc_eq]
      simp only []
      split <;> exact hd
    · simp only []
      have h1 : ((daemon_disconnect_client st c).call
          Call.sdp_query_rfcomm_deregister_callback).helpers_distinct :=
        helpers_distinct_daemon_disconnect_client st c hd
      generalize (daemon_disconnect_client st c).call
          Call.sdp_query_rfcomm_deregister_callback = st1 at h1 ⊢
      have h2 : (if st1.clients.isEmpty = true then st1.call Call.hci_disconnect_all
          else st1).helpers_distinct := by
        split <;> exact h1
      generalize (if st1.clients.isEmpty = true then st1.call Call.hci_disconnect_all
          else st1) = st2 at h2 ⊢
      split
      · exact helpers_distinct_of_eq (ledger_only_start_power_off_timer _).1 h2
      · exact h2
    · exact hd
  · exact hd

theorem helpers_distinct_handle_gatt_client_event (st : State) (event : EventCode)
    (packet : List Nat) (hd : st.helpers_distinct) :
    (handle_gatt_client_event st event packet).helpers_distinct := by
  unfold handle_gatt_client_event
  split
  · exact helpers_distinct_daemon_remove_gatt_client_helper st _ hd
  all_goals first
    | exact hd
    | (split
       · exact hd
       · split
         · exact hd
         · split
           · exact hd
           · unfold handle_gatt_client_event_active
             simp only []
             first
               | exact hd
               | exact helpers_distinct_update_helper st _ _ (fun _ => rfl) hd
               | (split
                  · exact helpers_distinct_update_helper _ _ _ (fun _ => rfl)
                      (helpers_distinct_update_helper st _ _ (fun _ => rfl) hd)
                  · exact helpers_distinct_update_helper st _ _ (fun _ => rfl) hd))

theorem helpers_distinct_handle_input (K : Constants) (st : State) (input : Input)
    (hd : st.helpers_distinct) : (handle_input K st input).helpers_distinct := by
  cases input with
  | client_packet c packet_type channel data command event reply =>
    exact helpers_distinct_daemon_client_handler K st c packet_type channel data command event
      reply hd
  | protocol_packet packet_type channel event packet =>
    exact helpers_distinct_of_eq
      (ledger_only_daemon_packet_handler st none packet_type channel event packet).1 hd
  | gatt_event event packet => exact helpers_distinct_handle_gatt_client_event st event packet hd
  | timer_expired =>
    exact helpers_distinct_of_eq (ledger_only_daemon_no_connections_timeout st).1 hd
  | power_notification n =>
    exact helpers_distinct_of_eq (ledger_only_power_notification_callback st n).1 hd

theorem helpers_distinct_of_reachable (K : Constants) (st : State) (h : Reachable K st) :
    st.helpers_distinct := by
  induction h with
  | init malloc_results => exact List.nodup_nil
  | step st input _ ih => exact helpers_distinct_handle_input K st input ih



theorem remove_first_eq_filter (l : List gatt_client_helper_t) (handle : Nat)
    (hd : (l.map (fun H => H.con_handle)).Nodup) :
    remove_first (fun item => item.con_handle == handle) l =
      l.filter (fun H => H.con_handle != handle) := by
  induction l with
  | nil => rfl
  | cons x xs ih =>
    rw [List.map_cons, List.nodup_cons] at hd
    unfold remove_first
    by_cases hx : x.con_handle = handle
    · have hall : ∀ y ∈ xs, (y.con_handle != handle) = true := by
        intro y hy
        have : y.con_handle ≠ x.con_handle := fun h =>
          hd.1 (List.mem_map.2 ⟨y, hy, h⟩)
        simpa [← hx] using this
      simp only [hx, beq_self_eq_true, if_true]
      rw [List.filter_cons_of_neg (by simp [hx]), List.filter_eq_self.2 hall]
    · simp only [hx, beq_iff_eq, if_false]
      rw [List.filter_cons_of_pos (by simpa using hx), ih hd.2]

/-- C21: in a state the daemon can reach, when the registry has a helper for
the handle `h` of an `HCI_EVENT_DISCONNECTION_COMPLETE` event,
`handle_gatt_client_event` takes every helper with handle `h` out of the
registry and every entry `h` out of `gatt_con_handles` of every session, and
changes nothing else: the helpers of other handles, the other entries of
`gatt_con_handles` and every other field of every session stay as they are.
Afterwards the registry has no helper for `h` and no session holds `h`. -/
theorem C21_link_disconnect_removes_helper (K : Constants) (st : State) (packet : List Nat)
    (h : Nat) (helper : gatt_client_helper_t)
    (hreach : Reachable K st) (hh : READ_BT_16 packet 3 = h)
    (hhelper : daemon_get_gatt_client_helper st h = some helper) :
    handle_gatt_client_event st EventCode.HCI_EVENT_DISCONNECTION_COMPLETE packet =
      { st with
        gatt_client_helpers := st.gatt_client_helpers.filter (fun H => H.con_handle != h)
        clients := st.clients.map (fun S =>
          { S with
            gatt_con_handles := remove_and_free_uint32_from_list S.gatt_con_handles h }) } ∧
    daemon_get_gatt_client_helper
      (handle_gatt_client_event st EventCode.HCI_EVENT_DISCONNECTION_COMPLETE packet) h = none ∧
    ∀ S ∈ (handle_gatt_client_event st EventCode.HCI_EVENT_DISCONNECTION_COMPLETE
        packet).clients, h ∉ S.gatt_con_handles := by
  have hd := helpers_distinct_of_reachable K st hreach
  have heq : handle_gatt_client_event st EventCode.HCI_EVENT_DISCONNECTION_COMPLETE packet =
      { st with
        gatt_client_helpers := st.gatt_client_helpers.filter (fun H => H.con_handle != h)
        clients := st.clients.map (fun S =>
          { S with
            gatt_con_handles := remove_and_free_uint32_from_list S.gatt_con_handles h }) } := by
    simp only [handle_gatt_client_event, daemon_remove_gatt_client_helper, hh]
    unfold daemon_get_gatt_client_helper at hhelper
    rw [hhelper]
    simp only
    rw [remove_first_eq_filter _ h hd]
  refine ⟨heq, ?_, ?_⟩
  · rw [heq]
    unfold daemon_get_gatt_client_helper
    simp only
    rw [List.find?_eq_none]
    intro H hH
    have := (List.mem_filter.1 hH).2
    simpa using this
  · rw [heq]
    intro S hS
    simp only at hS
    obtain ⟨S0, _, rfl⟩ := List.mem_map.1 hS
    exact mem_remove_and_free_self _ _

/-- Witness for C21: the link of handle 64 goes down while connection 1 is the
active owner of its helper. -/
theorem C21_link_disconnect_witness :
    Reachable sample_constants one_gatt_request ∧
    READ_BT_16 [5, 4, 0, 64, 0, 19] 3 = 64 ∧
    daemon_get_gatt_client_helper one_gatt_request 64 =
      some { con_handle := 64, active_connection := some 1, all_connections := [1] } ∧
    handle_gatt_client_event one_gatt_request EventCode.HCI_EVENT_DISCONNECTION_COMPLETE
        [5, 4, 0, 64, 0, 19] =
      { one_gatt_request with
        gatt_client_helpers :=
          one_gatt_request.gatt_client_helpers.filter (fun H => H.con_handle != 64)
        clients := one_gatt_request.clients.map (fun S =>
          { S with
            gatt_con_handles := remove_and_free_uint32_from_list S.gatt_con_handles 64 }) } ∧
    daemon_get_gatt_client_helper
      (handle_gatt_client_event one_gatt_request EventCode.HCI_EVENT_DISCONNECTION_COMPLETE
        [5, 4, 0, 64, 0, 19]) 64 = none ∧
    ∀ S ∈ (handle_gatt_client_event one_gatt_request EventCode.HCI_EVENT_DISCONNECTION_COMPLETE
        [5, 4, 0, 64, 0, 19]).clients, 64 ∉ S.gatt_con_handles :=
  ⟨Reachable.step _ _ (Reachable.step _ _ (Reachable.init [])), by decide, rfl,
    C21_link_disconnect_removes_helper sample_constants one_gatt_request [5, 4, 0, 64, 0, 19] 64
      { con_handle := 64, active_connection := some 1, all_connections := [1] }
      (Reachable.step _ _ (Reachable.step _ _ (Reachable.init []))) (by decide) rfl⟩

/-! ### One session per connection -/

theorem reachable_of_reachable_with (K : Constants) (allowed : State → Input → Prop)
    (st : State) (h : ReachableWith K allowed st) : Reachable K st := by
  induction h with
  | init malloc_results => exact Reachable.init malloc_results
  | step st input _ _ ih => exact Reachable.step st input ih

theorem reachable_with_mono (K : Constants) (allowed allowed' : State → Input → Prop)
    (hmono : ∀ st input, allowed st input → allowed' st input) (st : State)
    (h : ReachableWith K allowed st) : ReachableWith K allowed' st := by
  induction h with
  | init malloc_results => exact ReachableWith.init malloc_results
  | step st input _ hok ih => exact ReachableWith.step st input ih (hmono st input hok)

theorem daemon_disconnect_client_clients (st : State) (c : connection_t) :
    (client_for_connection st c = none ∧ daemon_disconnect_client st c = st) ∨
    ∃ S before after, client_for_connection st c = some S ∧ S.connection = c ∧
      st.clients = before ++ S :: after ∧ (∀ x ∈ before, x.connection ≠ c) ∧
      (daemon_disconnect_client st c).clients = before ++ after := by
  cases hS : client_for_connection st c with
  | none =>
    left
    unfold daemon_disconnect_client
    rw [hS]
    exact ⟨rfl, rfl⟩
  | some S =>
    right
    obtain ⟨hconn, before, after, hsplit, hbefore⟩ := client_for_connection_split st c S hS
    refine ⟨S, before, after, rfl, hconn, hsplit, hbefore, ?_⟩
    rw [daemon_disconnect_client_split st c S before after hsplit hconn hbefore]

theorem tables_ite_start_power_off_timer (b : Prop) [Decidable b] (st : State) :
    (if b then start_power_off_timer st else st).clients = st.clients ∧
    (if b then start_power_off_timer st else st).gatt_client_helpers =
      st.gatt_client_helpers := by
  split
  · rw [start_power_off_timer_eq]
    exact ⟨rfl, rfl⟩
  · exact ⟨rfl, rfl⟩

theorem tables_ite_call (b : Prop) [Decidable b] (st : State) (call : Call) :
    (if b then st.call call else st).clients = st.clients ∧
    (if b then st.call call else st).gatt_client_helpers = st.gatt_client_helpers := by
  split
  · exact ⟨rfl, rfl⟩
  · exact ⟨rfl, rfl⟩

theorem daemon_client_handler_closed_tables (K : Constants) (st : State) (c : connection_t)
    (channel : Nat) (data : List Nat) (command : Option Opcode) (reply : EngineReply) :
    (daemon_client_handler K st c PacketType.DAEMON_EVENT_PACKET channel data command
        EventCode.DAEMON_EVENT_CONNECTION_CLOSED reply).clients =
      (daemon_disconnect_client st c).clients ∧
    (daemon_client_handler K st c PacketType.DAEMON_EVENT_PACKET channel data command
        EventCode.DAEMON_EVENT_CONNECTION_CLOSED reply).gatt_client_helpers =
      (daemon_disconnect_client st c).gatt_client_helpers := by
  simp only [daemon_client_handler]
  exact ⟨(tables_ite_start_power_off_timer _ _).1.trans (tables_ite_call _
      ((daemon_disconnect_client st c).call Call.sdp_query_rfcomm_deregister_callback) _).1,
    (tables_ite_start_power_off_timer _ _).2.trans (tables_ite_call _
      ((daemon_disconnect_client st c).call Call.sdp_query_rfcomm_deregister_callback) _).2⟩

theorem sessions_distinct_of_connections {st st' : State}
    (h : st'.clients.map (fun s => s.connection) = st.clients.map (fun s => s.connection))
    (hd : st.sessions_distinct) : st'.sessions_distinct := by
  unfold State.sessions_distinct
  rw [h]
  exact hd

theorem not_mem_connections_of_none (st : State) (c : connection_t)
    (h : client_for_connection st c = none) :
    c ∉ st.clients.map (fun s => s.connection) := by
  intro hmem
  obtain ⟨S, hS, hc⟩ := List.mem_map.1 hmem
  have := List.find?_eq_none.1 h S hS
  simp [hc] at this

theorem sessions_distinct_daemon_client_handler (K : Constants) (st : State) (c : connection_t)
    (packet_type : PacketType) (channel : Nat) (data : List Nat) (command : Option Opcode)
    (event : EventCode) (reply : EngineReply) (hd : st.sessions_distinct)
    (hnew : opens_new_connection st
      (Input.client_packet c packet_type channel data command event reply)) :
    (daemon_client_handler K st c packet_type channel data command event reply).sessions_distinct
    := by
  cases packet_type
  case HCI_COMMAND_DATA_PACKET =>
    cases command with
    | none => exact hd
    | some opcode =>
      exact sessions_distinct_of_connections
        (btstack_command_handler_connections K st c opcode data reply) hd
  case DAEMON_EVENT_PACKET =>
    cases event
    case DAEMON_EVENT_CONNECTION_OPENED =>
      simp only [daemon_client_handler]
      rw [malloc_eq]
      simp only []
      split
      · exact List.nodup_cons.2 ⟨not_mem_connections_of_none st c hnew, hd⟩
      · exact hd
    case DAEMON_EVENT_CONNECTION_CLOSED =>
      unfold State.sessions_distinct
      rw [(daemon_client_handler_closed_tables K st c channel data command reply).1]
      rcases daemon_disconnect_client_clients st c with ⟨_, h⟩ | ⟨S, before, after, _, _, hsplit,
        _, h⟩
      · rw [h]
        exact hd
      · rw [h]
        unfold State.sessions_distinct at hd
        rw [hsplit] at hd
        exact List.Nodup.sublist
          (((List.Sublist.refl before).append (List.sublist_cons_self S after)).map _) hd
    all_goals exact hd
  all_goals exact hd

theorem sessions_distinct_handle_input (K : Constants) (st : State) (input : Input)
    (hd : st.sessions_distinct) (hnew : opens_new_connection st input) :
    (handle_input K st input).sessions_distinct := by
  cases input with
  | client_packet c packet_type channel data command event reply =>
    exact sessions_distinct_daemon_client_handler K st c packet_type channel data command event
      reply hd hnew
  | protocol_packet packet_type channel event packet =>
    exact sessions_distinct_of_connections (connections_of_ledger_only
      (ledger_only_daemon_packet_handler st none packet_type channel event packet)) hd
  | gatt_event event packet =>
    exact sessions_distinct_of_connections (connections_of_gatt_only
      (gatt_only_handle_gatt_client_event st event packet)) hd
  | timer_expired =>
    exact sessions_distinct_of_connections (connections_of_ledger_only
      (ledger_only_daemon_no_connections_timeout st)) hd
  | power_notification n =>
    exact sessions_distinct_of_connections (connections_of_ledger_only
      (ledger_only_power_notification_callback st n)) hd

theorem sessions_distinct_of_reachable_with (K : Constants) (st : State)
    (h : ReachableWith K opens_new_connection st) : st.sessions_distinct := by
  induction h with
  | init malloc_results => exact List.nodup_nil
  | step st input _ hnew ih => exact sessions_distinct_handle_input K st input ih hnew

theorem countP_connection_le_one (l : List client_state_t) (c : connection_t)
    (hd : (l.map (fun s => s.connection)).Nodup) :
    l.countP (fun s => s.connection == c) ≤ 1 := by
  have h1 : l.countP (fun s => s.connection == c) = (l.map (fun s => s.connection)).count c := by
    rw [List.count, List.countP_map]
    rfl
  rw [h1]
  exact List.nodup_iff_count_le_one.1 hd c

/-- C27 does not hold for every sequence of events: when
`DAEMON_EVENT_CONNECTION_OPENED` arrives twice for connection 1, the table holds
two sessions for connection 1. -/
theorem C27_one_session_counterexample :
    Reachable sample_constants opened_twice ∧
    opened_twice.clients.countP (fun s => s.connection == 1) = 2 :=
  ⟨Reachable.step _ _ (Reachable.step _ _ (Reachable.init [])), by decide⟩

/-- C27, amended: in every state the daemon reaches by inputs in which each
`DAEMON_EVENT_CONNECTION_OPENED` event carries a connection that has no session
in the table, the table holds at most one session for every connection. -/
theorem C27_one_session_per_connection (K : Constants) (st : State)
    (hreach : ReachableWith K opens_new_connection st) (c : connection_t) :
    st.clients.countP (fun s => s.connection == c) ≤ 1 :=
  countP_connection_le_one st.clients c (sessions_distinct_of_reachable_with K st hreach)

theorem reachable_with_reopened :
    ReachableWith sample_constants opens_new_connection reopened :=
  ReachableWith.step _ _
    (ReachableWith.step _
      (Input.client_packet 1 PacketType.DAEMON_EVENT_PACKET 0 [] none
        EventCode.DAEMON_EVENT_CONNECTION_CLOSED {})
      (ReachableWith.step _
        (Input.client_packet 1 PacketType.DAEMON_EVENT_PACKET 0 [] none
          EventCode.DAEMON_EVENT_CONNECTION_OPENED {})
        (ReachableWith.init []) rfl) trivial)
    rfl

/-- Witness for C27: connection 1 opens, closes and opens again. -/
theorem C27_one_session_witness :
    ReachableWith sample_constants opens_new_connection reopened ∧
    reopened.clients.countP (fun s => s.connection == 1) ≤ 1 :=
  ⟨reachable_with_reopened,
    C27_one_session_per_connection sample_constants reopened reachable_with_reopened 1⟩

/-! ### Links between helpers and sessions -/

theorem mem_connections (H : gatt_client_helper_t) (c : connection_t) :
    c ∈ H.connections ↔ H.active_connection = some c ∨ c ∈ H.all_connections := by
  unfold gatt_client_helper_t.connections
  rw [List.mem_append]
  cases H.active_connection with
  | none => simp
  | some a =>
    simp only [Option.toList, List.mem_singleton, Option.some.injEq]
    constructor
    · rintro (h | h)
      · exact Or.inl h.symm
      · exact Or.inr h
    · rintro (h | h)
      · exact Or.inl h.symm
      · exact Or.inr h

theorem find_gatt_view (c : connection_t) (l : List client_state_t) :
    ∀ l' : List client_state_t, l'.map gatt_view = l.map gatt_view →
      (l'.find? (fun s => s.connection == c)).map gatt_view =
        (l.find? (fun s => s.connection == c)).map gatt_view := by
  induction l with
  | nil =>
    intro l' h
    cases l' with
    | nil => rfl
    | cons a l' => simp at h
  | cons x xs ih =>
    intro l' h
    cases l' with
    | nil => simp at h
    | cons y ys =>
      simp only [List.map_cons, List.cons.injEq] at h
      have hc : y.connection = x.connection := congrArg Prod.fst h.1
      simp only [List.find?_cons, hc]
      cases hx : x.connection == c
      · exact ih ys h.2
      · simp only [Option.map_some']
        rw [h.1]

theorem gatt_link_eq_view (st : State) (c : connection_t) (x : Nat) :
    st.gatt_link c x =
      match (client_for_connection st c).map gatt_view with
      | some v => v.2.contains x
      | none => false := by
  unfold State.gatt_link
  cases client_for_connection st c <;> rfl

theorem gatt_link_of_views {st st' : State}
    (h : st'.clients.map gatt_view = st.clients.map gatt_view) (c : connection_t) (x : Nat) :
    st'.gatt_link c x = st.gatt_link c x := by
  rw [gatt_link_eq_view, gatt_link_eq_view]
  unfold client_for_connection
  rw [find_gatt_view c st.clients st'.clients h]

theorem gatt_linked_of_views {st st' : State}
    (hh : st'.gatt_client_helpers = st.gatt_client_helpers)
    (hc : st'.clients.map gatt_view = st.clients.map gatt_view) (hl : st.gatt_linked) :
    st'.gatt_linked := by
  intro H hH c hcH
  rw [gatt_link_of_views hc]
  rw [hh] at hH
  exact hl H hH c hcH

theorem gatt_linked_of_ledger_only {st st' : State} (h : LedgerOnly st st')
    (hl : st.gatt_linked) : st'.gatt_linked :=
  gatt_linked_of_views h.1 h.2 hl

theorem mem_update_first_pred {α : Type} (p : α → Bool) (f : α → α) (l : List α) (x : α)
    (h : x ∈ update_first p f l) : x ∈ l ∨ ∃ y ∈ l, p y = true ∧ x = f y := by
  induction l with
  | nil => exact absurd h (List.not_mem_nil x)
  | cons a l ih =>
    unfold update_first at h
    by_cases hp : p a = true
    · rw [if_pos hp] at h
      rcases List.mem_cons.1 h with h | h
      · exact Or.inr ⟨a, List.mem_cons_self _ _, hp, h⟩
      · exact Or.inl (List.mem_cons_of_mem _ h)
    · rw [if_neg hp] at h
      rcases List.mem_cons.1 h with h | h
      · exact Or.inl (h ▸ List.mem_cons_self _ _)
      · rcases ih h with h | ⟨y, hy, hpy, hxy⟩
        · exact Or.inl (List.mem_cons_of_mem _ h)
        · exact Or.inr ⟨y, List.mem_cons_of_mem _ hy, hpy, hxy⟩

/-- A store through a helper pointer keeps the link property when the stored
helper has the handle looked up and refers only to linked connections. -/
theorem gatt_linked_update_helper (st : State) (handle : Nat)
    (f : gatt_client_helper_t → gatt_client_helper_t) (hl : st.gatt_linked)
    (hf : ∀ H ∈ st.gatt_client_helpers, H.con_handle = handle →
      (f H).con_handle = handle ∧ ∀ c ∈ (f H).connections, st.gatt_link c handle = true) :
    (st.update_helper handle f).gatt_linked := by
  intro H hH c hc
  have hlink : (st.update_helper handle f).gatt_link c H.con_handle =
      st.gatt_link c H.con_handle := rfl
  rw [hlink]
  rcases mem_update_first_pred _ f _ H hH with h | ⟨y, hy, hpy, hHy⟩
  · exact hl H h c hc
  · have hyh : y.con_handle = handle := by simpa using hpy
    subst hHy
    rw [(hf y hy hyh).1]
    exact (hf y hy hyh).2 c hc

/-- A store through a helper pointer keeps the link property when it keeps the
handle and adds no connection. -/
theorem gatt_linked_update_helper_of_subset (st : State) (handle : Nat)
    (f : gatt_client_helper_t → gatt_client_helper_t) (hl : st.gatt_linked)
    (hf : ∀ H, (f H).con_handle = H.con_handle ∧ ∀ c ∈ (f H).connections, c ∈ H.connections) :
    (st.update_helper handle f).gatt_linked := by
  apply gatt_linked_update_helper st handle f hl
  intro H hH hHh
  refine ⟨(hf H).1.trans hHh, fun c hc => ?_⟩
  rw [← hHh]
  exact hl H hH c ((hf H).2 c hc)

theorem find_update_first_other (l : List client_state_t) (c c' : connection_t)
    (f : client_state_t → client_state_t) (hf : ∀ s, (f s).connection = s.connection)
    (hne : c' ≠ c) :
    (update_first (fun s => s.connection == c) f l).find? (fun s => s.connection == c') =
      l.find? (fun s => s.connection == c') := by
  induction l with
  | nil => rfl
  | cons x xs ih =>
    unfold update_first
    by_cases hx : x.connection = c
    · have hx' : ¬ x.connection = c' := fun h => hne (h.symm.trans hx)
      have h1 : ((f x).connection == c') = false := by
        rw [hf]
        simpa using hx'
      have h2 : (x.connection == c') = false := by simpa using hx'
      rw [if_pos (by simpa using hx)]
      simp only [List.find?_cons, h1, h2]
    · simp only [beq_iff_eq, hx, if_false, List.find?_cons]
      rw [ih]

theorem client_for_connection_update_client_other (st : State) (c c' : connection_t)
    (f : client_state_t → client_state_t) (hf : ∀ s, (f s).connection = s.connection)
    (hne : c' ≠ c) :
    client_for_connection (st.update_client c f) c' = client_for_connection st c' :=
  find_update_first_other st.clients c c' f hf hne

theorem client_for_connection_update_client_self (st : State) (c : connection_t)
    (f : client_state_t → client_state_t) (hf : ∀ s, (f s).connection = s.connection) :
    client_for_connection (st.update_client c f) c = (client_for_connection st c).map f := by
  unfold client_for_connection State.update_client
  exact find_update_first _ f st.clients (fun x hx => by simpa [hf] using hx)

/-- A store through a client pointer that keeps the entries of
`gatt_con_handles` other than `handle` keeps every link other than the link of
`c` and `handle`. -/
theorem gatt_link_update_client (st : State) (c : connection_t) (handle : Nat)
    (f : client_state_t → client_state_t) (hf : ∀ s, (f s).connection = s.connection)
    (hkeep : ∀ s x, x ≠ handle → x ∈ s.gatt_con_handles → x ∈ (f s).gatt_con_handles)
    (c' : connection_t) (x : Nat) (hlink : st.gatt_link c' x = true)
    (hne : c' ≠ c ∨ x ≠ handle) :
    (st.update_client c f).gatt_link c' x = true := by
  unfold State.gatt_link at hlink ⊢
  by_cases hc : c' = c
  · subst hc
    rw [client_for_connection_update_client_self st c' f hf]
    cases hS : client_for_connection st c' with
    | none =>
      rw [hS] at hlink
      simp at hlink
    | some S =>
      rw [hS] at hlink
      have hx : x ≠ handle := by
        rcases hne with h | h
        · exact absurd rfl h
        · exact h
      simp only [Option.map_some']
      simpa using hkeep S x hx (by simpa using hlink)
  · rw [client_for_connection_update_client_other st c c' f hf hc]
    exact hlink

theorem gatt_link_unlink (st : State) (c : connection_t) (handle : Nat) (c' : connection_t)
    (x : Nat) (hlink : st.gatt_link c' x = true) (hne : c' ≠ c ∨ x ≠ handle) :
    (st.update_client c (fun c =>
      { c with gatt_con_handles :=
          remove_and_free_uint32_from_list c.gatt_con_handles handle })).gatt_link c' x = true := by
  apply gatt_link_update_client st c handle
    (fun c => { c with gatt_con_handles :=
      remove_and_free_uint32_from_list c.gatt_con_handles handle }) (fun _ => rfl) _ c' x hlink hne
  intro s y hy hys
  unfold remove_and_free_uint32_from_list
  simpa [hy] using hys

theorem erase_connections (H : gatt_client_helper_t) (c : connection_t)
    (all : List connection_t) (active : Option connection_t)
    (hall : ∀ x ∈ all, x ∈ H.all_connections ∧ x ≠ c)
    (hactive : active = none ∨ (active = H.active_connection ∧ active ≠ some c)) :
    ∀ x ∈ ({ H with all_connections := all, active_connection := active } :
        gatt_client_helper_t).connections, x ∈ H.connections ∧ x ≠ c := by
  intro x hx
  rw [mem_connections] at hx
  rw [mem_connections]
  rcases hx with hx | hx
  · simp only at hx
    rcases hactive with h | ⟨h1, h2⟩
    · rw [h] at hx
      exact absurd hx (by simp)
    · refine ⟨Or.inl (h1 ▸ hx), ?_⟩
      intro hxc
      subst hxc
      exact h2 hx
  · exact ⟨Or.inr (hall x hx).1, (hall x hx).2⟩

theorem eq_of_find_of_nodup (l : List gatt_client_helper_t) (handle : Nat)
    (helper H : gatt_client_helper_t) (hd : (l.map (fun H => H.con_handle)).Nodup)
    (hfind : l.find? (fun item => item.con_handle == handle) = some helper)
    (hH : H ∈ l) (hHh : H.con_handle = handle) : H = helper := by
  induction l with
  | nil => exact absurd hH (List.not_mem_nil H)
  | cons x xs ih =>
    rw [List.map_cons, List.nodup_cons] at hd
    rw [List.find?_cons] at hfind
    by_cases hx : x.con_handle = handle
    · simp only [hx, beq_self_eq_true, Option.some.injEq] at hfind
      rcases List.mem_cons.1 hH with h | h
      · exact h.trans hfind
      · exact absurd (List.mem_map.2 ⟨H, h, hHh.trans hx.symm⟩) hd.1
    · have hxb : (x.con_handle == handle) = false := by simpa using hx
      rw [hxb] at hfind
      rcases List.mem_cons.1 hH with h | h
      · exact absurd (h ▸ hHh) hx
      · exact ih hd.2 hfind h

theorem mem_update_first_nodup (l : List gatt_client_helper_t) (handle : Nat)
    (f : gatt_client_helper_t → gatt_client_helper_t)
    (hd : (l.map (fun H => H.con_handle)).Nodup) (x : gatt_client_helper_t)
    (h : x ∈ update_first (fun item => item.con_handle == handle) f l) :
    (x ∈ l ∧ x.con_handle ≠ handle) ∨ ∃ y ∈ l, y.con_handle = handle ∧ x = f y := by
  induction l with
  | nil => exact absurd h (List.not_mem_nil x)
  | cons a l ih =>
    rw [List.map_cons, List.nodup_cons] at hd
    unfold update_first at h
    by_cases ha : a.con_handle = handle
    · rw [if_pos (by simpa using ha)] at h
      rcases List.mem_cons.1 h with h | h
      · exact Or.inr ⟨a, List.mem_cons_self _ _, ha, h⟩
      · refine Or.inl ⟨List.mem_cons_of_mem _ h, fun hx => ?_⟩
        exact hd.1 (List.mem_map.2 ⟨x, h, hx.trans ha.symm⟩)
    · rw [if_neg (by simpa using ha)] at h
      rcases List.mem_cons.1 h with h | h
      · exact Or.inl ⟨h ▸ List.mem_cons_self _ _, h ▸ ha⟩
      · rcases ih hd.2 h with ⟨h1, h2⟩ | ⟨y, hy, hyh, hxy⟩
        · exact Or.inl ⟨List.mem_cons_of_mem _ h1, h2⟩
        · exact Or.inr ⟨y, List.mem_cons_of_mem _ hy, hyh, hxy⟩

theorem gatt_linked_daemon_remove_gatt_client_handle (st : State) (c : connection_t)
    (handle : Nat) (hl : st.gatt_linked) (hd : st.helpers_distinct) (hn : st.no_duplicates) :
    (daemon_remove_gatt_client_handle st c handle).gatt_linked := by
  unfold daemon_remove_gatt_client_handle
  split
  · exact hl
  · simp only
    cases hfind : st.gatt_client_helpers.find? (fun item => item.con_handle == handle) with
    | none =>
      have hfind' : (st.update_client c (fun c =>
          { c with gatt_con_handles :=
              remove_and_free_uint32_from_list c.gatt_con_handles handle })
          ).gatt_client_helpers.find? (fun item => item.con_handle == handle) = none := hfind
      rw [hfind']
      simp only []
      intro H hH x hx
      have hH' : H ∈ st.gatt_client_helpers := hH
      refine gatt_link_unlink st c handle x _ (hl H hH' x hx) (Or.inr ?_)
      intro hHh
      have := List.find?_eq_none.1 hfind H hH'
      simp [hHh] at this
    | some helper =>
      have hfind' : (st.update_client c (fun c =>
          { c with gatt_con_handles :=
              remove_and_free_uint32_from_list c.gatt_con_handles handle })
          ).gatt_client_helpers.find? (fun item => item.con_handle == handle) = some helper :=
        hfind
      rw [hfind']
      simp only
      have hmem : helper ∈ st.gatt_client_helpers := List.mem_of_find?_eq_some hfind
      have hlinked : (State.update_helper (st.update_client c (fun c =>
          { c with gatt_con_handles :=
              remove_and_free_uint32_from_list c.gatt_con_handles handle })) handle (fun h =>
          { h with
            all_connections := helper.all_connections.erase c
            active_connection :=
              if helper.active_connection == some c then none
              else helper.active_connection })).gatt_linked := by
        intro H hH x hx
        have hlink : ∀ y z, (State.update_helper (st.update_client c (fun c =>
            { c with gatt_con_handles :=
                remove_and_free_uint32_from_list c.gatt_con_handles handle })) handle (fun h =>
            { h with
              all_connections := helper.all_connections.erase c
              active_connection :=
                if helper.active_connection == some c then none
                else helper.active_connection })).gatt_link y z =
            (st.update_client c (fun c =>
            { c with gatt_con_handles :=
                remove_and_free_uint32_from_list c.gatt_con_handles handle })).gatt_link y z :=
          fun _ _ => rfl
        rw [hlink]
        rcases mem_update_first_nodup _ handle _ hd H hH with ⟨h, hHh⟩ | ⟨y, hy, hyh, hHy⟩
        · have hH' : H ∈ st.gatt_client_helpers := h
          exact gatt_link_unlink st c handle x _ (hl H hH' x hx) (Or.inr hHh)
        · have hy' : y ∈ st.gatt_client_helpers := hy
          have hyeq := eq_of_find_of_nodup _ handle helper y hd hfind hy' hyh
          subst hyeq
          subst hHy
          have hrefs := erase_connections y c (y.all_connections.erase c)
            (if y.active_connection == some c then none else y.active_connection)
            (fun z hz => ⟨List.mem_of_mem_erase hz, fun hzc => by
              subst hzc
              exact (List.Nodup.not_mem_erase (hn.2 y hy')) hz⟩)
            (by
              by_cases ha : y.active_connection = some c
              · left
                simp [ha]
              · right
                simp [ha]) x hx
          exact gatt_link_unlink st c handle x _ (hl y hy' x hrefs.1) (Or.inl hrefs.2)
      split
      · exact gatt_linked_of_views rfl rfl hlinked
      · exact hlinked



theorem gatt_linked_daemon_gatt_client_close_connection_loop (c : connection_t) :
    ∀ (fuel : Nat) (st : State), st.gatt_linked → st.helpers_distinct → st.no_duplicates →
      (daemon_gatt_client_close_connection_loop fuel st c).gatt_linked := by
  intro fuel
  induction fuel with
  | zero => intro st h _ _; exact h
  | succ fuel ih =>
    intro st hl hd hn
    unfold daemon_gatt_client_close_connection_loop
    split
    · exact hl
    · split
      · exact hl
      · exact ih _ (gatt_linked_daemon_remove_gatt_client_handle st c _ hl hd hn)
          (helpers_distinct_daemon_remove_gatt_client_handle st c _ hd)
          (no_duplicates_daemon_remove_gatt_client_handle st c _ hn)

theorem gatt_linked_daemon_gatt_client_close_connection (st : State) (c : connection_t)
    (hl : st.gatt_linked) (hd : st.helpers_distinct) (hn : st.no_duplicates) :
    (daemon_gatt_client_close_connection st c).gatt_linked := by
  unfold daemon_gatt_client_close_connection
  split
  · exact hl
  · exact gatt_linked_daemon_gatt_client_close_connection_loop c _ st hl hd hn

theorem gatt_linked_daemon_close_connections (st : State) (c : connection_t)
    (hl : st.gatt_linked) (hd : st.helpers_distinct) (hn : st.no_duplicates) :
    (daemon_close_connections st c).gatt_linked := by
  unfold daemon_close_connections
  have l1 := ledger_only_daemon_sdp_close_connection st c
  have l2 := ledger_only_daemon_rfcomm_close_connection (daemon_sdp_close_connection st c) c
  have l3 := ledger_only_daemon_l2cap_close_connection
    (daemon_rfcomm_close_connection (daemon_sdp_close_connection st c) c) c
  have n1 := no_duplicates_daemon_sdp_close_connection st c hn
  have n2 := no_duplicates_daemon_rfcomm_close_connection _ c n1
  have n3 := no_duplicates_daemon_l2cap_close_connection _ c n2
  exact gatt_linked_daemon_gatt_client_close_connection _ c
    (gatt_linked_of_ledger_only l3 (gatt_linked_of_ledger_only l2
      (gatt_linked_of_ledger_only l1 hl)))
    (helpers_distinct_of_eq l3.1 (helpers_distinct_of_eq l2.1 (helpers_distinct_of_eq l1.1 hd)))
    n3

theorem find_append_cons_other {α : Type} (p : α → Bool) (before after : List α) (x : α)
    (hx : p x = false) :
    (before ++ x :: after).find? p = (before ++ after).find? p := by
  rw [List.find?_append, List.find?_append, List.find?_cons, hx]

theorem not_mem_connections_of_no_link (st : State) (c : connection_t)
    (hl : st.gatt_linked) (hno : ∀ x, st.gatt_link c x = false) :
    ∀ H ∈ st.gatt_client_helpers, c ∉ H.connections := by
  intro H hH hc
  have := hl H hH c hc
  rw [hno] at this
  exact absurd this (by decide)

/-- After `daemon_disconnect_client` for `c` every helper still refers only to
connections whose session holds its handle, and no helper refers to `c`. -/
theorem gatt_linked_daemon_disconnect_client (st : State) (c : connection_t)
    (hl : st.gatt_linked) (hd : st.helpers_distinct) (hn : st.no_duplicates) :
    (daemon_disconnect_client st c).gatt_linked ∧
    ∀ H ∈ (daemon_disconnect_client st c).gatt_client_helpers, c ∉ H.connections := by
  cases hS : client_for_connection st c with
  | none =>
    have heq : daemon_disconnect_client st c = st := by
      unfold daemon_disconnect_client
      rw [hS]
    rw [heq]
    refine ⟨hl, not_mem_connections_of_no_link st c hl (fun x => ?_)⟩
    unfold State.gatt_link
    rw [hS]
  | some S =>
    obtain ⟨hconn, before, after, hsplit, hbefore⟩ := client_for_connection_split st c S hS
    rw [daemon_disconnect_client_split st c S before after hsplit hconn hbefore]
    have hl1 := gatt_linked_daemon_close_connections st c hl hd hn
    obtain ⟨helpers, calls, _, heq⟩ :=
      daemon_close_connections_split st c S before after hsplit hconn hbefore
    have hclients : (daemon_close_connections st c).clients = before ++
        { connection := c, power_mode := S.power_mode, discoverable := S.discoverable } ::
          after := by
      rw [heq]
    have hfind : client_for_connection (daemon_close_connections st c) c =
        some { connection := c, power_mode := S.power_mode, discoverable := S.discoverable } :=
      client_for_connection_of_split _ c before after _ hclients rfl hbefore
    have hno : ∀ x, (daemon_close_connections st c).gatt_link c x = false := by
      intro x
      unfold State.gatt_link
      rw [hfind]
      rfl
    have hnot := not_mem_connections_of_no_link _ c hl1 hno
    refine ⟨?_, hnot⟩
    intro H hH x hx
    have hH' : H ∈ (daemon_close_connections st c).gatt_client_helpers := hH
    have hxc : x ≠ c := fun h => hnot H hH' (h ▸ hx)
    have hlink := hl1 H hH' x hx
    unfold State.gatt_link client_for_connection at hlink ⊢
    rw [hclients, find_append_cons_other _ before after _
      (by simpa using fun h : c = x => hxc h.symm)] at hlink
    exact hlink

/-- A new session for a connection that had none keeps the link property. -/
theorem gatt_linked_open (st st' : State) (S : client_state_t)
    (hh : st'.gatt_client_helpers = st.gatt_client_helpers)
    (hc : st'.clients = S :: st.clients)
    (hnew : client_for_connection st S.connection = none) (hl : st.gatt_linked) :
    st'.gatt_linked := by
  intro H hH x hx
  rw [hh] at hH
  have hlink := hl H hH x hx
  have hxc : S.connection ≠ x := by
    intro h
    unfold State.gatt_link at hlink
    rw [← h, hnew] at hlink
    simp at hlink
  unfold State.gatt_link client_for_connection at hlink ⊢
  rw [hc, List.find?_cons]
  have hb : (S.connection == x) = false := by simpa using hxc
  rw [hb]
  exact hlink

theorem gatt_linked_daemon_remove_gatt_client_helper (st : State) (con_handle : Nat)
    (hl : st.gatt_linked) (hd : st.helpers_distinct) :
    (daemon_remove_gatt_client_helper st con_handle).gatt_linked := by
  unfold daemon_remove_gatt_client_helper
  split
  · exact hl
  · intro H hH x hx
    simp only at hH
    rw [remove_first_eq_filter _ _ hd] at hH
    obtain ⟨hmem, hne⟩ := List.mem_filter.1 hH
    have hne' : H.con_handle ≠ con_handle := by simpa using hne
    have hlink := hl H hmem x hx
    unfold State.gatt_link client_for_connection at hlink ⊢
    simp only
    rw [List.find?_map]
    have hcomp : ((fun client_state : client_state_t => client_state.connection == x) ∘
        fun client_state : client_state_t =>
          { client_state with
            gatt_con_handles :=
              remove_and_free_uint32_from_list client_state.gatt_con_handles con_handle }) =
        fun client_state => client_state.connection == x := rfl
    rw [hcomp]
    cases hfind : st.clients.find? (fun client_state => client_state.connection == x) with
    | none =>
      rw [hfind] at hlink
      simp at hlink
    | some S =>
      rw [hfind] at hlink
      simp only [Option.map_some']
      unfold remove_and_free_uint32_from_list
      simp only [List.contains_eq_any_beq, List.any_eq_true, beq_iff_eq] at hlink ⊢
      obtain ⟨y, hy, hyx⟩ := hlink
      exact ⟨y, List.mem_filter.2 ⟨hy, by simpa [hyx] using hne'⟩, hyx⟩

theorem gatt_linked_call (st : State) (call : Call) (hl : st.gatt_linked) :
    (st.call call).gatt_linked :=
  @gatt_linked_of_views st _ rfl rfl hl

theorem gatt_linked_handle_gatt_client_event (st : State) (event : EventCode)
    (packet : List Nat) (hl : st.gatt_linked) (hd : st.helpers_distinct) :
    (handle_gatt_client_event st event packet).gatt_linked := by
  have hkeep : ∀ (h : Nat) (f : gatt_client_helper_t → gatt_client_helper_t) (s : State),
      s.gatt_linked →
      (∀ H, (f H).con_handle = H.con_handle ∧
        ((f H).active_connection = H.active_connection ∨ (f H).active_connection = none) ∧
        (f H).all_connections = H.all_connections) →
      (s.update_helper h f).gatt_linked := by
    intro h f s hs hf
    apply gatt_linked_update_helper_of_subset s h f hs
    intro H
    refine ⟨(hf H).1, fun c hc => ?_⟩
    rw [mem_connections] at hc ⊢
    rcases hc with hc | hc
    · rcases (hf H).2.1 with ha | ha
      · exact Or.inl (ha ▸ hc)
      · rw [ha] at hc
        exact absurd hc (by simp)
    · exact Or.inr ((hf H).2.2 ▸ hc)
  unfold handle_gatt_client_event
  split
  · exact gatt_linked_daemon_remove_gatt_client_helper st _ hl hd
  all_goals first
    | exact hl
    | (split
       · exact hl
       · split
         · exact @gatt_linked_of_views st _ rfl rfl hl
         · split
           · exact hl
           · unfold handle_gatt_client_event_active
             simp only []
             first
               | exact @gatt_linked_of_views st _ rfl rfl hl
               | exact hkeep _ _ st hl (fun _ => ⟨rfl, Or.inl rfl, rfl⟩)
               | (split
                  · refine gatt_linked_call _ _ (gatt_linked_call _ _
                      (hkeep _ _ _ (hkeep _ _ st hl ?_) ?_))
                    · intro _
                      exact ⟨rfl, Or.inr rfl, rfl⟩
                    · intro _
                      exact ⟨rfl, Or.inl rfl, rfl⟩
                  · refine gatt_linked_call _ _ (hkeep _ _ st hl ?_)
                    intro _
                    exact ⟨rfl, Or.inr rfl, rfl⟩))

/-- A store through a client pointer that keeps every entry of
`gatt_con_handles` keeps every link. -/
theorem gatt_link_update_client_mono (st : State) (c : connection_t)
    (f : client_state_t → client_state_t) (hf : ∀ s, (f s).connection = s.connection)
    (hkeep : ∀ s x, x ∈ s.gatt_con_handles → x ∈ (f s).gatt_con_handles)
    (c' : connection_t) (x : Nat) (hlink : st.gatt_link c' x = true) :
    (st.update_client c f).gatt_link c' x = true :=
  gatt_link_update_client st c (x + 1) f hf (fun s y _ hy => hkeep s y hy) c' x hlink
    (Or.inr (Nat.ne_of_lt (Nat.lt_succ_self x)))

theorem mem_add_uint32_to_list_of_mem (l : uint32_list) (v x : Nat) (ok : Bool) (h : x ∈ l) :
    x ∈ add_uint32_to_list l v ok := by
  unfold add_uint32_to_list
  split
  · exact h
  · split
    · exact List.mem_cons_of_mem _ h
    · exact h

/-- The ledger step of `daemon_add_gatt_client_handle`, the allocation
succeeding: every link stays and the session of `c` holds the handle. -/
theorem gatt_link_add_step (st : State) (c : connection_t) (handle : Nat)
    (S : client_state_t) (hS : client_for_connection st c = some S)
    (hm : ∀ b ∈ st.malloc_results, b = true) :
    ∃ st1 : State,
      (if S.gatt_con_handles.contains handle = true then st
        else st.add_to_client_list c (fun c => c.gatt_con_handles)
          (fun c l => { c with gatt_con_handles := l }) handle) = st1 ∧
      st1.gatt_client_helpers = st.gatt_client_helpers ∧
      (∀ c' x, st.gatt_link c' x = true → st1.gatt_link c' x = true) ∧
      st1.gatt_link c handle = true ∧
      ∀ b ∈ st1.malloc_results, b = true := by
  obtain ⟨st1, hst1, hhelpers, hclient, hm1⟩ := add_gatt_con_handle_step st c handle S hS hm
  refine ⟨st1, hst1, hhelpers, ?_, ?_, hm1⟩
  · intro c' x hlink
    rw [← hst1]
    by_cases hcont : S.gatt_con_handles.contains handle = true
    · rw [if_pos hcont]
      exact hlink
    · rw [if_neg hcont]
      unfold State.add_to_client_list
      rw [hS, malloc_eq]
      simp only [hcont, if_false, Bool.false_eq_true]
      have hlink' : State.gatt_link { st with malloc_results := st.malloc_results.tail } c' x =
          true := hlink
      exact gatt_link_update_client_mono { st with malloc_results := st.malloc_results.tail } c
        (fun c => { c with gatt_con_handles :=
          add_uint32_to_list c.gatt_con_handles handle (st.malloc_results.headD true) })
        (fun _ => rfl) (fun s y hy => mem_add_uint32_to_list_of_mem _ _ _ _ hy) c' x hlink'
  · unfold State.gatt_link
    rw [hclient]
    simp only
    unfold add_uint32_to_list
    by_cases hcont : S.gatt_con_handles.contains handle = true
    · rw [if_pos hcont]
      exact hcont
    · rw [if_neg hcont]
      simp

theorem add_connection_to_helper_all_connections (st : State) (helper : gatt_client_helper_t)
    (c : connection_t) :
    ∀ x ∈ (add_connection_to_helper st helper c).2.all_connections,
      x = c ∨ x ∈ helper.all_connections := by
  intro x hx
  unfold add_connection_to_helper at hx
  rw [malloc_eq] at hx
  split at hx
  · exact Or.inr hx
  · simp only at hx
    split at hx
    · exact (List.mem_cons.1 hx).imp id id
    · exact Or.inr hx

theorem add_connection_to_helper_connections (st : State) (helper : gatt_client_helper_t)
    (c : connection_t) :
    ∀ x ∈ (add_connection_to_helper st helper c).2.connections,
      x = c ∨ x ∈ helper.connections := by
  intro x hx
  have hframe := add_connection_to_helper_frame st helper c
  rw [mem_connections] at hx
  rcases hx with hx | hx
  · rw [hframe.2.2.2.2] at hx
    exact Or.inr ((mem_connections _ _).2 (Or.inl hx))
  · rcases add_connection_to_helper_all_connections st helper c x hx with h | h
    · exact Or.inl h
    · exact Or.inr ((mem_connections _ _).2 (Or.inr h))

theorem gatt_linked_daemon_add_gatt_client_handle (st : State) (c : connection_t)
    (handle : Nat) (S : client_state_t) (hS : client_for_connection st c = some S)
    (hm : ∀ b ∈ st.malloc_results, b = true) (hlt : handle < 65536) (hl : st.gatt_linked) :
    (daemon_add_gatt_client_handle st c handle).gatt_linked ∧
    (daemon_add_gatt_client_handle st c handle).gatt_link c handle = true := by
  unfold daemon_add_gatt_client_handle
  rw [hS]
  simp only
  obtain ⟨st1, hst1, hhelpers, hgrow, hlinkc, hm1⟩ := gatt_link_add_step st c handle S hS hm
  rw [hst1]
  have hl1 : st1.gatt_linked := by
    intro H hH x hx
    rw [hhelpers] at hH
    exact hgrow x _ (hl H hH x hx)
  cases hfind : st1.gatt_client_helpers.find? (fun item => item.con_handle == handle) with
  | some gatt_helper =>
    simp only
    have hframe := add_connection_to_helper_frame st1 gatt_helper c
    have hconn := add_connection_to_helper_connections st1 gatt_helper c
    generalize add_connection_to_helper st1 gatt_helper c = r at hframe hconn
    obtain ⟨st2, helper⟩ := r
    simp only at hframe hconn ⊢
    have hmem : gatt_helper ∈ st1.gatt_client_helpers := List.mem_of_find?_eq_some hfind
    have hgh : gatt_helper.con_handle = handle := by
      have := List.find?_some hfind
      simpa using this
    have hl2 : st2.gatt_linked :=
      gatt_linked_of_views hframe.1 (by rw [hframe.2.1]) hl1
    have hlink2 : ∀ y z, st2.gatt_link y z = st1.gatt_link y z :=
      fun y z => gatt_link_of_views (by rw [hframe.2.1]) y z
    constructor
    · apply gatt_linked_update_helper st2 handle (fun _ => helper) hl2
      intro H _ _
      refine ⟨hframe.2.2.2.1.trans hgh, fun x hx => ?_⟩
      rw [hlink2]
      rcases hconn x hx with h | h
      · rw [h]
        exact hlinkc
      · rw [← hgh]
        exact hl1 gatt_helper hmem x h
    · have : (st2.update_helper handle (fun _ => helper)).gatt_link c handle =
          st2.gatt_link c handle := rfl
      rw [this, hlink2]
      exact hlinkc
  | none =>
    simp only
    rw [malloc_eq, headD_of_all_true _ hm1]
    simp only [if_true]
    have hframe := add_connection_to_helper_frame
      { st1 with malloc_results := st1.malloc_results.tail } { con_handle := handle % 65536 } c
    have hconn := add_connection_to_helper_connections
      { st1 with malloc_results := st1.malloc_results.tail } { con_handle := handle % 65536 } c
    generalize add_connection_to_helper
      { st1 with malloc_results := st1.malloc_results.tail } { con_handle := handle % 65536 } c
      = r at hframe hconn
    obtain ⟨st3, helper⟩ := r
    simp only at hframe hconn ⊢
    have hlink3 : ∀ y z, State.gatt_link
        { st3 with gatt_client_helpers := helper :: st3.gatt_client_helpers } y z =
        st1.gatt_link y z :=
      fun y z => @gatt_link_of_views st1
        { st3 with gatt_client_helpers := helper :: st3.gatt_client_helpers }
        (by rw [hframe.2.1]) y z
    constructor
    · intro H hH x hx
      rw [hlink3]
      rcases List.mem_cons.1 hH with h | h
      · subst h
        rw [hframe.2.2.2.1, Nat.mod_eq_of_lt hlt]
        rcases hconn x hx with h | h
        · rw [h]
          exact hlinkc
        · exact absurd (show x ∈ ([] : List connection_t) from h) (List.not_mem_nil x)
      · rw [hframe.1] at h
        exact hl1 H h x hx
    · rw [hlink3]
      exact hlinkc

theorem gatt_linked_setup_tail (K : Constants) (st2 : State) (c : connection_t)
    (handle : Nat) (track : Bool) (S : client_state_t)
    (hS : client_for_connection st2 c = some S)
    (hm : ∀ b ∈ st2.malloc_results, b = true) (hlt : handle < 65536) (hl : st2.gatt_linked) :
    (if (track && (match daemon_get_gatt_client_helper st2 handle with
          | some helper => helper.active_connection.isSome
          | none => false)) = true then
        (send_gatt_query_complete K st2 c handle K.GATT_CLIENT_BUSY, false)
      else if track = true then
        ((daemon_add_gatt_client_handle st2 c handle).update_helper handle
          (fun h => { h with active_connection := some c }), true)
      else (daemon_add_gatt_client_handle st2 c handle, true)).1.gatt_linked := by
  obtain ⟨hl3, hlinkc⟩ := gatt_linked_daemon_add_gatt_client_handle st2 c handle S hS hm hlt hl
  split
  · exact hl
  · split
    · apply gatt_linked_update_helper _ handle _ hl3
      intro H hH hHh
      refine ⟨hHh, fun x hx => ?_⟩
      rw [mem_connections] at hx
      rcases hx with hx | hx
      · simp only [Option.some.injEq] at hx
        rw [← hx]
        exact hlinkc
      · have hlink := hl3 H hH x ((mem_connections _ _).2 (Or.inr hx))
        rw [hHh] at hlink
        exact hlink
    · exact hl3

theorem gatt_linked_daemon_setup_gatt_client_request (K : Constants) (st : State)
    (c : connection_t) (packet : List Nat) (track : Bool) (reply : EngineReply)
    (S : client_state_t) (hS : client_for_connection st c = some S)
    (hm : ∀ b ∈ st.malloc_results, b = true) (hl : st.gatt_linked) :
    (daemon_setup_gatt_client_request K st c packet track reply).1.gatt_linked := by
  unfold daemon_setup_gatt_client_request
  simp only []
  cases hopen : reply.hci_con_open
  · exact hl
  · cases hget : daemon_get_gatt_client_helper st (READ_BT_16 packet 3) with
    | some helper =>
      simp only [Bool.not_true, Bool.false_eq_true, if_false]
      exact gatt_linked_setup_tail K st c _ track S hS hm (READ_BT_16_lt _ _) hl
    | none =>
      rw [malloc_eq, headD_of_all_true _ hm]
      simp only [Bool.not_true, Bool.false_eq_true, if_false, if_true]
      refine gatt_linked_setup_tail K _ c _ track S ?_ ?_ (READ_BT_16_lt _ _) ?_
      · exact hS
      · exact tail_all_true _ hm
      · intro H hH x hx
        rcases List.mem_cons.1 hH with h | h
        · subst h
          exact absurd (show x ∈ ([] : List connection_t) from hx) (List.not_mem_nil x)
        · exact hl H h x hx

theorem gatt_linked_gatt_client_command (K : Constants) (st : State) (c : connection_t)
    (opcode : Opcode) (packet : List Nat) (track copy_value : Bool) (reply : EngineReply)
    (S : client_state_t) (hS : client_for_connection st c = some S)
    (hm : ∀ b ∈ st.malloc_results, b = true) (hl : st.gatt_linked) :
    (gatt_client_command K st c opcode packet track copy_value reply).gatt_linked := by
  unfold gatt_client_command
  have h1 := gatt_linked_daemon_setup_gatt_client_request K st c packet track reply S hS hm hl
  generalize daemon_setup_gatt_client_request K st c packet track reply = r at h1 ⊢
  obtain ⟨st1, ok⟩ := r
  simp only at h1 ⊢
  split
  · exact h1
  · split
    · refine gatt_linked_call _ _ (gatt_linked_update_helper_of_subset st1 _ _ h1 ?_)
      intro H
      exact ⟨rfl, fun x hx => hx⟩
    · exact gatt_linked_call _ _ h1

theorem gatt_linked_btstack_command_handler (K : Constants) (st : State)
    (c : connection_t) (opcode : Opcode) (packet : List Nat) (reply : EngineReply)
    (henv : opcode.uses_gatt_helper = true →
      (client_for_connection st c).isSome = true ∧ ∀ b ∈ st.malloc_results, b = true)
    (hl : st.gatt_linked) :
    (btstack_command_handler K st c opcode packet reply).gatt_linked := by
  cases hop : opcode.uses_gatt_helper
  · exact gatt_linked_of_ledger_only
      (ledger_only_btstack_command_handler K st c opcode packet reply hop) hl
  · obtain ⟨hsome, hm⟩ := henv hop
    obtain ⟨S, hS⟩ := Option.isSome_iff_exists.1 hsome
    cases opcode
    all_goals first
      | exact absurd hop (by decide)
      | exact gatt_linked_gatt_client_command K st c _ packet _ _ reply S hS hm hl

theorem gatt_linked_daemon_client_handler (K : Constants) (st : State) (c : connection_t)
    (packet_type : PacketType) (channel : Nat) (data : List Nat) (command : Option Opcode)
    (event : EventCode) (reply : EngineReply)
    (henv : gatt_environment st
      (Input.client_packet c packet_type channel data command event reply))
    (hl : st.gatt_linked) (hd : st.helpers_distinct) (hn : st.no_duplicates) :
    (daemon_client_handler K st c packet_type channel data command event reply).gatt_linked
    := by
  cases packet_type
  case HCI_COMMAND_DATA_PACKET =>
    cases command with
    | none => exact hl
    | some opcode => exact gatt_linked_btstack_command_handler K st c opcode data reply henv hl
  case DAEMON_EVENT_PACKET =>
    cases event
    case DAEMON_EVENT_CONNECTION_OPENED =>
      simp only [daemon_client_handler]
      rw [malloc_eq]
      simp only []
      split
      · exact gatt_linked_open st _
          { connection := c, power_mode := HCI_POWER_OFF, discoverable := 0 } rfl rfl henv hl
      · exact hl
    case DAEMON_EVENT_CONNECTION_CLOSED =>
      have htables := daemon_client_handler_closed_tables K st c channel data command reply
      exact gatt_linked_of_views htables.2 (by rw [htables.1])
        (gatt_linked_daemon_disconnect_client st c hl hd hn).1
    all_goals exact hl
  all_goals exact hl

theorem gatt_linked_handle_input (K : Constants) (st : State) (input : Input)
    (henv : gatt_environment st input)
    (hl : st.gatt_linked) (hd : st.helpers_distinct) (hn : st.no_duplicates) :
    (handle_input K st input).gatt_linked := by
  cases input with
  | client_packet c packet_type channel data command event reply =>
    exact gatt_linked_daemon_client_handler K st c packet_type channel data command event
      reply henv hl hd hn
  | protocol_packet packet_type channel event packet =>
    exact gatt_linked_of_ledger_only
      (ledger_only_daemon_packet_handler st none packet_type channel event packet) hl
  | gatt_event event packet => exact gatt_linked_handle_gatt_client_event st event packet hl hd
  | timer_expired =>
    exact gatt_linked_of_ledger_only (ledger_only_daemon_no_connections_timeout st) hl
  | power_notification n =>
    exact gatt_linked_of_ledger_only (ledger_only_power_notification_callback st n) hl

theorem gatt_linked_of_reachable_with (K : Constants) (st : State)
    (h : ReachableWith K gatt_environment st) : st.gatt_linked := by
  induction h with
  | init malloc_results =>
    intro H hH
    exact absurd hH (List.not_mem_nil H)
  | step st input hreach henv ih =>
    have hr := reachable_of_reachable_with K gatt_environment st hreach
    exact gatt_linked_handle_input K st input henv ih (helpers_distinct_of_reachable K st hr)
      (no_duplicates_of_reachable K st hr)

theorem no_new_owner_refl (handle : Nat) (l : List gatt_client_helper_t) :
    no_new_owner handle l l :=
  fun H hH hh => Or.inr ⟨H, hH, hh, rfl⟩

theorem no_new_owner_of_eq {handle : Nat} {old new : List gatt_client_helper_t}
    (h : new = old) : no_new_owner handle old new :=
  h ▸ no_new_owner_refl handle old

theorem no_new_owner_trans {handle : Nat} {l1 l2 l3 : List gatt_client_helper_t}
    (h12 : no_new_owner handle l1 l2) (h23 : no_new_owner handle l2 l3) :
    no_new_owner handle l1 l3 := by
  intro H3 hH3 hh3
  rcases h23 H3 hH3 hh3 with h | ⟨H2, hH2, hh2, ha⟩
  · exact Or.inl h
  · rcases h12 H2 hH2 hh2 with h | ⟨H1, hH1, hh1, ha1⟩
    · exact Or.inl (ha.trans h)
    · exact Or.inr ⟨H1, hH1, hh1, ha.trans ha1⟩

theorem no_new_owner_of_subset {handle : Nat} {old new : List gatt_client_helper_t}
    (h : ∀ H ∈ new, H ∈ old) : no_new_owner handle old new :=
  fun H hH hh => Or.inr ⟨H, h H hH, hh, rfl⟩

theorem no_new_owner_cons {handle : Nat} (old : List gatt_client_helper_t)
    (H : gatt_client_helper_t) (h : H.con_handle = handle → H.active_connection = none) :
    no_new_owner handle old (H :: old) := by
  intro H' hH' hh
  rcases List.mem_cons.1 hH' with h1 | h1
  · subst h1
    exact Or.inl (h hh)
  · exact Or.inr ⟨H', h1, hh, rfl⟩

/-- A store through a helper pointer that keeps the handle and stores as active
owner none or the active owner of a helper with the handle looked up. -/
theorem no_new_owner_update_first (handle h : Nat) (l : List gatt_client_helper_t)
    (f : gatt_client_helper_t → gatt_client_helper_t)
    (hf : ∀ x ∈ l, x.con_handle = h → (f x).con_handle = x.con_handle ∧
      ((f x).active_connection = none ∨
        ∃ H ∈ l, H.con_handle = h ∧ (f x).active_connection = H.active_connection)) :
    no_new_owner handle l (update_first (fun item => item.con_handle == h) f l) := by
  intro H' hH' hh
  rcases mem_update_first_pred _ f l H' hH' with h1 | ⟨y, hy, hpy, hHy⟩
  · exact Or.inr ⟨H', h1, hh, rfl⟩
  · have hyh : y.con_handle = h := by simpa using hpy
    subst hHy
    rcases (hf y hy hyh).2 with h2 | ⟨H, hH, hHh, ha⟩
    · exact Or.inl h2
    · refine Or.inr ⟨H, hH, ?_, ha⟩
      rw [hHh, ← hyh, ← (hf y hy hyh).1]
      exact hh

theorem no_new_owner_update_first_keep (handle h : Nat) (l : List gatt_client_helper_t)
    (f : gatt_client_helper_t → gatt_client_helper_t)
    (hf : ∀ x, (f x).con_handle = x.con_handle ∧
      ((f x).active_connection = x.active_connection ∨ (f x).active_connection = none)) :
    no_new_owner handle l (update_first (fun item => item.con_handle == h) f l) := by
  apply no_new_owner_update_first
  intro x hx hxh
  refine ⟨(hf x).1, ?_⟩
  rcases (hf x).2 with h1 | h1
  · exact Or.inr ⟨x, hx, hxh, h1⟩
  · exact Or.inl h1

/-- A store through a pointer to a helper with another handle. -/
theorem no_new_owner_update_first_other (handle h : Nat) (l : List gatt_client_helper_t)
    (f : gatt_client_helper_t → gatt_client_helper_t) (hne : h ≠ handle)
    (hf : ∀ x ∈ l, x.con_handle = h → (f x).con_handle = h) :
    no_new_owner handle l (update_first (fun item => item.con_handle == h) f l) := by
  intro H' hH' hh
  rcases mem_update_first_pred _ f l H' hH' with h1 | ⟨y, hy, hpy, hHy⟩
  · exact Or.inr ⟨H', h1, hh, rfl⟩
  · have hyh : y.con_handle = h := by simpa using hpy
    subst hHy
    exact absurd ((hf y hy hyh).symm.trans hh) hne

theorem no_new_owner_daemon_remove_gatt_client_handle (handle : Nat) (st : State)
    (c : connection_t) (value : Nat) :
    no_new_owner handle st.gatt_client_helpers
      (daemon_remove_gatt_client_handle st c value).gatt_client_helpers := by
  unfold daemon_remove_gatt_client_handle
  split
  · exact no_new_owner_refl _ _
  · simp only
    cases hfind : st.gatt_client_helpers.find? (fun item => item.con_handle == value) with
    | none =>
      have hfind' : (st.update_client c (fun c =>
          { c with gatt_con_handles :=
              remove_and_free_uint32_from_list c.gatt_con_handles value })
          ).gatt_client_helpers.find? (fun item => item.con_handle == value) = none := hfind
      rw [hfind']
      exact no_new_owner_refl _ _
    | some helper =>
      have hfind' : (st.update_client c (fun c =>
          { c with gatt_con_handles :=
              remove_and_free_uint32_from_list c.gatt_con_handles value })
          ).gatt_client_helpers.find? (fun item => item.con_handle == value) = some helper :=
        hfind
      rw [hfind']
      simp only
      have hmem : helper ∈ st.gatt_client_helpers := List.mem_of_find?_eq_some hfind
      have hhv : helper.con_handle = value := by
        have := List.find?_some hfind
        simpa using this
      have hstep : no_new_owner handle st.gatt_client_helpers
          (update_first (fun item => item.con_handle == value) (fun h =>
            { h with
              all_connections := helper.all_connections.erase c
              active_connection :=
                if helper.active_connection == some c then none
                else helper.active_connection }) st.gatt_client_helpers) := by
        apply no_new_owner_update_first
        intro x _ _
        refine ⟨rfl, ?_⟩
        by_cases ha : helper.active_connection = some c
        · left
          simp [ha]
        · right
          refine ⟨helper, hmem, hhv, ?_⟩
          simp [ha]
      split
      · exact hstep
      · exact hstep

theorem no_new_owner_daemon_gatt_client_close_connection_loop (handle : Nat)
    (c : connection_t) :
    ∀ (fuel : Nat) (st : State), no_new_owner handle st.gatt_client_helpers
      (daemon_gatt_client_close_connection_loop fuel st c).gatt_client_helpers := by
  intro fuel
  induction fuel with
  | zero => intro st; exact no_new_owner_refl _ _
  | succ fuel ih =>
    intro st
    unfold daemon_gatt_client_close_connection_loop
    split
    · exact no_new_owner_refl _ _
    · split
      · exact no_new_owner_refl _ _
      · exact no_new_owner_trans (no_new_owner_daemon_remove_gatt_client_handle handle st c _)
          (ih _)

theorem no_new_owner_daemon_disconnect_client (handle : Nat) (st : State) (c : connection_t) :
    no_new_owner handle st.gatt_client_helpers
      (daemon_disconnect_client st c).gatt_client_helpers := by
  unfold daemon_disconnect_client
  split
  · exact no_new_owner_refl _ _
  · simp only
    unfold daemon_close_connections daemon_gatt_client_close_connection
    have l1 := (ledger_only_daemon_sdp_close_connection st c).1
    have l2 := (ledger_only_daemon_rfcomm_close_connection (daemon_sdp_close_connection st c) c).1
    have l3 := (ledger_only_daemon_l2cap_close_connection
      (daemon_rfcomm_close_connection (daemon_sdp_close_connection st c) c) c).1
    have heq : (daemon_l2cap_close_connection
        (daemon_rfcomm_close_connection (daemon_sdp_close_connection st c) c)
          c).gatt_client_helpers = st.gatt_client_helpers := l3.trans (l2.trans l1)
    split
    · exact no_new_owner_of_eq heq
    · exact no_new_owner_trans (no_new_owner_of_eq heq)
        (no_new_owner_daemon_gatt_client_close_connection_loop handle c _ _)

theorem no_new_owner_daemon_add_gatt_client_handle (handle : Nat) (st : State)
    (c : connection_t) (value : Nat) (hlt : value < 65536) (hne : value ≠ handle) :
    no_new_owner handle st.gatt_client_helpers
      (daemon_add_gatt_client_handle st c value).gatt_client_helpers := by
  unfold daemon_add_gatt_client_handle
  split
  · exact no_new_owner_refl _ _
  · rename_i cs _
    simp only
    have h1 : (if cs.gatt_con_handles.contains value = true then st
        else st.add_to_client_list c (fun c => c.gatt_con_handles)
          (fun c l => { c with gatt_con_handles := l }) value).gatt_client_helpers =
        st.gatt_client_helpers := by
      split
      · rfl
      · exact add_to_client_list_helpers st c _ _ value
    generalize (if cs.gatt_con_handles.contains value = true then st
        else st.add_to_client_list c (fun c => c.gatt_con_handles)
          (fun c l => { c with gatt_con_handles := l }) value) = st1 at h1 ⊢
    rw [← h1]
    split
    · rename_i helper hfind
      have hframe := add_connection_to_helper_frame st1 helper c
      have hhv : helper.con_handle = value := by
        have := List.find?_some hfind
        simpa using this
      unfold State.update_helper
      simp only
      rw [hframe.1]
      apply no_new_owner_update_first_other handle value _ _ hne
      intro x _ _
      exact hframe.2.2.2.1.trans hhv
    · rw [malloc_eq]
      simp only
      split
      · have hframe := add_connection_to_helper_frame
          { st1 with malloc_results := st1.malloc_results.tail } { con_handle := value % 65536 } c
        simp only
        rw [hframe.1]
        apply no_new_owner_cons
        intro hh
        rw [hframe.2.2.2.1] at hh
        simp only at hh
        rw [Nat.mod_eq_of_lt hlt] at hh
        exact absurd hh hne
      · exact no_new_owner_refl _ _

theorem no_new_owner_setup_tail (handle : Nat) (K : Constants) (st2 : State)
    (c : connection_t) (value : Nat) (track : Bool) (hlt : value < 65536)
    (hne : value ≠ handle) :
    no_new_owner handle st2.gatt_client_helpers
      (if (track && (match daemon_get_gatt_client_helper st2 value with
          | some helper => helper.active_connection.isSome
          | none => false)) = true then
        (send_gatt_query_complete K st2 c value K.GATT_CLIENT_BUSY, false)
      else if track = true then
        ((daemon_add_gatt_client_handle st2 c value).update_helper value
          (fun h => { h with active_connection := some c }), true)
      else (daemon_add_gatt_client_handle st2 c value, true)).1.gatt_client_helpers := by
  have hadd := no_new_owner_daemon_add_gatt_client_handle handle st2 c value hlt hne
  split
  · exact no_new_owner_refl _ _
  · split
    · refine no_new_owner_trans hadd ?_
      exact no_new_owner_update_first_other handle value _ _ hne (fun x _ hx => hx)
    · exact hadd

theorem no_new_owner_daemon_setup_gatt_client_request (handle : Nat) (K : Constants)
    (st : State) (c : connection_t) (packet : List Nat) (track : Bool) (reply : EngineReply)
    (hne : READ_BT_16 packet 3 ≠ handle) :
    no_new_owner handle st.gatt_client_helpers
      (daemon_setup_gatt_client_request K st c packet track reply).1.gatt_client_helpers := by
  unfold daemon_setup_gatt_client_request
  simp only []
  cases hopen : reply.hci_con_open
  · exact no_new_owner_refl _ _
  · cases hget : daemon_get_gatt_client_helper st (READ_BT_16 packet 3) with
    | some helper =>
      simp only [Bool.not_true, Bool.false_eq_true, if_false]
      exact no_new_owner_setup_tail handle K st c _ track (READ_BT_16_lt _ _) hne
    | none =>
      rw [malloc_eq]
      cases hm : st.malloc_results.headD true
      · simp only [Bool.not_true, Bool.false_eq_true, if_false, Bool.not_false, if_true]
        exact no_new_owner_refl _ _
      · simp only [Bool.not_true, Bool.false_eq_true, if_false, if_true]
        refine no_new_owner_trans ?_
          (no_new_owner_setup_tail handle K _ c _ track (READ_BT_16_lt _ _) hne)
        exact no_new_owner_cons _ _ (fun _ => rfl)

theorem no_new_owner_gatt_client_command (handle : Nat) (K : Constants) (st : State)
    (c : connection_t) (opcode : Opcode) (packet : List Nat) (track copy_value : Bool)
    (reply : EngineReply) (hne : READ_BT_16 packet 3 ≠ handle) :
    no_new_owner handle st.gatt_client_helpers
      (gatt_client_command K st c opcode packet track copy_value reply).gatt_client_helpers := by
  unfold gatt_client_command
  have h1 := no_new_owner_daemon_setup_gatt_client_request handle K st c packet track reply hne
  generalize daemon_setup_gatt_client_request K st c packet track reply = r at h1 ⊢
  obtain ⟨st1, ok⟩ := r
  simp only at h1 ⊢
  split
  · exact h1
  · split
    · refine no_new_owner_trans h1 ?_
      exact no_new_owner_update_first_keep handle _ _ _ (fun _ => ⟨rfl, Or.inl rfl⟩)
    · exact h1

theorem no_new_owner_btstack_command_handler (handle : Nat) (K : Constants) (st : State)
    (c : connection_t) (opcode : Opcode) (packet : List Nat) (reply : EngineReply)
    (hreq : (opcode.uses_gatt_helper && READ_BT_16 packet 3 == handle) = false) :
    no_new_owner handle st.gatt_client_helpers
      (btstack_command_handler K st c opcode packet reply).gatt_client_helpers := by
  cases hop : opcode.uses_gatt_helper
  · exact no_new_owner_of_eq
      (ledger_only_btstack_command_handler K st c opcode packet reply hop).1
  · have hne : READ_BT_16 packet 3 ≠ handle := by
      rw [hop] at hreq
      simpa using hreq
    cases opcode
    all_goals first
      | exact absurd hop (by decide)
      | exact no_new_owner_gatt_client_command handle K st c _ packet _ _ reply hne

theorem no_new_owner_daemon_client_handler (handle : Nat) (K : Constants) (st : State)
    (c : connection_t) (packet_type : PacketType) (channel : Nat) (data : List Nat)
    (command : Option Opcode) (event : EventCode) (reply : EngineReply)
    (hreq : Input.requests_gatt handle
      (Input.client_packet c packet_type channel data command event reply) = false) :
    no_new_owner handle st.gatt_client_helpers
      (daemon_client_handler K st c packet_type channel data command event
        reply).gatt_client_helpers := by
  cases packet_type
  case HCI_COMMAND_DATA_PACKET =>
    cases command with
    | none => exact no_new_owner_refl _ _
    | some opcode => exact no_new_owner_btstack_command_handler handle K st c opcode data reply hreq
  case DAEMON_EVENT_PACKET =>
    cases event
    case DAEMON_EVENT_CONNECTION_OPENED =>
      simp only [daemon_client_handler]
      rw [malloc_eq]
      simp only []
      split
      · exact no_new_owner_refl _ _
      · exact no_new_owner_refl _ _
    case DAEMON_EVENT_CONNECTION_CLOSED =>
      rw [(daemon_client_handler_closed_tables K st c channel data command reply).2]
      exact no_new_owner_daemon_disconnect_client handle st c
    all_goals exact no_new_owner_refl _ _
  all_goals exact no_new_owner_refl _ _

theorem no_new_owner_daemon_remove_gatt_client_helper (handle : Nat) (st : State)
    (con_handle : Nat) :
    no_new_owner handle st.gatt_client_helpers
      (daemon_remove_gatt_client_helper st con_handle).gatt_client_helpers := by
  unfold daemon_remove_gatt_client_helper
  split
  · exact no_new_owner_refl _ _
  · exact no_new_owner_of_subset (fun H hH => mem_remove_first _ _ H hH)

theorem no_new_owner_handle_gatt_client_event (handle : Nat) (st : State) (event : EventCode)
    (packet : List Nat) :
    no_new_owner handle st.gatt_client_helpers
      (handle_gatt_client_event st event packet).gatt_client_helpers := by
  unfold handle_gatt_client_event
  split
  · exact no_new_owner_daemon_remove_gatt_client_helper handle st _
  all_goals first
    | exact no_new_owner_refl _ _
    | (split
       · exact no_new_owner_refl _ _
       · split
         · exact no_new_owner_refl _ _
         · split
           · exact no_new_owner_refl _ _
           · unfold handle_gatt_client_event_active
             simp only []
             first
               | exact no_new_owner_refl _ _
               | exact no_new_owner_update_first_keep handle _ _ _
                   (fun _ => ⟨rfl, Or.inl rfl⟩)
               | (split
                  · exact no_new_owner_trans
                      (no_new_owner_update_first_keep handle (READ_BT_16 packet 2) _
                        (fun h => { h with active_connection := none })
                        (fun _ => ⟨rfl, Or.inr rfl⟩))
                      (no_new_owner_update_first_keep handle _ _ _
                        (fun _ => ⟨rfl, Or.inl rfl⟩))
                  · exact no_new_owner_update_first_keep handle (READ_BT_16 packet 2) _
                      (fun h => { h with active_connection := none })
                      (fun _ => ⟨rfl, Or.inr rfl⟩)))

theorem no_new_owner_handle_input (handle : Nat) (K : Constants) (st : State) (input : Input)
    (hreq : input.requests_gatt handle = false) :
    no_new_owner handle st.gatt_client_helpers (handle_input K st input).gatt_client_helpers := by
  cases input with
  | client_packet c packet_type channel data command event reply =>
    exact no_new_owner_daemon_client_handler handle K st c packet_type channel data command
      event reply hreq
  | protocol_packet packet_type channel event packet =>
    exact no_new_owner_of_eq
      (ledger_only_daemon_packet_handler st none packet_type channel event packet).1
  | gatt_event event packet => exact no_new_owner_handle_gatt_client_event handle st event packet
  | timer_expired =>
    exact no_new_owner_of_eq (ledger_only_daemon_no_connections_timeout st).1
  | power_notification n =>
    exact no_new_owner_of_eq (ledger_only_power_notification_callback st n).1

theorem no_owner_of_no_new_owner {handle : Nat} {st st' : State}
    (h : no_new_owner handle st.gatt_client_helpers st'.gatt_client_helpers)
    (hno : st.no_owner handle) : st'.no_owner handle := by
  intro H' hH' hh
  rcases h H' hH' hh with h1 | ⟨H, hH, hHh, ha⟩
  · exact h1
  · exact ha.trans (hno H hH hHh)

theorem no_owner_handle_inputs (handle : Nat) (K : Constants) (inputs : List Input) :
    ∀ st : State, (∀ input ∈ inputs, input.requests_gatt handle = false) →
      st.no_owner handle → (handle_inputs K st inputs).no_owner handle := by
  induction inputs with
  | nil => intro st _ h; exact h
  | cons input rest ih =>
    intro st hreq hno
    unfold handle_inputs
    rw [List.foldl_cons]
    exact ih (handle_input K st input)
      (fun i hi => hreq i (List.mem_cons_of_mem _ hi))
      (no_owner_of_no_new_owner
        (no_new_owner_handle_input handle K st input (hreq input (List.mem_cons_self _ _))) hno)

/-- A `GATT_QUERY_COMPLETE` event for a handle without active owner changes
nothing: no call is made. -/
theorem handle_gatt_client_event_no_owner (st : State) (packet : List Nat)
    (hno : st.no_owner (READ_BT_16 packet 2)) :
    handle_gatt_client_event st EventCode.GATT_QUERY_COMPLETE packet = st := by
  unfold handle_gatt_client_event
  simp only
  cases hget : daemon_get_gatt_client_helper st (READ_BT_16 packet 2) with
  | none => rfl
  | some helper =>
    have hmem : helper ∈ st.gatt_client_helpers := List.mem_of_find?_eq_some hget
    have hh : helper.con_handle = READ_BT_16 packet 2 := by
      have := List.find?_some hget
      simpa using this
    have ha := hno helper hmem hh
    simp [ha]



theorem reachable_with_one_gatt_request :
    ReachableWith sample_constants gatt_environment one_gatt_request :=
  ReachableWith.step _
    (Input.client_packet 1 PacketType.HCI_COMMAND_DATA_PACKET 0 [0, 0, 2, 64, 0]
      (some Opcode.GATT_READ_VALUE_OF_CHARACTERISTIC) EventCode.other { hci_con_open := true })
    (ReachableWith.step _
      (Input.client_packet 1 PacketType.DAEMON_EVENT_PACKET 0 [] none
        EventCode.DAEMON_EVENT_CONNECTION_OPENED {})
      (ReachableWith.init []) rfl)
    (fun _ => ⟨rfl, fun b hb => absurd hb (List.not_mem_nil b)⟩)

/-- C29, amended: in a state the daemon reaches by inputs in which every
`DAEMON_EVENT_CONNECTION_OPENED` event carries a connection without a session,
every GATT request command comes from a connection with a session, and the
allocations of a GATT request succeed: after `DAEMON_EVENT_CONNECTION_CLOSED`
for connection `c` no helper has `c` as active owner or in `all_connections`;
and when the helper of handle `h` had `c` as active owner before, then after
any further inputs none of which is a GATT request command for `h`, a
`GATT_QUERY_COMPLETE` event for `h` leaves the state as it is: no packet is
sent to any client. -/
theorem C29_disconnect_cancels_gatt_interest (K : Constants) (st : State) (c : connection_t)
    (channel : Nat) (data : List Nat) (command : Option Opcode) (reply : EngineReply)
    (hreach : ReachableWith K gatt_environment st) :
    (∀ H ∈ (handle_input K st (Input.client_packet c PacketType.DAEMON_EVENT_PACKET channel data
          command EventCode.DAEMON_EVENT_CONNECTION_CLOSED reply)).gatt_client_helpers,
        H.active_connection ≠ some c ∧ c ∉ H.all_connections) ∧
    ∀ (h : Nat) (helper : gatt_client_helper_t),
      daemon_get_gatt_client_helper st h = some helper →
      helper.active_connection = some c →
      ∀ later : List Input, (∀ input ∈ later, input.requests_gatt h = false) →
      ∀ packet : List Nat, READ_BT_16 packet 2 = h →
        handle_gatt_client_event
            (handle_inputs K (handle_input K st (Input.client_packet c
              PacketType.DAEMON_EVENT_PACKET channel data command
              EventCode.DAEMON_EVENT_CONNECTION_CLOSED reply)) later)
            EventCode.GATT_QUERY_COMPLETE packet =
          handle_inputs K (handle_input K st (Input.client_packet c
            PacketType.DAEMON_EVENT_PACKET channel data command
            EventCode.DAEMON_EVENT_CONNECTION_CLOSED reply)) later := by
  have hr := reachable_of_reachable_with K gatt_environment st hreach
  have hd := helpers_distinct_of_reachable K st hr
  have hn := no_duplicates_of_reachable K st hr
  have hl := gatt_linked_of_reachable_with K st hreach
  have htables := daemon_client_handler_closed_tables K st c channel data command reply
  have hnone : ∀ H ∈ (handle_input K st (Input.client_packet c PacketType.DAEMON_EVENT_PACKET
      channel data command EventCode.DAEMON_EVENT_CONNECTION_CLOSED reply)).gatt_client_helpers,
      H.active_connection ≠ some c ∧ c ∉ H.all_connections := by
    intro H hH
    have hH' : H ∈ (daemon_disconnect_client st c).gatt_client_helpers := by
      rw [← htables.2]
      exact hH
    have hnot := (gatt_linked_daemon_disconnect_client st c hl hd hn).2 H hH'
    rw [mem_connections] at hnot
    exact ⟨fun h => hnot (Or.inl h), fun h => hnot (Or.inr h)⟩
  refine ⟨hnone, ?_⟩
  intro h helper hget hactive later hlater packet hpacket
  apply handle_gatt_client_event_no_owner
  rw [hpacket]
  apply no_owner_handle_inputs h K later _ hlater
  intro H' hH' hh
  have hstep := no_new_owner_handle_input h K st (Input.client_packet c
    PacketType.DAEMON_EVENT_PACKET channel data command
    EventCode.DAEMON_EVENT_CONNECTION_CLOSED reply) rfl H' hH' hh
  rcases hstep with h1 | ⟨H, hH, hHh, ha⟩
  · exact h1
  · have hHeq := eq_of_find_of_nodup _ h helper H hd hget hH hHh
    rw [hHeq, hactive] at ha
    exact absurd ha (hnone H' hH').1

/-- Witness for C29: connection 1 disconnects while its read on handle 64 is in
flight; after the timer expiry the completion event for handle 64 is dropped. -/
theorem C29_disconnect_witness :
    ReachableWith sample_constants gatt_environment one_gatt_request ∧
    handle_gatt_client_event
        (handle_inputs sample_constants (handle_input sample_constants one_gatt_request
          (Input.client_packet 1 PacketType.DAEMON_EVENT_PACKET 0 [] none
            EventCode.DAEMON_EVENT_CONNECTION_CLOSED {})) [Input.timer_expired])
        EventCode.GATT_QUERY_COMPLETE [160, 3, 64, 0, 0] =
      handle_inputs sample_constants (handle_input sample_constants one_gatt_request
        (Input.client_packet 1 PacketType.DAEMON_EVENT_PACKET 0 [] none
          EventCode.DAEMON_EVENT_CONNECTION_CLOSED {})) [Input.timer_expired] :=
  ⟨reachable_with_one_gatt_request,
    (C29_disconnect_cancels_gatt_interest sample_constants one_gatt_request 1 0 [] none {}
      reachable_with_one_gatt_request).2 64
      { con_handle := 64, active_connection := some 1, all_connections := [1] } rfl rfl
      [Input.timer_expired] (by decide) [160, 3, 64, 0, 0] rfl⟩

/-! ### Identifiers held by at most one session -/

theorem holders_of_clients {st st' : State} (h : st'.clients = st.clients)
    (kind : ResourceKind) (value : Nat) : st'.holders kind value = st.holders kind value := by
  unfold State.holders
  rw [h]

theorem list_of_ledger_view (kind : ResourceKind) (s s' : client_state_t)
    (h : ledger_view s' = ledger_view s) : kind.list s' = kind.list s := by
  unfold ledger_view at h
  simp only [Prod.mk.injEq] at h
  cases kind
  · exact h.2.1
  · exact h.2.2.1
  · exact h.2.2.2.1
  · exact h.2.2.2.2.1
  · exact h.2.2.2.2.2

theorem countP_of_ledger_view (kind : ResourceKind) (value : Nat) (l : List client_state_t) :
    ∀ l' : List client_state_t, l'.map ledger_view = l.map ledger_view →
      l'.countP (fun s => (kind.list s).contains value) =
        l.countP (fun s => (kind.list s).contains value) := by
  induction l with
  | nil =>
    intro l' h
    cases l' with
    | nil => rfl
    | cons a l' => simp at h
  | cons x xs ih =>
    intro l' h
    cases l' with
    | nil => simp at h
    | cons y ys =>
      simp only [List.map_cons, List.cons.injEq] at h
      rw [List.countP_cons, List.countP_cons, ih ys h.2, list_of_ledger_view kind x y h.1]

theorem holders_of_gatt_only {st st' : State} (h : GattOnly st st') (kind : ResourceKind)
    (value : Nat) : st'.holders kind value = st.holders kind value :=
  countP_of_ledger_view kind value st.clients st'.clients h

theorem ledger_disjoint_of_le {st st' : State}
    (h : ∀ kind, kind ≠ ResourceKind.l2cap_psm → ∀ value,
      st'.holders kind value ≤ st.holders kind value)
    (hd : st.ledger_disjoint) : st'.ledger_disjoint :=
  fun kind hk value => Nat.le_trans (h kind hk value) (hd kind hk value)

theorem countP_update_first_le {α : Type} (p q : α → Bool) (f : α → α) (l : List α)
    (hf : ∀ x, q (f x) = true → q x = true) :
    (update_first p f l).countP q ≤ l.countP q := by
  induction l with
  | nil => exact Nat.le_refl _
  | cons x xs ih =>
    unfold update_first
    split
    · rw [List.countP_cons, List.countP_cons]
      have : (if q (f x) = true then 1 else 0) ≤ (if q x = true then 1 else 0) := by
        by_cases h : q (f x) = true
        · rw [if_pos h, if_pos (hf x h)]
        · rw [if_neg h]
          exact Nat.zero_le _
      omega
    · rw [List.countP_cons, List.countP_cons]
      omega

theorem countP_split {α : Type} (q : α → Bool) (before after : List α) (x : α) :
    (before ++ x :: after).countP q =
      before.countP q + (if q x = true then 1 else 0) + after.countP q := by
  rw [List.countP_append, List.countP_cons]
  omega

/-- Removing a value from one list of one session adds no holder. -/
theorem holders_remove_from_client_list (st : State) (c : connection_t)
    (get : client_state_t → uint32_list) (set : client_state_t → uint32_list → client_state_t)
    (v : Nat) (kind0 : ResourceKind) (hget : ∀ s, get s = kind0.list s)
    (hset : ∀ s l kind, kind.list (set s l) = if kind = kind0 then l else kind.list s)
    (kind : ResourceKind) (value : Nat) :
    (st.remove_from_client_list c get set v).holders kind value ≤ st.holders kind value := by
  unfold State.remove_from_client_list
  split
  · exact Nat.le_refl _
  · unfold State.holders State.update_client
    simp only
    apply countP_update_first_le
    intro s hs
    rw [hset] at hs
    by_cases hk : kind = kind0
    · rw [if_pos hk, hget] at hs
      rw [hk]
      unfold remove_and_free_uint32_from_list at hs
      simp only [List.contains_eq_any_beq, List.any_eq_true, beq_iff_eq] at hs ⊢
      obtain ⟨y, hy, hyv⟩ := hs
      exact ⟨y, (List.mem_filter.1 hy).1, hyv⟩
    · rw [if_neg hk] at hs
      exact hs

/-- Adding `v` to the list of kind `kind0` of one session changes no holder
count except that of `v` in `kind0`, which grows by one at most; nothing
changes when the session already holds `v`. -/
theorem holders_add_to_client_list (st : State) (c : connection_t)
    (get : client_state_t → uint32_list) (set : client_state_t → uint32_list → client_state_t)
    (v : Nat) (kind0 : ResourceKind) (hget : ∀ s, get s = kind0.list s)
    (hset : ∀ s l kind, kind.list (set s l) = if kind = kind0 then l else kind.list s) :
    (∀ kind value, ¬ (kind = kind0 ∧ value = v) →
      (st.add_to_client_list c get set v).holders kind value = st.holders kind value) ∧
    (st.add_to_client_list c get set v).holders kind0 v ≤ st.holders kind0 v + 1 ∧
    (∀ S, client_for_connection st c = some S → (kind0.list S).contains v = true →
      st.add_to_client_list c get set v = st) := by
  cases hS : client_for_connection st c with
  | none =>
    have heq : st.add_to_client_list c get set v = st := by
      unfold State.add_to_client_list
      rw [hS]
    rw [heq]
    exact ⟨fun _ _ _ => rfl, Nat.le_succ _, fun _ _ _ => rfl⟩
  | some S =>
    obtain ⟨hconn, before, after, hsplit, hbefore⟩ := client_for_connection_split st c S hS
    rw [add_to_client_list_split st c get set v before after S hsplit hconn hbefore]
    by_cases hcont : (get S).contains v = true
    · rw [if_pos hcont]
      exact ⟨fun _ _ _ => rfl, Nat.le_succ _, fun _ _ _ => rfl⟩
    · rw [if_neg hcont]
      have hlist : ∀ kind, kind.list (set S (add_uint32_to_list (get S) v
          (st.malloc_results.headD true))) =
          if kind = kind0 then add_uint32_to_list (get S) v (st.malloc_results.headD true)
          else kind.list S := fun kind => hset S _ kind
      have hmem : ∀ x, x ∈ add_uint32_to_list (get S) v (st.malloc_results.headD true) →
          x = v ∨ x ∈ get S := by
        intro x hx
        unfold add_uint32_to_list at hx
        rw [if_neg hcont] at hx
        split at hx
        · exact (List.mem_cons.1 hx).imp id id
        · exact Or.inr hx
      have hmem' : ∀ x, x ∈ get S →
          x ∈ add_uint32_to_list (get S) v (st.malloc_results.headD true) := by
        intro x hx
        unfold add_uint32_to_list
        rw [if_neg hcont]
        split
        · exact List.mem_cons_of_mem _ hx
        · exact hx
      refine ⟨?_, ?_, ?_⟩
      · intro kind value hne
        unfold State.holders
        simp only
        rw [hsplit, countP_split, countP_split]
        have hq : ((kind.list (set S (add_uint32_to_list (get S) v
            (st.malloc_results.headD true)))).contains value) =
            ((kind.list S).contains value) := by
          rw [hlist]
          by_cases hk : kind = kind0
          · rw [if_pos hk, hk, ← hget]
            have hv : value ≠ v := fun h => hne ⟨hk, h⟩
            rw [Bool.eq_iff_iff]
            simp only [List.contains_eq_any_beq, List.any_eq_true, beq_iff_eq]
            constructor
            · rintro ⟨y, hy, hyv⟩
              rcases hmem y hy with h | h
              · exact absurd (hyv.trans h) hv
              · exact ⟨y, h, hyv⟩
            · rintro ⟨y, hy, hyv⟩
              exact ⟨y, hmem' y hy, hyv⟩
          · rw [if_neg hk]
        rw [hq]
      · unfold State.holders
        simp only
        rw [hsplit, countP_split, countP_split]
        have : (if (kind0.list (set S (add_uint32_to_list (get S) v
            (st.malloc_results.headD true)))).contains v = true then 1 else 0) ≤ 1 := by
          split <;> omega
        omega
      · intro S' hS' hc
        have hSS : S = S' := Option.some.inj hS'
        rw [← hget, ← hSS] at hc
        exact absurd hc hcont



theorem list_set_rfcomm_cids (s : client_state_t) (l : uint32_list) (kind : ResourceKind) :
    kind.list { s with rfcomm_cids := l } =
      if kind = ResourceKind.rfcomm_cid then l else kind.list s := by
  cases kind <;> rfl

theorem list_set_rfcomm_services (s : client_state_t) (l : uint32_list) (kind : ResourceKind) :
    kind.list { s with rfcomm_services := l } =
      if kind = ResourceKind.rfcomm_service then l else kind.list s := by
  cases kind <;> rfl

theorem list_set_l2cap_cids (s : client_state_t) (l : uint32_list) (kind : ResourceKind) :
    kind.list { s with l2cap_cids := l } =
      if kind = ResourceKind.l2cap_cid then l else kind.list s := by
  cases kind <;> rfl

theorem list_set_l2cap_psms (s : client_state_t) (l : uint32_list) (kind : ResourceKind) :
    kind.list { s with l2cap_psms := l } =
      if kind = ResourceKind.l2cap_psm then l else kind.list s := by
  cases kind <;> rfl

theorem list_set_sdp_record_handles (s : client_state_t) (l : uint32_list)
    (kind : ResourceKind) :
    kind.list { s with sdp_record_handles := l } =
      if kind = ResourceKind.sdp_record_handle then l else kind.list s := by
  cases kind <;> rfl

/-- An addition to one list keeps the property when the value is new to every
session, or the list is that of the L2CAP PSMs. -/
theorem ledger_disjoint_of_add {st st' : State} (kind0 : ResourceKind) (v : Nat)
    (h1 : ∀ kind value, ¬ (kind = kind0 ∧ value = v) →
      st'.holders kind value = st.holders kind value)
    (h2 : st'.holders kind0 v ≤ st.holders kind0 v + 1)
    (hfresh : kind0 = ResourceKind.l2cap_psm ∨ st.holders kind0 v = 0)
    (hd : st.ledger_disjoint) : st'.ledger_disjoint := by
  intro kind hk value
  by_cases h : kind = kind0 ∧ value = v
  · obtain ⟨hk0, hv⟩ := h
    subst hk0
    subst hv
    rcases hfresh with hf | hf
    · exact absurd hf hk
    · rw [hf] at h2
      exact h2
  · rw [h1 kind value h]
    exact hd kind hk value

theorem ledger_disjoint_of_clients {st st' : State} (h : st'.clients = st.clients)
    (hd : st.ledger_disjoint) : st'.ledger_disjoint :=
  ledger_disjoint_of_le (fun kind _ value => Nat.le_of_eq (holders_of_clients h kind value)) hd

theorem daemon_sdp_create_and_register_service_result (st : State) (reply : EngineReply) :
    (daemon_sdp_create_and_register_service st reply).1.clients = st.clients ∧
    ((daemon_sdp_create_and_register_service st reply).2 ≠ 0 →
      reply.status = 0 ∧
        (daemon_sdp_create_and_register_service st reply).2 = reply.record_handle) := by
  unfold daemon_sdp_create_and_register_service
  rw [malloc_eq]
  simp only
  split
  · exact ⟨rfl, fun h => absurd rfl h⟩
  · split
    · exact ⟨rfl, fun h => absurd rfl h⟩
    · rename_i hs
      exact ⟨rfl, fun _ => ⟨by simpa using hs, rfl⟩⟩

theorem ledger_disjoint_btstack_command_handler (K : Constants) (st : State)
    (c : connection_t) (opcode : Opcode) (packet : List Nat) (reply : EngineReply)
    (henv : ledger_environment st (Input.client_packet c PacketType.HCI_COMMAND_DATA_PACKET 0
      packet (some opcode) EventCode.other reply))
    (hd : st.ledger_disjoint) :
    (btstack_command_handler K st c opcode packet reply).ledger_disjoint := by
  cases hop : opcode.changes_ledger
  · exact ledger_disjoint_of_le (fun kind _ value => Nat.le_of_eq (holders_of_gatt_only
      (gatt_only_btstack_command_handler K st c opcode packet reply hop) kind value)) hd
  · have hl2cap : ∀ op, (reply.status = 0 → st.holders ResourceKind.l2cap_cid reply.cid = 0) →
        (if (reply.status != 0) = true then
          send_l2cap_connection_open_failed K (st.call (Call.engine_request op packet)) c
            (bt_flip_addr (bytes_at packet 3 6)) (READ_BT_16 packet 9) reply.status
        else daemon_add_client_l2cap_channel (st.call (Call.engine_request op packet)) c
          reply.cid).ledger_disjoint := by
      intro op hfresh
      split
      · exact ledger_disjoint_of_clients rfl hd
      · rename_i hs
        have hs0 : reply.status = 0 := by simpa using hs
        have hadd := holders_add_to_client_list (st.call (Call.engine_request op packet)) c
          (fun c => c.l2cap_cids) (fun c l => { c with l2cap_cids := l }) reply.cid
          ResourceKind.l2cap_cid (fun _ => rfl) list_set_l2cap_cids
        exact ledger_disjoint_of_add ResourceKind.l2cap_cid reply.cid hadd.1 hadd.2.1
          (Or.inr (hfresh hs0)) (ledger_disjoint_of_clients rfl hd)
    have hrfcomm : ∀ op, (reply.status = 0 → st.holders ResourceKind.rfcomm_cid reply.cid = 0) →
        (if (reply.status != 0) = true then
          send_rfcomm_create_channel_failed K (st.call (Call.engine_request op packet)) c
            (bt_flip_addr (bytes_at packet 3 6)) (byte_at packet 9) reply.status
        else daemon_add_client_rfcomm_channel (st.call (Call.engine_request op packet)) c
          reply.cid).ledger_disjoint := by
      intro op hfresh
      split
      · exact ledger_disjoint_of_clients rfl hd
      · rename_i hs
        have hs0 : reply.status = 0 := by simpa using hs
        have hadd := holders_add_to_client_list (st.call (Call.engine_request op packet)) c
          (fun c => c.rfcomm_cids) (fun c l => { c with rfcomm_cids := l }) reply.cid
          ResourceKind.rfcomm_cid (fun _ => rfl) list_set_rfcomm_cids
        exact ledger_disjoint_of_add ResourceKind.rfcomm_cid reply.cid hadd.1 hadd.2.1
          (Or.inr (hfresh hs0)) (ledger_disjoint_of_clients rfl hd)
    cases opcode
    case L2CAP_CREATE_CHANNEL_MTU => exact hl2cap _ henv
    case L2CAP_CREATE_CHANNEL => exact hl2cap _ henv
    case RFCOMM_CREATE_CHANNEL => exact hrfcomm _ henv
    case RFCOMM_CREATE_CHANNEL_WITH_CREDITS => exact hrfcomm _ henv
    case L2CAP_REGISTER_SERVICE =>
      simp only [btstack_command_handler]
      have hadd := holders_add_to_client_list
        (st.call (Call.engine_request Opcode.L2CAP_REGISTER_SERVICE packet)) c
        (fun c => c.l2cap_psms) (fun c l => { c with l2cap_psms := l }) (READ_BT_16 packet 3)
        ResourceKind.l2cap_psm (fun _ => rfl) list_set_l2cap_psms
      have h1 := ledger_disjoint_of_add ResourceKind.l2cap_psm (READ_BT_16 packet 3) hadd.1
        hadd.2.1 (Or.inl rfl) (ledger_disjoint_of_clients rfl hd)
      exact ledger_disjoint_of_clients rfl h1
    case L2CAP_UNREGISTER_SERVICE =>
      simp only [btstack_command_handler]
      have h1 := ledger_disjoint_of_le (fun kind _ value =>
        holders_remove_from_client_list st c (fun c => c.l2cap_psms)
          (fun c l => { c with l2cap_psms := l }) (READ_BT_16 packet 3)
          ResourceKind.l2cap_psm (fun _ => rfl) list_set_l2cap_psms kind value) hd
      exact ledger_disjoint_of_clients rfl h1
    case RFCOMM_UNREGISTER_SERVICE =>
      simp only [btstack_command_handler]
      have h1 := ledger_disjoint_of_le (fun kind _ value =>
        holders_remove_from_client_list st c (fun c => c.rfcomm_services)
          (fun c l => { c with rfcomm_services := l }) (READ_BT_16 packet 3)
          ResourceKind.rfcomm_service (fun _ => rfl) list_set_rfcomm_services kind value) hd
      exact ledger_disjoint_of_clients rfl h1
    case SDP_UNREGISTER_SERVICE_RECORD =>
      simp only [btstack_command_handler]
      exact ledger_disjoint_of_le (fun kind _ value =>
        holders_remove_from_client_list
          (st.call (Call.sdp_unregister_service (READ_BT_32 packet 3))) c
          (fun c => c.sdp_record_handles)
          (fun c l => { c with sdp_record_handles := l }) (READ_BT_32 packet 3)
          ResourceKind.sdp_record_handle (fun _ => rfl) list_set_sdp_record_handles kind value)
        (ledger_disjoint_of_clients rfl hd)
    case SDP_REGISTER_SERVICE_RECORD =>
      simp only [btstack_command_handler]
      have hres := daemon_sdp_create_and_register_service_result
        (st.call (Call.engine_request Opcode.SDP_REGISTER_SERVICE_RECORD packet)) reply
      generalize daemon_sdp_create_and_register_service
        (st.call (Call.engine_request Opcode.SDP_REGISTER_SERVICE_RECORD packet)) reply = r
        at hres ⊢
      obtain ⟨st1, handle⟩ := r
      simp only at hres ⊢
      have hd1 : st1.ledger_disjoint := ledger_disjoint_of_clients hres.1 hd
      split
      · rename_i hh
        have hne : handle ≠ 0 := by simpa using hh
        obtain ⟨hs0, hrec⟩ := hres.2 hne
        have hadd := holders_add_to_client_list st1 c
          (fun c => c.sdp_record_handles) (fun c l => { c with sdp_record_handles := l })
          handle ResourceKind.sdp_record_handle (fun _ => rfl) list_set_sdp_record_handles
        have hfresh : st1.holders ResourceKind.sdp_record_handle handle = 0 := by
          rw [holders_of_clients hres.1, hrec]
          exact henv hs0
        have h1 := ledger_disjoint_of_add ResourceKind.sdp_record_handle handle hadd.1
          hadd.2.1 (Or.inr hfresh) hd1
        exact ledger_disjoint_of_clients rfl h1
      · exact ledger_disjoint_of_clients rfl hd1
    all_goals exact absurd hop (by decide)

theorem find_of_mem_of_distinct (l : List client_state_t) (S : client_state_t)
    (hd : (l.map (fun s => s.connection)).Nodup) (hS : S ∈ l) :
    l.find? (fun s => s.connection == S.connection) = some S := by
  induction l with
  | nil => exact absurd hS (List.not_mem_nil S)
  | cons x xs ih =>
    rw [List.map_cons, List.nodup_cons] at hd
    rw [List.find?_cons]
    rcases List.mem_cons.1 hS with h | h
    · subst h
      simp
    · have hne : x.connection ≠ S.connection := fun hx =>
        hd.1 (List.mem_map.2 ⟨S, h, hx.symm⟩)
      have hb : (x.connection == S.connection) = false := by simpa using hne
      rw [hb]
      exact ih hd.2 h

/-- Adding a channel id to the session that the owner lookup found changes
nothing: the lookup result is a session that holds it. -/
theorem add_to_owner_eq (st : State) (get : client_state_t → uint32_list)
    (set : client_state_t → uint32_list → client_state_t) (cid : Nat) (c : connection_t)
    (hs : st.sessions_distinct)
    (hown : (st.clients.find? (fun s => (get s).contains cid)).map
      (fun s => s.connection) = some c) :
    st.add_to_client_list c get set cid = st := by
  cases hfind : st.clients.find? (fun s => (get s).contains cid) with
  | none =>
    rw [hfind] at hown
    simp at hown
  | some S =>
    rw [hfind] at hown
    have hc : S.connection = c := by simpa using hown
    have hmem : S ∈ st.clients := List.mem_of_find?_eq_some hfind
    have hcont : (get S).contains cid = true := (List.find?_eq_some.1 hfind).1
    have hS : client_for_connection st c = some S := by
      rw [← hc]
      exact find_of_mem_of_distinct st.clients S hs hmem
    unfold State.add_to_client_list
    rw [hS]
    simp only
    rw [if_pos hcont]

theorem holders_daemon_packet_handler_hci_event (st : State) (event : EventCode)
    (packet : List Nat) (hs : st.sessions_distinct) (kind : ResourceKind) (value : Nat) :
    (daemon_packet_handler_hci_event st none event packet).1.holders kind value ≤
      st.holders kind value := by
  cases event
  case RFCOMM_EVENT_CREDITS =>
    simp only [daemon_packet_handler_hci_event]
    rw [daemon_retry_parked_eq]
    exact Nat.le_refl _
  case RFCOMM_EVENT_OPEN_CHANNEL_COMPLETE =>
    simp only [daemon_packet_handler_hci_event]
    cases hown : connection_for_rfcomm_cid st (READ_BT_16 packet 13) with
    | none => exact Nat.le_refl _
    | some c =>
      simp only
      split
      · exact holders_remove_from_client_list st c (fun c => c.rfcomm_cids)
          (fun c l => { c with rfcomm_cids := l }) _ ResourceKind.rfcomm_cid (fun _ => rfl)
          list_set_rfcomm_cids kind value
      · simp only
        unfold daemon_add_client_rfcomm_channel
        rw [add_to_owner_eq st (fun c => c.rfcomm_cids) _ _ c hs hown]
  case RFCOMM_EVENT_CHANNEL_CLOSED =>
    simp only [daemon_packet_handler_hci_event]
    cases hown : connection_for_rfcomm_cid st (READ_BT_16 packet 2) with
    | none => exact Nat.le_refl _
    | some c =>
      exact holders_remove_from_client_list st c (fun c => c.rfcomm_cids)
        (fun c l => { c with rfcomm_cids := l }) _ ResourceKind.rfcomm_cid (fun _ => rfl)
        list_set_rfcomm_cids kind value
  case RFCOMM_EVENT_SERVICE_REGISTERED =>
    simp only [daemon_packet_handler_hci_event]
    split <;> exact Nat.le_refl _
  case L2CAP_EVENT_CHANNEL_OPENED =>
    simp only [daemon_packet_handler_hci_event]
    cases hown : connection_for_l2cap_cid st (READ_BT_16 packet 13) with
    | none => exact Nat.le_refl _
    | some c =>
      simp only
      split
      · exact holders_remove_from_client_list st c (fun c => c.l2cap_cids)
          (fun c l => { c with l2cap_cids := l }) _ ResourceKind.l2cap_cid (fun _ => rfl)
          list_set_l2cap_cids kind value
      · simp only
        unfold daemon_add_client_l2cap_channel
        rw [add_to_owner_eq st (fun c => c.l2cap_cids) _ _ c hs hown]
  case L2CAP_EVENT_CHANNEL_CLOSED =>
    simp only [daemon_packet_handler_hci_event]
    cases hown : connection_for_l2cap_cid st (READ_BT_16 packet 2) with
    | none => exact Nat.le_refl _
    | some c =>
      exact holders_remove_from_client_list st c (fun c => c.l2cap_cids)
        (fun c l => { c with l2cap_cids := l }) _ ResourceKind.l2cap_cid (fun _ => rfl)
        list_set_l2cap_cids kind value
  all_goals exact Nat.le_refl _

theorem deamon_status_event_handler_clients (st : State) (event : EventCode)
    (packet : List Nat) : (deamon_status_event_handler st event packet).clients = st.clients := by
  unfold deamon_status_event_handler
  split
  · obtain ⟨s, hs, _⟩ := update_ui_status_eq { st with hci_state := byte_at packet 2 }
    rw [hs]
  · obtain ⟨s, hs, _⟩ := update_ui_status_eq { st with num_connections := byte_at packet 2 }
    rw [hs]
  · rfl

theorem daemon_packet_handler_clients_cases (st : State) (packet_type : PacketType)
    (channel : Nat) (event : EventCode) (packet : List Nat) :
    (daemon_packet_handler st none packet_type channel event packet).clients = st.clients ∨
    (daemon_packet_handler st none packet_type channel event packet).clients =
      (daemon_packet_handler_hci_event st none event packet).1.clients := by
  cases packet_type
  case HCI_EVENT_PACKET =>
    by_cases h1 : event = EventCode.HCI_EVENT_NUMBER_OF_COMPLETED_PACKETS
    · left
      subst h1
      simp only [daemon_packet_handler]
      rw [daemon_retry_parked_eq]
      exact deamon_status_event_handler_clients st _ packet
    · by_cases h2 : event = EventCode.BTSTACK_EVENT_STATE ∨
          event = EventCode.BTSTACK_EVENT_NR_CONNECTIONS_CHANGED
      · left
        rw [daemon_packet_handler_status_event st none channel event packet h2]
        exact deamon_status_event_handler_clients st event packet
      · right
        exact daemon_packet_handler_channel_event_clients st none channel event packet h1
          (fun h => h2 (Or.inl h)) (fun h => h2 (Or.inr h))
  case DAEMON_EVENT_PACKET =>
    left
    exact daemon_packet_handler_daemon_event_clients st _ channel event packet
  case L2CAP_DATA_PACKET =>
    left
    simp only [daemon_packet_handler]
    rw [daemon_packet_handler_l2cap_data_eq]
  case RFCOMM_DATA_PACKET =>
    left
    simp only [daemon_packet_handler]
    rw [daemon_packet_handler_l2cap_data_eq]
  all_goals (left; rfl)

theorem ledger_disjoint_daemon_packet_handler (st : State) (packet_type : PacketType)
    (channel : Nat) (event : EventCode) (packet : List Nat) (hs : st.sessions_distinct)
    (hd : st.ledger_disjoint) :
    (daemon_packet_handler st none packet_type channel event packet).ledger_disjoint := by
  rcases daemon_packet_handler_clients_cases st packet_type channel event packet with h | h
  · exact ledger_disjoint_of_clients h hd
  · apply ledger_disjoint_of_le _ hd
    intro kind _ value
    rw [holders_of_clients h]
    exact holders_daemon_packet_handler_hci_event st event packet hs kind value

theorem ledger_disjoint_daemon_client_handler (K : Constants) (st : State) (c : connection_t)
    (packet_type : PacketType) (channel : Nat) (data : List Nat) (command : Option Opcode)
    (event : EventCode) (reply : EngineReply)
    (henv : ledger_environment st
      (Input.client_packet c packet_type channel data command event reply))
    (hd : st.ledger_disjoint) :
    (daemon_client_handler K st c packet_type channel data command event reply).ledger_disjoint
    := by
  cases packet_type
  case HCI_COMMAND_DATA_PACKET =>
    cases command with
    | none => exact ledger_disjoint_of_clients rfl hd
    | some opcode =>
      exact ledger_disjoint_btstack_command_handler K st c opcode data reply henv hd
  case DAEMON_EVENT_PACKET =>
    cases event
    case DAEMON_EVENT_CONNECTION_OPENED =>
      simp only [daemon_client_handler]
      rw [malloc_eq]
      simp only []
      split
      · apply ledger_disjoint_of_le _ hd
        intro kind _ value
        unfold State.holders
        simp only
        rw [List.countP_cons_of_neg]
        cases kind <;> simp [ResourceKind.list]
      · exact ledger_disjoint_of_clients rfl hd
    case DAEMON_EVENT_CONNECTION_CLOSED =>
      apply ledger_disjoint_of_le _ hd
      intro kind _ value
      rw [holders_of_clients
        (daemon_client_handler_closed_tables K st c channel data command reply).1]
      rcases daemon_disconnect_client_clients st c with ⟨_, h⟩ | ⟨S, before, after, _, _, hsplit,
        _, h⟩
      · rw [h]
      · unfold State.holders
        rw [h, hsplit, countP_split, List.countP_append]
        omega
    all_goals exact ledger_disjoint_of_clients rfl hd
  all_goals exact ledger_disjoint_of_clients rfl hd

theorem opens_new_connection_of_ledger_environment (st : State) (input : Input)
    (h : ledger_environment st input) : opens_new_connection st input := by
  cases input with
  | client_packet c packet_type channel data command event reply =>
    cases packet_type <;> cases event <;> first | exact h | exact trivial
  | protocol_packet packet_type channel event packet => exact trivial
  | gatt_event event packet => exact trivial
  | timer_expired => exact trivial
  | power_notification n => exact trivial

theorem ledger_disjoint_handle_input (K : Constants) (st : State) (input : Input)
    (henv : ledger_environment st input) (hs : st.sessions_distinct)
    (hd : st.ledger_disjoint) : (handle_input K st input).ledger_disjoint := by
  cases input with
  | client_packet c packet_type channel data command event reply =>
    exact ledger_disjoint_daemon_client_handler K st c packet_type channel data command event
      reply henv hd
  | protocol_packet packet_type channel event packet =>
    exact ledger_disjoint_daemon_packet_handler st packet_type channel event packet hs hd
  | gatt_event event packet =>
    exact ledger_disjoint_of_le (fun kind _ value => Nat.le_of_eq (holders_of_gatt_only
      (gatt_only_handle_gatt_client_event st event packet) kind value)) hd
  | timer_expired =>
    refine ledger_disjoint_of_clients ?_ hd
    simp only [handle_input, daemon_no_connections_timeout]
    split <;> rfl
  | power_notification n =>
    refine ledger_disjoint_of_clients ?_ hd
    cases n
    · rfl
    · simp only [handle_input, power_notification_callback]
      split <;> rfl
    · rfl

theorem ledger_disjoint_of_reachable_with (K : Constants) (st : State)
    (h : ReachableWith K ledger_environment st) : st.ledger_disjoint := by
  induction h with
  | init malloc_results =>
    intro kind _ value
    exact Nat.zero_le _
  | step st input hreach henv ih =>
    exact ledger_disjoint_handle_input K st input henv
      (sessions_distinct_of_reachable_with K st
        (reachable_with_mono K ledger_environment opens_new_connection
          opens_new_connection_of_ledger_environment st hreach)) ih

theorem reachable_with_two_l2cap_channels :
    ReachableWith sample_constants ledger_environment two_l2cap_channels :=
  ReachableWith.step _
    (Input.client_packet 2 PacketType.HCI_COMMAND_DATA_PACKET 0
      [0, 0, 8, 1, 2, 3, 4, 5, 6, 1, 16] (some Opcode.L2CAP_CREATE_CHANNEL) EventCode.other
      { status := 0, cid := 65 })
    (ReachableWith.step _
      (Input.client_packet 2 PacketType.DAEMON_EVENT_PACKET 0 [] none
        EventCode.DAEMON_EVENT_CONNECTION_OPENED {})
      (ReachableWith.step _
        (Input.client_packet 1 PacketType.HCI_COMMAND_DATA_PACKET 0
          [0, 0, 8, 1, 2, 3, 4, 5, 6, 1, 16] (some Opcode.L2CAP_CREATE_CHANNEL) EventCode.other
          { status := 0, cid := 64 })
        (ReachableWith.step _
          (Input.client_packet 1 PacketType.DAEMON_EVENT_PACKET 0 [] none
            EventCode.DAEMON_EVENT_CONNECTION_OPENED {})
          (ReachableWith.init []) rfl)
        (fun _ => rfl))
      rfl)
    (fun _ => rfl)

/-- C28 does not hold for the L2CAP PSM: `L2CAP_REGISTER_SERVICE` adds the PSM
to the list of the sender whatever the engine answers, so after connections 1
and 2 both register PSM 4097 two sessions hold it.  The run obeys the conditions
on connection events and engine answers under which the other kinds are kept
disjoint. -/
theorem C28_psm_counterexample :
    Reachable sample_constants two_psm_sessions ∧
    ReachableWith sample_constants ledger_environment two_psm_sessions ∧
    two_psm_sessions.holders ResourceKind.l2cap_psm 4097 = 2 :=
  ⟨Reachable.step _ _ (Reachable.step _ _ (Reachable.step _ _ (Reachable.step _ _
      (Reachable.init [])))),
    ReachableWith.step _
      (Input.client_packet 2 PacketType.HCI_COMMAND_DATA_PACKET 0 [0, 0, 4, 1, 16, 0, 4]
        (some Opcode.L2CAP_REGISTER_SERVICE) EventCode.other { status := 1 })
      (ReachableWith.step _
        (Input.client_packet 1 PacketType.HCI_COMMAND_DATA_PACKET 0 [0, 0, 4, 1, 16, 0, 4]
          (some Opcode.L2CAP_REGISTER_SERVICE) EventCode.other {})
        (ReachableWith.step _
          (Input.client_packet 2 PacketType.DAEMON_EVENT_PACKET 0 [] none
            EventCode.DAEMON_EVENT_CONNECTION_OPENED {})
          (ReachableWith.step _
            (Input.client_packet 1 PacketType.DAEMON_EVENT_PACKET 0 [] none
              EventCode.DAEMON_EVENT_CONNECTION_OPENED {})
            (ReachableWith.init []) rfl)
          rfl)
        (fun _ => trivial))
      (fun _ => trivial),
    by decide⟩

/-- C28, amended: in every state the daemon reaches by inputs in which each
`DAEMON_EVENT_CONNECTION_OPENED` event carries a connection without a session
and each channel id or record handle that an engine returns with status 0 to a
create-channel or register-record command is held by no session, every
identifier of the kinds L2CAP cid, RFCOMM cid, RFCOMM service channel and SDP
record handle is in the list of at most one session. -/
theorem C28_identifier_in_at_most_one_session (K : Constants) (st : State)
    (hreach : ReachableWith K ledger_environment st) (kind : ResourceKind) (value : Nat)
    (hkind : kind ≠ ResourceKind.l2cap_psm) : st.holders kind value ≤ 1 :=
  ledger_disjoint_of_reachable_with K st hreach kind hkind value

/-- Witness for C28: two sessions with one L2CAP channel each. -/
theorem C28_identifier_witness :
    ReachableWith sample_constants ledger_environment two_l2cap_channels ∧
    ResourceKind.l2cap_cid ≠ ResourceKind.l2cap_psm ∧
    two_l2cap_channels.holders ResourceKind.l2cap_cid 64 ≤ 1 :=
  ⟨reachable_with_two_l2cap_channels, by decide,
    C28_identifier_in_at_most_one_session sample_constants two_l2cap_channels
      reachable_with_two_l2cap_channels ResourceKind.l2cap_cid 64 (by decide)⟩

/-! ### Data packets, registration, power notifications and status reports -/



theorem nodup_run_calls (calls : List ListCall) :
    ∀ list : uint32_list, list.Nodup → (run_calls calls list).Nodup := by
  induction calls with
  | nil => intro list h; exact h
  | cons call rest ih =>
    intro list h
    unfold run_calls
    rw [List.foldl_cons]
    apply ih
    cases call with
    | add value => exact nodup_add_uint32_to_list list value true h
    | remove value => exact nodup_remove_and_free_uint32_from_list list value h

/-- C32: a list built from the empty list by any sequence of
`add_uint32_to_list` / `remove_and_free_uint32_from_list` calls holds no value
twice; and in every state the daemon can reach, whatever the inputs and the
outcomes of the allocations, none of the six resource lists of any session
holds a value twice. -/
theorem C32_no_value_twice (K : Constants) (st : State) (hreach : Reachable K st) :
    (∀ calls : List ListCall, (run_calls calls []).Nodup) ∧
    ∀ S ∈ st.clients,
      S.rfcomm_cids.Nodup ∧ S.rfcomm_services.Nodup ∧ S.l2cap_cids.Nodup ∧
        S.l2cap_psms.Nodup ∧ S.sdp_record_handles.Nodup ∧ S.gatt_con_handles.Nodup :=
  ⟨fun calls => nodup_run_calls calls [] List.nodup_nil,
    fun S hS => (no_duplicates_of_reachable K st hreach).1 S hS⟩

/-- Witness for C32: the daemon after connection 1 sends a read request for
connection handle 64. -/
theorem C32_no_value_twice_witness :
    Reachable sample_constants one_gatt_request ∧
    (∀ calls : List ListCall, (run_calls calls []).Nodup) ∧
    ∀ S ∈ one_gatt_request.clients,
      S.rfcomm_cids.Nodup ∧ S.rfcomm_services.Nodup ∧ S.l2cap_cids.Nodup ∧
        S.l2cap_psms.Nodup ∧ S.sdp_record_handles.Nodup ∧ S.gatt_con_handles.Nodup :=
  ⟨Reachable.step _ _ (Reachable.step _ _ (Reachable.init [])),
    C32_no_value_twice sample_constants one_gatt_request
      (Reachable.step _ _ (Reachable.step _ _ (Reachable.init [])))⟩

/-- C33: `daemon_remove_gatt_client_helper` makes no call at all, whatever the
state and the handle: the trace, the timer flag and every other global but the
registry and the session table stay as they are.  The same holds for
`handle_gatt_client_event` on `HCI_EVENT_DISCONNECTION_COMPLETE`. -/
theorem C33_gatt_teardown_makes_no_call (st : State) (con_handle : Nat) (packet : List Nat) :
    (daemon_remove_gatt_client_helper st con_handle).trace = st.trace ∧
    (∀ k, Call.gap_disconnect k ∉
      (daemon_remove_gatt_client_helper st con_handle).trace.drop st.trace.length) ∧
    (handle_gatt_client_event st EventCode.HCI_EVENT_DISCONNECTION_COMPLETE packet).trace =
      st.trace ∧
    daemon_remove_gatt_client_helper st con_handle =
      { st with
        gatt_client_helpers := (daemon_remove_gatt_client_helper st con_handle).gatt_client_helpers
        clients := (daemon_remove_gatt_client_helper st con_handle).clients } := by
  have h1 : ∀ h, (daemon_remove_gatt_client_helper st h).trace = st.trace := by
    intro h
    unfold daemon_remove_gatt_client_helper
    split <;> rfl
  refine ⟨h1 con_handle, ?_, h1 _, ?_⟩
  · intro k
    rw [h1, List.drop_length]
    exact List.not_mem_nil _
  · unfold daemon_remove_gatt_client_helper
    split <;> rfl

/-- C38: `power_notification_callback` on `POWER_WILL_SLEEP` sets
`power_management_sleep` and calls `hci_power_control (HCI_POWER_SLEEP)`; on
`POWER_WILL_WAKE_UP` it clears `power_management_sleep` and calls
`hci_power_control (HCI_POWER_ON)` exactly when `clients_require_power_on` is
nonzero; and while `power_management_sleep` is set, a `BTSTACK_SET_POWER_MODE`
request after which `clients_require_power_on` is nonzero only stores the mode
and makes no call. -/
theorem C38_power_notification (K : Constants) (st : State) :
    power_notification_callback st POWER_NOTIFICATION_t.POWER_WILL_SLEEP =
      { st with
        power_management_sleep := 1
        trace := st.trace ++ [Call.hci_power_control HCI_POWER_SLEEP] } ∧
    power_notification_callback st POWER_NOTIFICATION_t.POWER_WILL_WAKE_UP =
      { st with
        power_management_sleep := 0
        trace := st.trace ++
          (if clients_require_power_on st ≠ 0 then [Call.hci_power_control HCI_POWER_ON]
            else []) } ∧
    ∀ (c : connection_t) (S : client_state_t) (packet : List Nat) (reply : EngineReply),
      client_for_connection st c = some S →
      st.power_management_sleep ≠ 0 →
      clients_require_power_on
        (st.update_client c (fun s => { s with power_mode := byte_at packet 3 })) ≠ 0 →
      btstack_command_handler K st c Opcode.BTSTACK_SET_POWER_MODE packet reply =
        st.update_client c (fun s => { s with power_mode := byte_at packet 3 }) := by
  refine ⟨rfl, ?_, ?_⟩
  · have hreq : clients_require_power_on { st with power_management_sleep := 0 } =
        clients_require_power_on st := rfl
    simp only [power_notification_callback]
    rw [hreq]
    by_cases h : clients_require_power_on st = 0
    · simp [h]
    · simp [h, State.call]
  · intro c S packet reply hS hsleep hreq
    simp only [btstack_command_handler, hS]
    have h1 : (clients_require_power_on
        (st.update_client c (fun s => { s with power_mode := byte_at packet 3 })) == 0) =
        false := by simpa using hreq
    have h2 : ((st.update_client c
        (fun s => { s with power_mode := byte_at packet 3 })).power_management_sleep == 0) =
        false := by
      have : (st.update_client c
          (fun s => { s with power_mode := byte_at packet 3 })).power_management_sleep =
          st.power_management_sleep := rfl
      rw [this]
      simpa using hsleep
    rw [h1, h2]
    simp

/-- The state that `update_ui_status` reports for a cached controller state and
connection count. -/
theorem update_ui_status_call (st : State) :
    update_ui_status st =
      st.call (Call.bluetooth_status_handler
        (if st.hci_state ≠ HCI_STATE_WORKING then BLUETOOTH_STATE.BLUETOOTH_OFF
          else if st.num_connections ≠ 0 then BLUETOOTH_STATE.BLUETOOTH_ACTIVE
          else BLUETOOTH_STATE.BLUETOOTH_ON)) := by
  unfold update_ui_status
  by_cases h1 : st.hci_state = HCI_STATE_WORKING
  · by_cases h2 : st.num_connections = 0
    · simp [h1, h2]
    · simp [h1, h2]
  · simp [h1]

/-- C39: `update_ui_status` calls the status handler once, with `BLUETOOTH_OFF`
when `hci_state` is not `HCI_STATE_WORKING`, with `BLUETOOTH_ACTIVE` when it is
and `num_connections` is nonzero, with `BLUETOOTH_ON` when it is and
`num_connections` is 0; `deamon_status_event_handler` stores byte 2 of a
`BTSTACK_EVENT_STATE` or `BTSTACK_EVENT_NR_CONNECTIONS_CHANGED` event and then
makes exactly that one call, and makes no call for any other event. -/
theorem C39_status_reported_once (st : State) (packet : List Nat) :
    update_ui_status st =
      { st with trace := st.trace ++ [Call.bluetooth_status_handler
        (if st.hci_state ≠ HCI_STATE_WORKING then BLUETOOTH_STATE.BLUETOOTH_OFF
          else if st.num_connections ≠ 0 then BLUETOOTH_STATE.BLUETOOTH_ACTIVE
          else BLUETOOTH_STATE.BLUETOOTH_ON)] } ∧
    deamon_status_event_handler st EventCode.BTSTACK_EVENT_STATE packet =
      { st with
        hci_state := byte_at packet 2
        trace := st.trace ++ [Call.bluetooth_status_handler
          (if byte_at packet 2 ≠ HCI_STATE_WORKING then BLUETOOTH_STATE.BLUETOOTH_OFF
            else if st.num_connections ≠ 0 then BLUETOOTH_STATE.BLUETOOTH_ACTIVE
            else BLUETOOTH_STATE.BLUETOOTH_ON)] } ∧
    deamon_status_event_handler st EventCode.BTSTACK_EVENT_NR_CONNECTIONS_CHANGED packet =
      { st with
        num_connections := byte_at packet 2
        trace := st.trace ++ [Call.bluetooth_status_handler
          (if st.hci_state ≠ HCI_STATE_WORKING then BLUETOOTH_STATE.BLUETOOTH_OFF
            else if byte_at packet 2 ≠ 0 then BLUETOOTH_STATE.BLUETOOTH_ACTIVE
            else BLUETOOTH_STATE.BLUETOOTH_ON)] } ∧
    ∀ event, event ≠ EventCode.BTSTACK_EVENT_STATE →
      event ≠ EventCode.BTSTACK_EVENT_NR_CONNECTIONS_CHANGED →
      deamon_status_event_handler st event packet = st := by
  refine ⟨update_ui_status_call st, ?_, ?_, ?_⟩
  · simp only [deamon_status_event_handler]
    rw [update_ui_status_call]
    rfl
  · simp only [deamon_status_event_handler]
    rw [update_ui_status_call]
    rfl
  · intro event h1 h2
    cases event <;> first | exact absurd rfl h1 | exact absurd rfl h2 | rfl

/-- C31: an L2CAP data packet on channel `channel` is sent to the first session
that holds `channel` in `l2cap_cids`, and to no client when there is none.  An
RFCOMM data packet is routed by the same lookup in `l2cap_cids`, not by
`connection_for_rfcomm_cid`: connection 1 owns RFCOMM channel 5, and an RFCOMM
data packet on channel 5 is sent to no client. -/
theorem C31_data_packets_follow_l2cap_lookup (st : State) (connection : Option connection_t)
    (channel : Nat) (event : EventCode) (packet : List Nat) :
    daemon_packet_handler st connection PacketType.L2CAP_DATA_PACKET channel event packet =
      { st with trace := st.trace ++
          (connection_for_l2cap_cid st channel).toList.map (fun c =>
            Call.socket_connection_send_packet c PacketType.L2CAP_DATA_PACKET channel packet) } ∧
    daemon_packet_handler st connection PacketType.RFCOMM_DATA_PACKET channel event packet =
      { st with trace := st.trace ++
          (connection_for_l2cap_cid st channel).toList.map (fun c =>
            Call.socket_connection_send_packet c PacketType.RFCOMM_DATA_PACKET channel packet) } ∧
    (connection_for_rfcomm_cid one_rfcomm_channel 5 = some 1 ∧
      (l2cap_packet_handler one_rfcomm_channel PacketType.RFCOMM_DATA_PACKET 5 EventCode.other
        [1, 2, 3]).trace = one_rfcomm_channel.trace) := by
  refine ⟨?_, ?_, by decide⟩
  · simp only [daemon_packet_handler]
    rw [daemon_packet_handler_l2cap_data_eq]
  · simp only [daemon_packet_handler]
    rw [daemon_packet_handler_l2cap_data_eq]

/-- C36: when `GATT_QUERY_COMPLETE` arrives for a helper with active owner `c`
that has gathered `L` bytes, `1 ≤ L ≤ 512`, the combined event is sent to `c`
before the completion event; its byte 1 is `(8 + L) % 256` and it is `10 + L`
bytes long, so byte 1 is the length of what follows it, `8 + L`, exactly when
`L ≤ 247`. -/
theorem C36_combined_event_length_byte (st : State) (packet : List Nat)
    (helper : gatt_client_helper_t) (c : connection_t) (L : Nat)
    (hhelper : daemon_get_gatt_client_helper st (READ_BT_16 packet 2) = some helper)
    (hactive : helper.active_connection = some c)
    (hbuf : helper.characteristic_buffer.length = 10 + ATT_MAX_LONG_ATTRIBUTE_SIZE)
    (hL : helper.characteristic_length = L) (hpos : 1 ≤ L) (hle : L ≤ 512) :
    ∃ combined : List Nat,
      (handle_gatt_client_event st EventCode.GATT_QUERY_COMPLETE packet).trace =
        st.trace ++
          [Call.socket_connection_send_packet c PacketType.HCI_EVENT_PACKET 0 combined,
           Call.socket_connection_send_packet c PacketType.HCI_EVENT_PACKET 0 packet] ∧
      combined.getD 1 0 = (8 + L) % 256 ∧
      combined.length = 10 + L ∧
      (combined.getD 1 0 = combined.length - 2 ↔ L ≤ 247) := by
  have heq := handle_gatt_query_complete_eq st packet helper c hhelper hactive
  rw [if_neg (by omega), hL] at heq
  have hsize : ATT_MAX_LONG_ATTRIBUTE_SIZE = 512 := rfl
  rw [hsize] at hbuf
  have hmod : (10 + L) % 65536 = 10 + L := Nat.mod_eq_of_lt (by omega)
  have hbyte : ((memcpy helper.characteristic_buffer 1
      ([(8 + L) % 256] ++ bt_store_16 (READ_BT_16 packet 2)
        ++ bt_store_16 helper.characteristic_handle ++ bt_store_16 0 ++ bt_store_16 L) 0 9).take
      ((10 + L) % 65536)).getD 1 0 = (8 + L) % 256 := by
    rw [hmod, getD_take_of_lt _ _ _ (by omega), getD_memcpy, hbuf,
      if_pos ⟨Nat.le_refl 1, by omega, by omega⟩]
    simp [byte_at]
  have hlen : ((memcpy helper.characteristic_buffer 1
      ([(8 + L) % 256] ++ bt_store_16 (READ_BT_16 packet 2)
        ++ bt_store_16 helper.characteristic_handle ++ bt_store_16 0 ++ bt_store_16 L) 0 9).take
      ((10 + L) % 65536)).length = 10 + L := by
    rw [hmod, List.length_take, length_memcpy, hbuf]
    omega
  refine ⟨_, by rw [heq], hbyte, hlen, ?_⟩
  rw [hbyte, hlen]
  omega

/-- Witness for C36: 300 gathered bytes give a combined event of 310 bytes
whose byte 1 is 52. -/
theorem C36_combined_event_witness :
    daemon_get_gatt_client_helper long_read_state (READ_BT_16 [160, 3, 64, 0, 0] 2) =
      some long_read_helper ∧
    long_read_helper.active_connection = some 1 ∧
    long_read_helper.characteristic_buffer.length = 10 + ATT_MAX_LONG_ATTRIBUTE_SIZE ∧
    long_read_helper.characteristic_length = 300 ∧ 1 ≤ 300 ∧ 300 ≤ 512 ∧
    ∃ combined : List Nat,
      (handle_gatt_client_event long_read_state EventCode.GATT_QUERY_COMPLETE
          [160, 3, 64, 0, 0]).trace =
        long_read_state.trace ++
          [Call.socket_connection_send_packet 1 PacketType.HCI_EVENT_PACKET 0 combined,
           Call.socket_connection_send_packet 1 PacketType.HCI_EVENT_PACKET 0
             [160, 3, 64, 0, 0]] ∧
      combined.getD 1 0 = (8 + 300) % 256 ∧
      combined.length = 10 + 300 ∧
      (combined.getD 1 0 = combined.length - 2 ↔ 300 ≤ 247) :=
  ⟨rfl, rfl, List.length_replicate _ _, rfl, by decide, by decide,
    C36_combined_event_length_byte long_read_state [160, 3, 64, 0, 0] long_read_helper 1 300
      rfl rfl (List.length_replicate _ _) rfl (by decide) (by decide)⟩

/-! ### Sessions and helpers agree on GATT handles -/

theorem helpers_grow_refl (l : List gatt_client_helper_t) : helpers_grow l l :=
  fun H hH => ⟨H, hH, rfl, fun _ hc => hc⟩

theorem helpers_grow_of_eq {old new : List gatt_client_helper_t} (h : new = old) :
    helpers_grow old new :=
  h ▸ helpers_grow_refl old

theorem helpers_grow_trans {l1 l2 l3 : List gatt_client_helper_t}
    (h12 : helpers_grow l1 l2) (h23 : helpers_grow l2 l3) : helpers_grow l1 l3 := by
  intro H1 hH1
  obtain ⟨H2, hH2, hc2, ha2⟩ := h12 H1 hH1
  obtain ⟨H3, hH3, hc3, ha3⟩ := h23 H2 hH2
  exact ⟨H3, hH3, hc3.trans hc2, fun c hc => ha3 c (ha2 c hc)⟩

theorem helpers_grow_cons (l : List gatt_client_helper_t) (H : gatt_client_helper_t) :
    helpers_grow l (H :: l) :=
  fun H' hH' => ⟨H', List.mem_cons_of_mem _ hH', rfl, fun _ hc => hc⟩

theorem mem_update_first_of_mem {α : Type} (p : α → Bool) (f : α → α) (l : List α) (x : α)
    (hx : x ∈ l) :
    x ∈ update_first p f l ∨ (l.find? p = some x ∧ f x ∈ update_first p f l) := by
  induction l with
  | nil => exact absurd hx (List.not_mem_nil x)
  | cons a l ih =>
    unfold update_first
    by_cases hp : p a = true
    · rw [if_pos hp, List.find?_cons, hp]
      rcases List.mem_cons.1 hx with h | h
      · subst h
        exact Or.inr ⟨rfl, List.mem_cons_self _ _⟩
      · exact Or.inl (List.mem_cons_of_mem _ h)
    · have hpf : p a = false := by simpa using hp
      rw [if_neg hp, List.find?_cons, hpf]
      rcases List.mem_cons.1 hx with h | h
      · subst h
        exact Or.inl (List.mem_cons_self _ _)
      · rcases ih h with h1 | ⟨h1, h2⟩
        · exact Or.inl (List.mem_cons_of_mem _ h1)
        · exact Or.inr ⟨h1, List.mem_cons_of_mem _ h2⟩

theorem mem_update_first_of_not {α : Type} (p : α → Bool) (f : α → α) (l : List α) (x : α)
    (hx : x ∈ l) (hp : p x = false) : x ∈ update_first p f l := by
  rcases mem_update_first_of_mem p f l x hx with h | ⟨h, _⟩
  · exact h
  · have := List.find?_some h
    rw [hp] at this
    exact absurd this (by decide)

theorem mem_remove_first_of_not {α : Type} (p : α → Bool) (l : List α) (x : α)
    (hx : x ∈ l) (hp : p x = false) : x ∈ remove_first p l := by
  induction l with
  | nil => exact absurd hx (List.not_mem_nil x)
  | cons a l ih =>
    unfold remove_first
    by_cases hpa : p a = true
    · rw [if_pos hpa]
      rcases List.mem_cons.1 hx with h | h
      · subst h
        rw [hp] at hpa
        exact absurd hpa (by decide)
      · exact h
    · rw [if_neg hpa]
      rcases List.mem_cons.1 hx with h | h
      · subst h
        exact List.mem_cons_self _ _
      · exact List.mem_cons_of_mem _ (ih h)

/-- A store through a helper pointer that keeps the handle and the entries of
`all_connections` of the helper it is applied to. -/
theorem helpers_grow_update_first (handle : Nat) (l : List gatt_client_helper_t)
    (f : gatt_client_helper_t → gatt_client_helper_t)
    (hf : ∀ H, l.find? (fun item => item.con_handle == handle) = some H →
      (f H).con_handle = H.con_handle ∧ ∀ c ∈ H.all_connections, c ∈ (f H).all_connections) :
    helpers_grow l (update_first (fun item => item.con_handle == handle) f l) := by
  intro H hH
  rcases mem_update_first_of_mem _ f l H hH with h | ⟨hfind, h⟩
  · exact ⟨H, h, rfl, fun _ hc => hc⟩
  · exact ⟨f H, h, (hf H hfind).1, (hf H hfind).2⟩

theorem gatt_registered_of_grow {st st' : State}
    (hc : st'.clients.map gatt_view = st.clients.map gatt_view)
    (hg : helpers_grow st.gatt_client_helpers st'.gatt_client_helpers)
    (hr : st.gatt_registered) : st'.gatt_registered := by
  intro S' hS' h hh
  have hmem : gatt_view S' ∈ st.clients.map gatt_view := by
    rw [← hc]
    exact List.mem_map_of_mem _ hS'
  obtain ⟨S, hS, hview⟩ := List.mem_map.1 hmem
  unfold gatt_view at hview
  simp only [Prod.mk.injEq] at hview
  rw [← hview.2] at hh
  obtain ⟨H, hH, hHc, hHa⟩ := hr S hS h hh
  obtain ⟨H', hH', hc', ha'⟩ := hg H hH
  refine ⟨H', hH', hc'.trans hHc, ?_⟩
  rw [← hview.1]
  exact ha' _ hHa

theorem gatt_registered_of_ledger_only {st st' : State} (h : LedgerOnly st st')
    (hr : st.gatt_registered) : st'.gatt_registered :=
  gatt_registered_of_grow h.2 (helpers_grow_of_eq h.1) hr

theorem gatt_registered_update_helper (st : State) (handle : Nat)
    (f : gatt_client_helper_t → gatt_client_helper_t)
    (hf : ∀ H, (f H).con_handle = H.con_handle ∧ (f H).all_connections = H.all_connections)
    (hr : st.gatt_registered) : (st.update_helper handle f).gatt_registered := by
  refine @gatt_registered_of_grow st (st.update_helper handle f) rfl ?_ hr
  apply helpers_grow_update_first
  intro H _
  exact ⟨(hf H).1, fun c hc => (hf H).2 ▸ hc⟩

theorem gatt_registered_call (st : State) (call : Call) (hr : st.gatt_registered) :
    (st.call call).gatt_registered :=
  @gatt_registered_of_grow st (st.call call) rfl (helpers_grow_refl _) hr

theorem mem_of_connection_of_distinct (l : List client_state_t) (S S' : client_state_t)
    (hd : (l.map (fun s => s.connection)).Nodup) (hS : S ∈ l) (hS' : S' ∈ l)
    (hc : S.connection = S'.connection) : S = S' :=
  List.inj_on_of_nodup_map hd hS hS' hc

theorem gatt_registered_daemon_remove_gatt_client_handle (st : State) (c : connection_t)
    (handle : Nat) (hr : st.gatt_registered) (hs : st.sessions_distinct) :
    (daemon_remove_gatt_client_handle st c handle).gatt_registered := by
  cases hS : client_for_connection st c with
  | none =>
    unfold daemon_remove_gatt_client_handle
    rw [hS]
    exact hr
  | some Sc =>
    obtain ⟨hconn, before, after, hsplit, hbefore⟩ := client_for_connection_split st c Sc hS
    have hScmem : Sc ∈ st.clients := by
      rw [hsplit]
      exact List.mem_append_right _ (List.mem_cons_self _ _)
    obtain ⟨helpers, calls, heq, _⟩ :=
      daemon_remove_gatt_client_handle_split st c handle before after Sc hsplit hconn hbefore
    -- the registry after the call
    have hhelpers : ∀ H ∈ st.gatt_client_helpers,
        (H.con_handle ≠ handle →
          H ∈ (daemon_remove_gatt_client_handle st c handle).gatt_client_helpers) ∧
        ∃ H' ∈ (daemon_remove_gatt_client_handle st c handle).gatt_client_helpers,
          H'.con_handle = H.con_handle ∧
            ∀ x ∈ H.all_connections, x ≠ c → x ∈ H'.all_connections := by
      intro H hH
      unfold daemon_remove_gatt_client_handle
      rw [hS]
      simp only
      cases hfind : st.gatt_client_helpers.find? (fun item => item.con_handle == handle) with
      | none =>
        have hfind' : (st.update_client c (fun c =>
            { c with gatt_con_handles :=
                remove_and_free_uint32_from_list c.gatt_con_handles handle })
            ).gatt_client_helpers.find? (fun item => item.con_handle == handle) = none := hfind
        rw [hfind']
        exact ⟨fun _ => hH, H, hH, rfl, fun x hx _ => hx⟩
      | some helper =>
        have hfind' : (st.update_client c (fun c =>
            { c with gatt_con_handles :=
                remove_and_free_uint32_from_list c.gatt_con_handles handle })
            ).gatt_client_helpers.find? (fun item => item.con_handle == handle) = some helper :=
          hfind
        rw [hfind']
        simp only
        have hstep : (H.con_handle ≠ handle →
            H ∈ update_first (fun item => item.con_handle == handle) (fun h =>
              { h with
                all_connections := helper.all_connections.erase c
                active_connection :=
                  if helper.active_connection == some c then none
                  else helper.active_connection }) st.gatt_client_helpers) ∧
            ∃ H' ∈ update_first (fun item => item.con_handle == handle) (fun h =>
              { h with
                all_connections := helper.all_connections.erase c
                active_connection :=
                  if helper.active_connection == some c then none
                  else helper.active_connection }) st.gatt_client_helpers,
              H'.con_handle = H.con_handle ∧
                ∀ x ∈ H.all_connections, x ≠ c → x ∈ H'.all_connections := by
          constructor
          · intro hne
            exact mem_update_first_of_not _ _ _ H hH (by simpa using hne)
          · rcases mem_update_first_of_mem (fun item => item.con_handle == handle) (fun h =>
              { h with
                all_connections := helper.all_connections.erase c
                active_connection :=
                  if helper.active_connection == some c then none
                  else helper.active_connection }) st.gatt_client_helpers H hH with h | ⟨hf, h⟩
            · exact ⟨H, h, rfl, fun x hx _ => hx⟩
            · refine ⟨_, h, rfl, fun x hx hxc => ?_⟩
              have hHeq : helper = H := Option.some.inj (hfind.symm.trans hf)
              simp only
              rw [hHeq]
              exact (List.mem_erase_of_ne hxc).2 hx
        split
        · exact hstep
        · exact hstep
    intro S' hS' h hh
    rw [heq] at hS'
    simp only at hS'
    rcases List.mem_append.1 hS' with hb1 | hb2
    · have hS'mem : S' ∈ st.clients := by
        rw [hsplit]
        exact List.mem_append_left _ hb1
      obtain ⟨H, hH, hHc, hHa⟩ := hr S' hS'mem h hh
      obtain ⟨H', hH', hc', ha'⟩ := (hhelpers H hH).2
      exact ⟨H', hH', hc'.trans hHc, ha' _ hHa (hbefore S' hb1)⟩
    · rcases List.mem_cons.1 hb2 with hb3 | hb4
      · subst hb3
        simp only at hh ⊢
        unfold remove_and_free_uint32_from_list at hh
        obtain ⟨hh1, hh2⟩ := List.mem_filter.1 hh
        have hne : h ≠ handle := by simpa using hh2
        obtain ⟨H, hH, hHc, hHa⟩ := hr Sc hScmem h hh1
        exact ⟨H, (hhelpers H hH).1 (by rw [hHc]; exact hne), hHc, hHa⟩
      · have hS'mem : S' ∈ st.clients := by
          rw [hsplit]
          exact List.mem_append_right _ (List.mem_cons_of_mem _ hb4)
        have hne : S'.connection ≠ c := by
          intro hcc
          unfold State.sessions_distinct at hs
          rw [hsplit] at hs
          simp only [List.map_append, List.map_cons] at hs
          have hnd := (List.nodup_append.1 hs).2.1
          apply (List.nodup_cons.1 hnd).1
          rw [hconn, ← hcc]
          exact List.mem_map_of_mem _ hb4
        obtain ⟨H, hH, hHc, hHa⟩ := hr S' hS'mem h hh
        obtain ⟨H', hH', hc', ha'⟩ := (hhelpers H hH).2
        exact ⟨H', hH', hc'.trans hHc, ha' _ hHa hne⟩



theorem sessions_distinct_of_gatt_only {st st' : State} (h : GattOnly st st')
    (hs : st.sessions_distinct) : st'.sessions_distinct :=
  sessions_distinct_of_connections (connections_of_gatt_only h) hs

theorem sessions_distinct_of_ledger_only {st st' : State} (h : LedgerOnly st st')
    (hs : st.sessions_distinct) : st'.sessions_distinct :=
  sessions_distinct_of_connections (connections_of_ledger_only h) hs

theorem gatt_registered_daemon_gatt_client_close_connection_loop (c : connection_t) :
    ∀ (fuel : Nat) (st : State), st.gatt_registered → st.sessions_distinct →
      (daemon_gatt_client_close_connection_loop fuel st c).gatt_registered := by
  intro fuel
  induction fuel with
  | zero => intro st h _; exact h
  | succ fuel ih =>
    intro st hr hs
    unfold daemon_gatt_client_close_connection_loop
    split
    · exact hr
    · split
      · exact hr
      · exact ih _ (gatt_registered_daemon_remove_gatt_client_handle st c _ hr hs)
          (sessions_distinct_of_gatt_only (gatt_only_daemon_remove_gatt_client_handle st c _) hs)

theorem gatt_registered_daemon_close_connections (st : State) (c : connection_t)
    (hr : st.gatt_registered) (hs : st.sessions_distinct) :
    (daemon_close_connections st c).gatt_registered := by
  unfold daemon_close_connections daemon_gatt_client_close_connection
  have l1 := ledger_only_daemon_sdp_close_connection st c
  have l2 := ledger_only_daemon_rfcomm_close_connection (daemon_sdp_close_connection st c) c
  have l3 := ledger_only_daemon_l2cap_close_connection
    (daemon_rfcomm_close_connection (daemon_sdp_close_connection st c) c) c
  have hr3 := gatt_registered_of_ledger_only l3 (gatt_registered_of_ledger_only l2
    (gatt_registered_of_ledger_only l1 hr))
  have hs3 := sessions_distinct_of_ledger_only l3 (sessions_distinct_of_ledger_only l2
    (sessions_distinct_of_ledger_only l1 hs))
  split
  · exact hr3
  · exact gatt_registered_daemon_gatt_client_close_connection_loop c _ _ hr3 hs3

theorem gatt_registered_daemon_disconnect_client (st : State) (c : connection_t)
    (hr : st.gatt_registered) (hs : st.sessions_distinct) :
    (daemon_disconnect_client st c).gatt_registered := by
  cases hS : client_for_connection st c with
  | none =>
    unfold daemon_disconnect_client
    rw [hS]
    exact hr
  | some S =>
    obtain ⟨hconn, before, after, hsplit, hbefore⟩ := client_for_connection_split st c S hS
    rw [daemon_disconnect_client_split st c S before after hsplit hconn hbefore]
    have hr1 := gatt_registered_daemon_close_connections st c hr hs
    obtain ⟨helpers, calls, _, heq⟩ :=
      daemon_close_connections_split st c S before after hsplit hconn hbefore
    have hclients : (daemon_close_connections st c).clients = before ++
        { connection := c, power_mode := S.power_mode, discoverable := S.discoverable } ::
          after := by
      rw [heq]
    intro S' hS' h hh
    have hS'' : S' ∈ before ++ after := hS'
    have hmem : S' ∈ (daemon_close_connections st c).clients := by
      rw [hclients]
      rcases List.mem_append.1 hS'' with hb | hb
      · exact List.mem_append_left _ hb
      · exact List.mem_append_right _ (List.mem_cons_of_mem _ hb)
    exact hr1 S' hmem h hh

theorem gatt_registered_daemon_remove_gatt_client_helper (st : State) (con_handle : Nat)
    (hr : st.gatt_registered) : (daemon_remove_gatt_client_helper st con_handle).gatt_registered
    := by
  unfold daemon_remove_gatt_client_helper
  split
  · exact hr
  · intro S' hS' h hh
    simp only at hS' ⊢
    obtain ⟨S, hS, hSS⟩ := List.mem_map.1 hS'
    subst hSS
    simp only at hh ⊢
    unfold remove_and_free_uint32_from_list at hh
    obtain ⟨hh1, hh2⟩ := List.mem_filter.1 hh
    have hne : h ≠ con_handle := by simpa using hh2
    obtain ⟨H, hH, hHc, hHa⟩ := hr S hS h hh1
    exact ⟨H, mem_remove_first_of_not _ _ H hH (by simpa [hHc] using hne), hHc, hHa⟩

theorem gatt_registered_handle_gatt_client_event (st : State) (event : EventCode)
    (packet : List Nat) (hr : st.gatt_registered) :
    (handle_gatt_client_event st event packet).gatt_registered := by
  unfold handle_gatt_client_event
  split
  · exact gatt_registered_daemon_remove_gatt_client_helper st _ hr
  all_goals first
    | exact hr
    | (split
       · exact hr
       · split
         · exact @gatt_registered_of_grow st _ rfl (helpers_grow_refl _) hr
         · split
           · exact hr
           · unfold handle_gatt_client_event_active
             simp only []
             first
               | exact hr
               | exact gatt_registered_call st _ hr
               | exact gatt_registered_update_helper st _ _ (fun _ => ⟨rfl, rfl⟩) hr
               | (split
                  · refine gatt_registered_call _ _ (gatt_registered_call _ _
                      (gatt_registered_update_helper _ _ _ ?_
                        (gatt_registered_update_helper st _ _ ?_ hr)))
                    · intro _
                      exact ⟨rfl, rfl⟩
                    · intro _
                      exact ⟨rfl, rfl⟩
                  · refine gatt_registered_call _ _
                      (gatt_registered_update_helper st _ _ ?_ hr)
                    intro _
                    exact ⟨rfl, rfl⟩))

theorem mem_of_mem_add_uint32_to_list (l : uint32_list) (v x : Nat) (ok : Bool)
    (h : x ∈ add_uint32_to_list l v ok) : x = v ∨ x ∈ l := by
  unfold add_uint32_to_list at h
  split at h
  · exact Or.inr h
  · split at h
    · exact (List.mem_cons.1 h).imp id id
    · exact Or.inr h

theorem add_connection_to_helper_superset (st : State) (helper : gatt_client_helper_t)
    (c : connection_t) :
    ∀ x ∈ helper.all_connections, x ∈ (add_connection_to_helper st helper c).2.all_connections
    := by
  intro x hx
  unfold add_connection_to_helper
  rw [malloc_eq]
  split
  · exact hx
  · simp only
    split
    · exact List.mem_cons_of_mem _ hx
    · exact hx

/-- The tables after `daemon_add_gatt_client_handle` for a session `S` and an
existing helper: the session table is that after the ledger step, and every
helper keeps its handle and connections. -/
theorem daemon_add_gatt_client_handle_tables (st : State) (c : connection_t) (handle : Nat)
    (S : client_state_t) (H : gatt_client_helper_t)
    (hS : client_for_connection st c = some S)
    (hH : daemon_get_gatt_client_helper st handle = some H) :
    (daemon_add_gatt_client_handle st c handle).clients =
      (st.add_to_client_list c (fun c => c.gatt_con_handles)
        (fun c l => { c with gatt_con_handles := l }) handle).clients ∧
    helpers_grow st.gatt_client_helpers
      (daemon_add_gatt_client_handle st c handle).gatt_client_helpers := by
  have hstep : (if S.gatt_con_handles.contains handle = true then st
      else st.add_to_client_list c (fun c => c.gatt_con_handles)
        (fun c l => { c with gatt_con_handles := l }) handle) =
      st.add_to_client_list c (fun c => c.gatt_con_handles)
        (fun c l => { c with gatt_con_handles := l }) handle := by
    by_cases hc : S.gatt_con_handles.contains handle = true
    · rw [if_pos hc]
      unfold State.add_to_client_list
      rw [hS]
      simp only
      rw [if_pos hc]
    · rw [if_neg hc]
  unfold daemon_add_gatt_client_handle
  rw [hS]
  simp only
  rw [hstep]
  have hhelpers := add_to_client_list_helpers st c (fun c => c.gatt_con_handles)
    (fun c l => { c with gatt_con_handles := l }) handle
  have hfind : (st.add_to_client_list c (fun c => c.gatt_con_handles)
      (fun c l => { c with gatt_con_handles := l }) handle).gatt_client_helpers.find?
      (fun item => item.con_handle == handle) = some H := by
    rw [hhelpers]
    exact hH
  rw [hfind]
  simp only
  have hframe := add_connection_to_helper_frame (st.add_to_client_list c
    (fun c => c.gatt_con_handles) (fun c l => { c with gatt_con_handles := l }) handle) H c
  have hsup := add_connection_to_helper_superset (st.add_to_client_list c
    (fun c => c.gatt_con_handles) (fun c l => { c with gatt_con_handles := l }) handle) H c
  generalize add_connection_to_helper (st.add_to_client_list c
    (fun c => c.gatt_con_handles) (fun c l => { c with gatt_con_handles := l }) handle) H c = r
    at hframe hsup
  obtain ⟨st2, helper⟩ := r
  simp only at hframe hsup ⊢
  refine ⟨hframe.2.1, ?_⟩
  unfold State.update_helper
  simp only
  rw [hframe.1, hhelpers]
  apply helpers_grow_update_first
  intro H0 hH0
  have hHH : H = H0 := Option.some.inj (hH.symm.trans hH0)
  rw [← hHH]
  exact ⟨hframe.2.2.2.1, hsup⟩

theorem gatt_registered_daemon_add_gatt_client_handle (st : State) (c : connection_t)
    (handle : Nat) (S : client_state_t) (H : gatt_client_helper_t)
    (hS : client_for_connection st c = some S)
    (hH : daemon_get_gatt_client_helper st handle = some H)
    (hm : ∀ b ∈ st.malloc_results, b = true) (hdH : H.all_connections.Nodup)
    (hr : st.gatt_registered) :
    (daemon_add_gatt_client_handle st c handle).gatt_registered := by
  obtain ⟨hclients, hgrow⟩ := daemon_add_gatt_client_handle_tables st c handle S H hS hH
  obtain ⟨_, H', hget', hcount, _⟩ :=
    daemon_add_gatt_client_handle_success st c handle S H hS hH hm hdH
  have hH'mem : H' ∈ (daemon_add_gatt_client_handle st c handle).gatt_client_helpers :=
    List.mem_of_find?_eq_some hget'
  have hH'c : H'.con_handle = handle := by
    have := List.find?_some hget'
    simpa using this
  have hH'a : c ∈ H'.all_connections := by
    apply List.count_pos_iff.1
    rw [hcount]
    exact Nat.one_pos
  obtain ⟨hconn, before, after, hsplit, hbefore⟩ := client_for_connection_split st c S hS
  have hold : ∀ S0 ∈ st.clients, ∀ h ∈ S0.gatt_con_handles,
      ∃ H0 ∈ (daemon_add_gatt_client_handle st c handle).gatt_client_helpers,
        H0.con_handle = h ∧ S0.connection ∈ H0.all_connections := by
    intro S0 hS0 h hh
    obtain ⟨H0, hH0, hc0, ha0⟩ := hr S0 hS0 h hh
    obtain ⟨H1, hH1, hc1, ha1⟩ := hgrow H0 hH0
    exact ⟨H1, hH1, hc1.trans hc0, ha1 _ ha0⟩
  have hSmem : S ∈ st.clients := by
    rw [hsplit]
    exact List.mem_append_right _ (List.mem_cons_self _ _)
  intro S' hS' h hh
  rw [hclients, add_to_client_list_split st c _ _ handle before after S hsplit hconn hbefore]
    at hS'
  by_cases hcont : S.gatt_con_handles.contains handle = true
  · rw [if_pos hcont] at hS'
    exact hold S' hS' h hh
  · rw [if_neg hcont] at hS'
    simp only at hS'
    rcases List.mem_append.1 hS' with hb1 | hb2
    · exact hold S' (by rw [hsplit]; exact List.mem_append_left _ hb1) h hh
    · rcases List.mem_cons.1 hb2 with hb3 | hb4
      · subst hb3
        simp only at hh ⊢
        rcases mem_of_mem_add_uint32_to_list _ _ _ _ hh with h1 | h1
        · subst h1
          exact ⟨H', hH'mem, hH'c, hconn ▸ hH'a⟩
        · exact hold S hSmem h h1
      · refine hold S' ?_ h hh
        rw [hsplit]
        exact List.mem_append_right _ (List.mem_cons_of_mem _ hb4)

theorem gatt_registered_setup_tail (K : Constants) (st2 : State) (c : connection_t)
    (handle : Nat) (track : Bool) (S : client_state_t) (H : gatt_client_helper_t)
    (hS : client_for_connection st2 c = some S)
    (hH : daemon_get_gatt_client_helper st2 handle = some H)
    (hm : ∀ b ∈ st2.malloc_results, b = true) (hdH : H.all_connections.Nodup)
    (hr : st2.gatt_registered) :
    (if (track && (match daemon_get_gatt_client_helper st2 handle with
          | some helper => helper.active_connection.isSome
          | none => false)) = true then
        (send_gatt_query_complete K st2 c handle K.GATT_CLIENT_BUSY, false)
      else if track = true then
        ((daemon_add_gatt_client_handle st2 c handle).update_helper handle
          (fun h => { h with active_connection := some c }), true)
      else (daemon_add_gatt_client_handle st2 c handle, true)).1.gatt_registered := by
  have hadd := gatt_registered_daemon_add_gatt_client_handle st2 c handle S H hS hH hm hdH hr
  split
  · exact gatt_registered_call st2 _ hr
  · split
    · exact gatt_registered_update_helper _ handle _ (fun _ => ⟨rfl, rfl⟩) hadd
    · exact hadd

theorem gatt_registered_daemon_setup_gatt_client_request (K : Constants) (st : State)
    (c : connection_t) (packet : List Nat) (track : Bool) (reply : EngineReply)
    (S : client_state_t) (hS : client_for_connection st c = some S)
    (hm : ∀ b ∈ st.malloc_results, b = true) (hn : st.no_duplicates)
    (hr : st.gatt_registered) :
    (daemon_setup_gatt_client_request K st c packet track reply).1.gatt_registered := by
  unfold daemon_setup_gatt_client_request
  simp only []
  cases hopen : reply.hci_con_open
  · exact gatt_registered_call st _ hr
  · cases hget : daemon_get_gatt_client_helper st (READ_BT_16 packet 3) with
    | some helper =>
      simp only [Bool.not_true, Bool.false_eq_true, if_false]
      exact gatt_registered_setup_tail K st c _ track S helper hS hget hm
        (hn.2 helper (List.mem_of_find?_eq_some hget)) hr
    | none =>
      rw [malloc_eq, headD_of_all_true _ hm]
      simp only [Bool.not_true, Bool.false_eq_true, if_false, if_true]
      refine gatt_registered_setup_tail K _ c _ track S { con_handle := READ_BT_16 packet 3 }
        ?_ ?_ ?_ List.nodup_nil ?_
      · exact hS
      · unfold daemon_get_gatt_client_helper
        simp only [List.find?_cons, beq_self_eq_true]
      · exact tail_all_true _ hm
      · exact @gatt_registered_of_grow st _ rfl (helpers_grow_cons _ _) hr

theorem gatt_registered_gatt_client_command (K : Constants) (st : State) (c : connection_t)
    (opcode : Opcode) (packet : List Nat) (track copy_value : Bool) (reply : EngineReply)
    (S : client_state_t) (hS : client_for_connection st c = some S)
    (hm : ∀ b ∈ st.malloc_results, b = true) (hn : st.no_duplicates)
    (hr : st.gatt_registered) :
    (gatt_client_command K st c opcode packet track copy_value reply).gatt_registered := by
  unfold gatt_client_command
  have h1 :=
    gatt_registered_daemon_setup_gatt_client_request K st c packet track reply S hS hm hn hr
  generalize daemon_setup_gatt_client_request K st c packet track reply = r at h1 ⊢
  obtain ⟨st1, ok⟩ := r
  simp only at h1 ⊢
  split
  · exact h1
  · split
    · exact gatt_registered_call _ _
        (gatt_registered_update_helper st1 _ _ (fun _ => ⟨rfl, rfl⟩) h1)
    · exact gatt_registered_call _ _ h1

theorem gatt_registered_btstack_command_handler (K : Constants) (st : State)
    (c : connection_t) (opcode : Opcode) (packet : List Nat) (reply : EngineReply)
    (henv : opcode.uses_gatt_helper = true →
      (client_for_connection st c).isSome = true ∧ ∀ b ∈ st.malloc_results, b = true)
    (hn : st.no_duplicates) (hr : st.gatt_registered) :
    (btstack_command_handler K st c opcode packet reply).gatt_registered := by
  cases hop : opcode.uses_gatt_helper
  · exact gatt_registered_of_ledger_only
      (ledger_only_btstack_command_handler K st c opcode packet reply hop) hr
  · obtain ⟨hsome, hm⟩ := henv hop
    obtain ⟨S, hS⟩ := Option.isSome_iff_exists.1 hsome
    cases opcode
    all_goals first
      | exact absurd hop (by decide)
      | exact gatt_registered_gatt_client_command K st c _ packet _ _ reply S hS hm hn hr

theorem gatt_registered_daemon_client_handler (K : Constants) (st : State) (c : connection_t)
    (packet_type : PacketType) (channel : Nat) (data : List Nat) (command : Option Opcode)
    (event : EventCode) (reply : EngineReply)
    (henv : gatt_environment st
      (Input.client_packet c packet_type channel data command event reply))
    (hn : st.no_duplicates) (hs : st.sessions_distinct) (hr : st.gatt_registered) :
    (daemon_client_handler K st c packet_type channel data command event reply).gatt_registered
    := by
  cases packet_type
  case HCI_COMMAND_DATA_PACKET =>
    cases command with
    | none => exact gatt_registered_call st _ hr
    | some opcode =>
      exact gatt_registered_btstack_command_handler K st c opcode data reply henv hn hr
  case DAEMON_EVENT_PACKET =>
    cases event
    case DAEMON_EVENT_CONNECTION_OPENED =>
      simp only [daemon_client_handler]
      rw [malloc_eq]
      simp only []
      split
      · intro S' hS' h hh
        rcases List.mem_cons.1 hS' with h1 | h1
        · subst h1
          exact absurd hh (List.not_mem_nil h)
        · exact hr S' h1 h hh
      · exact hr
    case DAEMON_EVENT_CONNECTION_CLOSED =>
      have htables := daemon_client_handler_closed_tables K st c channel data command reply
      exact gatt_registered_of_grow (by rw [htables.1]) (helpers_grow_of_eq htables.2)
        (gatt_registered_daemon_disconnect_client st c hr hs)
    all_goals exact hr
  case L2CAP_DATA_PACKET => exact gatt_registered_call st _ hr
  case RFCOMM_DATA_PACKET => exact gatt_registered_call st _ hr
  all_goals exact hr

theorem opens_new_connection_of_gatt_environment (st : State) (input : Input)
    (h : gatt_environment st input) : opens_new_connection st input := by
  cases input with
  | client_packet c packet_type channel data command event reply =>
    cases packet_type <;> cases event <;> first | exact h | exact trivial
  | protocol_packet packet_type channel event packet => exact trivial
  | gatt_event event packet => exact trivial
  | timer_expired => exact trivial
  | power_notification n => exact trivial

theorem gatt_registered_handle_input (K : Constants) (st : State) (input : Input)
    (henv : gatt_environment st input) (hn : st.no_duplicates) (hs : st.sessions_distinct)
    (hr : st.gatt_registered) : (handle_input K st input).gatt_registered := by
  cases input with
  | client_packet c packet_type channel data command event reply =>
    exact gatt_registered_daemon_client_handler K st c packet_type channel data command event
      reply henv hn hs hr
  | protocol_packet packet_type channel event packet =>
    exact gatt_registered_of_ledger_only
      (ledger_only_daemon_packet_handler st none packet_type channel event packet) hr
  | gatt_event event packet => exact gatt_registered_handle_gatt_client_event st event packet hr
  | timer_expired =>
    exact gatt_registered_of_ledger_only (ledger_only_daemon_no_connections_timeout st) hr
  | power_notification n =>
    exact gatt_registered_of_ledger_only (ledger_only_power_notification_callback st n) hr

theorem sessions_distinct_of_gatt_environment (K : Constants) (st : State)
    (h : ReachableWith K gatt_environment st) : st.sessions_distinct :=
  sessions_distinct_of_reachable_with K st
    (reachable_with_mono K gatt_environment opens_new_connection
      opens_new_connection_of_gatt_environment st h)

theorem gatt_registered_of_reachable_with (K : Constants) (st : State)
    (h : ReachableWith K gatt_environment st) : st.gatt_registered := by
  induction h with
  | init malloc_results =>
    intro S hS
    exact absurd hS (List.not_mem_nil S)
  | step st input hreach henv ih =>
    have hr := reachable_of_reachable_with K gatt_environment st hreach
    exact gatt_registered_handle_input K st input henv (no_duplicates_of_reachable K st hr)
      (sessions_distinct_of_gatt_environment K st hreach) ih

/-- In a state where sessions have distinct connections, helpers have distinct
handles, every connection a helper refers to has a session holding the handle,
and every handle a session holds has a helper listing the session: a session is
in a helper's `all_connections` exactly when it holds the helper's handle, and
an active owner holds the handle. -/
theorem sessions_and_helpers_agree (st : State) (hs : st.sessions_distinct)
    (hd : st.helpers_distinct) (hl : st.gatt_linked) (hr : st.gatt_registered)
    (S : client_state_t) (hS : S ∈ st.clients) (H : gatt_client_helper_t)
    (hH : H ∈ st.gatt_client_helpers) :
    (S.connection ∈ H.all_connections ↔ H.con_handle ∈ S.gatt_con_handles) ∧
    (H.active_connection = some S.connection → H.con_handle ∈ S.gatt_con_handles) := by
  have hfind : client_for_connection st S.connection = some S :=
    find_of_mem_of_distinct st.clients S hs hS
  have hlink : ∀ c ∈ H.connections, c = S.connection → H.con_handle ∈ S.gatt_con_handles := by
    intro c hc hcS
    have h1 := hl H hH c hc
    rw [hcS] at h1
    unfold State.gatt_link at h1
    rw [hfind] at h1
    simpa using h1
  refine ⟨⟨fun hc => hlink _ ((mem_connections H _).2 (Or.inr hc)) rfl, fun hh => ?_⟩,
    fun ha => hlink _ ((mem_connections H _).2 (Or.inl ha)) rfl⟩
  obtain ⟨H', hH', hc', ha'⟩ := hr S hS H.con_handle hh
  have heq : H' = H :=
    List.inj_on_of_nodup_map hd hH' hH hc'
  rw [← heq]
  exact ha'

/-- Claim C35, amended: in every state the daemon reaches by inputs in which connect
events carry a connection without a session, GATT request commands come from a
connection with a session and the allocations of a GATT request succeed, for
every session `S` and helper `H`: the connection of `S` is in
`H.all_connections` if and only if `H.con_handle` is in `S.gatt_con_handles`,
and if the active owner of `H` is the connection of `S` then `H.con_handle` is
in `S.gatt_con_handles`. -/
theorem C35_sessions_and_helpers_agree (K : Constants) (st : State)
    (hreach : ReachableWith K gatt_environment st) :
    ∀ S ∈ st.clients, ∀ H ∈ st.gatt_client_helpers,
      (S.connection ∈ H.all_connections ↔ H.con_handle ∈ S.gatt_con_handles) ∧
      (H.active_connection = some S.connection → H.con_handle ∈ S.gatt_con_handles) :=
  fun S hS H hH =>
    sessions_and_helpers_agree st (sessions_distinct_of_gatt_environment K st hreach)
      (helpers_distinct_of_reachable K st
        (reachable_of_reachable_with K gatt_environment st hreach))
      (gatt_linked_of_reachable_with K st hreach)
      (gatt_registered_of_reachable_with K st hreach) S hS H hH

/-- The agreement at the daemon after connection 1 opened and sent one GATT
read for connection handle 64: the state holds a session and a helper, the
session of connection 1 holds handle 64 and the helper for 64 lists
connection 1. -/
theorem C35_sessions_and_helpers_witness :
    ReachableWith sample_constants gatt_environment one_gatt_request ∧
    one_gatt_request.clients.map (fun S => (S.connection, S.gatt_con_handles)) = [(1, [64])] ∧
    one_gatt_request.gatt_client_helpers.map
      (fun H => (H.con_handle, H.active_connection, H.all_connections)) = [(64, some 1, [1])] ∧
    ∀ S ∈ one_gatt_request.clients, ∀ H ∈ one_gatt_request.gatt_client_helpers,
      (S.connection ∈ H.all_connections ↔ H.con_handle ∈ S.gatt_con_handles) ∧
      (H.active_connection = some S.connection → H.con_handle ∈ S.gatt_con_handles) :=
  ⟨reachable_with_one_gatt_request, by decide, by decide,
    C35_sessions_and_helpers_agree sample_constants one_gatt_request
      reachable_with_one_gatt_request⟩

/-! ### Serialized characteristics -/

theorem byte_at_memcpy (dst : List Nat) (dst_pos : Nat) (src : List Nat) (src_pos n i : Nat) :
    byte_at (memcpy dst dst_pos src src_pos n) i =
      if dst_pos ≤ i ∧ i < dst_pos + n ∧ i < dst.length then byte_at src (src_pos + (i - dst_pos))
      else byte_at dst i := by
  unfold byte_at
  rw [getD_memcpy]
  split
  · unfold byte_at
    rw [Nat.mod_mod]
  · rfl

theorem byte_at_memcpy_out (dst : List Nat) (dst_pos : Nat) (src : List Nat)
    (src_pos n i : Nat) (h : i < dst_pos ∨ dst_pos + n ≤ i) :
    byte_at (memcpy dst dst_pos src src_pos n) i = byte_at dst i := by
  rw [byte_at_memcpy, if_neg]
  omega

theorem byte_at_memcpy_in (dst : List Nat) (dst_pos : Nat) (src : List Nat)
    (src_pos n i : Nat) (h1 : dst_pos ≤ i) (h2 : i < dst_pos + n) (h3 : i < dst.length) :
    byte_at (memcpy dst dst_pos src src_pos n) i = byte_at src (src_pos + (i - dst_pos)) := by
  rw [byte_at_memcpy, if_pos ⟨h1, h2, h3⟩]

theorem READ_BT_16_memcpy_out (dst : List Nat) (dst_pos : Nat) (src : List Nat)
    (src_pos n pos : Nat) (h : pos + 2 ≤ dst_pos ∨ dst_pos + n ≤ pos) :
    READ_BT_16 (memcpy dst dst_pos src src_pos n) pos = READ_BT_16 dst pos := by
  unfold READ_BT_16
  rw [byte_at_memcpy_out _ _ _ _ _ _ (by omega), byte_at_memcpy_out _ _ _ _ _ _ (by omega)]

theorem READ_BT_16_bt_store_16 (buf : List Nat) (pos v : Nat) (hv : v < 65536)
    (hl : pos + 2 ≤ buf.length) :
    READ_BT_16 (memcpy buf pos (bt_store_16 v) 0 2) pos = v := by
  unfold READ_BT_16
  rw [byte_at_memcpy_in _ _ _ _ _ _ (by omega) (by omega) (by omega),
    byte_at_memcpy_in _ _ _ _ _ _ (by omega) (by omega) (by omega)]
  have h0 : 0 + (pos - pos) = 0 := by omega
  have h1 : 0 + (pos + 1 - pos) = 1 := by omega
  rw [h0, h1]
  simp only [byte_at, bt_store_16, List.getD_cons_zero, List.getD_cons_succ, Nat.mod_mod]
  omega

/-- The 16-bit fields that `daemon_gatt_deserialize_characteristic` reads after
`daemon_gatt_serialize_characteristic` are those of the characteristic. -/
theorem deserialize_serialize_fields (swap128 : List Nat → List Nat) (ch : le_characteristic_t)
    (event : List Nat) (offset : Nat)
    (hs : ch.start_handle < 65536) (hv : ch.value_handle < 65536)
    (he : ch.end_handle < 65536) (hp : ch.properties < 65536)
    (hl : offset + 24 ≤ event.length) :
    (daemon_gatt_deserialize_characteristic swap128
        (daemon_gatt_serialize_characteristic swap128 ch event offset) offset).start_handle
      = ch.start_handle ∧
    (daemon_gatt_deserialize_characteristic swap128
        (daemon_gatt_serialize_characteristic swap128 ch event offset) offset).value_handle
      = ch.value_handle ∧
    (daemon_gatt_deserialize_characteristic swap128
        (daemon_gatt_serialize_characteristic swap128 ch event offset) offset).end_handle
      = ch.end_handle ∧
    (daemon_gatt_deserialize_characteristic swap128
        (daemon_gatt_serialize_characteristic swap128 ch event offset) offset).properties
      = ch.properties := by
  unfold daemon_gatt_deserialize_characteristic daemon_gatt_serialize_characteristic
  simp only
  refine ⟨?_, ?_, ?_, ?_⟩
  · rw [READ_BT_16_memcpy_out _ _ _ _ _ _ (by omega), READ_BT_16_memcpy_out _ _ _ _ _ _ (by omega),
      READ_BT_16_memcpy_out _ _ _ _ _ _ (by omega), READ_BT_16_memcpy_out _ _ _ _ _ _ (by omega),
      READ_BT_16_bt_store_16 _ _ _ hs (by omega)]
  · rw [READ_BT_16_memcpy_out _ _ _ _ _ _ (by omega), READ_BT_16_memcpy_out _ _ _ _ _ _ (by omega),
      READ_BT_16_memcpy_out _ _ _ _ _ _ (by omega),
      READ_BT_16_bt_store_16 _ _ _ hv (by rw [length_memcpy]; omega)]
  · rw [READ_BT_16_memcpy_out _ _ _ _ _ _ (by omega), READ_BT_16_memcpy_out _ _ _ _ _ _ (by omega),
      READ_BT_16_bt_store_16 _ _ _ he (by rw [length_memcpy, length_memcpy]; omega)]
  · rw [READ_BT_16_memcpy_out _ _ _ _ _ _ (by omega),
      READ_BT_16_bt_store_16 _ _ _ hp
        (by rw [length_memcpy, length_memcpy, length_memcpy]; omega)]

/-- The bytes of the buffer after `daemon_gatt_serialize_characteristic` from
`offset + 8` on are those given by `swap128`; the bytes from `offset + 24` on
are the old ones. -/
theorem byte_at_serialize_characteristic (swap128 : List Nat → List Nat)
    (ch : le_characteristic_t) (event : List Nat) (offset : Nat)
    (hl : offset + 24 ≤ event.length) :
    (∀ k, k < 16 →
      byte_at (daemon_gatt_serialize_characteristic swap128 ch event offset) (offset + 8 + k) =
        byte_at (swap128 (bytes_at ch.uuid128 0 16)) k) ∧
    ∀ i, offset + 24 ≤ i →
      byte_at (daemon_gatt_serialize_characteristic swap128 ch event offset) i =
        byte_at event i := by
  unfold daemon_gatt_serialize_characteristic
  simp only
  constructor
  · intro k hk
    rw [byte_at_memcpy_in _ _ _ _ _ _ (by omega) (by omega)
      (by rw [length_memcpy, length_memcpy, length_memcpy, length_memcpy]; omega)]
    congr 1
    omega
  · intro i hi
    rw [byte_at_memcpy_out _ _ _ _ _ _ (by omega), byte_at_memcpy_out _ _ _ _ _ _ (by omega),
      byte_at_memcpy_out _ _ _ _ _ _ (by omega), byte_at_memcpy_out _ _ _ _ _ _ (by omega),
      byte_at_memcpy_out _ _ _ _ _ _ (by omega)]

theorem bytes_at_split (packet : List Nat) (pos a b : Nat) :
    bytes_at packet pos (a + b) = bytes_at packet pos a ++ bytes_at packet (pos + a) b := by
  unfold bytes_at
  rw [List.range_add, List.map_append, List.map_map]
  congr 1
  apply List.map_congr_left
  intro i _
  simp only [Function.comp, Nat.add_assoc]

theorem bytes_at_congr (p q : List Nat) (pos pos' len : Nat)
    (h : ∀ k, k < len → byte_at p (pos + k) = byte_at q (pos' + k)) :
    bytes_at p pos len = bytes_at q pos' len := by
  unfold bytes_at
  apply List.map_congr_left
  intro i hi
  exact h i (List.mem_range.1 hi)

/-- The bytes that `daemon_gatt_deserialize_characteristic` passes to `swap128`
after `daemon_gatt_serialize_characteristic`: bytes 2 to 15 of what the
serializer stored for `uuid128`, then the two bytes of the buffer behind the
serialized characteristic. -/
theorem deserialize_serialize_uuid128 (swap128 : List Nat → List Nat) (ch : le_characteristic_t)
    (event : List Nat) (offset : Nat) (hl : offset + 24 ≤ event.length) :
    (daemon_gatt_deserialize_characteristic swap128
        (daemon_gatt_serialize_characteristic swap128 ch event offset) offset).uuid128 =
      swap128 (bytes_at (swap128 (bytes_at ch.uuid128 0 16)) 2 14
        ++ bytes_at event (offset + 24) 2) := by
  obtain ⟨hin, hout⟩ := byte_at_serialize_characteristic swap128 ch event offset hl
  generalize daemon_gatt_serialize_characteristic swap128 ch event offset = ser at hin hout ⊢
  show swap128 (bytes_at ser (offset + 10) (14 + 2)) = _
  apply congrArg swap128
  rw [bytes_at_split]
  have h1 : bytes_at ser (offset + 10) 14 = bytes_at (swap128 (bytes_at ch.uuid128 0 16)) 2 14 := by
    apply bytes_at_congr
    intro k hk
    have h := hin (2 + k) (by omega)
    have he : offset + 8 + (2 + k) = offset + 10 + k := by omega
    rw [he] at h
    exact h
  have h2 : bytes_at ser (offset + 10 + 14) 2 = bytes_at event (offset + 24) 2 := by
    apply bytes_at_congr
    intro k hk
    have he : offset + 10 + 14 + k = offset + 24 + k := by omega
    rw [he]
    exact hout _ (by omega)
  rw [h1, h2]

/-- Claim C40, evaluated on the code: `daemon_gatt_deserialize_characteristic`
applied at the offset where `daemon_gatt_serialize_characteristic` wrote a
characteristic recovers the four 16-bit fields `start_handle`, `value_handle`,
`end_handle` and `properties`, but not `uuid128`: the serializer stores the
UUID from `offset + 8` on and the deserializer reads it from `offset + 10` on,
so it passes to `swap128` bytes 2 to 15 of what was stored followed by the two
bytes behind the serialized characteristic.  With byte reversal for `swap128`,
the characteristic with UUID bytes 1 to 16 written at offset 5 of a buffer of
31 zero bytes is read back with the UUID bytes 0, 0, 1, ..., 14. -/
theorem C40_characteristic_uuid128_not_recovered :
    (∀ (swap128 : List Nat → List Nat) (ch : le_characteristic_t) (event : List Nat)
        (offset : Nat),
      ch.start_handle < 65536 → ch.value_handle < 65536 → ch.end_handle < 65536 →
      ch.properties < 65536 → offset + CHARACTERISTIC_LENGTH ≤ event.length →
      (daemon_gatt_deserialize_characteristic swap128
          (daemon_gatt_serialize_characteristic swap128 ch event offset) offset).start_handle
        = ch.start_handle ∧
      (daemon_gatt_deserialize_characteristic swap128
          (daemon_gatt_serialize_characteristic swap128 ch event offset) offset).value_handle
        = ch.value_handle ∧
      (daemon_gatt_deserialize_characteristic swap128
          (daemon_gatt_serialize_characteristic swap128 ch event offset) offset).end_handle
        = ch.end_handle ∧
      (daemon_gatt_deserialize_characteristic swap128
          (daemon_gatt_serialize_characteristic swap128 ch event offset) offset).properties
        = ch.properties ∧
      (daemon_gatt_deserialize_characteristic swap128
          (daemon_gatt_serialize_characteristic swap128 ch event offset) offset).uuid128 =
        swap128 (bytes_at (swap128 (bytes_at ch.uuid128 0 16)) 2 14
          ++ bytes_at event (offset + CHARACTERISTIC_LENGTH) 2)) ∧
    daemon_gatt_serialize_characteristic List.reverse sample_characteristic
        (List.replicate 31 0) 5 =
      [0, 0, 0, 0, 0, 1, 0, 2, 0, 3, 0, 4, 0,
        16, 15, 14, 13, 12, 11, 10, 9, 8, 7, 6, 5, 4, 3, 2, 1, 0, 0] ∧
    daemon_gatt_deserialize_characteristic List.reverse
        (daemon_gatt_serialize_characteristic List.reverse sample_characteristic
          (List.replicate 31 0) 5) 5 =
      { start_handle := 1, value_handle := 2, end_handle := 3, properties := 4, uuid16 := 3856,
        uuid128 := [0, 0, 1, 2, 3, 4, 5, 6, 7, 8, 9, 10, 11, 12, 13, 14] } ∧
    (daemon_gatt_deserialize_characteristic List.reverse
        (daemon_gatt_serialize_characteristic List.reverse sample_characteristic
          (List.replicate 31 0) 5) 5).uuid128 ≠ sample_characteristic.uuid128 := by
  refine ⟨?_, ?_, ?_, ?_⟩
  · intro swap128 ch event offset hs hv he hp hl
    obtain ⟨h1, h2, h3, h4⟩ := deserialize_serialize_fields swap128 ch event offset hs hv he hp hl
    exact ⟨h1, h2, h3, h4, deserialize_serialize_uuid128 swap128 ch event offset hl⟩
  · decide
  · decide
  · decide

/-! ### The guard of daemon_retry_parked -/

theorem daemon_retry_parked_run_locked (behaviour : State → Nat) (fuel : Nat) (r : RetryRun)
    (hfuel : 1 ≤ fuel) (hlocked : r.daemon.retry_mutex ≠ 0) :
    daemon_retry_parked_run behaviour fuel r = some r := by
  obtain ⟨n, rfl⟩ : ∃ n, fuel = n + 1 := ⟨fuel - 1, by omega⟩
  unfold daemon_retry_parked_run
  rw [if_pos]
  simpa using hlocked

theorem repeat_callbacks_fixed (step : RetryRun → Option RetryRun) (r : RetryRun)
    (h : step r = some r) : ∀ n, repeat_callbacks step n r = some r := by
  intro n
  induction n with
  | zero => rfl
  | succ n ih =>
    unfold repeat_callbacks
    rw [h]
    exact ih

/-- The run of `daemon_retry_parked` entered with the flag clear: whatever the
number of callbacks, one invocation of `socket_connection_retry_parked` is
entered, and the run returns with the flag clear. -/
theorem daemon_retry_parked_run_clear (behaviour : State → Nat) (fuel : Nat) (r : RetryRun)
    (hfuel : 2 ≤ fuel) (hclear : r.daemon.retry_mutex = 0) :
    daemon_retry_parked_run behaviour fuel r =
      some { daemon := daemon_retry_parked r.daemon
             running := r.running
             overlapped := r.overlapped || r.running != 0 } := by
  obtain ⟨n, rfl⟩ : ∃ n, fuel = n + 1 := ⟨fuel - 1, by omega⟩
  unfold daemon_retry_parked_run
  rw [if_neg (by simp [hclear])]
  simp only
  rw [repeat_callbacks_fixed _ _
    (daemon_retry_parked_run_locked behaviour n _ (by omega) (by simp [State.call]))]
  simp only [Nat.add_sub_cancel]
  unfold daemon_retry_parked
  rw [if_neg (by simp [hclear])]

/-- The record of overlaps is not idle: were an invocation of
`socket_connection_retry_parked` in progress while the flag is clear, entering
`daemon_retry_parked` would be recorded as an overlap. -/
theorem daemon_retry_parked_run_records_overlap :
    (daemon_retry_parked_run (fun _ => 0) 2 { daemon := {}, running := 1 }).map
      (fun r => r.overlapped) = some true := by
  decide

theorem mutex_kept_refl (st : State) : MutexKept st st :=
  rfl

theorem mutex_kept_trans {st1 st2 st3 : State} (h12 : MutexKept st1 st2)
    (h23 : MutexKept st2 st3) : MutexKept st1 st3 :=
  h23.trans h12

theorem mutex_kept_of_eq {st st' : State} (h : st'.retry_mutex = st.retry_mutex) :
    MutexKept st st' :=
  h

theorem mutex_kept_call (st : State) (c : Call) : MutexKept st (st.call c) :=
  rfl

theorem mutex_kept_calls (st : State) (cs : List Call) : MutexKept st (st.calls cs) :=
  rfl

theorem mutex_kept_stop_power_off_timer (st : State) : MutexKept st (stop_power_off_timer st) := by
  rw [stop_power_off_timer_eq]
  exact mutex_kept_of_eq rfl

theorem mutex_kept_start_power_off_timer (st : State) :
    MutexKept st (start_power_off_timer st) := by
  rw [start_power_off_timer_eq]
  exact mutex_kept_of_eq rfl

theorem mutex_kept_daemon_retry_parked (st : State) : MutexKept st (daemon_retry_parked st) := by
  unfold daemon_retry_parked
  split
  · exact mutex_kept_refl st
  · rename_i h
    have h0 : st.retry_mutex = 0 := by simpa using h
    exact mutex_kept_of_eq h0.symm

theorem mutex_kept_update_client (st : State) (c : connection_t)
    (f : client_state_t → client_state_t) : MutexKept st (st.update_client c f) :=
  mutex_kept_of_eq rfl

theorem mutex_kept_update_helper (st : State) (h : Nat)
    (f : gatt_client_helper_t → gatt_client_helper_t) : MutexKept st (st.update_helper h f) :=
  mutex_kept_of_eq rfl

theorem mutex_kept_malloc (st : State) : MutexKept st st.malloc.2 := by
  rw [malloc_eq]
  exact mutex_kept_of_eq rfl

theorem mutex_kept_add_to_client_list (st : State) (c : connection_t)
    (get : client_state_t → uint32_list) (set : client_state_t → uint32_list → client_state_t)
    (value : Nat) : MutexKept st (st.add_to_client_list c get set value) := by
  unfold State.add_to_client_list
  rw [malloc_eq]
  split
  · exact mutex_kept_refl st
  · split
    · exact mutex_kept_refl st
    · exact mutex_kept_of_eq rfl

theorem mutex_kept_remove_from_client_list (st : State) (c : connection_t)
    (get : client_state_t → uint32_list) (set : client_state_t → uint32_list → client_state_t)
    (value : Nat) : MutexKept st (st.remove_from_client_list c get set value) := by
  unfold State.remove_from_client_list
  split
  · exact mutex_kept_refl st
  · exact mutex_kept_of_eq rfl

theorem mutex_kept_add_connection_to_helper (st : State) (helper : gatt_client_helper_t)
    (c : connection_t) : MutexKept st (add_connection_to_helper st helper c).1 := by
  unfold add_connection_to_helper
  rw [malloc_eq]
  split
  · exact mutex_kept_refl st
  · simp only
    split <;> exact mutex_kept_of_eq rfl

theorem mutex_kept_daemon_add_gatt_client_handle (st : State) (c : connection_t) (handle : Nat) :
    MutexKept st (daemon_add_gatt_client_handle st c handle) := by
  unfold daemon_add_gatt_client_handle
  split
  · exact mutex_kept_refl st
  · rename_i cs _
    simp only
    have h1 : MutexKept st (if cs.gatt_con_handles.contains handle = true then st
        else st.add_to_client_list c (fun c => c.gatt_con_handles)
          (fun c l => { c with gatt_con_handles := l }) handle) := by
      split
      · exact mutex_kept_refl st
      · exact mutex_kept_add_to_client_list st c _ _ handle
    generalize (if cs.gatt_con_handles.contains handle = true then st
        else st.add_to_client_list c (fun c => c.gatt_con_handles)
          (fun c l => { c with gatt_con_handles := l }) handle) = st1 at h1 ⊢
    refine mutex_kept_trans h1 ?_
    split
    · exact mutex_kept_trans (mutex_kept_add_connection_to_helper _ _ c) (mutex_kept_update_helper _ _ _)
    · rw [malloc_eq]
      simp only
      split
      · have h2 := mutex_kept_add_connection_to_helper
          { st1 with malloc_results := st1.malloc_results.tail } { con_handle := handle % 65536 } c
        have h3 : MutexKept st1 { st1 with malloc_results := st1.malloc_results.tail } :=
          mutex_kept_of_eq rfl
        exact mutex_kept_trans h3 (mutex_kept_trans h2 (mutex_kept_of_eq rfl))
      · exact mutex_kept_of_eq rfl

theorem mutex_kept_daemon_remove_gatt_client_handle (st : State) (c : connection_t) (handle : Nat) :
    MutexKept st (daemon_remove_gatt_client_handle st c handle) := by
  unfold daemon_remove_gatt_client_handle
  split
  · exact mutex_kept_refl st
  · simp only
    split
    · exact mutex_kept_update_client st c _
    · split
      · exact mutex_kept_trans (mutex_kept_update_client st c _)
          (mutex_kept_trans (mutex_kept_update_helper _ _ _) (mutex_kept_call _ _))
      · exact mutex_kept_trans (mutex_kept_update_client st c _) (mutex_kept_update_helper _ _ _)

theorem mutex_kept_daemon_remove_gatt_client_helper (st : State) (con_handle : Nat) :
    MutexKept st (daemon_remove_gatt_client_helper st con_handle) := by
  unfold daemon_remove_gatt_client_helper
  split
  · exact mutex_kept_refl st
  · exact mutex_kept_of_eq rfl

theorem mutex_kept_daemon_gatt_client_close_connection_loop (c : connection_t) :
    ∀ (fuel : Nat) (st : State), MutexKept st (daemon_gatt_client_close_connection_loop fuel st c) := by
  intro fuel
  induction fuel with
  | zero => intro st; exact mutex_kept_refl st
  | succ fuel ih =>
    intro st
    unfold daemon_gatt_client_close_connection_loop
    split
    · exact mutex_kept_refl st
    · split
      · exact mutex_kept_refl st
      · exact mutex_kept_trans (mutex_kept_daemon_remove_gatt_client_handle st c _) (ih _)

theorem mutex_kept_daemon_gatt_client_close_connection (st : State) (c : connection_t) :
    MutexKept st (daemon_gatt_client_close_connection st c) := by
  unfold daemon_gatt_client_close_connection
  split
  · exact mutex_kept_refl st
  · exact mutex_kept_daemon_gatt_client_close_connection_loop c _ st

theorem mutex_kept_daemon_rfcomm_close_connection (st : State) (c : connection_t) :
    MutexKept st (daemon_rfcomm_close_connection st c) := by
  unfold daemon_rfcomm_close_connection
  split
  · exact mutex_kept_refl st
  · exact mutex_kept_trans (mutex_kept_calls st _)
      (mutex_kept_trans (mutex_kept_update_client _ c _)
        (mutex_kept_trans (mutex_kept_calls _ _) (mutex_kept_update_client _ c _)))

theorem mutex_kept_daemon_l2cap_close_connection (st : State) (c : connection_t) :
    MutexKept st (daemon_l2cap_close_connection st c) := by
  unfold daemon_l2cap_close_connection
  split
  · exact mutex_kept_refl st
  · exact mutex_kept_trans (mutex_kept_calls st _)
      (mutex_kept_trans (mutex_kept_update_client _ c _)
        (mutex_kept_trans (mutex_kept_calls _ _) (mutex_kept_update_client _ c _)))

theorem mutex_kept_daemon_sdp_close_connection (st : State) (c : connection_t) :
    MutexKept st (daemon_sdp_close_connection st c) := by
  unfold daemon_sdp_close_connection
  split
  · exact mutex_kept_refl st
  · exact mutex_kept_trans (mutex_kept_calls st _) (mutex_kept_update_client _ c _)

theorem mutex_kept_daemon_close_connections (st : State) (c : connection_t) :
    MutexKept st (daemon_close_connections st c) := by
  unfold daemon_close_connections
  exact mutex_kept_trans (mutex_kept_daemon_sdp_close_connection st c)
    (mutex_kept_trans (mutex_kept_daemon_rfcomm_close_connection _ c)
      (mutex_kept_trans (mutex_kept_daemon_l2cap_close_connection _ c)
        (mutex_kept_daemon_gatt_client_close_connection _ c)))

theorem mutex_kept_daemon_disconnect_client (st : State) (c : connection_t) :
    MutexKept st (daemon_disconnect_client st c) := by
  unfold daemon_disconnect_client
  split
  · exact mutex_kept_refl st
  · exact mutex_kept_trans (mutex_kept_daemon_close_connections st c) (mutex_kept_of_eq rfl)

theorem mutex_kept_daemon_no_connections_timeout (st : State) :
    MutexKept st (daemon_no_connections_timeout st) := by
  unfold daemon_no_connections_timeout
  split
  · exact mutex_kept_refl st
  · exact mutex_kept_call st _

theorem mutex_kept_power_notification_callback (st : State) (n : POWER_NOTIFICATION_t) :
    MutexKept st (power_notification_callback st n) := by
  cases n
  · exact mutex_kept_trans (mutex_kept_of_eq rfl) (mutex_kept_call { st with power_management_sleep := 1 } _)
  · unfold power_notification_callback
    simp only
    split
    · exact mutex_kept_trans (mutex_kept_of_eq rfl)
        (mutex_kept_call { st with power_management_sleep := 0 } _)
    · exact mutex_kept_of_eq rfl
  · exact mutex_kept_refl st

theorem mutex_kept_send_gatt_query_complete (K : Constants) (st : State) (c : connection_t)
    (handle status : Nat) : MutexKept st (send_gatt_query_complete K st c handle status) :=
  mutex_kept_call st _

theorem mutex_kept_setup_tail (K : Constants) (st2 : State) (c : connection_t) (handle : Nat)
    (track : Bool) :
    MutexKept st2 (if (track && (match daemon_get_gatt_client_helper st2 handle with
          | some helper => helper.active_connection.isSome
          | none => false)) = true then
        (send_gatt_query_complete K st2 c handle K.GATT_CLIENT_BUSY, false)
      else if track = true then
        ((daemon_add_gatt_client_handle st2 c handle).update_helper handle
          (fun h => { h with active_connection := some c }), true)
      else (daemon_add_gatt_client_handle st2 c handle, true)).1 := by
  split
  · exact mutex_kept_send_gatt_query_complete K st2 c _ _
  · split
    · exact mutex_kept_trans (mutex_kept_daemon_add_gatt_client_handle st2 c _) (mutex_kept_update_helper _ _ _)
    · exact mutex_kept_daemon_add_gatt_client_handle st2 c _

theorem mutex_kept_daemon_setup_gatt_client_request (K : Constants) (st : State) (c : connection_t)
    (packet : List Nat) (track : Bool) (reply : EngineReply) :
    MutexKept st (daemon_setup_gatt_client_request K st c packet track reply).1 := by
  unfold daemon_setup_gatt_client_request
  simp only []
  cases hopen : reply.hci_con_open
  · exact mutex_kept_send_gatt_query_complete K st c _ _
  · cases hget : daemon_get_gatt_client_helper st (READ_BT_16 packet 3) with
    | some helper =>
      simp only [Bool.not_true, Bool.false_eq_true, if_false]
      exact mutex_kept_setup_tail K st c _ track
    | none =>
      rw [malloc_eq]
      cases hm : st.malloc_results.headD true
      · simp only [Bool.not_true, Bool.false_eq_true, if_false, Bool.not_false, if_true]
        exact mutex_kept_of_eq rfl
      · simp only [Bool.not_true, Bool.false_eq_true, if_false, if_true]
        exact mutex_kept_trans (mutex_kept_of_eq rfl) (mutex_kept_setup_tail K _ c _ track)

theorem mutex_kept_gatt_client_command (K : Constants) (st : State) (c : connection_t)
    (opcode : Opcode) (packet : List Nat) (track copy_value : Bool) (reply : EngineReply) :
    MutexKept st (gatt_client_command K st c opcode packet track copy_value reply) := by
  unfold gatt_client_command
  have h1 := mutex_kept_daemon_setup_gatt_client_request K st c packet track reply
  generalize daemon_setup_gatt_client_request K st c packet track reply = r at h1 ⊢
  obtain ⟨st1, ok⟩ := r
  simp only at h1 ⊢
  refine mutex_kept_trans h1 ?_
  split
  · exact mutex_kept_refl st1
  · split
    · exact mutex_kept_trans (mutex_kept_update_helper st1 _ _) (mutex_kept_call _ _)
    · exact mutex_kept_call _ _

theorem mutex_kept_daemon_sdp_create_and_register_service (st : State) (reply : EngineReply) :
    MutexKept st (daemon_sdp_create_and_register_service st reply).1 := by
  unfold daemon_sdp_create_and_register_service
  rw [malloc_eq]
  simp only
  split
  · exact mutex_kept_of_eq rfl
  · split <;> exact mutex_kept_of_eq rfl

theorem mutex_kept_update_ui_status (st : State) : MutexKept st (update_ui_status st) := by
  unfold update_ui_status
  split
  · exact mutex_kept_call st _
  · split <;> exact mutex_kept_call st _

theorem mutex_kept_deamon_status_event_handler (st : State) (event : EventCode) (packet : List Nat) :
    MutexKept st (deamon_status_event_handler st event packet) := by
  unfold deamon_status_event_handler
  split
  · exact mutex_kept_trans (mutex_kept_of_eq rfl) (mutex_kept_update_ui_status _)
  · exact mutex_kept_trans (mutex_kept_of_eq rfl) (mutex_kept_update_ui_status _)
  · exact mutex_kept_refl st

theorem mutex_kept_daemon_packet_handler_hci_event (st : State) (connection : Option connection_t)
    (event : EventCode) (packet : List Nat) :
    MutexKept st (daemon_packet_handler_hci_event st connection event packet).1 := by
  unfold daemon_packet_handler_hci_event
  split
  · exact mutex_kept_daemon_retry_parked st
  · split
    · exact mutex_kept_refl st
    · split
      · exact mutex_kept_remove_from_client_list st _ _ _ _
      · exact mutex_kept_add_to_client_list st _ _ _ _
  · split
    · exact mutex_kept_refl st
    · exact mutex_kept_remove_from_client_list st _ _ _ _
  · split
    · exact mutex_kept_refl st
    · split
      · exact mutex_kept_refl st
      · exact mutex_kept_add_to_client_list st _ _ _ _
  · split
    · exact mutex_kept_refl st
    · split
      · exact mutex_kept_remove_from_client_list st _ _ _ _
      · exact mutex_kept_add_to_client_list st _ _ _ _
  · split
    · exact mutex_kept_refl st
    · exact mutex_kept_remove_from_client_list st _ _ _ _
  · exact mutex_kept_refl st

theorem mutex_kept_daemon_packet_handler_send (st : State) (connection : Option connection_t)
    (packet_type : PacketType) (channel : Nat) (packet : List Nat) :
    MutexKept st (daemon_packet_handler_send st connection packet_type channel packet) := by
  unfold daemon_packet_handler_send
  split <;> exact mutex_kept_call st _

theorem mutex_kept_daemon_packet_handler_l2cap_data (st : State) (packet_type : PacketType)
    (channel : Nat) (packet : List Nat) :
    MutexKept st (daemon_packet_handler_l2cap_data st packet_type channel packet) := by
  unfold daemon_packet_handler_l2cap_data
  split
  · exact mutex_kept_refl st
  · exact mutex_kept_daemon_packet_handler_send st _ _ _ _

theorem mutex_kept_daemon_packet_handler_daemon_event (st : State) (packet_type : PacketType)
    (channel : Nat) (event : EventCode) (packet : List Nat) :
    MutexKept st (daemon_packet_handler_daemon_event st packet_type channel event packet) := by
  unfold daemon_packet_handler_daemon_event
  simp only []
  split
  · exact mutex_kept_trans (mutex_kept_daemon_retry_parked st) (mutex_kept_daemon_packet_handler_l2cap_data _ _ _ _)
  · exact mutex_kept_daemon_packet_handler_l2cap_data _ _ _ _

theorem mutex_kept_daemon_packet_handler (st : State) (connection : Option connection_t)
    (packet_type : PacketType) (channel : Nat) (event : EventCode) (packet : List Nat) :
    MutexKept st (daemon_packet_handler st connection packet_type channel event packet) := by
  unfold daemon_packet_handler
  split
  · simp only []
    split
    · exact mutex_kept_trans (mutex_kept_deamon_status_event_handler st _ _) (mutex_kept_daemon_retry_parked _)
    · exact mutex_kept_trans (mutex_kept_deamon_status_event_handler st _ _)
        (mutex_kept_trans (mutex_kept_daemon_packet_handler_hci_event _ connection _ _)
          (mutex_kept_daemon_packet_handler_daemon_event _ _ _ _ _))
  · exact mutex_kept_daemon_packet_handler_daemon_event _ _ _ _ _
  · exact mutex_kept_daemon_packet_handler_l2cap_data _ _ _ _
  · exact mutex_kept_daemon_packet_handler_l2cap_data _ _ _ _
  · exact mutex_kept_daemon_packet_handler_send st _ _ _ _

theorem mutex_kept_handle_gatt_client_event_active (st : State) (helper : gatt_client_helper_t)
    (c : connection_t) (event : EventCode) (packet : List Nat) :
    MutexKept st (handle_gatt_client_event_active st helper c event packet) := by
  unfold handle_gatt_client_event_active
  simp only []
  split
  any_goals exact mutex_kept_call st _
  any_goals exact mutex_kept_update_helper st _ _
  · split
    · exact mutex_kept_trans (mutex_kept_update_helper st _ _)
        (mutex_kept_trans (mutex_kept_update_helper _ _ _)
          (mutex_kept_trans (mutex_kept_call _ _) (mutex_kept_call _ _)))
    · exact mutex_kept_trans (mutex_kept_update_helper st _ _) (mutex_kept_call _ _)
  · exact mutex_kept_refl st

theorem mutex_kept_handle_gatt_client_event (st : State) (event : EventCode) (packet : List Nat) :
    MutexKept st (handle_gatt_client_event st event packet) := by
  unfold handle_gatt_client_event
  split
  · exact mutex_kept_daemon_remove_gatt_client_helper st _
  all_goals first
    | exact mutex_kept_refl st
    | (split
       · exact mutex_kept_refl st
       · split
         · exact mutex_kept_calls st _
         · split
           · exact mutex_kept_refl st
           · exact mutex_kept_handle_gatt_client_event_active st _ _ _ _)

theorem mutex_kept_btstack_command_handler (K : Constants) (st : State) (c : connection_t)
    (opcode : Opcode) (packet : List Nat) (reply : EngineReply) :
    MutexKept st (btstack_command_handler K st c opcode packet reply) := by
  cases opcode
  case BTSTACK_SET_POWER_MODE =>
    simp only [btstack_command_handler]
    split
    · exact (mutex_kept_refl st)
    · refine mutex_kept_trans ((mutex_kept_update_client st c
        (fun c => { c with power_mode := byte_at packet 3 }))) ?_
      split
      · exact mutex_kept_start_power_off_timer _
      · split
        · exact mutex_kept_trans (mutex_kept_stop_power_off_timer _)
            ((mutex_kept_call _ _))
        · exact (mutex_kept_refl _)
  case BTSTACK_SET_DISCOVERABLE =>
    simp only [btstack_command_handler]
    split
    · exact mutex_kept_refl st
    · exact mutex_kept_trans (mutex_kept_update_client st c _) (mutex_kept_call _ _)
  case BTSTACK_SET_BLUETOOTH_ENABLED =>
    simp only [btstack_command_handler]
    split
    · exact mutex_kept_trans (mutex_kept_of_eq rfl) (mutex_kept_call { st with global_enable := 1 } _)
    · exact mutex_kept_trans (mutex_kept_of_eq rfl)
        (mutex_kept_call (clients_clear_power_request { st with global_enable := 0 }) _)
  case L2CAP_CREATE_CHANNEL_MTU =>
    simp only [btstack_command_handler]
    split
    · exact mutex_kept_trans (mutex_kept_call st _) (mutex_kept_call _ _)
    · exact mutex_kept_trans (mutex_kept_call st _) (mutex_kept_add_to_client_list _ _ _ _ _)
  case L2CAP_CREATE_CHANNEL =>
    simp only [btstack_command_handler]
    split
    · exact mutex_kept_trans (mutex_kept_call st _) (mutex_kept_call _ _)
    · exact mutex_kept_trans (mutex_kept_call st _) (mutex_kept_add_to_client_list _ _ _ _ _)
  case RFCOMM_CREATE_CHANNEL =>
    simp only [btstack_command_handler]
    split
    · exact mutex_kept_trans (mutex_kept_call st _) (mutex_kept_call _ _)
    · exact mutex_kept_trans (mutex_kept_call st _) (mutex_kept_add_to_client_list _ _ _ _ _)
  case RFCOMM_CREATE_CHANNEL_WITH_CREDITS =>
    simp only [btstack_command_handler]
    split
    · exact mutex_kept_trans (mutex_kept_call st _) (mutex_kept_call _ _)
    · exact mutex_kept_trans (mutex_kept_call st _) (mutex_kept_add_to_client_list _ _ _ _ _)
  case L2CAP_REGISTER_SERVICE =>
    exact mutex_kept_trans (mutex_kept_call st _)
      (mutex_kept_trans (mutex_kept_add_to_client_list _ c _ _ _) (mutex_kept_call _ _))
  case L2CAP_UNREGISTER_SERVICE =>
    exact mutex_kept_trans (mutex_kept_remove_from_client_list st c _ _ _) (mutex_kept_call _ _)
  case RFCOMM_UNREGISTER_SERVICE =>
    exact mutex_kept_trans (mutex_kept_remove_from_client_list st c _ _ _) (mutex_kept_call _ _)
  case RFCOMM_REGISTER_SERVICE =>
    exact mutex_kept_trans (mutex_kept_call st _) (mutex_kept_call _ _)
  case RFCOMM_REGISTER_SERVICE_WITH_CREDITS =>
    exact mutex_kept_trans (mutex_kept_call st _) (mutex_kept_call _ _)
  case RFCOMM_PERSISTENT_CHANNEL =>
    exact mutex_kept_trans (mutex_kept_call st _) (mutex_kept_call _ _)
  case SDP_REGISTER_SERVICE_RECORD =>
    simp only [btstack_command_handler]
    have h1 := mutex_kept_daemon_sdp_create_and_register_service
      (st.call (Call.engine_request Opcode.SDP_REGISTER_SERVICE_RECORD packet)) reply
    generalize daemon_sdp_create_and_register_service
      (st.call (Call.engine_request Opcode.SDP_REGISTER_SERVICE_RECORD packet)) reply = r at h1 ⊢
    obtain ⟨st1, handle⟩ := r
    simp only at h1 ⊢
    refine mutex_kept_trans (mutex_kept_call st _) (mutex_kept_trans h1 ?_)
    split
    · exact mutex_kept_trans (mutex_kept_add_to_client_list st1 c _ _ _) (mutex_kept_call _ _)
    · exact mutex_kept_call _ _
  case SDP_UNREGISTER_SERVICE_RECORD =>
    exact mutex_kept_trans (mutex_kept_call st _) (mutex_kept_remove_from_client_list _ c _ _ _)
  case SDP_CLIENT_QUERY_SERVICES =>
    exact mutex_kept_trans (mutex_kept_of_eq rfl)
      (mutex_kept_call { st with sdp_client_query_connection := some c } _)
  case GATT_GET_MTU =>
    exact mutex_kept_trans (mutex_kept_call st _) (mutex_kept_call _ _)
  case other => exact (mutex_kept_refl st)
  all_goals first
    | exact (mutex_kept_call st _)
    | exact (mutex_kept_gatt_client_command K st c _ packet _ _ reply)

theorem mutex_kept_daemon_client_handler (K : Constants) (st : State) (c : connection_t)
    (packet_type : PacketType) (channel : Nat) (data : List Nat) (command : Option Opcode)
    (event : EventCode) (reply : EngineReply) :
    MutexKept st (daemon_client_handler K st c packet_type channel data command event reply) := by
  unfold daemon_client_handler
  split
  · split
    · exact (mutex_kept_call st _)
    · exact mutex_kept_btstack_command_handler K st c _ data reply
  · exact (mutex_kept_call st _)
  · exact (mutex_kept_call st _)
  · split
    · rw [malloc_eq]
      simp only []
      split <;> exact (mutex_kept_of_eq rfl)
    · simp only []
      have h1 : MutexKept st ((daemon_disconnect_client st c).call
          Call.sdp_query_rfcomm_deregister_callback) :=
        mutex_kept_trans (mutex_kept_daemon_disconnect_client st c) (mutex_kept_call _ _)
      generalize (daemon_disconnect_client st c).call
          Call.sdp_query_rfcomm_deregister_callback = st1 at h1 ⊢
      have h2 : MutexKept st1 (if st1.clients.isEmpty = true then st1.call Call.hci_disconnect_all
          else st1) := by
        split
        · exact mutex_kept_call st1 _
        · exact mutex_kept_refl st1
      generalize (if st1.clients.isEmpty = true then st1.call Call.hci_disconnect_all
          else st1) = st2 at h2 ⊢
      have h3 : MutexKept st2 (st2.call (Call.hci_discoverable_control
          (clients_require_discoverable st2))) := mutex_kept_call st2 _
      refine mutex_kept_trans ((mutex_kept_trans h1 (mutex_kept_trans h2 h3))) ?_
      split
      · exact mutex_kept_start_power_off_timer _
      · exact (mutex_kept_refl _)
    · exact (mutex_kept_refl st)
  · exact (mutex_kept_refl st)

theorem mutex_kept_handle_input (K : Constants) (st : State) (input : Input) :
    MutexKept st (handle_input K st input) := by
  cases input with
  | client_packet c packet_type channel data command event reply =>
    exact mutex_kept_daemon_client_handler K st c packet_type channel data command event reply
  | protocol_packet packet_type channel event packet =>
    exact (mutex_kept_daemon_packet_handler st none packet_type channel event packet)
  | gatt_event event packet =>
    exact (mutex_kept_handle_gatt_client_event st event packet)
  | timer_expired => exact (mutex_kept_daemon_no_connections_timeout st)
  | power_notification n => exact (mutex_kept_power_notification_callback st n)

/-- The flag `retry_mutex` is clear in every state between two inputs: it is
clear at the start, and `daemon_retry_parked`, the only function that stores
to it, clears it before it returns. -/
theorem retry_mutex_of_reachable (K : Constants) (st : State) (h : Reachable K st) :
    st.retry_mutex = 0 := by
  induction h with
  | init malloc_results => rfl
  | step st input _ ih => exact (mutex_kept_handle_input K st input).trans ih

/-- Claim C34: for every behaviour of `socket_connection_retry_parked`, given
as the number of times an invocation calls back into `daemon_retry_parked`, a
call of `daemon_retry_parked` in a state that the daemon reaches between two
inputs returns (a call depth of 2 is enough), no invocation of
`socket_connection_retry_parked` was entered while another one was in progress,
none is in progress afterwards, the flag `retry_mutex` is clear again, and the
daemon is in the state that `daemon_retry_parked` with one uninterrupted
invocation gives; the callbacks, entered with the flag set, return at once and
change nothing. -/
theorem C34_flush_never_reentered (K : Constants) (st : State) (behaviour : State → Nat)
    (fuel : Nat) (hreach : Reachable K st) (hfuel : 2 ≤ fuel) :
    ∃ r, daemon_retry_parked_run behaviour fuel { daemon := st } = some r ∧
      r.overlapped = false ∧ r.running = 0 ∧ r.daemon.retry_mutex = 0 ∧
      r.daemon = daemon_retry_parked st ∧
      r.daemon.trace = st.trace ++ [Call.socket_connection_retry_parked] ∧
      ∀ n, repeat_callbacks (daemon_retry_parked_run behaviour fuel) n
          { daemon := { st with retry_mutex := 1 }, running := 1 } =
        some { daemon := { st with retry_mutex := 1 }, running := 1 } := by
  have hclear := retry_mutex_of_reachable K st hreach
  refine ⟨_, daemon_retry_parked_run_clear behaviour fuel { daemon := st } hfuel hclear,
    rfl, rfl, ?_, rfl, ?_, ?_⟩
  · show (daemon_retry_parked st).retry_mutex = 0
    exact (mutex_kept_daemon_retry_parked st).trans hclear
  · show (daemon_retry_parked st).trace = _
    rw [daemon_retry_parked_eq]
    simp [hclear]
  · exact repeat_callbacks_fixed _ _
      (daemon_retry_parked_run_locked behaviour fuel _ (by omega) (by simp))

/-- The guard at the daemon with one connected client, with an invocation of
`socket_connection_retry_parked` that calls back three times. -/
theorem C34_flush_never_reentered_witness :
    Reachable sample_constants one_connected_client ∧ 2 ≤ 2 ∧
    ∃ r, daemon_retry_parked_run (fun _ => 3) 2 { daemon := one_connected_client } = some r ∧
      r.overlapped = false ∧ r.running = 0 ∧ r.daemon.retry_mutex = 0 ∧
      r.daemon = daemon_retry_parked one_connected_client ∧
      r.daemon.trace = one_connected_client.trace ++ [Call.socket_connection_retry_parked] ∧
      ∀ n, repeat_callbacks (daemon_retry_parked_run (fun _ => 3) 2) n
          { daemon := { one_connected_client with retry_mutex := 1 }, running := 1 } =
        some { daemon := { one_connected_client with retry_mutex := 1 }, running := 1 } :=
  ⟨Reachable.step _ _ (Reachable.init []), by decide,
    C34_flush_never_reentered sample_constants one_connected_client (fun _ => 3) 2
      (Reachable.step _ _ (Reachable.init [])) (by decide)⟩

/-! ### Status events, and runs outside the environment of GATT requests -/

/-- C29 does not hold in every reachable state.  First run: connection 1 opens
and sends a GATT read for handle 64, and the allocation of the entry for
`gatt_con_handles` fails; the helper for 64 has connection 1 as active owner
while the session holds no handle.  Second run: no allocation fails, and
`DAEMON_EVENT_CONNECTION_OPENED` arrives once more for connection 1 after the
read, so the handle is held by the second session of connection 1.  Third run:
the read arrives from connection 1 before it has a session.  In each run, after
`DAEMON_EVENT_CONNECTION_CLOSED` for connection 1 the helper for 64 still has
connection 1 as active owner and in `all_connections` (in the third run as
active owner only), and `GATT_QUERY_COMPLETE` for 64 is sent to connection 1. -/
theorem C29_disconnect_counterexample :
    (Reachable sample_constants unrecorded_gatt_request ∧
      unrecorded_gatt_request.clients.map (fun S => (S.connection, S.gatt_con_handles))
        = [(1, [])] ∧
      (connection_1_closed unrecorded_gatt_request).clients = [] ∧
      (connection_1_closed unrecorded_gatt_request).gatt_client_helpers.map
        (fun H => (H.con_handle, H.active_connection, H.all_connections)) = [(64, some 1, [1])] ∧
      (handle_gatt_client_event (connection_1_closed unrecorded_gatt_request)
          EventCode.GATT_QUERY_COMPLETE [160, 3, 64, 0, 0]).trace =
        (connection_1_closed unrecorded_gatt_request).trace ++
          [Call.socket_connection_send_packet 1 PacketType.HCI_EVENT_PACKET 0
            [160, 3, 64, 0, 0]]) ∧
    (Reachable sample_constants gatt_request_then_reopened ∧
      gatt_request_then_reopened.clients.map (fun S => (S.connection, S.gatt_con_handles))
        = [(1, []), (1, [64])] ∧
      (connection_1_closed gatt_request_then_reopened).clients.map
        (fun S => (S.connection, S.gatt_con_handles)) = [(1, [64])] ∧
      (connection_1_closed gatt_request_then_reopened).gatt_client_helpers.map
        (fun H => (H.con_handle, H.active_connection, H.all_connections)) = [(64, some 1, [1])] ∧
      (handle_gatt_client_event (connection_1_closed gatt_request_then_reopened)
          EventCode.GATT_QUERY_COMPLETE [160, 3, 64, 0, 0]).trace =
        (connection_1_closed gatt_request_then_reopened).trace ++
          [Call.socket_connection_send_packet 1 PacketType.HCI_EVENT_PACKET 0
            [160, 3, 64, 0, 0]]) ∧
    (Reachable sample_constants gatt_request_before_open ∧
      gatt_request_before_open.clients.map (fun S => (S.connection, S.gatt_con_handles))
        = [(1, [])] ∧
      (connection_1_closed gatt_request_before_open).clients = [] ∧
      (connection_1_closed gatt_request_before_open).gatt_client_helpers.map
        (fun H => (H.con_handle, H.active_connection, H.all_connections)) = [(64, some 1, [])] ∧
      (handle_gatt_client_event (connection_1_closed gatt_request_before_open)
          EventCode.GATT_QUERY_COMPLETE [160, 3, 64, 0, 0]).trace =
        (connection_1_closed gatt_request_before_open).trace ++
          [Call.socket_connection_send_packet 1 PacketType.HCI_EVENT_PACKET 0
            [160, 3, 64, 0, 0]]) := by
  refine ⟨⟨Reachable.step _ _ (Reachable.step _ _ (Reachable.init [true, true, false])), ?_, ?_,
      ?_, ?_⟩,
    ⟨Reachable.step _ _ (Reachable.step _ _ (Reachable.step _ _ (Reachable.init []))), ?_, ?_,
      ?_, ?_⟩,
    ⟨Reachable.step _ _ (Reachable.step _ _ (Reachable.init [])), ?_, ?_, ?_, ?_⟩⟩ <;> decide

theorem reachable_with_gatt_request_then_reopened :
    ReachableWith sample_constants connected_environment gatt_request_then_reopened :=
  ReachableWith.step _
    (Input.client_packet 1 PacketType.DAEMON_EVENT_PACKET 0 [] none
      EventCode.DAEMON_EVENT_CONNECTION_OPENED {})
    (ReachableWith.step _
      (Input.client_packet 1 PacketType.HCI_COMMAND_DATA_PACKET 0 [0, 0, 2, 64, 0]
        (some Opcode.GATT_READ_VALUE_OF_CHARACTERISTIC) EventCode.other { hci_con_open := true })
      (ReachableWith.step _
        (Input.client_packet 1 PacketType.DAEMON_EVENT_PACKET 0 [] none
          EventCode.DAEMON_EVENT_CONNECTION_OPENED {})
        (ReachableWith.init []) (fun b hb => absurd hb (List.not_mem_nil b)))
      ⟨rfl, fun b hb => absurd hb (List.not_mem_nil b)⟩)
    (fun b hb => absurd hb (List.not_mem_nil b))

/-- C35 does not hold when a connect event may arrive for a connected
connection: connection 1 opens and sends a GATT read for handle 64, and
`DAEMON_EVENT_CONNECTION_OPENED` arrives once more for connection 1.  Every
command came from a connection with a session and no allocation failed, yet
the table holds a session of connection 1 without handle 64 while the helper
for 64 lists connection 1. -/
theorem C35_sessions_and_helpers_counterexample :
    ReachableWith sample_constants connected_environment gatt_request_then_reopened ∧
    gatt_request_then_reopened.clients.map (fun S => (S.connection, S.gatt_con_handles))
      = [(1, []), (1, [64])] ∧
    gatt_request_then_reopened.gatt_client_helpers.map
      (fun H => (H.con_handle, H.active_connection, H.all_connections)) = [(64, some 1, [1])] ∧
    ¬ ∀ S ∈ gatt_request_then_reopened.clients,
      ∀ H ∈ gatt_request_then_reopened.gatt_client_helpers,
        (S.connection ∈ H.all_connections ↔ H.con_handle ∈ S.gatt_con_handles) ∧
        (H.active_connection = some S.connection → H.con_handle ∈ S.gatt_con_handles) :=
  ⟨reachable_with_gatt_request_then_reopened, by decide, by decide, by decide⟩

theorem not_status_call_of_send (calls : List Call) (connections : List connection_t)
    (packet_type : PacketType) (channel : Nat) (packet : List Nat)
    (h : calls = connections.map (fun c =>
      Call.socket_connection_send_packet c packet_type channel packet)) :
    ∀ x ∈ calls, ∀ state, x ≠ Call.bluetooth_status_handler state := by
  intro x hx state heq
  rw [h] at hx
  obtain ⟨c, _, hc⟩ := List.mem_map.1 hx
  rw [heq] at hc
  exact Call.noConfusion hc

/-- C26, amended: a `BTSTACK_EVENT_STATE` event stores byte 2 of the packet in
`hci_state`, a `BTSTACK_EVENT_NR_CONNECTIONS_CHANGED` event stores it in
`num_connections`, and `deamon_status_event_handler` then calls the status
handler once, with the state that the updated cache gives, and sends nothing to
any client.  `daemon_packet_handler` leaves the daemon as
`deamon_status_event_handler` does, but for calls that it adds to the trace
afterwards, none of them a call of the status handler. -/
theorem C26_status_event_updates_cache (st : State) (connection : Option connection_t)
    (channel : Nat) (packet : List Nat) :
    deamon_status_event_handler st EventCode.BTSTACK_EVENT_STATE packet =
      { st with
        hci_state := byte_at packet 2
        trace := st.trace ++ [Call.bluetooth_status_handler
          (if byte_at packet 2 ≠ HCI_STATE_WORKING then BLUETOOTH_STATE.BLUETOOTH_OFF
            else if st.num_connections ≠ 0 then BLUETOOTH_STATE.BLUETOOTH_ACTIVE
            else BLUETOOTH_STATE.BLUETOOTH_ON)] } ∧
    deamon_status_event_handler st EventCode.BTSTACK_EVENT_NR_CONNECTIONS_CHANGED packet =
      { st with
        num_connections := byte_at packet 2
        trace := st.trace ++ [Call.bluetooth_status_handler
          (if st.hci_state ≠ HCI_STATE_WORKING then BLUETOOTH_STATE.BLUETOOTH_OFF
            else if byte_at packet 2 ≠ 0 then BLUETOOTH_STATE.BLUETOOTH_ACTIVE
            else BLUETOOTH_STATE.BLUETOOTH_ON)] } ∧
    ∀ event, event = EventCode.BTSTACK_EVENT_STATE ∨
        event = EventCode.BTSTACK_EVENT_NR_CONNECTIONS_CHANGED →
      ∃ later : List Call,
        daemon_packet_handler st connection PacketType.HCI_EVENT_PACKET channel event packet =
          { deamon_status_event_handler st event packet with
            trace := (deamon_status_event_handler st event packet).trace ++ later } ∧
        ∀ x ∈ later, ∀ state, x ≠ Call.bluetooth_status_handler state := by
  refine ⟨?_, ?_, ?_⟩
  · simp only [deamon_status_event_handler]
    rw [update_ui_status_call]
    rfl
  · simp only [deamon_status_event_handler]
    rw [update_ui_status_call]
    rfl
  · intro event hevent
    exact ⟨_, daemon_packet_handler_status_event st connection channel event packet hevent,
      not_status_call_of_send _ _ _ _ _ rfl⟩

end BtstackDaemon
